import Mathlib

/-!
# IBM Cloud provider: address decoding, instance pagination and flattening

A shallow embedding of

* `contextbasedrestrictionsv1/context_based_restrictions_v1.go`
  (the polymorphic `Address` model and the other models with their
  unmarshalers, the twelve operations, the option setters),
* `ibm/data_source_ibm_is_instance_network_interface.go`
  (the pagination loop, the name lookups and the flattening helpers), and
* `ibm/data_source_ibm_schematics_state.go` (the read handler).

Go pointers are `Option`s (the receivers of the option setters are addresses
into a store of objects), `map[string]json.RawMessage` is an association list,
functions returning `error` return `Except`.
-/

set_option autoImplicit false

namespace Installer

/-! ## JSON values and raw objects -/

/-- A JSON value, as held by one `json.RawMessage`. -/
inductive Json where
  | null
  | bool (b : Bool)
  | num (n : Int)
  | str (s : String)
  | arr (items : List Json)
  | obj (fields : List (String × Json))

/-- The Go type `map[string]json.RawMessage`: property name to raw value. -/
abbrev RawObject := List (String × Json)

/-- Errors produced while decoding; one constructor per message template. -/
inductive DecodeError where
  /-- `json.Unmarshal` rejected the raw value of a primitive property. -/
  | unmarshalPrimitive (property : String)
  /-- The raw value of a model property is not a JSON object. -/
  | unmarshalModelInput (property : String)
  /-- An element of a JSON array of models is null: the input to unmarshal is nil. -/
  | unmarshalModelNil (property : String)
  /-- The error of a model unmarshaler as wrapped by `core.UnmarshalModel`. -/
  | unmarshalModel (property : String) (cause : DecodeError)
  /-- "error unmarshalling discriminator property 'type': %s" -/
  | discriminatorUnmarshal (cause : DecodeError)
  /-- "required discriminator property 'type' not found in JSON object" -/
  | discriminatorNotFound
  /-- "unrecognized value for discriminator property 'type': %s" -/
  | discriminatorUnrecognized (value : String)
  deriving DecidableEq, Repr

/-- Modelled from the spec: `core.UnmarshalPrimitive` of go-sdk-core is called
by every unmarshaler here but is not among the sources. A property that is
absent (or JSON null) leaves the target as it was and is no error: that is what
the check `discValue == ""` with its "not found" message in `UnmarshalAddress`
relies on, and what the spec says of optional fields ("left at their zero/empty
representation"); required and optional fields go through the very same call.
A JSON string is stored through `store` (identity for a `string` target,
`some` for a `*string` target); any other JSON value is a decode error. -/
def core.UnmarshalPrimitive {τ : Type} (m : RawObject) (propertyName : String)
    (store : String → τ) (result : τ) : Except DecodeError τ :=
  match m.lookup propertyName with
  | none => .ok result
  | some .null => .ok result
  | some (.str s) => .ok (store s)
  | some _ => .error (.unmarshalPrimitive propertyName)

/-- Modelled from the spec: `core.UnmarshalModel` of go-sdk-core for a single
model instance, not among the sources. With an empty property name the whole
raw object is handed to the model unmarshaler; otherwise the named property is,
when it is present, not null and a JSON object. An absent property yields a nil
result without error. An error of the model unmarshaler is wrapped. -/
def core.UnmarshalModel {τ : Type} (m : RawObject) (propertyName : String)
    (unmarshaller : RawObject → Except DecodeError τ) : Except DecodeError (Option τ) :=
  if propertyName = "" then
    match unmarshaller m with
    | .ok obj => .ok (some obj)
    | .error e => .error (.unmarshalModel propertyName e)
  else
    match m.lookup propertyName with
    | none => .ok none
    | some .null => .ok none
    | some (.obj fields) =>
      match unmarshaller fields with
      | .ok obj => .ok (some obj)
      | .error e => .error (.unmarshalModel propertyName e)
    | some _ => .error (.unmarshalModelInput propertyName)

/-! ## The Address model -/

/-- The Go struct `ServiceRefValue`. -/
structure ServiceRefValue where
  AccountID : Option String
  ServiceType : Option String
  ServiceName : Option String
  ServiceInstance : Option String
  deriving DecidableEq, Repr

/-- The generic Go struct `Address`. -/
structure Address where
  Type_ : Option String
  Value : Option String
  Ref : Option ServiceRefValue
  deriving DecidableEq, Repr

/-- The Go struct `AddressIPAddress`. -/
structure AddressIPAddress where
  Type_ : Option String
  Value : Option String
  deriving DecidableEq, Repr

/-- The Go struct `AddressIPAddressRange`. -/
structure AddressIPAddressRange where
  Type_ : Option String
  Value : Option String
  deriving DecidableEq, Repr

/-- The Go struct `AddressServiceRef`. -/
structure AddressServiceRef where
  Type_ : Option String
  Ref : Option ServiceRefValue
  deriving DecidableEq, Repr

/-- The Go struct `AddressSubnet`. -/
structure AddressSubnet where
  Type_ : Option String
  Value : Option String
  deriving DecidableEq, Repr

/-- The Go struct `AddressVPC`. -/
structure AddressVPC where
  Type_ : Option String
  Value : Option String
  deriving DecidableEq, Repr

/-- The Go interface `AddressIntf`: the six types with an `isaAddress` method. -/
inductive AddressIntf where
  | address (a : Address)
  | ipAddress (a : AddressIPAddress)
  | ipRange (a : AddressIPAddressRange)
  | subnet (a : AddressSubnet)
  | vpc (a : AddressVPC)
  | serviceRef (a : AddressServiceRef)
  deriving DecidableEq, Repr

def AddressTypeIpaddressConst : String := "ipAddress"
def AddressTypeIprangeConst : String := "ipRange"
def AddressTypeServicerefConst : String := "serviceRef"
def AddressTypeSubnetConst : String := "subnet"
def AddressTypeVPCConst : String := "vpc"

/-- The five recognised discriminator values. -/
def recognisedTypes : List String :=
  ["ipAddress", "ipRange", "subnet", "vpc", "serviceRef"]

/-- Go `UnmarshalServiceRefValue`. -/
def UnmarshalServiceRefValue (m : RawObject) : Except DecodeError ServiceRefValue := do
  let accountID ← core.UnmarshalPrimitive m "account_id" some none
  let serviceType ← core.UnmarshalPrimitive m "service_type" some none
  let serviceName ← core.UnmarshalPrimitive m "service_name" some none
  let serviceInstance ← core.UnmarshalPrimitive m "service_instance" some none
  pure { AccountID := accountID, ServiceType := serviceType,
         ServiceName := serviceName, ServiceInstance := serviceInstance }

/-- Go `UnmarshalAddressIPAddress`. -/
def UnmarshalAddressIPAddress (m : RawObject) : Except DecodeError AddressIPAddress := do
  let type_ ← core.UnmarshalPrimitive m "type" some none
  let value ← core.UnmarshalPrimitive m "value" some none
  pure { Type_ := type_, Value := value }

/-- Go `UnmarshalAddressIPAddressRange`. -/
def UnmarshalAddressIPAddressRange (m : RawObject) :
    Except DecodeError AddressIPAddressRange := do
  let type_ ← core.UnmarshalPrimitive m "type" some none
  let value ← core.UnmarshalPrimitive m "value" some none
  pure { Type_ := type_, Value := value }

/-- Go `UnmarshalAddressServiceRef`. -/
def UnmarshalAddressServiceRef (m : RawObject) : Except DecodeError AddressServiceRef := do
  let type_ ← core.UnmarshalPrimitive m "type" some none
  let ref ← core.UnmarshalModel m "ref" UnmarshalServiceRefValue
  pure { Type_ := type_, Ref := ref }

/-- Go `UnmarshalAddressSubnet`. -/
def UnmarshalAddressSubnet (m : RawObject) : Except DecodeError AddressSubnet := do
  let type_ ← core.UnmarshalPrimitive m "type" some none
  let value ← core.UnmarshalPrimitive m "value" some none
  pure { Type_ := type_, Value := value }

/-- Go `UnmarshalAddressVPC`. -/
def UnmarshalAddressVPC (m : RawObject) : Except DecodeError AddressVPC := do
  let type_ ← core.UnmarshalPrimitive m "type" some none
  let value ← core.UnmarshalPrimitive m "value" some none
  pure { Type_ := type_, Value := value }

/-- Go `UnmarshalAddress`: `.ok r` is a nil error with `result` set to `r`,
`.error e` is the returned error (no assignment to `result` reported). -/
def UnmarshalAddress (m : RawObject) : Except DecodeError (Option AddressIntf) :=
  match core.UnmarshalPrimitive m "type" id "" with
  | .error e => .error (.discriminatorUnmarshal e)
  | .ok discValue =>
    if discValue = "" then
      .error .discriminatorNotFound
    else if discValue = "ipAddress" then
      core.UnmarshalModel m "" (fun r => (UnmarshalAddressIPAddress r).map AddressIntf.ipAddress)
    else if discValue = "ipRange" then
      core.UnmarshalModel m "" (fun r => (UnmarshalAddressIPAddressRange r).map AddressIntf.ipRange)
    else if discValue = "subnet" then
      core.UnmarshalModel m "" (fun r => (UnmarshalAddressSubnet r).map AddressIntf.subnet)
    else if discValue = "vpc" then
      core.UnmarshalModel m "" (fun r => (UnmarshalAddressVPC r).map AddressIntf.vpc)
    else if discValue = "serviceRef" then
      core.UnmarshalModel m "" (fun r => (UnmarshalAddressServiceRef r).map AddressIntf.serviceRef)
    else
      .error (.discriminatorUnrecognized discValue)

/-! ## JSON encoding of the variants (struct tags of the source) -/

/-- Encoding of a `*string` field without `omitempty`: nil is JSON null. -/
def marshalStringPtr : Option String → Json
  | none => .null
  | some s => .str s

/-- Encoding of a `*string` field tagged `omitempty`: nil is left out. -/
def marshalOmitEmpty (key : String) : Option String → RawObject
  | none => []
  | some s => [(key, .str s)]

/-- JSON object of a `ServiceRefValue` (tags `account_id`,
`service_type,omitempty`, `service_name,omitempty`, `service_instance,omitempty`). -/
def ServiceRefValue.marshal (v : ServiceRefValue) : RawObject :=
  [("account_id", marshalStringPtr v.AccountID)]
    ++ marshalOmitEmpty "service_type" v.ServiceType
    ++ marshalOmitEmpty "service_name" v.ServiceName
    ++ marshalOmitEmpty "service_instance" v.ServiceInstance

/-- JSON object of an `AddressIPAddress` (tags `type`, `value`). -/
def AddressIPAddress.marshal (a : AddressIPAddress) : RawObject :=
  [("type", marshalStringPtr a.Type_), ("value", marshalStringPtr a.Value)]

/-- JSON object of an `AddressIPAddressRange` (tags `type`, `value`). -/
def AddressIPAddressRange.marshal (a : AddressIPAddressRange) : RawObject :=
  [("type", marshalStringPtr a.Type_), ("value", marshalStringPtr a.Value)]

/-- JSON object of an `AddressSubnet` (tags `type`, `value`). -/
def AddressSubnet.marshal (a : AddressSubnet) : RawObject :=
  [("type", marshalStringPtr a.Type_), ("value", marshalStringPtr a.Value)]

/-- JSON object of an `AddressVPC` (tags `type`, `value`). -/
def AddressVPC.marshal (a : AddressVPC) : RawObject :=
  [("type", marshalStringPtr a.Type_), ("value", marshalStringPtr a.Value)]

/-- JSON object of an `AddressServiceRef` (tags `type`, `ref`). -/
def AddressServiceRef.marshal (a : AddressServiceRef) : RawObject :=
  [("type", marshalStringPtr a.Type_),
   ("ref", match a.Ref with
           | none => .null
           | some r => .obj r.marshal)]

/-! ## The VPC models used by the network-interface data source -/

/-- The Go struct `vpcv1.FloatingIPReferenceDeleted`. -/
structure FloatingIPReferenceDeleted where
  MoreInfo : Option String
  deriving DecidableEq, Repr

/-- The Go struct `vpcv1.FloatingIPReference`. -/
structure FloatingIPReference where
  Address : Option String
  CRN : Option String
  Deleted : Option FloatingIPReferenceDeleted
  Href : Option String
  ID : Option String
  Name : Option String
  deriving DecidableEq, Repr

/-- The Go struct `vpcv1.SecurityGroupReferenceDeleted`. -/
structure SecurityGroupReferenceDeleted where
  MoreInfo : Option String
  deriving DecidableEq, Repr

/-- The Go struct `vpcv1.SecurityGroupReference`. -/
structure SecurityGroupReference where
  CRN : Option String
  Deleted : Option SecurityGroupReferenceDeleted
  Href : Option String
  ID : Option String
  Name : Option String
  deriving DecidableEq, Repr

/-- The Go struct `vpcv1.SubnetReferenceDeleted`. -/
structure SubnetReferenceDeleted where
  MoreInfo : Option String
  deriving DecidableEq, Repr

/-- The Go struct `vpcv1.SubnetReference`. -/
structure SubnetReference where
  CRN : Option String
  Deleted : Option SubnetReferenceDeleted
  Href : Option String
  ID : Option String
  Name : Option String
  deriving DecidableEq, Repr

/-- The fields of `vpcv1.NetworkInterface` that the read handler uses; the two
slices are `none` when nil. `CreatedAt` is kept as the text of the timestamp. -/
structure NetworkInterface where
  AllowIPSpoofing : Option Bool
  CreatedAt : Option String
  FloatingIps : Option (List FloatingIPReference)
  Href : Option String
  ID : Option String
  Name : Option String
  PortSpeed : Option Int
  PrimaryIpv4Address : Option String
  ResourceType : Option String
  SecurityGroups : Option (List SecurityGroupReference)
  Status : Option String
  Subnet : Option SubnetReference
  Type_ : Option String
  deriving DecidableEq, Repr

/-- The fields of `vpcv1.Instance` that the read handler uses. -/
structure Instance where
  ID : Option String
  Name : Option String
  deriving DecidableEq, Repr

/-- The Go struct `vpcv1.InstanceCollectionNext`. -/
structure InstanceCollectionNext where
  Href : Option String
  deriving DecidableEq, Repr

/-- The fields of `vpcv1.InstanceCollection` that the read handler uses. -/
structure InstanceCollection where
  Instances : List Instance
  Next : Option InstanceCollectionNext
  deriving DecidableEq, Repr

/-- The Go struct `vpcv1.NetworkInterfaceUnpaginatedCollection`. -/
structure NetworkInterfaceUnpaginatedCollection where
  NetworkInterfaces : List NetworkInterface
  deriving DecidableEq, Repr

/-! ## Flattening -/

/-- A Go value of type `interface{}` as stored in a flattened map or handed to
`d.Set`: a nil pointer, a string, a bool, an int, or a `[]map[string]interface{}`. -/
inductive Value where
  | nil
  | str (s : String)
  | bool (b : Bool)
  | int (n : Int)
  | maps (items : List (List (String × Value)))

/-- The Go type `map[string]interface{}`. -/
abbrev FlatMap := List (String × Value)

/-- The Go assignment `m[key] = value`. -/
def mapSet : FlatMap → String → Value → FlatMap
  | [], key, value => [(key, value)]
  | (k, v) :: rest, key, value =>
    if k = key then (key, value) :: rest else (k, v) :: mapSet rest key value

/-- The pattern `if field != nil { m[key] = field }` for a `*string` field. -/
def setIfNotNil (m : FlatMap) (key : String) : Option String → FlatMap
  | none => m
  | some s => mapSet m key (.str s)

/-- Go `dataSourceNetworkInterfaceFloatingIpsDeletedToMap`. -/
def dataSourceNetworkInterfaceFloatingIpsDeletedToMap
    (deletedItem : FloatingIPReferenceDeleted) : FlatMap :=
  let deletedMap : FlatMap := []
  setIfNotNil deletedMap "more_info" deletedItem.MoreInfo

/-- Go `dataSourceNetworkInterfaceFloatingIpsToMap`. -/
def dataSourceNetworkInterfaceFloatingIpsToMap (floatingIpsItem : FloatingIPReference) :
    FlatMap :=
  let floatingIpsMap : FlatMap := []
  let floatingIpsMap := setIfNotNil floatingIpsMap "address" floatingIpsItem.Address
  let floatingIpsMap := setIfNotNil floatingIpsMap "crn" floatingIpsItem.CRN
  let floatingIpsMap :=
    match floatingIpsItem.Deleted with
    | none => floatingIpsMap
    | some deleted =>
      let deletedList : List FlatMap := []
      let deletedMap := dataSourceNetworkInterfaceFloatingIpsDeletedToMap deleted
      let deletedList := deletedList ++ [deletedMap]
      mapSet floatingIpsMap "deleted" (.maps deletedList)
  let floatingIpsMap := setIfNotNil floatingIpsMap "href" floatingIpsItem.Href
  let floatingIpsMap := setIfNotNil floatingIpsMap "id" floatingIpsItem.ID
  let floatingIpsMap := setIfNotNil floatingIpsMap "name" floatingIpsItem.Name
  floatingIpsMap

/-- Go `dataSourceNetworkInterfaceFlattenFloatingIps`: a loop appending the map
of each item to the (initially nil) result. -/
def dataSourceNetworkInterfaceFlattenFloatingIps (result : List FloatingIPReference) :
    List FlatMap :=
  result.foldl
    (fun floatingIps floatingIpsItem =>
      floatingIps ++ [dataSourceNetworkInterfaceFloatingIpsToMap floatingIpsItem]) []

/-- Go `dataSourceNetworkInterfaceSecurityGroupsDeletedToMap`. -/
def dataSourceNetworkInterfaceSecurityGroupsDeletedToMap
    (deletedItem : SecurityGroupReferenceDeleted) : FlatMap :=
  let deletedMap : FlatMap := []
  setIfNotNil deletedMap "more_info" deletedItem.MoreInfo

/-- Go `dataSourceNetworkInterfaceSecurityGroupsToMap`. -/
def dataSourceNetworkInterfaceSecurityGroupsToMap
    (securityGroupsItem : SecurityGroupReference) : FlatMap :=
  let securityGroupsMap : FlatMap := []
  let securityGroupsMap := setIfNotNil securityGroupsMap "crn" securityGroupsItem.CRN
  let securityGroupsMap :=
    match securityGroupsItem.Deleted with
    | none => securityGroupsMap
    | some deleted =>
      let deletedList : List FlatMap := []
      let deletedMap := dataSourceNetworkInterfaceSecurityGroupsDeletedToMap deleted
      let deletedList := deletedList ++ [deletedMap]
      mapSet securityGroupsMap "deleted" (.maps deletedList)
  let securityGroupsMap := setIfNotNil securityGroupsMap "href" securityGroupsItem.Href
  let securityGroupsMap := setIfNotNil securityGroupsMap "id" securityGroupsItem.ID
  let securityGroupsMap := setIfNotNil securityGroupsMap "name" securityGroupsItem.Name
  securityGroupsMap

/-- Go `dataSourceNetworkInterfaceFlattenSecurityGroups`. -/
def dataSourceNetworkInterfaceFlattenSecurityGroups (result : List SecurityGroupReference) :
    List FlatMap :=
  result.foldl
    (fun securityGroups securityGroupsItem =>
      securityGroups ++ [dataSourceNetworkInterfaceSecurityGroupsToMap securityGroupsItem]) []

/-- Go `dataSourceNetworkInterfaceSubnetDeletedToMap`. -/
def dataSourceNetworkInterfaceSubnetDeletedToMap
    (deletedItem : SubnetReferenceDeleted) : FlatMap :=
  let deletedMap : FlatMap := []
  setIfNotNil deletedMap "more_info" deletedItem.MoreInfo

/-- Go `dataSourceNetworkInterfaceSubnetToMap`. -/
def dataSourceNetworkInterfaceSubnetToMap (subnetItem : SubnetReference) : FlatMap :=
  let subnetMap : FlatMap := []
  let subnetMap := setIfNotNil subnetMap "crn" subnetItem.CRN
  let subnetMap :=
    match subnetItem.Deleted with
    | none => subnetMap
    | some deleted =>
      let deletedList : List FlatMap := []
      let deletedMap := dataSourceNetworkInterfaceSubnetDeletedToMap deleted
      let deletedList := deletedList ++ [deletedMap]
      mapSet subnetMap "deleted" (.maps deletedList)
  let subnetMap := setIfNotNil subnetMap "href" subnetItem.Href
  let subnetMap := setIfNotNil subnetMap "id" subnetItem.ID
  let subnetMap := setIfNotNil subnetMap "name" subnetItem.Name
  subnetMap

/-- Go `dataSourceNetworkInterfaceFlattenSubnet`. -/
def dataSourceNetworkInterfaceFlattenSubnet (result : SubnetReference) : List FlatMap :=
  let finalList : List FlatMap := []
  let finalMap := dataSourceNetworkInterfaceSubnetToMap result
  let finalList := finalList ++ [finalMap]
  finalList

/-! ## The read handler of the instance network interface data source -/

/-- A failed service call: the text of `err` and the text of `response` as
printed by the `%s` verb. -/
structure CallFailure where
  err : String
  response : String
  deriving DecidableEq, Repr

/-- The collaborators of the read handler that are not part of the handler:
the client session, the VPC service, the helpers `GetNext`, `dateTimeToString`
and `intValue`, and the schema check behind `d.Set`. The list service answers
its `n`-th call (counted from 0) depending on the `start` parameter it gets. A
service call returns an error or, with a nil error, its result pointer, which
the generated client leaves nil (`none`) when the response has no body. -/
structure Env where
  /-- The error of `meta.(ClientSession).VpcV1API()`, `none` for nil. -/
  VpcV1API : Option String
  /-- `vpcClient.ListInstancesWithContext`: call number and `Start` option. -/
  ListInstancesWithContext :
    Nat → Option String → Except CallFailure (Option InstanceCollection)
  /-- `vpcClient.ListInstanceNetworkInterfacesWithContext`, by `InstanceID`. -/
  ListInstanceNetworkInterfacesWithContext :
    String → Except CallFailure (Option NetworkInterfaceUnpaginatedCollection)
  /-- The helper `GetNext`: the `start` cursor of a `next` link, "" for none. -/
  GetNext : Option InstanceCollectionNext → String
  /-- The helper `dateTimeToString`. -/
  dateTimeToString : Option String → String
  /-- The helper `intValue`. -/
  intValue : Option Int → Int
  /-- The error `d.Set(key, value)` returns, `none` for nil. -/
  setError : String → Value → Option String

/-- The `*schema.ResourceData` of the handler: the two configured names, the
ID and the attributes set so far. -/
structure ResourceData where
  instance_name : String
  network_interface_name : String
  id : Option String
  attrs : FlatMap

/-- One outbound service call. -/
inductive Call where
  | listInstances (start : Option String)
  | listInstanceNetworkInterfaces (instanceID : String)
  deriving DecidableEq, Repr

/-- How a run of the handler ends: it returns diagnostics (`none` is the nil
of a successful read, `some msg` an error diagnostic), it panics on a nil
dereference, or it is still in the pagination loop when the fuel is used up. -/
inductive Outcome where
  | returned (diags : Option String)
  | panicked
  | looping
  deriving DecidableEq, Repr

/-- The result of a run: outcome, final resource data, calls made in order. -/
structure ReadResult where
  outcome : Outcome
  d : ResourceData
  calls : List Call

/-- How the pagination loop ends: with all records, with the error of a list
call, in a panic on a nil result (`instances.Next` of a nil `instances`), or
still running when the fuel is used up. -/
inductive LoopOutcome where
  | done (allrecs : List Instance)
  | failed (failure : CallFailure)
  | panicked
  | looping
  deriving DecidableEq, Repr

/-- The `for` loop of `dataSourceIBMIsInstanceNetworkInterfaceRead` that lists
the instances. `start` and `allrecs` are the Go variables, `startSet` tells
whether `listInstancesOptions.Start` has been pointed at `start` (it is nil
before), `starts` is the `Start` option of every call made so far. One unit of
fuel is one iteration. -/
def listInstancesLoop (env : Env) :
    Nat → String → Bool → List Instance → List (Option String) →
      LoopOutcome × List (Option String)
  | 0, _, _, _, starts => (.looping, starts)
  | fuel + 1, start, startSet, allrecs, starts =>
    let startSet := if start ≠ "" then true else startSet
    let optionsStart := if startSet then some start else none
    match env.ListInstancesWithContext starts.length optionsStart with
    | .error failure => (.failed failure, starts ++ [optionsStart])
    | .ok none => (.panicked, starts ++ [optionsStart])
    | .ok (some instances) =>
      let start := env.GetNext instances.Next
      let allrecs := allrecs ++ instances.Instances
      if start = "" then
        (.done allrecs, starts ++ [optionsStart])
      else
        listInstancesLoop env fuel start startSet allrecs (starts ++ [optionsStart])

/-- The Go call `d.Set(key, value)`: on a nil error the attribute is stored. -/
def ResourceData.Set (env : Env) (d : ResourceData) (key : String) (value : Value) :
    Except String ResourceData :=
  match env.setError key value with
  | some e => .error e
  | none => .ok { d with attrs := mapSet d.attrs key value }

/-- A `*string` handed to `d.Set`. -/
def Value.ofString : Option String → Value
  | none => .nil
  | some s => .str s

/-- A `*bool` handed to `d.Set`. -/
def Value.ofBool : Option Bool → Value
  | none => .nil
  | some b => .bool b

/-- The formatting of an `error` by the `%s` verb. -/
def formatError : Option String → String
  | none => "%!s(<nil>)"
  | some e => e

/-- One guarded `d.Set` of the handler followed by the rest of the body: an
error of `d.Set` returns the diagnostic `prefix_ ++ err` at once. -/
def setOrReturn (env : Env) (calls : List Call) (d : ResourceData) (key : String)
    (value : Value) (prefix_ : String) (rest : ResourceData → ReadResult) : ReadResult :=
  match d.Set env key value with
  | .error e => { outcome := .returned (some (prefix_ ++ e)), d := d, calls := calls }
  | .ok d => rest d

/-- The body of the inner `if *networkInterface.Name == network_interface_name`:
the ID and the attributes are set one after the other. -/
def setNetworkInterface (env : Env) (calls : List Call) (d : ResourceData) (ins_id : String)
    (networkInterface : NetworkInterface) : ReadResult :=
  match networkInterface.ID with
  | none => { outcome := .panicked, d := d, calls := calls }
  | some niID =>
  let d := { d with id := some (ins_id ++ "/" ++ niID) }
  setOrReturn env calls d "allow_ip_spoofing" (.ofBool networkInterface.AllowIPSpoofing)
    "Error setting allow_ip_spoofing: " fun d =>
  setOrReturn env calls d "created_at" (.str (env.dateTimeToString networkInterface.CreatedAt))
    "Error setting created_at: " fun d =>
  (fun (rest : ResourceData → ReadResult) =>
    match networkInterface.FloatingIps with
    | none => rest d
    | some floatingIps =>
      setOrReturn env calls d "floating_ips"
        (.maps (dataSourceNetworkInterfaceFlattenFloatingIps floatingIps))
        "Error setting floating_ips " rest) fun d =>
  setOrReturn env calls d "href" (.ofString networkInterface.Href)
    "Error setting href: " fun d =>
  setOrReturn env calls d "name" (.ofString networkInterface.Name)
    "Error setting name: " fun d =>
  setOrReturn env calls d "port_speed" (.int (env.intValue networkInterface.PortSpeed))
    "Error setting port_speed: " fun d =>
  setOrReturn env calls d "primary_ipv4_address" (.ofString networkInterface.PrimaryIpv4Address)
    "Error setting primary_ipv4_address: " fun d =>
  setOrReturn env calls d "resource_type" (.ofString networkInterface.ResourceType)
    "Error setting resource_type: " fun d =>
  (fun (rest : ResourceData → ReadResult) =>
    match networkInterface.SecurityGroups with
    | none => rest d
    | some securityGroups =>
      setOrReturn env calls d "security_groups"
        (.maps (dataSourceNetworkInterfaceFlattenSecurityGroups securityGroups))
        "Error setting security_groups " rest) fun d =>
  setOrReturn env calls d "status" (.ofString networkInterface.Status)
    "Error setting status: " fun d =>
  (fun (rest : ResourceData → ReadResult) =>
    match networkInterface.Subnet with
    | none => rest d
    | some subnet =>
      setOrReturn env calls d "subnet" (.maps (dataSourceNetworkInterfaceFlattenSubnet subnet))
        "Error setting subnet " rest) fun d =>
  setOrReturn env calls d "type" (.ofString networkInterface.Type_)
    "Error setting type: " fun d =>
  { outcome := .returned none, d := d, calls := calls }

/-- The inner loop `for _, networkInterface := range ...NetworkInterfaces` and
the `return` that follows it. -/
def scanNetworkInterfaces (env : Env) (calls : List Call) (d : ResourceData) (ins_id : String)
    (network_interface_name : String) : List NetworkInterface → ReadResult
  | [] =>
    { outcome := .returned (some ("Network interface " ++ network_interface_name ++ " not found.")),
      d := d, calls := calls }
  | networkInterface :: rest =>
    match networkInterface.Name with
    | none => { outcome := .panicked, d := d, calls := calls }
    | some name =>
      if name = network_interface_name then
        setNetworkInterface env calls d ins_id networkInterface
      else
        scanNetworkInterfaces env calls d ins_id network_interface_name rest

/-- The outer loop `for _, instance := range allrecs` and the `return` that
follows it; `err` is the Go variable `err` of the function scope. -/
def scanInstances (env : Env) (calls : List Call) (d : ResourceData) (instance_name : String)
    (err : Option String) : List Instance → ReadResult
  | [] =>
    { outcome := .returned
        (some ("Instance " ++ instance_name ++ " not found. " ++ formatError err)),
      d := d, calls := calls }
  | inst :: rest =>
    match inst.Name with
    | none => { outcome := .panicked, d := d, calls := calls }
    | some name =>
      if name = instance_name then
        match inst.ID with
        | none => { outcome := .panicked, d := d, calls := calls }
        | some ins_id =>
          let calls := calls ++ [.listInstanceNetworkInterfaces ins_id]
          match env.ListInstanceNetworkInterfacesWithContext ins_id with
          | .error failure =>
            { outcome := .returned
                (some ("ListSecurityGroupNetworkInterfacesWithContext failed "
                  ++ failure.err ++ "\n" ++ failure.response)),
              d := d, calls := calls }
          | .ok none => { outcome := .panicked, d := d, calls := calls }
          | .ok (some networkInterfaceCollection) =>
            let network_interface_name := d.network_interface_name
            scanNetworkInterfaces env calls d ins_id network_interface_name
              networkInterfaceCollection.NetworkInterfaces
      else
        scanInstances env calls d instance_name err rest

/-- Go `dataSourceIBMIsInstanceNetworkInterfaceRead`, with `fuel` bounding the
iterations of the pagination loop. -/
def dataSourceIBMIsInstanceNetworkInterfaceRead (env : Env) (fuel : Nat) (d : ResourceData) :
    ReadResult :=
  match env.VpcV1API with
  | some e => { outcome := .returned (some e), d := d, calls := [] }
  | none =>
    let err : Option String := none
    let instance_name := d.instance_name
    match listInstancesLoop env fuel "" false [] [] with
    | (.looping, starts) =>
      { outcome := .looping, d := d, calls := starts.map Call.listInstances }
    | (.panicked, starts) =>
      { outcome := .panicked, d := d, calls := starts.map Call.listInstances }
    | (.failed failure, starts) =>
      { outcome := .returned
          (some ("Error Fetching Instances " ++ failure.err ++ "\n" ++ failure.response)),
        d := d, calls := starts.map Call.listInstances }
    | (.done allrecs, starts) =>
      scanInstances env (starts.map Call.listInstances) d instance_name err allrecs

/-- The `Start` option carried by list call number `k` (counted from 0) when
the calls before it were answered with `pages`: nil on the first call,
afterwards the cursor that `GetNext` extracts from the page before. -/
def expectedStart (env : Env) (pages : List InstanceCollection) : Nat → Option String
  | 0 => none
  | k + 1 => pages[k]?.map fun page => env.GetNext page.Next

/-- A sample environment: the list service answers call number `n` with the
`n`-th of `pages` and fails once they are used up, the `next` link of a page
holds the bare cursor, every instance has the interfaces `interfaces`, and
`d.Set` accepts everything. -/
def sampleEnv (pages : List InstanceCollection) (interfaces : List NetworkInterface) : Env where
  VpcV1API := none
  ListInstancesWithContext := fun n _ =>
    match pages[n]? with
    | some page => .ok (some page)
    | none => .error { err := "Internal Server Error", response := "status 500" }
  ListInstanceNetworkInterfacesWithContext := fun _ =>
    .ok (some { NetworkInterfaces := interfaces })
  GetNext := fun next =>
    match next with
    | some { Href := some cursor } => cursor
    | _ => ""
  dateTimeToString := fun t => t.getD ""
  intValue := fun i => i.getD 0
  setError := fun _ _ => none

/-- A first page with one instance and a cursor. -/
def samplePage1 : InstanceCollection :=
  { Instances := [{ ID := some "i-1", Name := some "alpha" }], Next := some { Href := some "c1" } }

/-- A last page with two instances and no `next` link. -/
def samplePage2 : InstanceCollection :=
  { Instances := [{ ID := some "i-2", Name := some "beta" }, { ID := some "i-3", Name := some "beta" }],
    Next := none }

/-- A sample resource data: nothing set yet. -/
def sampleData (instance_name network_interface_name : String) : ResourceData :=
  { instance_name := instance_name, network_interface_name := network_interface_name,
    id := none, attrs := [] }

/-- A sample network interface with only an ID and a name. -/
def sampleInterface (id name : String) : NetworkInterface :=
  { AllowIPSpoofing := none, CreatedAt := none, FloatingIps := none, Href := none,
    ID := some id, Name := some name, PortSpeed := none, PrimaryIpv4Address := none,
    ResourceType := none, SecurityGroups := none, Status := none, Subnet := none,
    Type_ := none }

/-- The way `core.UnmarshalModel`, called with an empty property name, hands
the result of a variant unmarshaler to `UnmarshalAddress`: the decoded object
becomes the `AddressIntf` result, an error is wrapped. -/
def viaUnmarshalModel {τ : Type} (inj : τ → AddressIntf) (r : Except DecodeError τ) :
    Except DecodeError (Option AddressIntf) :=
  match r with
  | .ok obj => .ok (some (inj obj))
  | .error e => .error (.unmarshalModel "" e)

/-! ## The remaining models of the service and their unmarshalers -/

/-- A parsed `strfmt.DateTime`, kept as its text. -/
structure DateTime where
  text : String
  deriving DecidableEq, Repr

/-- Modelled from the spec: `core.UnmarshalPrimitive` for a `*int64` target
(go-sdk-core, not among the sources). As for strings an absent or null
property leaves the target as it was; a JSON number within the range of
`int64` is stored; any other JSON value is a decode error. -/
def core.UnmarshalPrimitiveInt64 (m : RawObject) (propertyName : String)
    (result : Option Int) : Except DecodeError (Option Int) :=
  match m.lookup propertyName with
  | none => .ok result
  | some .null => .ok result
  | some (.num n) =>
    if -(2 : Int) ^ 63 ≤ n ∧ n < (2 : Int) ^ 63 then .ok (some n)
    else .error (.unmarshalPrimitive propertyName)
  | some _ => .error (.unmarshalPrimitive propertyName)

/-- Modelled from the spec: `core.UnmarshalPrimitive` for a `*strfmt.DateTime`
target (go-sdk-core, not among the sources). An absent or null property leaves
the target as it was; a JSON string is stored when `ParseDateTime` (the
date-time parser of strfmt, a parameter) accepts it; anything else is a decode
error. -/
def core.UnmarshalPrimitiveDateTime (ParseDateTime : String → Option DateTime)
    (m : RawObject) (propertyName : String) (result : Option DateTime) :
    Except DecodeError (Option DateTime) :=
  match m.lookup propertyName with
  | none => .ok result
  | some .null => .ok result
  | some (.str s) =>
    match ParseDateTime s with
    | some t => .ok (some t)
    | none => .error (.unmarshalPrimitive propertyName)
  | some _ => .error (.unmarshalPrimitive propertyName)

/-- Modelled from the spec: how `core.UnmarshalModel` decodes one element of a
JSON array: an object goes to the model unmarshaler, a null element is the
error of a nil input, anything else is a decode error; an error of the model
unmarshaler is wrapped. -/
def core.unmarshalElement {τ : Type} (propertyName : String)
    (unmarshaller : RawObject → Except DecodeError τ) : Json → Except DecodeError τ
  | .obj fields =>
    match unmarshaller fields with
    | .ok obj => .ok obj
    | .error e => .error (.unmarshalModel propertyName e)
  | .null => .error (.unmarshalModelNil propertyName)
  | _ => .error (.unmarshalModelInput propertyName)

/-- Modelled from the spec: the elements of a JSON array decoded one after
the other, each independently; the first element that fails makes the whole
list fail ("a single malformed element fails the entire unmarshal"). -/
def core.unmarshalElements {τ : Type} (propertyName : String)
    (unmarshaller : RawObject → Except DecodeError τ) : List Json → Except DecodeError (List τ)
  | [] => .ok []
  | item :: rest =>
    match core.unmarshalElement propertyName unmarshaller item with
    | .error e => .error e
    | .ok obj =>
      match core.unmarshalElements propertyName unmarshaller rest with
      | .error e => .error e
      | .ok objs => .ok (obj :: objs)

/-- Modelled from the spec: `core.UnmarshalModel` of go-sdk-core when the
result is a slice of models. An absent or null property yields a nil slice
without error; a JSON array is decoded element by element; any other JSON value
is a decode error. -/
def core.UnmarshalModelSlice {τ : Type} (m : RawObject) (propertyName : String)
    (unmarshaller : RawObject → Except DecodeError τ) : Except DecodeError (Option (List τ)) :=
  match m.lookup propertyName with
  | none => .ok none
  | some .null => .ok none
  | some (.arr items) =>
    match core.unmarshalElements propertyName unmarshaller items with
    | .ok objs => .ok (some objs)
    | .error e => .error e
  | some _ => .error (.unmarshalModelInput propertyName)

/-- The Go struct `AccountSettings`. -/
structure AccountSettings where
  ID : Option String
  CRN : Option String
  RuleCountLimit : Option Int
  ZoneCountLimit : Option Int
  CurrentRuleCount : Option Int
  CurrentZoneCount : Option Int
  Href : Option String
  CreatedAt : Option DateTime
  CreatedByID : Option String
  LastModifiedAt : Option DateTime
  LastModifiedByID : Option String
  deriving DecidableEq, Repr

/-- Go `UnmarshalAccountSettings`. -/
def UnmarshalAccountSettings (ParseDateTime : String → Option DateTime) (m : RawObject) :
    Except DecodeError AccountSettings := do
  let id ← core.UnmarshalPrimitive m "id" some none
  let crn ← core.UnmarshalPrimitive m "crn" some none
  let ruleCountLimit ← core.UnmarshalPrimitiveInt64 m "rule_count_limit" none
  let zoneCountLimit ← core.UnmarshalPrimitiveInt64 m "zone_count_limit" none
  let currentRuleCount ← core.UnmarshalPrimitiveInt64 m "current_rule_count" none
  let currentZoneCount ← core.UnmarshalPrimitiveInt64 m "current_zone_count" none
  let href ← core.UnmarshalPrimitive m "href" some none
  let createdAt ← core.UnmarshalPrimitiveDateTime ParseDateTime m "created_at" none
  let createdByID ← core.UnmarshalPrimitive m "created_by_id" some none
  let lastModifiedAt ← core.UnmarshalPrimitiveDateTime ParseDateTime m "last_modified_at" none
  let lastModifiedByID ← core.UnmarshalPrimitive m "last_modified_by_id" some none
  pure { ID := id, CRN := crn, RuleCountLimit := ruleCountLimit,
         ZoneCountLimit := zoneCountLimit, CurrentRuleCount := currentRuleCount,
         CurrentZoneCount := currentZoneCount, Href := href, CreatedAt := createdAt,
         CreatedByID := createdByID, LastModifiedAt := lastModifiedAt,
         LastModifiedByID := lastModifiedByID }

/-- The Go struct `ResourceAttribute`. -/
structure ResourceAttribute where
  Name : Option String
  Value : Option String
  Operator : Option String
  deriving DecidableEq, Repr

/-- Go `UnmarshalResourceAttribute`. -/
def UnmarshalResourceAttribute (m : RawObject) : Except DecodeError ResourceAttribute := do
  let name ← core.UnmarshalPrimitive m "name" some none
  let value ← core.UnmarshalPrimitive m "value" some none
  let operator ← core.UnmarshalPrimitive m "operator" some none
  pure { Name := name, Value := value, Operator := operator }

/-- The Go struct `ResourceTagAttribute`. -/
structure ResourceTagAttribute where
  Name : Option String
  Value : Option String
  Operator : Option String
  deriving DecidableEq, Repr

/-- Go `UnmarshalResourceTagAttribute`. -/
def UnmarshalResourceTagAttribute (m : RawObject) : Except DecodeError ResourceTagAttribute := do
  let name ← core.UnmarshalPrimitive m "name" some none
  let value ← core.UnmarshalPrimitive m "value" some none
  let operator ← core.UnmarshalPrimitive m "operator" some none
  pure { Name := name, Value := value, Operator := operator }

/-- The Go struct `Resource`; a nil slice is `none`. -/
structure Resource where
  Attributes : Option (List ResourceAttribute)
  Tags : Option (List ResourceTagAttribute)
  deriving DecidableEq, Repr

/-- Go `UnmarshalResource`. -/
def UnmarshalResource (m : RawObject) : Except DecodeError Resource := do
  let attributes ← core.UnmarshalModelSlice m "attributes" UnmarshalResourceAttribute
  let tags ← core.UnmarshalModelSlice m "tags" UnmarshalResourceTagAttribute
  pure { Attributes := attributes, Tags := tags }

/-- The Go struct `RuleContextAttribute`. -/
structure RuleContextAttribute where
  Name : Option String
  Value : Option String
  deriving DecidableEq, Repr

/-- Go `UnmarshalRuleContextAttribute`. -/
def UnmarshalRuleContextAttribute (m : RawObject) :
    Except DecodeError RuleContextAttribute := do
  let name ← core.UnmarshalPrimitive m "name" some none
  let value ← core.UnmarshalPrimitive m "value" some none
  pure { Name := name, Value := value }

/-- The Go struct `RuleContext`. -/
structure RuleContext where
  Attributes : Option (List RuleContextAttribute)
  deriving DecidableEq, Repr

/-- Go `UnmarshalRuleContext`. -/
def UnmarshalRuleContext (m : RawObject) : Except DecodeError RuleContext := do
  let attributes ← core.UnmarshalModelSlice m "attributes" UnmarshalRuleContextAttribute
  pure { Attributes := attributes }

/-- The Go struct `Rule`. -/
structure Rule where
  ID : Option String
  CRN : Option String
  Description : Option String
  Contexts : Option (List RuleContext)
  Resources : Option (List Resource)
  Href : Option String
  CreatedAt : Option DateTime
  CreatedByID : Option String
  LastModifiedAt : Option DateTime
  LastModifiedByID : Option String
  deriving DecidableEq, Repr

/-- Go `UnmarshalRule`. -/
def UnmarshalRule (ParseDateTime : String → Option DateTime) (m : RawObject) :
    Except DecodeError Rule := do
  let id ← core.UnmarshalPrimitive m "id" some none
  let crn ← core.UnmarshalPrimitive m "crn" some none
  let description ← core.UnmarshalPrimitive m "description" some none
  let contexts ← core.UnmarshalModelSlice m "contexts" UnmarshalRuleContext
  let resources ← core.UnmarshalModelSlice m "resources" UnmarshalResource
  let href ← core.UnmarshalPrimitive m "href" some none
  let createdAt ← core.UnmarshalPrimitiveDateTime ParseDateTime m "created_at" none
  let createdByID ← core.UnmarshalPrimitive m "created_by_id" some none
  let lastModifiedAt ← core.UnmarshalPrimitiveDateTime ParseDateTime m "last_modified_at" none
  let lastModifiedByID ← core.UnmarshalPrimitive m "last_modified_by_id" some none
  pure { ID := id, CRN := crn, Description := description, Contexts := contexts,
         Resources := resources, Href := href, CreatedAt := createdAt,
         CreatedByID := createdByID, LastModifiedAt := lastModifiedAt,
         LastModifiedByID := lastModifiedByID }

/-- The Go struct `RuleList`. -/
structure RuleList where
  Count : Option Int
  Rules : Option (List Rule)
  deriving DecidableEq, Repr

/-- Go `UnmarshalRuleList`. -/
def UnmarshalRuleList (ParseDateTime : String → Option DateTime) (m : RawObject) :
    Except DecodeError RuleList := do
  let count ← core.UnmarshalPrimitiveInt64 m "count" none
  let rules ← core.UnmarshalModelSlice m "rules" (UnmarshalRule ParseDateTime)
  pure { Count := count, Rules := rules }

/-- The Go struct `ServiceRefTarget`. -/
structure ServiceRefTarget where
  ServiceName : Option String
  ServiceType : Option String
  deriving DecidableEq, Repr

/-- Go `UnmarshalServiceRefTarget`. -/
def UnmarshalServiceRefTarget (m : RawObject) : Except DecodeError ServiceRefTarget := do
  let serviceName ← core.UnmarshalPrimitive m "service_name" some none
  let serviceType ← core.UnmarshalPrimitive m "service_type" some none
  pure { ServiceName := serviceName, ServiceType := serviceType }

/-- The Go struct `ServiceRefTargetList`. -/
structure ServiceRefTargetList where
  Count : Option Int
  Targets : Option (List ServiceRefTarget)
  deriving DecidableEq, Repr

/-- Go `UnmarshalServiceRefTargetList`. -/
def UnmarshalServiceRefTargetList (m : RawObject) :
    Except DecodeError ServiceRefTargetList := do
  let count ← core.UnmarshalPrimitiveInt64 m "count" none
  let targets ← core.UnmarshalModelSlice m "targets" UnmarshalServiceRefTarget
  pure { Count := count, Targets := targets }

/-- The Go struct `Zone`; an element of `[]AddressIntf` is an interface value,
`none` when nil. -/
structure Zone where
  ID : Option String
  CRN : Option String
  AddressCount : Option Int
  ExcludedCount : Option Int
  Name : Option String
  AccountID : Option String
  Description : Option String
  Addresses : Option (List (Option AddressIntf))
  Excluded : Option (List (Option AddressIntf))
  Href : Option String
  CreatedAt : Option DateTime
  CreatedByID : Option String
  LastModifiedAt : Option DateTime
  LastModifiedByID : Option String
  deriving DecidableEq, Repr

/-- Go `UnmarshalZone`. -/
def UnmarshalZone (ParseDateTime : String → Option DateTime) (m : RawObject) :
    Except DecodeError Zone := do
  let id ← core.UnmarshalPrimitive m "id" some none
  let crn ← core.UnmarshalPrimitive m "crn" some none
  let addressCount ← core.UnmarshalPrimitiveInt64 m "address_count" none
  let excludedCount ← core.UnmarshalPrimitiveInt64 m "excluded_count" none
  let name ← core.UnmarshalPrimitive m "name" some none
  let accountID ← core.UnmarshalPrimitive m "account_id" some none
  let description ← core.UnmarshalPrimitive m "description" some none
  let addresses ← core.UnmarshalModelSlice m "addresses" UnmarshalAddress
  let excluded ← core.UnmarshalModelSlice m "excluded" UnmarshalAddress
  let href ← core.UnmarshalPrimitive m "href" some none
  let createdAt ← core.UnmarshalPrimitiveDateTime ParseDateTime m "created_at" none
  let createdByID ← core.UnmarshalPrimitive m "created_by_id" some none
  let lastModifiedAt ← core.UnmarshalPrimitiveDateTime ParseDateTime m "last_modified_at" none
  let lastModifiedByID ← core.UnmarshalPrimitive m "last_modified_by_id" some none
  pure { ID := id, CRN := crn, AddressCount := addressCount, ExcludedCount := excludedCount,
         Name := name, AccountID := accountID, Description := description,
         Addresses := addresses, Excluded := excluded, Href := href, CreatedAt := createdAt,
         CreatedByID := createdByID, LastModifiedAt := lastModifiedAt,
         LastModifiedByID := lastModifiedByID }

/-- The Go struct `ZoneSummary`. -/
structure ZoneSummary where
  ID : Option String
  CRN : Option String
  Name : Option String
  Description : Option String
  AddressesPreview : Option (List (Option AddressIntf))
  AddressCount : Option Int
  ExcludedCount : Option Int
  Href : Option String
  CreatedAt : Option DateTime
  CreatedByID : Option String
  LastModifiedAt : Option DateTime
  LastModifiedByID : Option String
  deriving DecidableEq, Repr

/-- Go `UnmarshalZoneSummary`. -/
def UnmarshalZoneSummary (ParseDateTime : String → Option DateTime) (m : RawObject) :
    Except DecodeError ZoneSummary := do
  let id ← core.UnmarshalPrimitive m "id" some none
  let crn ← core.UnmarshalPrimitive m "crn" some none
  let name ← core.UnmarshalPrimitive m "name" some none
  let description ← core.UnmarshalPrimitive m "description" some none
  let addressesPreview ← core.UnmarshalModelSlice m "addresses_preview" UnmarshalAddress
  let addressCount ← core.UnmarshalPrimitiveInt64 m "address_count" none
  let excludedCount ← core.UnmarshalPrimitiveInt64 m "excluded_count" none
  let href ← core.UnmarshalPrimitive m "href" some none
  let createdAt ← core.UnmarshalPrimitiveDateTime ParseDateTime m "created_at" none
  let createdByID ← core.UnmarshalPrimitive m "created_by_id" some none
  let lastModifiedAt ← core.UnmarshalPrimitiveDateTime ParseDateTime m "last_modified_at" none
  let lastModifiedByID ← core.UnmarshalPrimitive m "last_modified_by_id" some none
  pure { ID := id, CRN := crn, Name := name, Description := description,
         AddressesPreview := addressesPreview, AddressCount := addressCount,
         ExcludedCount := excludedCount, Href := href, CreatedAt := createdAt,
         CreatedByID := createdByID, LastModifiedAt := lastModifiedAt,
         LastModifiedByID := lastModifiedByID }

/-- The Go struct `ZoneList`. -/
structure ZoneList where
  Count : Option Int
  Zones : Option (List ZoneSummary)
  deriving DecidableEq, Repr

/-- Go `UnmarshalZoneList`. -/
def UnmarshalZoneList (ParseDateTime : String → Option DateTime) (m : RawObject) :
    Except DecodeError ZoneList := do
  let count ← core.UnmarshalPrimitiveInt64 m "count" none
  let zones ← core.UnmarshalModelSlice m "zones" (UnmarshalZoneSummary ParseDateTime)
  pure { Count := count, Zones := zones }

/-! ## Validation, the request builder and the service client -/

/-- The tags of `validate:"..."` that occur in the option structs. -/
inductive ValidateTag where
  | required
  | ne (value : String)
  deriving DecidableEq, Repr

/-- One field of an option struct that carries a `validate` tag: its Go name,
its tags in order, and its `*string` value. -/
structure ValidatedField where
  name : String
  tags : List ValidateTag
  value : Option String
  deriving DecidableEq, Repr

/-- Modelled from the spec: the meaning of one validation tag on a `*string`
field (go-playground validator behind `core.ValidateStruct`, not among the
sources). `required` holds when the pointer is not nil, whatever string it
points to; `ne=<value>` holds when the string differs from `<value>`. This is
why the path parameters carry `required,ne=` while `AccountID` of the list
options and `IfMatch` carry `required` alone. -/
def ValidateTag.holds : ValidateTag → Option String → Bool
  | .required, v => v.isSome
  | .ne value, some s => s != value
  | .ne _, none => true

/-- The first tag of a field that does not hold, if any. -/
def ValidatedField.firstFailure (f : ValidatedField) : Option ValidateTag :=
  f.tags.find? fun tag => !tag.holds f.value

/-- The first field with a failing tag, and that tag. -/
def firstFailure : List ValidatedField → Option (String × ValidateTag)
  | [] => none
  | f :: rest =>
    match f.firstFailure with
    | some tag => some (f.name, tag)
    | none => firstFailure rest

/-- The errors an operation returns, one constructor per origin. -/
inductive OperationError where
  /-- The error of `core.ValidateNotNil`, with its message. -/
  | validateNotNil (errorMsg : String)
  /-- The error of `core.ValidateStruct`: parameter, field and failing tag. -/
  | validateStruct (paramName field : String) (tag : ValidateTag)
  /-- The error of `builder.ResolveRequestURL`. -/
  | resolveRequestURL (msg : String)
  /-- The error of `Service.Request`. -/
  | request (msg : String)
  /-- The error of `core.UnmarshalModel` on the raw response. -/
  | unmarshal (cause : DecodeError)
  deriving DecidableEq, Repr

/-- Whether an error is a local validation error. -/
def OperationError.isValidation : OperationError → Bool
  | .validateNotNil _ => true
  | .validateStruct _ _ _ => true
  | _ => false

/-- How an operation stops before its normal end: it returns `err`, or it
panics on a nil dereference. -/
inductive Abort where
  | error (err : OperationError)
  | panic
  deriving DecidableEq, Repr

/-- A Go dereference `*p` (or a field access through a pointer). -/
def deref {τ : Type} : Option τ → Except Abort τ
  | none => .error .panic
  | some a => .ok a

/-- Modelled from the spec: `core.ValidateNotNil` (go-sdk-core): the given
message as an error when the object is nil. -/
def core.ValidateNotNil {τ : Type} (object : Option τ) (errorMsg : String) :
    Except Abort Unit :=
  match object with
  | none => .error (.error (.validateNotNil errorMsg))
  | some _ => .ok ()

/-- Modelled from the spec: `core.ValidateStruct` (go-sdk-core): an error for
a nil parameter, otherwise the check of the `validate` tags of the struct,
given here by `fields`. -/
def core.ValidateStruct {τ : Type} (fields : τ → List ValidatedField) (param : Option τ)
    (paramName : String) : Except Abort Unit :=
  match param with
  | none => .error (.error (.validateNotNil (paramName ++ " cannot be nil")))
  | some p =>
    match firstFailure (fields p) with
    | some (field, tag) => .error (.error (.validateStruct paramName field tag))
    | none => .ok ()

/-- The HTTP methods `core` defines. -/
inductive HTTPMethod where
  | GET
  | POST
  | PUT
  | DELETE
  | PATCH
  | HEAD
  deriving DecidableEq, Repr

/-- The Go assignment `m[key] = value` on a map with string keys. -/
def mapAssign {β : Type} : List (String × β) → String → β → List (String × β)
  | [], key, value => [(key, value)]
  | (k, v) :: rest, key, value =>
    if k = key then (key, value) :: rest else (k, v) :: mapAssign rest key value

/-- A value stored in the JSON body map of an operation. -/
inductive BodyValue where
  | string (s : String)
  | addresses (items : List (Option AddressIntf))
  | contexts (items : List RuleContext)
  | resources (items : List Resource)
  deriving DecidableEq, Repr

/-- The Go type `map[string]interface{}` of a request body. -/
abbrev BodyMap := List (String × BodyValue)

/-- The pattern `if field != nil { body[key] = field }`. -/
def setBodyIfNotNil {α : Type} (body : BodyMap) (key : String) (inj : α → BodyValue) :
    Option α → BodyMap
  | none => body
  | some a => mapAssign body key (inj a)

/-- Modelled from the spec: the `core.RequestBuilder` of go-sdk-core ("assembles
method, path, query parameters, headers, and a JSON body per call"), which is
also what `Build` hands on as the request. -/
structure RequestBuilder where
  Method : HTTPMethod
  URL : String
  Header : List (String × String)
  Query : List (String × List String)
  Body : Option BodyMap
  EnableGzipCompression : Bool
  deriving DecidableEq, Repr

/-- Modelled from the spec: `core.NewRequestBuilder`. -/
def core.NewRequestBuilder (method : HTTPMethod) : RequestBuilder :=
  { Method := method, URL := "", Header := [], Query := [], Body := none,
    EnableGzipCompression := false }

/-- Modelled from the spec: `RequestBuilder.AddHeader`, which stores the value
under the header name (`Header[name] = []string{value}`). -/
def RequestBuilder.AddHeader (b : RequestBuilder) (name value : String) : RequestBuilder :=
  { b with Header := mapAssign b.Header name value }

/-- The Go loop `for headerName, headerValue := range headers
{ builder.AddHeader(headerName, headerValue) }`. -/
def RequestBuilder.AddHeaders (b : RequestBuilder) (headers : List (String × String)) :
    RequestBuilder :=
  headers.foldl (fun builder h => builder.AddHeader h.1 h.2) b

/-- The pattern `if field != nil { builder.AddHeader(name, fmt.Sprint(*field)) }`. -/
def RequestBuilder.AddHeaderIfNotNil (b : RequestBuilder) (name : String) :
    Option String → RequestBuilder
  | none => b
  | some value => b.AddHeader name value

/-- Modelled from the spec: `RequestBuilder.AddQuery`, which appends the value
to the values of the parameter (`Query[name] = append(Query[name], value)`). -/
def RequestBuilder.AddQuery (b : RequestBuilder) (name value : String) : RequestBuilder :=
  { b with Query := mapAssign b.Query name ((b.Query.lookup name).getD [] ++ [value]) }

/-- The pattern `if field != nil { builder.AddQuery(name, fmt.Sprint(*field)) }`. -/
def RequestBuilder.AddQueryIfNotNil (b : RequestBuilder) (name : String) :
    Option String → RequestBuilder
  | none => b
  | some value => b.AddQuery name value

/-- Modelled from the spec: `RequestBuilder.SetBodyContentJSON` for a body map
of this service. -/
def RequestBuilder.SetBodyContentJSON (b : RequestBuilder) (body : BodyMap) :
    Except Abort RequestBuilder :=
  .ok { b with Body := some body }

/-- Modelled from the spec: `RequestBuilder.Build`: the request is what the
builder has collected. -/
def RequestBuilder.Build (b : RequestBuilder) : Except Abort RequestBuilder :=
  .ok b

/-- The service client `ContextBasedRestrictionsV1` with what it relies on
outside this file: the configured service URL and gzip flag, the URL
resolution of the request builder, `common.GetSdkHeaders`, the transport
`Service.Request` (an error, or the raw response, nil when there is none) and
the date-time parser of strfmt. -/
structure ContextBasedRestrictionsV1 where
  URL : String
  EnableGzipCompression : Bool
  /-- `builder.ResolveRequestURL(serviceURL, path, pathParams)`. -/
  ResolveRequestURL : String → String → List (String × String) → Except String String
  /-- `common.GetSdkHeaders(serviceName, serviceVersion, operationId)`. -/
  GetSdkHeaders : String → String → String → List (String × String)
  /-- `Service.Request(request, &rawResponse)`. -/
  Request : RequestBuilder → Except String (Option RawObject)
  ParseDateTime : String → Option DateTime

/-- The call `builder.ResolveRequestURL(...)` with its error check. -/
def RequestBuilder.ResolveRequestURL (b : RequestBuilder) (svc : ContextBasedRestrictionsV1)
    (path : String) (pathParams : List (String × String)) : Except Abort RequestBuilder :=
  match svc.ResolveRequestURL svc.URL path pathParams with
  | .error msg => .error (.error (.resolveRequestURL msg))
  | .ok url => .ok { b with URL := url }

/-- What an operation leaves behind: the request handed to `Service.Request`
(`none` when none was), and the returned result or the way it stopped. -/
structure OperationResult (ρ : Type) where
  sent : Option RequestBuilder
  outcome : Except Abort (Option ρ)

/-- The common tail of the operations with a result: `Service.Request`, then
`core.UnmarshalModel` on a non-nil raw response. -/
def ContextBasedRestrictionsV1.exchange {ρ : Type} (svc : ContextBasedRestrictionsV1)
    (request : RequestBuilder) (unmarshaller : RawObject → Except DecodeError ρ) :
    OperationResult ρ :=
  match svc.Request request with
  | .error msg => { sent := some request, outcome := .error (.error (.request msg)) }
  | .ok none => { sent := some request, outcome := .ok none }
  | .ok (some rawResponse) =>
    match core.UnmarshalModel rawResponse "" unmarshaller with
    | .error e => { sent := some request, outcome := .error (.error (.unmarshal e)) }
    | .ok result => { sent := some request, outcome := .ok result }

/-- The tail of the delete operations: `Service.Request(request, nil)`. -/
def ContextBasedRestrictionsV1.exchangeNoResult (svc : ContextBasedRestrictionsV1)
    (request : RequestBuilder) : OperationResult Unit :=
  match svc.Request request with
  | .error msg => { sent := some request, outcome := .error (.error (.request msg)) }
  | .ok _ => { sent := some request, outcome := .ok none }

/-- An operation as a whole: no request when the preparation stops early. -/
def runOperation {ρ : Type} (prepared : Except Abort RequestBuilder)
    (send : RequestBuilder → OperationResult ρ) : OperationResult ρ :=
  match prepared with
  | .error a => { sent := none, outcome := .error a }
  | .ok request => send request


/-! ## The options of the operations -/

/-- The Go struct `CreateZoneOptions`; `Headers` is the Go map, nil slices are `none`. -/
structure CreateZoneOptions where
  Name : Option String
  AccountID : Option String
  Description : Option String
  Addresses : Option (List (Option AddressIntf))
  Excluded : Option (List (Option AddressIntf))
  XCorrelationID : Option String
  TransactionID : Option String
  Headers : List (String × String)
  deriving DecidableEq, Repr

/-- The fields of `CreateZoneOptions` that carry a `validate` tag. -/
def CreateZoneOptions.validated (_ : CreateZoneOptions) : List ValidatedField :=
  []

/-- The Go struct `ListZonesOptions`; `Headers` is the Go map, nil slices are `none`. -/
structure ListZonesOptions where
  AccountID : Option String
  XCorrelationID : Option String
  TransactionID : Option String
  Name : Option String
  Sort_ : Option String
  Headers : List (String × String)
  deriving DecidableEq, Repr

/-- The fields of `ListZonesOptions` that carry a `validate` tag. -/
def ListZonesOptions.validated (options : ListZonesOptions) : List ValidatedField :=
  [{ name := "AccountID", tags := [.required], value := options.AccountID }]

/-- The Go struct `GetZoneOptions`; `Headers` is the Go map, nil slices are `none`. -/
structure GetZoneOptions where
  ZoneID : Option String
  XCorrelationID : Option String
  TransactionID : Option String
  Headers : List (String × String)
  deriving DecidableEq, Repr

/-- The fields of `GetZoneOptions` that carry a `validate` tag. -/
def GetZoneOptions.validated (options : GetZoneOptions) : List ValidatedField :=
  [{ name := "ZoneID", tags := [.required, .ne ""], value := options.ZoneID }]

/-- The Go struct `ReplaceZoneOptions`; `Headers` is the Go map, nil slices are `none`. -/
structure ReplaceZoneOptions where
  ZoneID : Option String
  IfMatch : Option String
  Name : Option String
  AccountID : Option String
  Description : Option String
  Addresses : Option (List (Option AddressIntf))
  Excluded : Option (List (Option AddressIntf))
  XCorrelationID : Option String
  TransactionID : Option String
  Headers : List (String × String)
  deriving DecidableEq, Repr

/-- The fields of `ReplaceZoneOptions` that carry a `validate` tag. -/
def ReplaceZoneOptions.validated (options : ReplaceZoneOptions) : List ValidatedField :=
  [{ name := "ZoneID", tags := [.required, .ne ""], value := options.ZoneID },
   { name := "IfMatch", tags := [.required], value := options.IfMatch }]

/-- The Go struct `DeleteZoneOptions`; `Headers` is the Go map, nil slices are `none`. -/
structure DeleteZoneOptions where
  ZoneID : Option String
  XCorrelationID : Option String
  TransactionID : Option String
  Headers : List (String × String)
  deriving DecidableEq, Repr

/-- The fields of `DeleteZoneOptions` that carry a `validate` tag. -/
def DeleteZoneOptions.validated (options : DeleteZoneOptions) : List ValidatedField :=
  [{ name := "ZoneID", tags := [.required, .ne ""], value := options.ZoneID }]

/-- The Go struct `ListAvailableServicerefTargetsOptions`; `Headers` is the Go map, nil slices are `none`. -/
structure ListAvailableServicerefTargetsOptions where
  XCorrelationID : Option String
  TransactionID : Option String
  Type_ : Option String
  Headers : List (String × String)
  deriving DecidableEq, Repr

/-- The fields of `ListAvailableServicerefTargetsOptions` that carry a `validate` tag. -/
def ListAvailableServicerefTargetsOptions.validated (_ : ListAvailableServicerefTargetsOptions) : List ValidatedField :=
  []

/-- The Go struct `CreateRuleOptions`; `Headers` is the Go map, nil slices are `none`. -/
structure CreateRuleOptions where
  Description : Option String
  Contexts : Option (List RuleContext)
  Resources : Option (List Resource)
  XCorrelationID : Option String
  TransactionID : Option String
  Headers : List (String × String)
  deriving DecidableEq, Repr

/-- The fields of `CreateRuleOptions` that carry a `validate` tag. -/
def CreateRuleOptions.validated (_ : CreateRuleOptions) : List ValidatedField :=
  []

/-- The Go struct `ListRulesOptions`; `Headers` is the Go map, nil slices are `none`. -/
structure ListRulesOptions where
  AccountID : Option String
  XCorrelationID : Option String
  TransactionID : Option String
  Region : Option String
  Resource : Option String
  ResourceType : Option String
  ServiceInstance : Option String
  ServiceName : Option String
  ServiceType : Option String
  ZoneID : Option String
  Sort_ : Option String
  Headers : List (String × String)
  deriving DecidableEq, Repr

/-- The fields of `ListRulesOptions` that carry a `validate` tag. -/
def ListRulesOptions.validated (options : ListRulesOptions) : List ValidatedField :=
  [{ name := "AccountID", tags := [.required], value := options.AccountID }]

/-- The Go struct `GetRuleOptions`; `Headers` is the Go map, nil slices are `none`. -/
structure GetRuleOptions where
  RuleID : Option String
  XCorrelationID : Option String
  TransactionID : Option String
  Headers : List (String × String)
  deriving DecidableEq, Repr

/-- The fields of `GetRuleOptions` that carry a `validate` tag. -/
def GetRuleOptions.validated (options : GetRuleOptions) : List ValidatedField :=
  [{ name := "RuleID", tags := [.required, .ne ""], value := options.RuleID }]

/-- The Go struct `ReplaceRuleOptions`; `Headers` is the Go map, nil slices are `none`. -/
structure ReplaceRuleOptions where
  RuleID : Option String
  IfMatch : Option String
  Description : Option String
  Contexts : Option (List RuleContext)
  Resources : Option (List Resource)
  XCorrelationID : Option String
  TransactionID : Option String
  Headers : List (String × String)
  deriving DecidableEq, Repr

/-- The fields of `ReplaceRuleOptions` that carry a `validate` tag. -/
def ReplaceRuleOptions.validated (options : ReplaceRuleOptions) : List ValidatedField :=
  [{ name := "RuleID", tags := [.required, .ne ""], value := options.RuleID },
   { name := "IfMatch", tags := [.required], value := options.IfMatch }]

/-- The Go struct `DeleteRuleOptions`; `Headers` is the Go map, nil slices are `none`. -/
structure DeleteRuleOptions where
  RuleID : Option String
  XCorrelationID : Option String
  TransactionID : Option String
  Headers : List (String × String)
  deriving DecidableEq, Repr

/-- The fields of `DeleteRuleOptions` that carry a `validate` tag. -/
def DeleteRuleOptions.validated (options : DeleteRuleOptions) : List ValidatedField :=
  [{ name := "RuleID", tags := [.required, .ne ""], value := options.RuleID }]

/-- The Go struct `GetAccountSettingsOptions`; `Headers` is the Go map, nil slices are `none`. -/
structure GetAccountSettingsOptions where
  AccountID : Option String
  XCorrelationID : Option String
  TransactionID : Option String
  Headers : List (String × String)
  deriving DecidableEq, Repr

/-- The fields of `GetAccountSettingsOptions` that carry a `validate` tag. -/
def GetAccountSettingsOptions.validated (options : GetAccountSettingsOptions) : List ValidatedField :=
  [{ name := "AccountID", tags := [.required, .ne ""], value := options.AccountID }]

/-! ## The operations -/

/-- Go `CreateZoneWithContext` up to and including `builder.Build()`: the validation
of the options and the assembly of the request. `CreateZone` calls it with
`context.Background()`; the context itself is not modelled. -/
def CreateZoneWithContext_request (svc : ContextBasedRestrictionsV1)
    (createZoneOptions : Option CreateZoneOptions) : Except Abort RequestBuilder := do
  core.ValidateStruct CreateZoneOptions.validated createZoneOptions "createZoneOptions"
  let options ← deref createZoneOptions
  let builder := core.NewRequestBuilder .POST
  let builder := { builder with EnableGzipCompression := svc.EnableGzipCompression }
  let builder ← builder.ResolveRequestURL svc "/v1/zones" []
  let builder := builder.AddHeaders options.Headers
  let sdkHeaders := svc.GetSdkHeaders "context_based_restrictions" "V1" "CreateZone"
  let builder := builder.AddHeaders sdkHeaders
  let builder := builder.AddHeader "Accept" "application/json"
  let builder := builder.AddHeader "Content-Type" "application/json"
  let builder := builder.AddHeaderIfNotNil "X-Correlation-Id" options.XCorrelationID
  let builder := builder.AddHeaderIfNotNil "Transaction-Id" options.TransactionID
  let body : BodyMap := []
  let body := setBodyIfNotNil body "name" BodyValue.string options.Name
  let body := setBodyIfNotNil body "account_id" BodyValue.string options.AccountID
  let body := setBodyIfNotNil body "description" BodyValue.string options.Description
  let body := setBodyIfNotNil body "addresses" BodyValue.addresses options.Addresses
  let body := setBodyIfNotNil body "excluded" BodyValue.addresses options.Excluded
  let builder ← builder.SetBodyContentJSON body
  builder.Build

/-- Go `CreateZoneWithContext`. -/
def CreateZoneWithContext (svc : ContextBasedRestrictionsV1)
    (createZoneOptions : Option CreateZoneOptions) : OperationResult Zone :=
  runOperation (CreateZoneWithContext_request svc createZoneOptions)
    fun request => svc.exchange request (UnmarshalZone svc.ParseDateTime)

/-- Go `ListZonesWithContext` up to and including `builder.Build()`: the validation
of the options and the assembly of the request. `ListZones` calls it with
`context.Background()`; the context itself is not modelled. -/
def ListZonesWithContext_request (svc : ContextBasedRestrictionsV1)
    (listZonesOptions : Option ListZonesOptions) : Except Abort RequestBuilder := do
  core.ValidateNotNil listZonesOptions "listZonesOptions cannot be nil"
  core.ValidateStruct ListZonesOptions.validated listZonesOptions "listZonesOptions"
  let options ← deref listZonesOptions
  let builder := core.NewRequestBuilder .GET
  let builder := { builder with EnableGzipCompression := svc.EnableGzipCompression }
  let builder ← builder.ResolveRequestURL svc "/v1/zones" []
  let builder := builder.AddHeaders options.Headers
  let sdkHeaders := svc.GetSdkHeaders "context_based_restrictions" "V1" "ListZones"
  let builder := builder.AddHeaders sdkHeaders
  let builder := builder.AddHeader "Accept" "application/json"
  let builder := builder.AddHeaderIfNotNil "X-Correlation-Id" options.XCorrelationID
  let builder := builder.AddHeaderIfNotNil "Transaction-Id" options.TransactionID
  let account_id ← deref options.AccountID
  let builder := builder.AddQuery "account_id" account_id
  let builder := builder.AddQueryIfNotNil "name" options.Name
  let builder := builder.AddQueryIfNotNil "sort" options.Sort_
  builder.Build

/-- Go `ListZonesWithContext`. -/
def ListZonesWithContext (svc : ContextBasedRestrictionsV1)
    (listZonesOptions : Option ListZonesOptions) : OperationResult ZoneList :=
  runOperation (ListZonesWithContext_request svc listZonesOptions)
    fun request => svc.exchange request (UnmarshalZoneList svc.ParseDateTime)

/-- Go `GetZoneWithContext` up to and including `builder.Build()`: the validation
of the options and the assembly of the request. `GetZone` calls it with
`context.Background()`; the context itself is not modelled. -/
def GetZoneWithContext_request (svc : ContextBasedRestrictionsV1)
    (getZoneOptions : Option GetZoneOptions) : Except Abort RequestBuilder := do
  core.ValidateNotNil getZoneOptions "getZoneOptions cannot be nil"
  core.ValidateStruct GetZoneOptions.validated getZoneOptions "getZoneOptions"
  let options ← deref getZoneOptions
  let zone_id ← deref options.ZoneID
  let pathParamsMap := [("zone_id", zone_id)]
  let builder := core.NewRequestBuilder .GET
  let builder := { builder with EnableGzipCompression := svc.EnableGzipCompression }
  let builder ← builder.ResolveRequestURL svc "/v1/zones/{zone_id}" pathParamsMap
  let builder := builder.AddHeaders options.Headers
  let sdkHeaders := svc.GetSdkHeaders "context_based_restrictions" "V1" "GetZone"
  let builder := builder.AddHeaders sdkHeaders
  let builder := builder.AddHeader "Accept" "application/json"
  let builder := builder.AddHeaderIfNotNil "X-Correlation-Id" options.XCorrelationID
  let builder := builder.AddHeaderIfNotNil "Transaction-Id" options.TransactionID
  builder.Build

/-- Go `GetZoneWithContext`. -/
def GetZoneWithContext (svc : ContextBasedRestrictionsV1)
    (getZoneOptions : Option GetZoneOptions) : OperationResult Zone :=
  runOperation (GetZoneWithContext_request svc getZoneOptions)
    fun request => svc.exchange request (UnmarshalZone svc.ParseDateTime)

/-- Go `ReplaceZoneWithContext` up to and including `builder.Build()`: the validation
of the options and the assembly of the request. `ReplaceZone` calls it with
`context.Background()`; the context itself is not modelled. -/
def ReplaceZoneWithContext_request (svc : ContextBasedRestrictionsV1)
    (replaceZoneOptions : Option ReplaceZoneOptions) : Except Abort RequestBuilder := do
  core.ValidateNotNil replaceZoneOptions "replaceZoneOptions cannot be nil"
  core.ValidateStruct ReplaceZoneOptions.validated replaceZoneOptions "replaceZoneOptions"
  let options ← deref replaceZoneOptions
  let zone_id ← deref options.ZoneID
  let pathParamsMap := [("zone_id", zone_id)]
  let builder := core.NewRequestBuilder .PUT
  let builder := { builder with EnableGzipCompression := svc.EnableGzipCompression }
  let builder ← builder.ResolveRequestURL svc "/v1/zones/{zone_id}" pathParamsMap
  let builder := builder.AddHeaders options.Headers
  let sdkHeaders := svc.GetSdkHeaders "context_based_restrictions" "V1" "ReplaceZone"
  let builder := builder.AddHeaders sdkHeaders
  let builder := builder.AddHeader "Accept" "application/json"
  let builder := builder.AddHeader "Content-Type" "application/json"
  let builder := builder.AddHeaderIfNotNil "If-Match" options.IfMatch
  let builder := builder.AddHeaderIfNotNil "X-Correlation-Id" options.XCorrelationID
  let builder := builder.AddHeaderIfNotNil "Transaction-Id" options.TransactionID
  let body : BodyMap := []
  let body := setBodyIfNotNil body "name" BodyValue.string options.Name
  let body := setBodyIfNotNil body "account_id" BodyValue.string options.AccountID
  let body := setBodyIfNotNil body "description" BodyValue.string options.Description
  let body := setBodyIfNotNil body "addresses" BodyValue.addresses options.Addresses
  let body := setBodyIfNotNil body "excluded" BodyValue.addresses options.Excluded
  let builder ← builder.SetBodyContentJSON body
  builder.Build

/-- Go `ReplaceZoneWithContext`. -/
def ReplaceZoneWithContext (svc : ContextBasedRestrictionsV1)
    (replaceZoneOptions : Option ReplaceZoneOptions) : OperationResult Zone :=
  runOperation (ReplaceZoneWithContext_request svc replaceZoneOptions)
    fun request => svc.exchange request (UnmarshalZone svc.ParseDateTime)

/-- Go `DeleteZoneWithContext` up to and including `builder.Build()`: the validation
of the options and the assembly of the request. `DeleteZone` calls it with
`context.Background()`; the context itself is not modelled. -/
def DeleteZoneWithContext_request (svc : ContextBasedRestrictionsV1)
    (deleteZoneOptions : Option DeleteZoneOptions) : Except Abort RequestBuilder := do
  core.ValidateNotNil deleteZoneOptions "deleteZoneOptions cannot be nil"
  core.ValidateStruct DeleteZoneOptions.validated deleteZoneOptions "deleteZoneOptions"
  let options ← deref deleteZoneOptions
  let zone_id ← deref options.ZoneID
  let pathParamsMap := [("zone_id", zone_id)]
  let builder := core.NewRequestBuilder .DELETE
  let builder := { builder with EnableGzipCompression := svc.EnableGzipCompression }
  let builder ← builder.ResolveRequestURL svc "/v1/zones/{zone_id}" pathParamsMap
  let builder := builder.AddHeaders options.Headers
  let sdkHeaders := svc.GetSdkHeaders "context_based_restrictions" "V1" "DeleteZone"
  let builder := builder.AddHeaders sdkHeaders
  let builder := builder.AddHeaderIfNotNil "X-Correlation-Id" options.XCorrelationID
  let builder := builder.AddHeaderIfNotNil "Transaction-Id" options.TransactionID
  builder.Build

/-- Go `DeleteZoneWithContext`. -/
def DeleteZoneWithContext (svc : ContextBasedRestrictionsV1)
    (deleteZoneOptions : Option DeleteZoneOptions) : OperationResult Unit :=
  runOperation (DeleteZoneWithContext_request svc deleteZoneOptions)
    fun request => svc.exchangeNoResult request

/-- Go `ListAvailableServicerefTargetsWithContext` up to and including `builder.Build()`: the validation
of the options and the assembly of the request. `ListAvailableServicerefTargets` calls it with
`context.Background()`; the context itself is not modelled. -/
def ListAvailableServicerefTargetsWithContext_request (svc : ContextBasedRestrictionsV1)
    (listAvailableServicerefTargetsOptions : Option ListAvailableServicerefTargetsOptions) : Except Abort RequestBuilder := do
  core.ValidateStruct ListAvailableServicerefTargetsOptions.validated listAvailableServicerefTargetsOptions "listAvailableServicerefTargetsOptions"
  let options ← deref listAvailableServicerefTargetsOptions
  let builder := core.NewRequestBuilder .GET
  let builder := { builder with EnableGzipCompression := svc.EnableGzipCompression }
  let builder ← builder.ResolveRequestURL svc "/v1/zones/serviceref_targets" []
  let builder := builder.AddHeaders options.Headers
  let sdkHeaders := svc.GetSdkHeaders "context_based_restrictions" "V1" "ListAvailableServicerefTargets"
  let builder := builder.AddHeaders sdkHeaders
  let builder := builder.AddHeader "Accept" "application/json"
  let builder := builder.AddHeaderIfNotNil "X-Correlation-Id" options.XCorrelationID
  let builder := builder.AddHeaderIfNotNil "Transaction-Id" options.TransactionID
  let builder := builder.AddQueryIfNotNil "type" options.Type_
  builder.Build

/-- Go `ListAvailableServicerefTargetsWithContext`. -/
def ListAvailableServicerefTargetsWithContext (svc : ContextBasedRestrictionsV1)
    (listAvailableServicerefTargetsOptions : Option ListAvailableServicerefTargetsOptions) : OperationResult ServiceRefTargetList :=
  runOperation (ListAvailableServicerefTargetsWithContext_request svc listAvailableServicerefTargetsOptions)
    fun request => svc.exchange request (UnmarshalServiceRefTargetList)

/-- Go `CreateRuleWithContext` up to and including `builder.Build()`: the validation
of the options and the assembly of the request. `CreateRule` calls it with
`context.Background()`; the context itself is not modelled. -/
def CreateRuleWithContext_request (svc : ContextBasedRestrictionsV1)
    (createRuleOptions : Option CreateRuleOptions) : Except Abort RequestBuilder := do
  core.ValidateStruct CreateRuleOptions.validated createRuleOptions "createRuleOptions"
  let options ← deref createRuleOptions
  let builder := core.NewRequestBuilder .POST
  let builder := { builder with EnableGzipCompression := svc.EnableGzipCompression }
  let builder ← builder.ResolveRequestURL svc "/v1/rules" []
  let builder := builder.AddHeaders options.Headers
  let sdkHeaders := svc.GetSdkHeaders "context_based_restrictions" "V1" "CreateRule"
  let builder := builder.AddHeaders sdkHeaders
  let builder := builder.AddHeader "Accept" "application/json"
  let builder := builder.AddHeader "Content-Type" "application/json"
  let builder := builder.AddHeaderIfNotNil "X-Correlation-Id" options.XCorrelationID
  let builder := builder.AddHeaderIfNotNil "Transaction-Id" options.TransactionID
  let body : BodyMap := []
  let body := setBodyIfNotNil body "description" BodyValue.string options.Description
  let body := setBodyIfNotNil body "contexts" BodyValue.contexts options.Contexts
  let body := setBodyIfNotNil body "resources" BodyValue.resources options.Resources
  let builder ← builder.SetBodyContentJSON body
  builder.Build

/-- Go `CreateRuleWithContext`. -/
def CreateRuleWithContext (svc : ContextBasedRestrictionsV1)
    (createRuleOptions : Option CreateRuleOptions) : OperationResult Rule :=
  runOperation (CreateRuleWithContext_request svc createRuleOptions)
    fun request => svc.exchange request (UnmarshalRule svc.ParseDateTime)

/-- Go `ListRulesWithContext` up to and including `builder.Build()`: the validation
of the options and the assembly of the request. `ListRules` calls it with
`context.Background()`; the context itself is not modelled. -/
def ListRulesWithContext_request (svc : ContextBasedRestrictionsV1)
    (listRulesOptions : Option ListRulesOptions) : Except Abort RequestBuilder := do
  core.ValidateNotNil listRulesOptions "listRulesOptions cannot be nil"
  core.ValidateStruct ListRulesOptions.validated listRulesOptions "listRulesOptions"
  let options ← deref listRulesOptions
  let builder := core.NewRequestBuilder .GET
  let builder := { builder with EnableGzipCompression := svc.EnableGzipCompression }
  let builder ← builder.ResolveRequestURL svc "/v1/rules" []
  let builder := builder.AddHeaders options.Headers
  let sdkHeaders := svc.GetSdkHeaders "context_based_restrictions" "V1" "ListRules"
  let builder := builder.AddHeaders sdkHeaders
  let builder := builder.AddHeader "Accept" "application/json"
  let builder := builder.AddHeaderIfNotNil "X-Correlation-Id" options.XCorrelationID
  let builder := builder.AddHeaderIfNotNil "Transaction-Id" options.TransactionID
  let account_id ← deref options.AccountID
  let builder := builder.AddQuery "account_id" account_id
  let builder := builder.AddQueryIfNotNil "region" options.Region
  let builder := builder.AddQueryIfNotNil "resource" options.Resource
  let builder := builder.AddQueryIfNotNil "resource_type" options.ResourceType
  let builder := builder.AddQueryIfNotNil "service_instance" options.ServiceInstance
  let builder := builder.AddQueryIfNotNil "service_name" options.ServiceName
  let builder := builder.AddQueryIfNotNil "service_type" options.ServiceType
  let builder := builder.AddQueryIfNotNil "zone_id" options.ZoneID
  let builder := builder.AddQueryIfNotNil "sort" options.Sort_
  builder.Build

/-- Go `ListRulesWithContext`. -/
def ListRulesWithContext (svc : ContextBasedRestrictionsV1)
    (listRulesOptions : Option ListRulesOptions) : OperationResult RuleList :=
  runOperation (ListRulesWithContext_request svc listRulesOptions)
    fun request => svc.exchange request (UnmarshalRuleList svc.ParseDateTime)

/-- Go `GetRuleWithContext` up to and including `builder.Build()`: the validation
of the options and the assembly of the request. `GetRule` calls it with
`context.Background()`; the context itself is not modelled. -/
def GetRuleWithContext_request (svc : ContextBasedRestrictionsV1)
    (getRuleOptions : Option GetRuleOptions) : Except Abort RequestBuilder := do
  core.ValidateNotNil getRuleOptions "getRuleOptions cannot be nil"
  core.ValidateStruct GetRuleOptions.validated getRuleOptions "getRuleOptions"
  let options ← deref getRuleOptions
  let rule_id ← deref options.RuleID
  let pathParamsMap := [("rule_id", rule_id)]
  let builder := core.NewRequestBuilder .GET
  let builder := { builder with EnableGzipCompression := svc.EnableGzipCompression }
  let builder ← builder.ResolveRequestURL svc "/v1/rules/{rule_id}" pathParamsMap
  let builder := builder.AddHeaders options.Headers
  let sdkHeaders := svc.GetSdkHeaders "context_based_restrictions" "V1" "GetRule"
  let builder := builder.AddHeaders sdkHeaders
  let builder := builder.AddHeader "Accept" "application/json"
  let builder := builder.AddHeaderIfNotNil "X-Correlation-Id" options.XCorrelationID
  let builder := builder.AddHeaderIfNotNil "Transaction-Id" options.TransactionID
  builder.Build

/-- Go `GetRuleWithContext`. -/
def GetRuleWithContext (svc : ContextBasedRestrictionsV1)
    (getRuleOptions : Option GetRuleOptions) : OperationResult Rule :=
  runOperation (GetRuleWithContext_request svc getRuleOptions)
    fun request => svc.exchange request (UnmarshalRule svc.ParseDateTime)

/-- Go `ReplaceRuleWithContext` up to and including `builder.Build()`: the validation
of the options and the assembly of the request. `ReplaceRule` calls it with
`context.Background()`; the context itself is not modelled. -/
def ReplaceRuleWithContext_request (svc : ContextBasedRestrictionsV1)
    (replaceRuleOptions : Option ReplaceRuleOptions) : Except Abort RequestBuilder := do
  core.ValidateNotNil replaceRuleOptions "replaceRuleOptions cannot be nil"
  core.ValidateStruct ReplaceRuleOptions.validated replaceRuleOptions "replaceRuleOptions"
  let options ← deref replaceRuleOptions
  let rule_id ← deref options.RuleID
  let pathParamsMap := [("rule_id", rule_id)]
  let builder := core.NewRequestBuilder .PUT
  let builder := { builder with EnableGzipCompression := svc.EnableGzipCompression }
  let builder ← builder.ResolveRequestURL svc "/v1/rules/{rule_id}" pathParamsMap
  let builder := builder.AddHeaders options.Headers
  let sdkHeaders := svc.GetSdkHeaders "context_based_restrictions" "V1" "ReplaceRule"
  let builder := builder.AddHeaders sdkHeaders
  let builder := builder.AddHeader "Accept" "application/json"
  let builder := builder.AddHeader "Content-Type" "application/json"
  let builder := builder.AddHeaderIfNotNil "If-Match" options.IfMatch
  let builder := builder.AddHeaderIfNotNil "X-Correlation-Id" options.XCorrelationID
  let builder := builder.AddHeaderIfNotNil "Transaction-Id" options.TransactionID
  let body : BodyMap := []
  let body := setBodyIfNotNil body "description" BodyValue.string options.Description
  let body := setBodyIfNotNil body "contexts" BodyValue.contexts options.Contexts
  let body := setBodyIfNotNil body "resources" BodyValue.resources options.Resources
  let builder ← builder.SetBodyContentJSON body
  builder.Build

/-- Go `ReplaceRuleWithContext`. -/
def ReplaceRuleWithContext (svc : ContextBasedRestrictionsV1)
    (replaceRuleOptions : Option ReplaceRuleOptions) : OperationResult Rule :=
  runOperation (ReplaceRuleWithContext_request svc replaceRuleOptions)
    fun request => svc.exchange request (UnmarshalRule svc.ParseDateTime)

/-- Go `DeleteRuleWithContext` up to and including `builder.Build()`: the validation
of the options and the assembly of the request. `DeleteRule` calls it with
`context.Background()`; the context itself is not modelled. -/
def DeleteRuleWithContext_request (svc : ContextBasedRestrictionsV1)
    (deleteRuleOptions : Option DeleteRuleOptions) : Except Abort RequestBuilder := do
  core.ValidateNotNil deleteRuleOptions "deleteRuleOptions cannot be nil"
  core.ValidateStruct DeleteRuleOptions.validated deleteRuleOptions "deleteRuleOptions"
  let options ← deref deleteRuleOptions
  let rule_id ← deref options.RuleID
  let pathParamsMap := [("rule_id", rule_id)]
  let builder := core.NewRequestBuilder .DELETE
  let builder := { builder with EnableGzipCompression := svc.EnableGzipCompression }
  let builder ← builder.ResolveRequestURL svc "/v1/rules/{rule_id}" pathParamsMap
  let builder := builder.AddHeaders options.Headers
  let sdkHeaders := svc.GetSdkHeaders "context_based_restrictions" "V1" "DeleteRule"
  let builder := builder.AddHeaders sdkHeaders
  let builder := builder.AddHeaderIfNotNil "X-Correlation-Id" options.XCorrelationID
  let builder := builder.AddHeaderIfNotNil "Transaction-Id" options.TransactionID
  builder.Build

/-- Go `DeleteRuleWithContext`. -/
def DeleteRuleWithContext (svc : ContextBasedRestrictionsV1)
    (deleteRuleOptions : Option DeleteRuleOptions) : OperationResult Unit :=
  runOperation (DeleteRuleWithContext_request svc deleteRuleOptions)
    fun request => svc.exchangeNoResult request

/-- Go `GetAccountSettingsWithContext` up to and including `builder.Build()`: the validation
of the options and the assembly of the request. `GetAccountSettings` calls it with
`context.Background()`; the context itself is not modelled. -/
def GetAccountSettingsWithContext_request (svc : ContextBasedRestrictionsV1)
    (getAccountSettingsOptions : Option GetAccountSettingsOptions) : Except Abort RequestBuilder := do
  core.ValidateNotNil getAccountSettingsOptions "getAccountSettingsOptions cannot be nil"
  core.ValidateStruct GetAccountSettingsOptions.validated getAccountSettingsOptions "getAccountSettingsOptions"
  let options ← deref getAccountSettingsOptions
  let account_id ← deref options.AccountID
  let pathParamsMap := [("account_id", account_id)]
  let builder := core.NewRequestBuilder .GET
  let builder := { builder with EnableGzipCompression := svc.EnableGzipCompression }
  let builder ← builder.ResolveRequestURL svc "/v1/account_settings/{account_id}" pathParamsMap
  let builder := builder.AddHeaders options.Headers
  let sdkHeaders := svc.GetSdkHeaders "context_based_restrictions" "V1" "GetAccountSettings"
  let builder := builder.AddHeaders sdkHeaders
  let builder := builder.AddHeader "Accept" "application/json"
  let builder := builder.AddHeaderIfNotNil "X-Correlation-Id" options.XCorrelationID
  let builder := builder.AddHeaderIfNotNil "Transaction-Id" options.TransactionID
  builder.Build

/-- Go `GetAccountSettingsWithContext`. -/
def GetAccountSettingsWithContext (svc : ContextBasedRestrictionsV1)
    (getAccountSettingsOptions : Option GetAccountSettingsOptions) : OperationResult AccountSettings :=
  runOperation (GetAccountSettingsWithContext_request svc getAccountSettingsOptions)
    fun request => svc.exchange request (UnmarshalAccountSettings svc.ParseDateTime)

/-! ## Header, query and body maps of a built request -/

/-- The entries of a Go map assigned one after the other to `m`. -/
def mapAssignAll {β : Type} (m : List (String × β)) (entries : List (String × β)) :
    List (String × β) :=
  entries.foldl (fun acc e => mapAssign acc e.1 e.2) m

/-- The assignment `m[key] = *value` guarded by `value != nil`. -/
def mapAssignIfNotNil {β : Type} (m : List (String × β)) (key : String) :
    Option β → List (String × β)
  | none => m
  | some value => mapAssign m key value

/-- The query map after `AddQuery(name, value)`. -/
def queryAdd (q : List (String × List String)) (name value : String) :
    List (String × List String) :=
  mapAssign q name ((q.lookup name).getD [] ++ [value])

/-- The query map after `AddQuery(name, *value)` guarded by `value != nil`. -/
def queryAddIfNotNil (q : List (String × List String)) (name : String) :
    Option String → List (String × List String)
  | none => q
  | some value => queryAdd q name value

/-- The header map of an operation before it sets its own headers: the
caller's `Headers`, then the SDK headers of the operation. -/
def callerAndSdkHeaders (svc : ContextBasedRestrictionsV1) (headers : List (String × String))
    (operationId : String) : List (String × String) :=
  mapAssignAll (mapAssignAll [] headers)
    (svc.GetSdkHeaders "context_based_restrictions" "V1" operationId)

/-- A sample service: every URL resolves to the service URL followed by the
path template, there are no SDK headers, and the transport answers with no
body. -/
def sampleService : ContextBasedRestrictionsV1 where
  URL := "https://cbr.cloud.ibm.com"
  EnableGzipCompression := false
  ResolveRequestURL := fun serviceURL path _ => .ok (serviceURL ++ path)
  GetSdkHeaders := fun _ _ _ => []
  Request := fun _ => .ok none
  ParseDateTime := fun s => some { text := s }

/-- Whether an operation was stopped by local validation: no request was
handed to `Service.Request` and the returned error is a validation error. -/
def OperationResult.rejectedLocally {ρ : Type} (r : OperationResult ρ) : Bool :=
  r.sent.isNone &&
    match r.outcome with
    | .error (.error e) => e.isValidation
    | _ => false

/-- The header names that the operations of this service set themselves. -/
def operationHeaderNames : List String :=
  ["Accept", "Content-Type", "If-Match", "X-Correlation-Id", "Transaction-Id"]

/-! ## The attribute assignments of the read handler, and dereferences spelled out -/

/-- The guarded `d.Set` calls that the body of the inner `if` of the read
handler makes for a network interface, in source order: attribute key, value
handed to `d.Set`, and the text put before the error in the diagnostic. The
calls for `floating_ips`, `security_groups` and `subnet` are there when the
field is not nil. -/
def attributeSets (env : Env) (networkInterface : NetworkInterface) :
    List (String × Value × String) :=
  [("allow_ip_spoofing", .ofBool networkInterface.AllowIPSpoofing,
      "Error setting allow_ip_spoofing: "),
   ("created_at", .str (env.dateTimeToString networkInterface.CreatedAt),
      "Error setting created_at: ")] ++
  (match networkInterface.FloatingIps with
    | none => []
    | some floatingIps =>
      [("floating_ips", .maps (dataSourceNetworkInterfaceFlattenFloatingIps floatingIps),
        "Error setting floating_ips ")]) ++
  [("href", .ofString networkInterface.Href, "Error setting href: "),
   ("name", .ofString networkInterface.Name, "Error setting name: "),
   ("port_speed", .int (env.intValue networkInterface.PortSpeed), "Error setting port_speed: "),
   ("primary_ipv4_address", .ofString networkInterface.PrimaryIpv4Address,
      "Error setting primary_ipv4_address: "),
   ("resource_type", .ofString networkInterface.ResourceType,
      "Error setting resource_type: ")] ++
  (match networkInterface.SecurityGroups with
    | none => []
    | some securityGroups =>
      [("security_groups",
        .maps (dataSourceNetworkInterfaceFlattenSecurityGroups securityGroups),
        "Error setting security_groups ")]) ++
  [("status", .ofString networkInterface.Status, "Error setting status: ")] ++
  (match networkInterface.Subnet with
    | none => []
    | some subnet =>
      [("subnet", .maps (dataSourceNetworkInterfaceFlattenSubnet subnet),
        "Error setting subnet ")]) ++
  [("type", .ofString networkInterface.Type_, "Error setting type: ")]

/-- A run of guarded `d.Set` calls followed by `return nil`. -/
def applySets (env : Env) (calls : List Call) :
    ResourceData → List (String × Value × String) → ReadResult
  | d, [] => { outcome := .returned none, d := d, calls := calls }
  | d, (key, value, prefix_) :: rest =>
    setOrReturn env calls d key value prefix_ fun d => applySets env calls d rest

/-- The attributes after the given `d.Set` calls have all been stored. -/
def storeAll (attrs : FlatMap) (sets : List (String × Value × String)) : FlatMap :=
  sets.foldl (fun m s => mapSet m s.1 s.2.1) attrs

/-- Whether a call is a `ListInstanceNetworkInterfaces` call. -/
def Call.isListInstanceNetworkInterfaces : Call → Bool
  | .listInstanceNetworkInterfaces _ => true
  | .listInstances _ => false

/-- Go `dataSourceNetworkInterfaceFloatingIpsToMap` with the dereference
`*floatingIpsItem.Deleted` spelled out: it is evaluated by `deref`, inside the
test `floatingIpsItem.Deleted != nil`. -/
def dataSourceNetworkInterfaceFloatingIpsToMap_deref (floatingIpsItem : FloatingIPReference) :
    Except Abort FlatMap := do
  let floatingIpsMap : FlatMap := []
  let floatingIpsMap := setIfNotNil floatingIpsMap "address" floatingIpsItem.Address
  let floatingIpsMap := setIfNotNil floatingIpsMap "crn" floatingIpsItem.CRN
  let floatingIpsMap ←
    if floatingIpsItem.Deleted.isSome then do
      let deletedList : List FlatMap := []
      let deleted ← deref floatingIpsItem.Deleted
      let deletedMap := dataSourceNetworkInterfaceFloatingIpsDeletedToMap deleted
      let deletedList := deletedList ++ [deletedMap]
      pure (mapSet floatingIpsMap "deleted" (.maps deletedList))
    else
      pure floatingIpsMap
  let floatingIpsMap := setIfNotNil floatingIpsMap "href" floatingIpsItem.Href
  let floatingIpsMap := setIfNotNil floatingIpsMap "id" floatingIpsItem.ID
  let floatingIpsMap := setIfNotNil floatingIpsMap "name" floatingIpsItem.Name
  return floatingIpsMap

/-- Go `dataSourceNetworkInterfaceFlattenFloatingIps` over the map function
with its dereference spelled out. -/
def dataSourceNetworkInterfaceFlattenFloatingIps_deref (result : List FloatingIPReference) :
    Except Abort (List FlatMap) :=
  result.foldlM
    (fun floatingIps floatingIpsItem => do
      let floatingIpsMap ← dataSourceNetworkInterfaceFloatingIpsToMap_deref floatingIpsItem
      pure (floatingIps ++ [floatingIpsMap])) []

/-- Go `dataSourceNetworkInterfaceSecurityGroupsToMap` with the dereference
`*securityGroupsItem.Deleted` spelled out. -/
def dataSourceNetworkInterfaceSecurityGroupsToMap_deref
    (securityGroupsItem : SecurityGroupReference) : Except Abort FlatMap := do
  let securityGroupsMap : FlatMap := []
  let securityGroupsMap := setIfNotNil securityGroupsMap "crn" securityGroupsItem.CRN
  let securityGroupsMap ←
    if securityGroupsItem.Deleted.isSome then do
      let deletedList : List FlatMap := []
      let deleted ← deref securityGroupsItem.Deleted
      let deletedMap := dataSourceNetworkInterfaceSecurityGroupsDeletedToMap deleted
      let deletedList := deletedList ++ [deletedMap]
      pure (mapSet securityGroupsMap "deleted" (.maps deletedList))
    else
      pure securityGroupsMap
  let securityGroupsMap := setIfNotNil securityGroupsMap "href" securityGroupsItem.Href
  let securityGroupsMap := setIfNotNil securityGroupsMap "id" securityGroupsItem.ID
  let securityGroupsMap := setIfNotNil securityGroupsMap "name" securityGroupsItem.Name
  return securityGroupsMap

/-- Go `dataSourceNetworkInterfaceFlattenSecurityGroups` over the map function
with its dereference spelled out. -/
def dataSourceNetworkInterfaceFlattenSecurityGroups_deref
    (result : List SecurityGroupReference) : Except Abort (List FlatMap) :=
  result.foldlM
    (fun securityGroups securityGroupsItem => do
      let securityGroupsMap ←
        dataSourceNetworkInterfaceSecurityGroupsToMap_deref securityGroupsItem
      pure (securityGroups ++ [securityGroupsMap])) []

/-- Go `dataSourceNetworkInterfaceSubnetToMap` with the dereference
`*subnetItem.Deleted` spelled out. -/
def dataSourceNetworkInterfaceSubnetToMap_deref (subnetItem : SubnetReference) :
    Except Abort FlatMap := do
  let subnetMap : FlatMap := []
  let subnetMap := setIfNotNil subnetMap "crn" subnetItem.CRN
  let subnetMap ←
    if subnetItem.Deleted.isSome then do
      let deletedList : List FlatMap := []
      let deleted ← deref subnetItem.Deleted
      let deletedMap := dataSourceNetworkInterfaceSubnetDeletedToMap deleted
      let deletedList := deletedList ++ [deletedMap]
      pure (mapSet subnetMap "deleted" (.maps deletedList))
    else
      pure subnetMap
  let subnetMap := setIfNotNil subnetMap "href" subnetItem.Href
  let subnetMap := setIfNotNil subnetMap "id" subnetItem.ID
  let subnetMap := setIfNotNil subnetMap "name" subnetItem.Name
  return subnetMap

/-- Go `dataSourceNetworkInterfaceFlattenSubnet` over the map function with
its dereference spelled out. -/
def dataSourceNetworkInterfaceFlattenSubnet_deref (result : SubnetReference) :
    Except Abort (List FlatMap) := do
  let finalList : List FlatMap := []
  let finalMap ← dataSourceNetworkInterfaceSubnetToMap_deref result
  let finalList := finalList ++ [finalMap]
  return finalList

/-- A sample environment in which the interfaces depend on the instance: as
`sampleEnv`, but instance `id` has the interfaces `interfaces id`, and `d.Set`
fails with "invalid value" for the keys in `rejected`. -/
def sampleEnvByInstance (pages : List InstanceCollection)
    (interfaces : String → List NetworkInterface) (rejected : List String) : Env where
  VpcV1API := none
  ListInstancesWithContext := fun n _ =>
    match pages[n]? with
    | some page => .ok (some page)
    | none => .error { err := "Internal Server Error", response := "status 500" }
  ListInstanceNetworkInterfacesWithContext := fun id =>
    .ok (some { NetworkInterfaces := interfaces id })
  GetNext := fun next =>
    match next with
    | some { Href := some cursor } => cursor
    | _ => ""
  dateTimeToString := fun t => t.getD ""
  intValue := fun i => i.getD 0
  setError := fun key _ => if key ∈ rejected then some "invalid value" else none

/-- A sample environment in which the list call returns neither an error nor
a result: the response had no body, so the result pointer is nil. -/
def sampleEnvNilResult : Env :=
  { sampleEnv [] [] with ListInstancesWithContext := fun _ _ => .ok none }

/-- A sample network interface "eth0" (ID "n-1") with a subnet and nothing else. -/
def sampleSubnetInterface : NetworkInterface :=
  { sampleInterface "n-1" "eth0" with
    Subnet := some { CRN := none, Deleted := none, Href := none, ID := some "s-1",
                     Name := some "net" } }

/-- Go `GetServiceURLForRegion`: the two results, the URL and the error (`none`
for a nil error). The comment on the function in the source reads
"GetServiceURLForRegion returns the service URL to be used for the specified
region". -/
def GetServiceURLForRegion (_region : String) : String × Option String :=
  ("", some "service does not support regional URLs")

/-! ## The read handler of the Schematics state data source -/

/-- The fields of `core.DetailedResponse` that the handler reads; the byte
slice `RawResult` is kept as text. -/
structure DetailedResponse where
  StatusCode : Int
  RawResult : String
  deriving DecidableEq, Repr

/-- The Go variable `stateStore` of type `map[string]interface{}`; `none` is
the nil map it starts as. -/
abbrev StateStore := Option (List (String × Json))

/-- The collaborators of `dataSourceIBMSchematicsStateRead` that are not part
of the handler: the client session and the Schematics service, the clock, the
JSON decoders and encoder of `encoding/json`, `fmt`, the helper
`getBaseController`, the constant `ResourceControllerURL` and the schema check
behind `d.Set`. -/
structure SchematicsEnv where
  /-- The error of `meta.(ClientSession).SchematicsV1()`, `none` for nil. -/
  SchematicsV1 : Option String
  /-- `schematicsClient.GetWorkspaceTemplateStateWithContext` by workspace and
  template ID: its `response` (`none` for a nil pointer) and its error. -/
  GetWorkspaceTemplateStateWithContext : String → String → Option DetailedResponse × Option String
  /-- The text of `response` under the `%s` verb. -/
  responseString : Option DetailedResponse → String
  /-- The text of `time.Now().UTC().String()`. -/
  now : String
  /-- The call `json.Unmarshal(data, &stateStore)`: the value it leaves in
  `stateStore`, and its error. -/
  jsonUnmarshal : String → StateStore → StateStore × Option String
  /-- The call `decoder.Decode(&stateStore)` of a decoder over `data` with
  `UseNumber`: the value it leaves in `stateStore`, and its error. -/
  decoderDecode : String → StateStore → StateStore × Option String
  /-- The text of `fmt.Sprintf("%v", stateStore)`. -/
  formatValue : StateStore → String
  /-- The call `json.MarshalIndent(stateStore, "", "")`. -/
  jsonMarshalIndent : StateStore → Except String String
  /-- The call `getBaseController(meta)`. -/
  getBaseController : Except String String
  /-- The constant `ResourceControllerURL`. -/
  ResourceControllerURL : String
  /-- The error `d.Set(key, value)` returns, `none` for nil. -/
  setError : String → Value → Option String

/-- The `*schema.ResourceData` of the Schematics state data source: the two
configured IDs, the ID and the attributes set so far. -/
structure StateResourceData where
  workspace_id : String
  template_id : String
  id : Option String
  attrs : FlatMap

/-- The result of a run of the Schematics handler: outcome, final resource
data, and the lines written by `log.Printf`. -/
structure StateReadResult where
  outcome : Outcome
  d : StateResourceData
  log : List String

/-- The Go call `d.Set(key, value)` with both of its effects: the resource
data afterwards (the attribute is stored on a nil error) and the error. -/
def StateResourceData.Set (env : SchematicsEnv) (d : StateResourceData) (key : String)
    (value : Value) : StateResourceData × Option String :=
  match env.setError key value with
  | some e => (d, some e)
  | none => ({ d with attrs := mapSet d.attrs key value }, none)

/-- Go `dataSourceIBMSchematicsStateID`. -/
def dataSourceIBMSchematicsStateID (env : SchematicsEnv) (_d : StateResourceData) : String :=
  env.now

/-- Go `dataSourceIBMSchematicsStateRead`. The results that the source drops
(the error of the service call, of `json.Unmarshal`, of `decoder.Decode` and of
the three `d.Set`) are dropped here by taking the other component. -/
def dataSourceIBMSchematicsStateRead (env : SchematicsEnv) (d : StateResourceData) :
    StateReadResult :=
  match env.SchematicsV1 with
  | some e => { outcome := .returned (some e), d := d, log := [] }
  | none =>
    let err : Option String := none
    let response := (env.GetWorkspaceTemplateStateWithContext d.workspace_id d.template_id).1
    match response with
    | none => { outcome := .panicked, d := d, log := [] }
    | some r =>
      if r.StatusCode ≠ 200 then
        let text := "GetWorkspaceTemplateStateWithContext failed " ++ formatError err ++ "\n"
          ++ env.responseString response
        { outcome := .returned (some text), d := d, log := ["[DEBUG] " ++ text] }
      else
        let d := { d with id := some (dataSourceIBMSchematicsStateID env d) }
        let stateStore : StateStore := none
        let stateStore := (env.jsonUnmarshal r.RawResult stateStore).1
        let stateStore := (env.decoderDecode r.RawResult stateStore).1
        let statestr := env.formatValue stateStore
        let d := (d.Set env "state_store" (.str statestr)).1
        match env.jsonMarshalIndent stateStore with
        | .error e => { outcome := .returned (some e), d := d, log := [] }
        | .ok stateStoreJSON =>
          let d := (d.Set env "state_store_json" (.str stateStoreJSON)).1
          match env.getBaseController with
          | .error e => { outcome := .returned (some e), d := d, log := [] }
          | .ok controller =>
            let d := (d.Set env env.ResourceControllerURL (.str (controller ++ "/schematics"))).1
            { outcome := .returned none, d := d, log := [] }

/-- A sample environment of the Schematics handler: the service answers with
`response` and `err`, both decoders leave `decoded.1` in `stateStore` and return
the error `decoded.2`, a nil or empty map prints as "map[]" and encodes as
"null" or "{}", and `d.Set` accepts everything. -/
def sampleSchematicsEnv (response : Option DetailedResponse) (err : Option String)
    (decoded : StateStore × Option String) : SchematicsEnv where
  SchematicsV1 := none
  GetWorkspaceTemplateStateWithContext := fun _ _ => (response, err)
  responseString := fun r =>
    match r with
    | none => "<nil>"
    | some r => r.RawResult
  now := "2021-06-01 12:00:00 +0000 UTC"
  jsonUnmarshal := fun _ _ => decoded
  decoderDecode := fun _ _ => decoded
  formatValue := fun v =>
    match v with
    | none => "map[]"
    | some [] => "map[]"
    | some _ => "map[...]"
  jsonMarshalIndent := fun v =>
    match v with
    | none => .ok "null"
    | some [] => .ok "{}"
    | some _ => .ok "{...}"
  getBaseController := .ok "https://cloud.ibm.com"
  ResourceControllerURL := "resource_controller_url"
  setError := fun _ _ => none

/-- A sample resource data of the Schematics state data source: nothing set yet. -/
def sampleStateData : StateResourceData :=
  { workspace_id := "ws-1", template_id := "t-1", id := none, attrs := [] }

/-! ## The option setters -/

/-- Go `core.StringPtr`: a pointer to the given string. -/
def core.StringPtr (literal : String) : Option String :=
  some literal

/-- The objects of one options type that pointers refer to: a pointer is an
address, the object behind it is the entry of the store at that address. -/
abbrev Store (τ : Type) := List τ

/-- The body shared by the option setters, `options.F = v; return options`, of
a method with a pointer receiver: the object at the address `options` is
assigned to in place and the same pointer is returned. A receiver that points
to no object (nil) makes the assignment panic. -/
def assignAndReturn {τ : Type} (store : Store τ) (options : Nat) (assign : τ → τ) :
    Except Abort (Store τ × Nat) :=
  match store[options]? with
  | none => .error .panic
  | some object => .ok (store.set options (assign object), options)

/-- Go `(*CreateRuleOptions).SetDescription`. -/
def CreateRuleOptions.SetDescription (store : Store CreateRuleOptions) (options : Nat)
    (description : String) : Except Abort (Store CreateRuleOptions × Nat) :=
  assignAndReturn store options fun object =>
    { object with Description := core.StringPtr description }

/-- Go `(*CreateRuleOptions).SetContexts`. -/
def CreateRuleOptions.SetContexts (store : Store CreateRuleOptions) (options : Nat)
    (contexts : Option (List RuleContext)) : Except Abort (Store CreateRuleOptions × Nat) :=
  assignAndReturn store options fun object =>
    { object with Contexts := contexts }

/-- Go `(*CreateRuleOptions).SetResources`. -/
def CreateRuleOptions.SetResources (store : Store CreateRuleOptions) (options : Nat)
    (resources : Option (List Resource)) : Except Abort (Store CreateRuleOptions × Nat) :=
  assignAndReturn store options fun object =>
    { object with Resources := resources }

/-- Go `(*CreateRuleOptions).SetXCorrelationID`. -/
def CreateRuleOptions.SetXCorrelationID (store : Store CreateRuleOptions) (options : Nat)
    (xCorrelationID : String) : Except Abort (Store CreateRuleOptions × Nat) :=
  assignAndReturn store options fun object =>
    { object with XCorrelationID := core.StringPtr xCorrelationID }

/-- Go `(*CreateRuleOptions).SetTransactionID`. -/
def CreateRuleOptions.SetTransactionID (store : Store CreateRuleOptions) (options : Nat)
    (transactionID : String) : Except Abort (Store CreateRuleOptions × Nat) :=
  assignAndReturn store options fun object =>
    { object with TransactionID := core.StringPtr transactionID }

/-- Go `(*CreateRuleOptions).SetHeaders`. -/
def CreateRuleOptions.SetHeaders (store : Store CreateRuleOptions) (options : Nat)
    (param : List (String × String)) : Except Abort (Store CreateRuleOptions × Nat) :=
  assignAndReturn store options fun object =>
    { object with Headers := param }

/-- Go `(*CreateZoneOptions).SetName`. -/
def CreateZoneOptions.SetName (store : Store CreateZoneOptions) (options : Nat)
    (name : String) : Except Abort (Store CreateZoneOptions × Nat) :=
  assignAndReturn store options fun object =>
    { object with Name := core.StringPtr name }

/-- Go `(*CreateZoneOptions).SetAccountID`. -/
def CreateZoneOptions.SetAccountID (store : Store CreateZoneOptions) (options : Nat)
    (accountID : String) : Except Abort (Store CreateZoneOptions × Nat) :=
  assignAndReturn store options fun object =>
    { object with AccountID := core.StringPtr accountID }

/-- Go `(*CreateZoneOptions).SetDescription`. -/
def CreateZoneOptions.SetDescription (store : Store CreateZoneOptions) (options : Nat)
    (description : String) : Except Abort (Store CreateZoneOptions × Nat) :=
  assignAndReturn store options fun object =>
    { object with Description := core.StringPtr description }

/-- Go `(*CreateZoneOptions).SetAddresses`. -/
def CreateZoneOptions.SetAddresses (store : Store CreateZoneOptions) (options : Nat)
    (addresses : Option (List (Option AddressIntf))) : Except Abort (Store CreateZoneOptions × Nat) :=
  assignAndReturn store options fun object =>
    { object with Addresses := addresses }

/-- Go `(*CreateZoneOptions).SetExcluded`. -/
def CreateZoneOptions.SetExcluded (store : Store CreateZoneOptions) (options : Nat)
    (excluded : Option (List (Option AddressIntf))) : Except Abort (Store CreateZoneOptions × Nat) :=
  assignAndReturn store options fun object =>
    { object with Excluded := excluded }

/-- Go `(*CreateZoneOptions).SetXCorrelationID`. -/
def CreateZoneOptions.SetXCorrelationID (store : Store CreateZoneOptions) (options : Nat)
    (xCorrelationID : String) : Except Abort (Store CreateZoneOptions × Nat) :=
  assignAndReturn store options fun object =>
    { object with XCorrelationID := core.StringPtr xCorrelationID }

/-- Go `(*CreateZoneOptions).SetTransactionID`. -/
def CreateZoneOptions.SetTransactionID (store : Store CreateZoneOptions) (options : Nat)
    (transactionID : String) : Except Abort (Store CreateZoneOptions × Nat) :=
  assignAndReturn store options fun object =>
    { object with TransactionID := core.StringPtr transactionID }

/-- Go `(*CreateZoneOptions).SetHeaders`. -/
def CreateZoneOptions.SetHeaders (store : Store CreateZoneOptions) (options : Nat)
    (param : List (String × String)) : Except Abort (Store CreateZoneOptions × Nat) :=
  assignAndReturn store options fun object =>
    { object with Headers := param }

/-- Go `(*DeleteRuleOptions).SetRuleID`. -/
def DeleteRuleOptions.SetRuleID (store : Store DeleteRuleOptions) (options : Nat)
    (ruleID : String) : Except Abort (Store DeleteRuleOptions × Nat) :=
  assignAndReturn store options fun object =>
    { object with RuleID := core.StringPtr ruleID }

/-- Go `(*DeleteRuleOptions).SetXCorrelationID`. -/
def DeleteRuleOptions.SetXCorrelationID (store : Store DeleteRuleOptions) (options : Nat)
    (xCorrelationID : String) : Except Abort (Store DeleteRuleOptions × Nat) :=
  assignAndReturn store options fun object =>
    { object with XCorrelationID := core.StringPtr xCorrelationID }

/-- Go `(*DeleteRuleOptions).SetTransactionID`. -/
def DeleteRuleOptions.SetTransactionID (store : Store DeleteRuleOptions) (options : Nat)
    (transactionID : String) : Except Abort (Store DeleteRuleOptions × Nat) :=
  assignAndReturn store options fun object =>
    { object with TransactionID := core.StringPtr transactionID }

/-- Go `(*DeleteRuleOptions).SetHeaders`. -/
def DeleteRuleOptions.SetHeaders (store : Store DeleteRuleOptions) (options : Nat)
    (param : List (String × String)) : Except Abort (Store DeleteRuleOptions × Nat) :=
  assignAndReturn store options fun object =>
    { object with Headers := param }

/-- Go `(*DeleteZoneOptions).SetZoneID`. -/
def DeleteZoneOptions.SetZoneID (store : Store DeleteZoneOptions) (options : Nat)
    (zoneID : String) : Except Abort (Store DeleteZoneOptions × Nat) :=
  assignAndReturn store options fun object =>
    { object with ZoneID := core.StringPtr zoneID }

/-- Go `(*DeleteZoneOptions).SetXCorrelationID`. -/
def DeleteZoneOptions.SetXCorrelationID (store : Store DeleteZoneOptions) (options : Nat)
    (xCorrelationID : String) : Except Abort (Store DeleteZoneOptions × Nat) :=
  assignAndReturn store options fun object =>
    { object with XCorrelationID := core.StringPtr xCorrelationID }

/-- Go `(*DeleteZoneOptions).SetTransactionID`. -/
def DeleteZoneOptions.SetTransactionID (store : Store DeleteZoneOptions) (options : Nat)
    (transactionID : String) : Except Abort (Store DeleteZoneOptions × Nat) :=
  assignAndReturn store options fun object =>
    { object with TransactionID := core.StringPtr transactionID }

/-- Go `(*DeleteZoneOptions).SetHeaders`. -/
def DeleteZoneOptions.SetHeaders (store : Store DeleteZoneOptions) (options : Nat)
    (param : List (String × String)) : Except Abort (Store DeleteZoneOptions × Nat) :=
  assignAndReturn store options fun object =>
    { object with Headers := param }

/-- Go `(*GetAccountSettingsOptions).SetAccountID`. -/
def GetAccountSettingsOptions.SetAccountID (store : Store GetAccountSettingsOptions) (options : Nat)
    (accountID : String) : Except Abort (Store GetAccountSettingsOptions × Nat) :=
  assignAndReturn store options fun object =>
    { object with AccountID := core.StringPtr accountID }

/-- Go `(*GetAccountSettingsOptions).SetXCorrelationID`. -/
def GetAccountSettingsOptions.SetXCorrelationID (store : Store GetAccountSettingsOptions) (options : Nat)
    (xCorrelationID : String) : Except Abort (Store GetAccountSettingsOptions × Nat) :=
  assignAndReturn store options fun object =>
    { object with XCorrelationID := core.StringPtr xCorrelationID }

/-- Go `(*GetAccountSettingsOptions).SetTransactionID`. -/
def GetAccountSettingsOptions.SetTransactionID (store : Store GetAccountSettingsOptions) (options : Nat)
    (transactionID : String) : Except Abort (Store GetAccountSettingsOptions × Nat) :=
  assignAndReturn store options fun object =>
    { object with TransactionID := core.StringPtr transactionID }

/-- Go `(*GetAccountSettingsOptions).SetHeaders`. -/
def GetAccountSettingsOptions.SetHeaders (store : Store GetAccountSettingsOptions) (options : Nat)
    (param : List (String × String)) : Except Abort (Store GetAccountSettingsOptions × Nat) :=
  assignAndReturn store options fun object =>
    { object with Headers := param }

/-- Go `(*GetRuleOptions).SetRuleID`. -/
def GetRuleOptions.SetRuleID (store : Store GetRuleOptions) (options : Nat)
    (ruleID : String) : Except Abort (Store GetRuleOptions × Nat) :=
  assignAndReturn store options fun object =>
    { object with RuleID := core.StringPtr ruleID }

/-- Go `(*GetRuleOptions).SetXCorrelationID`. -/
def GetRuleOptions.SetXCorrelationID (store : Store GetRuleOptions) (options : Nat)
    (xCorrelationID : String) : Except Abort (Store GetRuleOptions × Nat) :=
  assignAndReturn store options fun object =>
    { object with XCorrelationID := core.StringPtr xCorrelationID }

/-- Go `(*GetRuleOptions).SetTransactionID`. -/
def GetRuleOptions.SetTransactionID (store : Store GetRuleOptions) (options : Nat)
    (transactionID : String) : Except Abort (Store GetRuleOptions × Nat) :=
  assignAndReturn store options fun object =>
    { object with TransactionID := core.StringPtr transactionID }

/-- Go `(*GetRuleOptions).SetHeaders`. -/
def GetRuleOptions.SetHeaders (store : Store GetRuleOptions) (options : Nat)
    (param : List (String × String)) : Except Abort (Store GetRuleOptions × Nat) :=
  assignAndReturn store options fun object =>
    { object with Headers := param }

/-- Go `(*GetZoneOptions).SetZoneID`. -/
def GetZoneOptions.SetZoneID (store : Store GetZoneOptions) (options : Nat)
    (zoneID : String) : Except Abort (Store GetZoneOptions × Nat) :=
  assignAndReturn store options fun object =>
    { object with ZoneID := core.StringPtr zoneID }

/-- Go `(*GetZoneOptions).SetXCorrelationID`. -/
def GetZoneOptions.SetXCorrelationID (store : Store GetZoneOptions) (options : Nat)
    (xCorrelationID : String) : Except Abort (Store GetZoneOptions × Nat) :=
  assignAndReturn store options fun object =>
    { object with XCorrelationID := core.StringPtr xCorrelationID }

/-- Go `(*GetZoneOptions).SetTransactionID`. -/
def GetZoneOptions.SetTransactionID (store : Store GetZoneOptions) (options : Nat)
    (transactionID : String) : Except Abort (Store GetZoneOptions × Nat) :=
  assignAndReturn store options fun object =>
    { object with TransactionID := core.StringPtr transactionID }

/-- Go `(*GetZoneOptions).SetHeaders`. -/
def GetZoneOptions.SetHeaders (store : Store GetZoneOptions) (options : Nat)
    (param : List (String × String)) : Except Abort (Store GetZoneOptions × Nat) :=
  assignAndReturn store options fun object =>
    { object with Headers := param }

/-- Go `(*ListAvailableServicerefTargetsOptions).SetXCorrelationID`. -/
def ListAvailableServicerefTargetsOptions.SetXCorrelationID (store : Store ListAvailableServicerefTargetsOptions) (options : Nat)
    (xCorrelationID : String) : Except Abort (Store ListAvailableServicerefTargetsOptions × Nat) :=
  assignAndReturn store options fun object =>
    { object with XCorrelationID := core.StringPtr xCorrelationID }

/-- Go `(*ListAvailableServicerefTargetsOptions).SetTransactionID`. -/
def ListAvailableServicerefTargetsOptions.SetTransactionID (store : Store ListAvailableServicerefTargetsOptions) (options : Nat)
    (transactionID : String) : Except Abort (Store ListAvailableServicerefTargetsOptions × Nat) :=
  assignAndReturn store options fun object =>
    { object with TransactionID := core.StringPtr transactionID }

/-- Go `(*ListAvailableServicerefTargetsOptions).SetType`. -/
def ListAvailableServicerefTargetsOptions.SetType (store : Store ListAvailableServicerefTargetsOptions) (options : Nat)
    (typeVar : String) : Except Abort (Store ListAvailableServicerefTargetsOptions × Nat) :=
  assignAndReturn store options fun object =>
    { object with Type_ := core.StringPtr typeVar }

/-- Go `(*ListAvailableServicerefTargetsOptions).SetHeaders`. -/
def ListAvailableServicerefTargetsOptions.SetHeaders (store : Store ListAvailableServicerefTargetsOptions) (options : Nat)
    (param : List (String × String)) : Except Abort (Store ListAvailableServicerefTargetsOptions × Nat) :=
  assignAndReturn store options fun object =>
    { object with Headers := param }

/-- Go `(*ListRulesOptions).SetAccountID`. -/
def ListRulesOptions.SetAccountID (store : Store ListRulesOptions) (options : Nat)
    (accountID : String) : Except Abort (Store ListRulesOptions × Nat) :=
  assignAndReturn store options fun object =>
    { object with AccountID := core.StringPtr accountID }

/-- Go `(*ListRulesOptions).SetXCorrelationID`. -/
def ListRulesOptions.SetXCorrelationID (store : Store ListRulesOptions) (options : Nat)
    (xCorrelationID : String) : Except Abort (Store ListRulesOptions × Nat) :=
  assignAndReturn store options fun object =>
    { object with XCorrelationID := core.StringPtr xCorrelationID }

/-- Go `(*ListRulesOptions).SetTransactionID`. -/
def ListRulesOptions.SetTransactionID (store : Store ListRulesOptions) (options : Nat)
    (transactionID : String) : Except Abort (Store ListRulesOptions × Nat) :=
  assignAndReturn store options fun object =>
    { object with TransactionID := core.StringPtr transactionID }

/-- Go `(*ListRulesOptions).SetRegion`. -/
def ListRulesOptions.SetRegion (store : Store ListRulesOptions) (options : Nat)
    (region : String) : Except Abort (Store ListRulesOptions × Nat) :=
  assignAndReturn store options fun object =>
    { object with Region := core.StringPtr region }

/-- Go `(*ListRulesOptions).SetResource`. -/
def ListRulesOptions.SetResource (store : Store ListRulesOptions) (options : Nat)
    (resource : String) : Except Abort (Store ListRulesOptions × Nat) :=
  assignAndReturn store options fun object =>
    { object with Resource := core.StringPtr resource }

/-- Go `(*ListRulesOptions).SetResourceType`. -/
def ListRulesOptions.SetResourceType (store : Store ListRulesOptions) (options : Nat)
    (resourceType : String) : Except Abort (Store ListRulesOptions × Nat) :=
  assignAndReturn store options fun object =>
    { object with ResourceType := core.StringPtr resourceType }

/-- Go `(*ListRulesOptions).SetServiceInstance`. -/
def ListRulesOptions.SetServiceInstance (store : Store ListRulesOptions) (options : Nat)
    (serviceInstance : String) : Except Abort (Store ListRulesOptions × Nat) :=
  assignAndReturn store options fun object =>
    { object with ServiceInstance := core.StringPtr serviceInstance }

/-- Go `(*ListRulesOptions).SetServiceName`. -/
def ListRulesOptions.SetServiceName (store : Store ListRulesOptions) (options : Nat)
    (serviceName : String) : Except Abort (Store ListRulesOptions × Nat) :=
  assignAndReturn store options fun object =>
    { object with ServiceName := core.StringPtr serviceName }

/-- Go `(*ListRulesOptions).SetServiceType`. -/
def ListRulesOptions.SetServiceType (store : Store ListRulesOptions) (options : Nat)
    (serviceType : String) : Except Abort (Store ListRulesOptions × Nat) :=
  assignAndReturn store options fun object =>
    { object with ServiceType := core.StringPtr serviceType }

/-- Go `(*ListRulesOptions).SetZoneID`. -/
def ListRulesOptions.SetZoneID (store : Store ListRulesOptions) (options : Nat)
    (zoneID : String) : Except Abort (Store ListRulesOptions × Nat) :=
  assignAndReturn store options fun object =>
    { object with ZoneID := core.StringPtr zoneID }

/-- Go `(*ListRulesOptions).SetSort`. -/
def ListRulesOptions.SetSort (store : Store ListRulesOptions) (options : Nat)
    (sort : String) : Except Abort (Store ListRulesOptions × Nat) :=
  assignAndReturn store options fun object =>
    { object with Sort_ := core.StringPtr sort }

/-- Go `(*ListRulesOptions).SetHeaders`. -/
def ListRulesOptions.SetHeaders (store : Store ListRulesOptions) (options : Nat)
    (param : List (String × String)) : Except Abort (Store ListRulesOptions × Nat) :=
  assignAndReturn store options fun object =>
    { object with Headers := param }

/-- Go `(*ListZonesOptions).SetAccountID`. -/
def ListZonesOptions.SetAccountID (store : Store ListZonesOptions) (options : Nat)
    (accountID : String) : Except Abort (Store ListZonesOptions × Nat) :=
  assignAndReturn store options fun object =>
    { object with AccountID := core.StringPtr accountID }

/-- Go `(*ListZonesOptions).SetXCorrelationID`. -/
def ListZonesOptions.SetXCorrelationID (store : Store ListZonesOptions) (options : Nat)
    (xCorrelationID : String) : Except Abort (Store ListZonesOptions × Nat) :=
  assignAndReturn store options fun object =>
    { object with XCorrelationID := core.StringPtr xCorrelationID }

/-- Go `(*ListZonesOptions).SetTransactionID`. -/
def ListZonesOptions.SetTransactionID (store : Store ListZonesOptions) (options : Nat)
    (transactionID : String) : Except Abort (Store ListZonesOptions × Nat) :=
  assignAndReturn store options fun object =>
    { object with TransactionID := core.StringPtr transactionID }

/-- Go `(*ListZonesOptions).SetName`. -/
def ListZonesOptions.SetName (store : Store ListZonesOptions) (options : Nat)
    (name : String) : Except Abort (Store ListZonesOptions × Nat) :=
  assignAndReturn store options fun object =>
    { object with Name := core.StringPtr name }

/-- Go `(*ListZonesOptions).SetSort`. -/
def ListZonesOptions.SetSort (store : Store ListZonesOptions) (options : Nat)
    (sort : String) : Except Abort (Store ListZonesOptions × Nat) :=
  assignAndReturn store options fun object =>
    { object with Sort_ := core.StringPtr sort }

/-- Go `(*ListZonesOptions).SetHeaders`. -/
def ListZonesOptions.SetHeaders (store : Store ListZonesOptions) (options : Nat)
    (param : List (String × String)) : Except Abort (Store ListZonesOptions × Nat) :=
  assignAndReturn store options fun object =>
    { object with Headers := param }

/-- Go `(*ReplaceRuleOptions).SetRuleID`. -/
def ReplaceRuleOptions.SetRuleID (store : Store ReplaceRuleOptions) (options : Nat)
    (ruleID : String) : Except Abort (Store ReplaceRuleOptions × Nat) :=
  assignAndReturn store options fun object =>
    { object with RuleID := core.StringPtr ruleID }

/-- Go `(*ReplaceRuleOptions).SetIfMatch`. -/
def ReplaceRuleOptions.SetIfMatch (store : Store ReplaceRuleOptions) (options : Nat)
    (ifMatch : String) : Except Abort (Store ReplaceRuleOptions × Nat) :=
  assignAndReturn store options fun object =>
    { object with IfMatch := core.StringPtr ifMatch }

/-- Go `(*ReplaceRuleOptions).SetDescription`. -/
def ReplaceRuleOptions.SetDescription (store : Store ReplaceRuleOptions) (options : Nat)
    (description : String) : Except Abort (Store ReplaceRuleOptions × Nat) :=
  assignAndReturn store options fun object =>
    { object with Description := core.StringPtr description }

/-- Go `(*ReplaceRuleOptions).SetContexts`. -/
def ReplaceRuleOptions.SetContexts (store : Store ReplaceRuleOptions) (options : Nat)
    (contexts : Option (List RuleContext)) : Except Abort (Store ReplaceRuleOptions × Nat) :=
  assignAndReturn store options fun object =>
    { object with Contexts := contexts }

/-- Go `(*ReplaceRuleOptions).SetResources`. -/
def ReplaceRuleOptions.SetResources (store : Store ReplaceRuleOptions) (options : Nat)
    (resources : Option (List Resource)) : Except Abort (Store ReplaceRuleOptions × Nat) :=
  assignAndReturn store options fun object =>
    { object with Resources := resources }

/-- Go `(*ReplaceRuleOptions).SetXCorrelationID`. -/
def ReplaceRuleOptions.SetXCorrelationID (store : Store ReplaceRuleOptions) (options : Nat)
    (xCorrelationID : String) : Except Abort (Store ReplaceRuleOptions × Nat) :=
  assignAndReturn store options fun object =>
    { object with XCorrelationID := core.StringPtr xCorrelationID }

/-- Go `(*ReplaceRuleOptions).SetTransactionID`. -/
def ReplaceRuleOptions.SetTransactionID (store : Store ReplaceRuleOptions) (options : Nat)
    (transactionID : String) : Except Abort (Store ReplaceRuleOptions × Nat) :=
  assignAndReturn store options fun object =>
    { object with TransactionID := core.StringPtr transactionID }

/-- Go `(*ReplaceRuleOptions).SetHeaders`. -/
def ReplaceRuleOptions.SetHeaders (store : Store ReplaceRuleOptions) (options : Nat)
    (param : List (String × String)) : Except Abort (Store ReplaceRuleOptions × Nat) :=
  assignAndReturn store options fun object =>
    { object with Headers := param }

/-- Go `(*ReplaceZoneOptions).SetZoneID`. -/
def ReplaceZoneOptions.SetZoneID (store : Store ReplaceZoneOptions) (options : Nat)
    (zoneID : String) : Except Abort (Store ReplaceZoneOptions × Nat) :=
  assignAndReturn store options fun object =>
    { object with ZoneID := core.StringPtr zoneID }

/-- Go `(*ReplaceZoneOptions).SetIfMatch`. -/
def ReplaceZoneOptions.SetIfMatch (store : Store ReplaceZoneOptions) (options : Nat)
    (ifMatch : String) : Except Abort (Store ReplaceZoneOptions × Nat) :=
  assignAndReturn store options fun object =>
    { object with IfMatch := core.StringPtr ifMatch }

/-- Go `(*ReplaceZoneOptions).SetName`. -/
def ReplaceZoneOptions.SetName (store : Store ReplaceZoneOptions) (options : Nat)
    (name : String) : Except Abort (Store ReplaceZoneOptions × Nat) :=
  assignAndReturn store options fun object =>
    { object with Name := core.StringPtr name }

/-- Go `(*ReplaceZoneOptions).SetAccountID`. -/
def ReplaceZoneOptions.SetAccountID (store : Store ReplaceZoneOptions) (options : Nat)
    (accountID : String) : Except Abort (Store ReplaceZoneOptions × Nat) :=
  assignAndReturn store options fun object =>
    { object with AccountID := core.StringPtr accountID }

/-- Go `(*ReplaceZoneOptions).SetDescription`. -/
def ReplaceZoneOptions.SetDescription (store : Store ReplaceZoneOptions) (options : Nat)
    (description : String) : Except Abort (Store ReplaceZoneOptions × Nat) :=
  assignAndReturn store options fun object =>
    { object with Description := core.StringPtr description }

/-- Go `(*ReplaceZoneOptions).SetAddresses`. -/
def ReplaceZoneOptions.SetAddresses (store : Store ReplaceZoneOptions) (options : Nat)
    (addresses : Option (List (Option AddressIntf))) : Except Abort (Store ReplaceZoneOptions × Nat) :=
  assignAndReturn store options fun object =>
    { object with Addresses := addresses }

/-- Go `(*ReplaceZoneOptions).SetExcluded`. -/
def ReplaceZoneOptions.SetExcluded (store : Store ReplaceZoneOptions) (options : Nat)
    (excluded : Option (List (Option AddressIntf))) : Except Abort (Store ReplaceZoneOptions × Nat) :=
  assignAndReturn store options fun object =>
    { object with Excluded := excluded }

/-- Go `(*ReplaceZoneOptions).SetXCorrelationID`. -/
def ReplaceZoneOptions.SetXCorrelationID (store : Store ReplaceZoneOptions) (options : Nat)
    (xCorrelationID : String) : Except Abort (Store ReplaceZoneOptions × Nat) :=
  assignAndReturn store options fun object =>
    { object with XCorrelationID := core.StringPtr xCorrelationID }

/-- Go `(*ReplaceZoneOptions).SetTransactionID`. -/
def ReplaceZoneOptions.SetTransactionID (store : Store ReplaceZoneOptions) (options : Nat)
    (transactionID : String) : Except Abort (Store ReplaceZoneOptions × Nat) :=
  assignAndReturn store options fun object =>
    { object with TransactionID := core.StringPtr transactionID }

/-- Go `(*ReplaceZoneOptions).SetHeaders`. -/
def ReplaceZoneOptions.SetHeaders (store : Store ReplaceZoneOptions) (options : Nat)
    (param : List (String × String)) : Except Abort (Store ReplaceZoneOptions × Nat) :=
  assignAndReturn store options fun object =>
    { object with Headers := param }

/-- A setter of the options type `τ` together with the field it is named
after: the method itself, the read of the field, the write of the field alone,
and the way the argument is stored in the field (`core.StringPtr` for the
string options, the argument itself for slices and the header map). -/
structure Setter (τ : Type) where
  {α : Type}
  {β : Type}
  set : Store τ → Nat → α → Except Abort (Store τ × Nat)
  field : τ → β
  reset : τ → β → τ
  stored : α → β

/-- Two setter calls chained on the returned pointer, as in
`options.SetX(a).SetY(b)`. -/
def chain {τ α β : Type} (first : Store τ → Nat → α → Except Abort (Store τ × Nat))
    (second : Store τ → Nat → β → Except Abort (Store τ × Nat)) (store : Store τ)
    (options : Nat) (a : α) (b : β) : Except Abort (Store τ × Nat) := do
  let returned ← first store options a
  second returned.1 returned.2 b

/-- What is claimed of one setter: called with `v` on a pointer to a live
object, it returns that very pointer; the object behind it then has `v` in the
field; writing the old value back into that field alone gives the old object
again, so no other field has changed; and the other objects are as before. -/
def Setter.SetsFieldAndReturnsSelf {τ : Type} (s : Setter τ) : Prop :=
  ∀ (store : Store τ) (options : Nat) (object : τ) (v : s.α),
    store[options]? = some object →
    ∃ (store' : Store τ) (object' : τ),
      s.set store options v = .ok (store', options) ∧
      store'[options]? = some object' ∧
      s.field object' = s.stored v ∧
      s.reset object' (s.field object) = object ∧
      ∀ other, other ≠ options → store'[other]? = store[other]?

/-- A repeated setter keeps the last value: `SetX(a).SetX(b)` is `SetX(b)`. -/
def Setter.LastValueWins {τ : Type} (s : Setter τ) : Prop :=
  ∀ (store : Store τ) (options : Nat) (a b : s.α),
    chain s.set s.set store options a b = s.set store options b

/-- Two setters commute: `SetX(a).SetY(b)` and `SetY(b).SetX(a)` leave the same
store and return the same pointer. -/
def SettersCommute {τ : Type} (s t : Setter τ) : Prop :=
  ∀ (store : Store τ) (options : Nat) (a : s.α) (b : t.α),
    chain s.set t.set store options a b = chain t.set s.set store options b a

/-- The setters of `CreateRuleOptions`, each with its field, in source order. -/
def CreateRuleOptions.setters : List (Setter CreateRuleOptions) :=
  [{ set := CreateRuleOptions.SetDescription, field := CreateRuleOptions.Description,
     reset := fun object value => { object with Description := value },
     stored := core.StringPtr },
   { set := CreateRuleOptions.SetContexts, field := CreateRuleOptions.Contexts,
     reset := fun object value => { object with Contexts := value },
     stored := id },
   { set := CreateRuleOptions.SetResources, field := CreateRuleOptions.Resources,
     reset := fun object value => { object with Resources := value },
     stored := id },
   { set := CreateRuleOptions.SetXCorrelationID, field := CreateRuleOptions.XCorrelationID,
     reset := fun object value => { object with XCorrelationID := value },
     stored := core.StringPtr },
   { set := CreateRuleOptions.SetTransactionID, field := CreateRuleOptions.TransactionID,
     reset := fun object value => { object with TransactionID := value },
     stored := core.StringPtr },
   { set := CreateRuleOptions.SetHeaders, field := CreateRuleOptions.Headers,
     reset := fun object value => { object with Headers := value },
     stored := id }]

/-- The setters of `CreateZoneOptions`, each with its field, in source order. -/
def CreateZoneOptions.setters : List (Setter CreateZoneOptions) :=
  [{ set := CreateZoneOptions.SetName, field := CreateZoneOptions.Name,
     reset := fun object value => { object with Name := value },
     stored := core.StringPtr },
   { set := CreateZoneOptions.SetAccountID, field := CreateZoneOptions.AccountID,
     reset := fun object value => { object with AccountID := value },
     stored := core.StringPtr },
   { set := CreateZoneOptions.SetDescription, field := CreateZoneOptions.Description,
     reset := fun object value => { object with Description := value },
     stored := core.StringPtr },
   { set := CreateZoneOptions.SetAddresses, field := CreateZoneOptions.Addresses,
     reset := fun object value => { object with Addresses := value },
     stored := id },
   { set := CreateZoneOptions.SetExcluded, field := CreateZoneOptions.Excluded,
     reset := fun object value => { object with Excluded := value },
     stored := id },
   { set := CreateZoneOptions.SetXCorrelationID, field := CreateZoneOptions.XCorrelationID,
     reset := fun object value => { object with XCorrelationID := value },
     stored := core.StringPtr },
   { set := CreateZoneOptions.SetTransactionID, field := CreateZoneOptions.TransactionID,
     reset := fun object value => { object with TransactionID := value },
     stored := core.StringPtr },
   { set := CreateZoneOptions.SetHeaders, field := CreateZoneOptions.Headers,
     reset := fun object value => { object with Headers := value },
     stored := id }]

/-- The setters of `DeleteRuleOptions`, each with its field, in source order. -/
def DeleteRuleOptions.setters : List (Setter DeleteRuleOptions) :=
  [{ set := DeleteRuleOptions.SetRuleID, field := DeleteRuleOptions.RuleID,
     reset := fun object value => { object with RuleID := value },
     stored := core.StringPtr },
   { set := DeleteRuleOptions.SetXCorrelationID, field := DeleteRuleOptions.XCorrelationID,
     reset := fun object value => { object with XCorrelationID := value },
     stored := core.StringPtr },
   { set := DeleteRuleOptions.SetTransactionID, field := DeleteRuleOptions.TransactionID,
     reset := fun object value => { object with TransactionID := value },
     stored := core.StringPtr },
   { set := DeleteRuleOptions.SetHeaders, field := DeleteRuleOptions.Headers,
     reset := fun object value => { object with Headers := value },
     stored := id }]

/-- The setters of `DeleteZoneOptions`, each with its field, in source order. -/
def DeleteZoneOptions.setters : List (Setter DeleteZoneOptions) :=
  [{ set := DeleteZoneOptions.SetZoneID, field := DeleteZoneOptions.ZoneID,
     reset := fun object value => { object with ZoneID := value },
     stored := core.StringPtr },
   { set := DeleteZoneOptions.SetXCorrelationID, field := DeleteZoneOptions.XCorrelationID,
     reset := fun object value => { object with XCorrelationID := value },
     stored := core.StringPtr },
   { set := DeleteZoneOptions.SetTransactionID, field := DeleteZoneOptions.TransactionID,
     reset := fun object value => { object with TransactionID := value },
     stored := core.StringPtr },
   { set := DeleteZoneOptions.SetHeaders, field := DeleteZoneOptions.Headers,
     reset := fun object value => { object with Headers := value },
     stored := id }]

/-- The setters of `GetAccountSettingsOptions`, each with its field, in source order. -/
def GetAccountSettingsOptions.setters : List (Setter GetAccountSettingsOptions) :=
  [{ set := GetAccountSettingsOptions.SetAccountID, field := GetAccountSettingsOptions.AccountID,
     reset := fun object value => { object with AccountID := value },
     stored := core.StringPtr },
   { set := GetAccountSettingsOptions.SetXCorrelationID, field := GetAccountSettingsOptions.XCorrelationID,
     reset := fun object value => { object with XCorrelationID := value },
     stored := core.StringPtr },
   { set := GetAccountSettingsOptions.SetTransactionID, field := GetAccountSettingsOptions.TransactionID,
     reset := fun object value => { object with TransactionID := value },
     stored := core.StringPtr },
   { set := GetAccountSettingsOptions.SetHeaders, field := GetAccountSettingsOptions.Headers,
     reset := fun object value => { object with Headers := value },
     stored := id }]

/-- The setters of `GetRuleOptions`, each with its field, in source order. -/
def GetRuleOptions.setters : List (Setter GetRuleOptions) :=
  [{ set := GetRuleOptions.SetRuleID, field := GetRuleOptions.RuleID,
     reset := fun object value => { object with RuleID := value },
     stored := core.StringPtr },
   { set := GetRuleOptions.SetXCorrelationID, field := GetRuleOptions.XCorrelationID,
     reset := fun object value => { object with XCorrelationID := value },
     stored := core.StringPtr },
   { set := GetRuleOptions.SetTransactionID, field := GetRuleOptions.TransactionID,
     reset := fun object value => { object with TransactionID := value },
     stored := core.StringPtr },
   { set := GetRuleOptions.SetHeaders, field := GetRuleOptions.Headers,
     reset := fun object value => { object with Headers := value },
     stored := id }]

/-- The setters of `GetZoneOptions`, each with its field, in source order. -/
def GetZoneOptions.setters : List (Setter GetZoneOptions) :=
  [{ set := GetZoneOptions.SetZoneID, field := GetZoneOptions.ZoneID,
     reset := fun object value => { object with ZoneID := value },
     stored := core.StringPtr },
   { set := GetZoneOptions.SetXCorrelationID, field := GetZoneOptions.XCorrelationID,
     reset := fun object value => { object with XCorrelationID := value },
     stored := core.StringPtr },
   { set := GetZoneOptions.SetTransactionID, field := GetZoneOptions.TransactionID,
     reset := fun object value => { object with TransactionID := value },
     stored := core.StringPtr },
   { set := GetZoneOptions.SetHeaders, field := GetZoneOptions.Headers,
     reset := fun object value => { object with Headers := value },
     stored := id }]

/-- The setters of `ListAvailableServicerefTargetsOptions`, each with its field, in source order. -/
def ListAvailableServicerefTargetsOptions.setters : List (Setter ListAvailableServicerefTargetsOptions) :=
  [{ set := ListAvailableServicerefTargetsOptions.SetXCorrelationID, field := ListAvailableServicerefTargetsOptions.XCorrelationID,
     reset := fun object value => { object with XCorrelationID := value },
     stored := core.StringPtr },
   { set := ListAvailableServicerefTargetsOptions.SetTransactionID, field := ListAvailableServicerefTargetsOptions.TransactionID,
     reset := fun object value => { object with TransactionID := value },
     stored := core.StringPtr },
   { set := ListAvailableServicerefTargetsOptions.SetType, field := ListAvailableServicerefTargetsOptions.Type_,
     reset := fun object value => { object with Type_ := value },
     stored := core.StringPtr },
   { set := ListAvailableServicerefTargetsOptions.SetHeaders, field := ListAvailableServicerefTargetsOptions.Headers,
     reset := fun object value => { object with Headers := value },
     stored := id }]

/-- The setters of `ListRulesOptions`, each with its field, in source order. -/
def ListRulesOptions.setters : List (Setter ListRulesOptions) :=
  [{ set := ListRulesOptions.SetAccountID, field := ListRulesOptions.AccountID,
     reset := fun object value => { object with AccountID := value },
     stored := core.StringPtr },
   { set := ListRulesOptions.SetXCorrelationID, field := ListRulesOptions.XCorrelationID,
     reset := fun object value => { object with XCorrelationID := value },
     stored := core.StringPtr },
   { set := ListRulesOptions.SetTransactionID, field := ListRulesOptions.TransactionID,
     reset := fun object value => { object with TransactionID := value },
     stored := core.StringPtr },
   { set := ListRulesOptions.SetRegion, field := ListRulesOptions.Region,
     reset := fun object value => { object with Region := value },
     stored := core.StringPtr },
   { set := ListRulesOptions.SetResource, field := ListRulesOptions.Resource,
     reset := fun object value => { object with Resource := value },
     stored := core.StringPtr },
   { set := ListRulesOptions.SetResourceType, field := ListRulesOptions.ResourceType,
     reset := fun object value => { object with ResourceType := value },
     stored := core.StringPtr },
   { set := ListRulesOptions.SetServiceInstance, field := ListRulesOptions.ServiceInstance,
     reset := fun object value => { object with ServiceInstance := value },
     stored := core.StringPtr },
   { set := ListRulesOptions.SetServiceName, field := ListRulesOptions.ServiceName,
     reset := fun object value => { object with ServiceName := value },
     stored := core.StringPtr },
   { set := ListRulesOptions.SetServiceType, field := ListRulesOptions.ServiceType,
     reset := fun object value => { object with ServiceType := value },
     stored := core.StringPtr },
   { set := ListRulesOptions.SetZoneID, field := ListRulesOptions.ZoneID,
     reset := fun object value => { object with ZoneID := value },
     stored := core.StringPtr },
   { set := ListRulesOptions.SetSort, field := ListRulesOptions.Sort_,
     reset := fun object value => { object with Sort_ := value },
     stored := core.StringPtr },
   { set := ListRulesOptions.SetHeaders, field := ListRulesOptions.Headers,
     reset := fun object value => { object with Headers := value },
     stored := id }]

/-- The setters of `ListZonesOptions`, each with its field, in source order. -/
def ListZonesOptions.setters : List (Setter ListZonesOptions) :=
  [{ set := ListZonesOptions.SetAccountID, field := ListZonesOptions.AccountID,
     reset := fun object value => { object with AccountID := value },
     stored := core.StringPtr },
   { set := ListZonesOptions.SetXCorrelationID, field := ListZonesOptions.XCorrelationID,
     reset := fun object value => { object with XCorrelationID := value },
     stored := core.StringPtr },
   { set := ListZonesOptions.SetTransactionID, field := ListZonesOptions.TransactionID,
     reset := fun object value => { object with TransactionID := value },
     stored := core.StringPtr },
   { set := ListZonesOptions.SetName, field := ListZonesOptions.Name,
     reset := fun object value => { object with Name := value },
     stored := core.StringPtr },
   { set := ListZonesOptions.SetSort, field := ListZonesOptions.Sort_,
     reset := fun object value => { object with Sort_ := value },
     stored := core.StringPtr },
   { set := ListZonesOptions.SetHeaders, field := ListZonesOptions.Headers,
     reset := fun object value => { object with Headers := value },
     stored := id }]

/-- The setters of `ReplaceRuleOptions`, each with its field, in source order. -/
def ReplaceRuleOptions.setters : List (Setter ReplaceRuleOptions) :=
  [{ set := ReplaceRuleOptions.SetRuleID, field := ReplaceRuleOptions.RuleID,
     reset := fun object value => { object with RuleID := value },
     stored := core.StringPtr },
   { set := ReplaceRuleOptions.SetIfMatch, field := ReplaceRuleOptions.IfMatch,
     reset := fun object value => { object with IfMatch := value },
     stored := core.StringPtr },
   { set := ReplaceRuleOptions.SetDescription, field := ReplaceRuleOptions.Description,
     reset := fun object value => { object with Description := value },
     stored := core.StringPtr },
   { set := ReplaceRuleOptions.SetContexts, field := ReplaceRuleOptions.Contexts,
     reset := fun object value => { object with Contexts := value },
     stored := id },
   { set := ReplaceRuleOptions.SetResources, field := ReplaceRuleOptions.Resources,
     reset := fun object value => { object with Resources := value },
     stored := id },
   { set := ReplaceRuleOptions.SetXCorrelationID, field := ReplaceRuleOptions.XCorrelationID,
     reset := fun object value => { object with XCorrelationID := value },
     stored := core.StringPtr },
   { set := ReplaceRuleOptions.SetTransactionID, field := ReplaceRuleOptions.TransactionID,
     reset := fun object value => { object with TransactionID := value },
     stored := core.StringPtr },
   { set := ReplaceRuleOptions.SetHeaders, field := ReplaceRuleOptions.Headers,
     reset := fun object value => { object with Headers := value },
     stored := id }]

/-- The setters of `ReplaceZoneOptions`, each with its field, in source order. -/
def ReplaceZoneOptions.setters : List (Setter ReplaceZoneOptions) :=
  [{ set := ReplaceZoneOptions.SetZoneID, field := ReplaceZoneOptions.ZoneID,
     reset := fun object value => { object with ZoneID := value },
     stored := core.StringPtr },
   { set := ReplaceZoneOptions.SetIfMatch, field := ReplaceZoneOptions.IfMatch,
     reset := fun object value => { object with IfMatch := value },
     stored := core.StringPtr },
   { set := ReplaceZoneOptions.SetName, field := ReplaceZoneOptions.Name,
     reset := fun object value => { object with Name := value },
     stored := core.StringPtr },
   { set := ReplaceZoneOptions.SetAccountID, field := ReplaceZoneOptions.AccountID,
     reset := fun object value => { object with AccountID := value },
     stored := core.StringPtr },
   { set := ReplaceZoneOptions.SetDescription, field := ReplaceZoneOptions.Description,
     reset := fun object value => { object with Description := value },
     stored := core.StringPtr },
   { set := ReplaceZoneOptions.SetAddresses, field := ReplaceZoneOptions.Addresses,
     reset := fun object value => { object with Addresses := value },
     stored := id },
   { set := ReplaceZoneOptions.SetExcluded, field := ReplaceZoneOptions.Excluded,
     reset := fun object value => { object with Excluded := value },
     stored := id },
   { set := ReplaceZoneOptions.SetXCorrelationID, field := ReplaceZoneOptions.XCorrelationID,
     reset := fun object value => { object with XCorrelationID := value },
     stored := core.StringPtr },
   { set := ReplaceZoneOptions.SetTransactionID, field := ReplaceZoneOptions.TransactionID,
     reset := fun object value => { object with TransactionID := value },
     stored := core.StringPtr },
   { set := ReplaceZoneOptions.SetHeaders, field := ReplaceZoneOptions.Headers,
     reset := fun object value => { object with Headers := value },
     stored := id }]

/-- A sample `ListRulesOptions` with only the account set. -/
def sampleListRulesOptions : ListRulesOptions :=
  { AccountID := some "acc-1", XCorrelationID := none, TransactionID := none, Region := none,
    Resource := none, ResourceType := none, ServiceInstance := none, ServiceName := none,
    ServiceType := none, ZoneID := none, Sort_ := none, Headers := [] }

/-! ## Decoding of addresses -/

theorem core_UnmarshalModel_self {τ : Type} (m : RawObject)
    (u : RawObject → Except DecodeError τ) (inj : τ → AddressIntf) :
    core.UnmarshalModel m "" (fun r => (u r).map inj) = viaUnmarshalModel inj (u m) := by
  unfold core.UnmarshalModel viaUnmarshalModel
  cases h : u m <;> simp [Except.map, h]

theorem UnmarshalAddress_of_type (m : RawObject) (t : String)
    (h : m.lookup "type" = some (.str t)) :
    UnmarshalAddress m =
      if t = "" then .error .discriminatorNotFound
      else if t = "ipAddress" then viaUnmarshalModel .ipAddress (UnmarshalAddressIPAddress m)
      else if t = "ipRange" then
        viaUnmarshalModel .ipRange (UnmarshalAddressIPAddressRange m)
      else if t = "subnet" then viaUnmarshalModel .subnet (UnmarshalAddressSubnet m)
      else if t = "vpc" then viaUnmarshalModel .vpc (UnmarshalAddressVPC m)
      else if t = "serviceRef" then
        viaUnmarshalModel .serviceRef (UnmarshalAddressServiceRef m)
      else .error (.discriminatorUnrecognized t) := by
  simp only [UnmarshalAddress, core.UnmarshalPrimitive, h, id, core_UnmarshalModel_self]

theorem viaUnmarshalModel_ne_address {τ : Type} (inj : τ → AddressIntf)
    (hinj : ∀ x a, inj x ≠ .address a) (r : Except DecodeError τ) (a : Address) :
    viaUnmarshalModel inj r ≠ .ok (some (.address a)) := by
  cases r with
  | error e => simp [viaUnmarshalModel]
  | ok obj =>
    simp only [viaUnmarshalModel, ne_eq, Except.ok.injEq, Option.some.injEq]
    exact hinj obj a

theorem UnmarshalAddress_ne_address (m : RawObject) (a : Address) :
    UnmarshalAddress m ≠ .ok (some (.address a)) := by
  unfold UnmarshalAddress
  cases hp : core.UnmarshalPrimitive m "type" id "" with
  | error e => simp
  | ok discValue =>
    simp only [core_UnmarshalModel_self]
    split_ifs <;>
      first
      | (apply viaUnmarshalModel_ne_address; intro x b; simp)
      | simp

/-- C1: when the `type` property of a raw object is "ipAddress", "ipRange",
"subnet", "vpc" or "serviceRef", `UnmarshalAddress` returns what the
unmarshaler of the corresponding variant returns on the same object (its
object as the result, its error wrapped by `core.UnmarshalModel`); and on no
raw object at all does it produce the generic `Address` struct. -/
theorem UnmarshalAddress_dispatches_on_type (m : RawObject) :
    (m.lookup "type" = some (.str "ipAddress") →
      UnmarshalAddress m = viaUnmarshalModel .ipAddress (UnmarshalAddressIPAddress m)) ∧
    (m.lookup "type" = some (.str "ipRange") →
      UnmarshalAddress m = viaUnmarshalModel .ipRange (UnmarshalAddressIPAddressRange m)) ∧
    (m.lookup "type" = some (.str "subnet") →
      UnmarshalAddress m = viaUnmarshalModel .subnet (UnmarshalAddressSubnet m)) ∧
    (m.lookup "type" = some (.str "vpc") →
      UnmarshalAddress m = viaUnmarshalModel .vpc (UnmarshalAddressVPC m)) ∧
    (m.lookup "type" = some (.str "serviceRef") →
      UnmarshalAddress m = viaUnmarshalModel .serviceRef (UnmarshalAddressServiceRef m)) ∧
    (∀ a : Address, UnmarshalAddress m ≠ .ok (some (.address a))) := by
  refine ⟨?_, ?_, ?_, ?_, ?_, UnmarshalAddress_ne_address m⟩ <;>
    intro h <;> rw [UnmarshalAddress_of_type m _ h] <;> simp

/-- Witness of C1: a raw object of type "ipAddress" with a `value`. -/
theorem UnmarshalAddress_dispatches_on_type_witness :
    List.lookup "type" ([("type", .str "ipAddress"), ("value", .str "10.0.0.1")] : RawObject)
        = some (.str "ipAddress") ∧
      UnmarshalAddress [("type", .str "ipAddress"), ("value", .str "10.0.0.1")] =
        viaUnmarshalModel .ipAddress
          (UnmarshalAddressIPAddress [("type", .str "ipAddress"), ("value", .str "10.0.0.1")]) :=
  ⟨rfl, (UnmarshalAddress_dispatches_on_type
    [("type", .str "ipAddress"), ("value", .str "10.0.0.1")]).1 rfl⟩

/-- C2: when `type` is absent from the raw object, or is a string that is not
exactly one of the five recognised values, `UnmarshalAddress` returns an
explicit discriminator error and no result: "required discriminator property
'type' not found" when `type` is absent or the empty string, "unrecognized
value for discriminator property 'type'" (carrying the value) otherwise. -/
theorem UnmarshalAddress_rejects_unrecognised (m : RawObject) :
    (m.lookup "type" = none → UnmarshalAddress m = .error .discriminatorNotFound) ∧
    (∀ s : String, m.lookup "type" = some (.str s) → s ∉ recognisedTypes →
      UnmarshalAddress m =
        .error (if s = "" then .discriminatorNotFound else .discriminatorUnrecognized s)) := by
  constructor
  · intro h
    simp [UnmarshalAddress, core.UnmarshalPrimitive, h]
  · intro s h hs
    simp only [recognisedTypes, List.mem_cons, List.mem_singleton, List.not_mem_nil,
      or_false, not_or] at hs
    obtain ⟨h1, h2, h3, h4, h5⟩ := hs
    rw [UnmarshalAddress_of_type m s h]
    simp only [h1, h2, h3, h4, h5, if_false]
    split_ifs <;> rfl

/-- Witness of C2: a differently-cased `type` is not recognised, and an
object without `type` is rejected. -/
theorem UnmarshalAddress_rejects_unrecognised_witness :
    UnmarshalAddress [("type", .str "IPAddress"), ("value", .str "10.0.0.1")] =
        .error (.discriminatorUnrecognized "IPAddress") ∧
      UnmarshalAddress [("value", .str "10.0.0.1")] = .error .discriminatorNotFound :=
  ⟨(UnmarshalAddress_rejects_unrecognised
      [("type", .str "IPAddress"), ("value", .str "10.0.0.1")]).2 "IPAddress" rfl (by decide),
   (UnmarshalAddress_rejects_unrecognised [("value", .str "10.0.0.1")]).1 rfl⟩

theorem UnmarshalServiceRefValue_marshal (v : ServiceRefValue) :
    UnmarshalServiceRefValue v.marshal = .ok v := by
  obtain ⟨a, t, n, i⟩ := v
  cases a <;> cases t <;> cases n <;> cases i <;> rfl

/-- C3: for each of the five variants, an instance that carries the variant's
own type constant and a non-nil `value` (for AddressServiceRef: a non-nil `ref`,
whatever its four fields hold) is encoded to a JSON object that
`UnmarshalAddress` decodes, without error, to the same variant with the same
type and the same `value` (resp. the same four `ref` fields). -/
theorem UnmarshalAddress_marshal_roundtrip :
    (∀ value : String,
      UnmarshalAddress
          (AddressIPAddress.marshal ⟨some AddressTypeIpaddressConst, some value⟩) =
        .ok (some (.ipAddress ⟨some AddressTypeIpaddressConst, some value⟩))) ∧
    (∀ value : String,
      UnmarshalAddress
          (AddressIPAddressRange.marshal ⟨some AddressTypeIprangeConst, some value⟩) =
        .ok (some (.ipRange ⟨some AddressTypeIprangeConst, some value⟩))) ∧
    (∀ value : String,
      UnmarshalAddress (AddressSubnet.marshal ⟨some AddressTypeSubnetConst, some value⟩) =
        .ok (some (.subnet ⟨some AddressTypeSubnetConst, some value⟩))) ∧
    (∀ value : String,
      UnmarshalAddress (AddressVPC.marshal ⟨some AddressTypeVPCConst, some value⟩) =
        .ok (some (.vpc ⟨some AddressTypeVPCConst, some value⟩))) ∧
    (∀ ref : ServiceRefValue,
      UnmarshalAddress
          (AddressServiceRef.marshal ⟨some AddressTypeServicerefConst, some ref⟩) =
        .ok (some (.serviceRef ⟨some AddressTypeServicerefConst, some ref⟩))) := by
  refine ⟨fun value => rfl, fun value => rfl, fun value => rfl, fun value => rfl, ?_⟩
  intro ref
  have h : UnmarshalAddressServiceRef
      (AddressServiceRef.marshal ⟨some AddressTypeServicerefConst, some ref⟩) =
      .ok ⟨some AddressTypeServicerefConst, some ref⟩ := by
    have hl : List.lookup "ref"
        (AddressServiceRef.marshal ⟨some AddressTypeServicerefConst, some ref⟩) =
        some (.obj ref.marshal) := rfl
    have ht : core.UnmarshalPrimitive
        (AddressServiceRef.marshal ⟨some AddressTypeServicerefConst, some ref⟩) "type"
        some none = .ok (some AddressTypeServicerefConst) := rfl
    have hm : core.UnmarshalModel
        (AddressServiceRef.marshal ⟨some AddressTypeServicerefConst, some ref⟩) "ref"
        UnmarshalServiceRefValue = .ok (some ref) := by
      unfold core.UnmarshalModel
      rw [if_neg (by decide), hl]
      simp only [UnmarshalServiceRefValue_marshal]
    unfold UnmarshalAddressServiceRef
    rw [ht, hm]
    rfl
  rw [UnmarshalAddress_of_type
    (AddressServiceRef.marshal ⟨some AddressTypeServicerefConst, some ref⟩) "serviceRef" rfl, h]
  rfl

/-- Counterexample to C4: an object of type "ipAddress" that carries a `ref`
object and no `value`, and an object of type "serviceRef" that carries a
`value` and no `ref`, are both decoded without error; the field of the named
variant is left nil and the foreign property is ignored. -/
theorem UnmarshalAddress_accepts_shape_mismatch :
    UnmarshalAddress
        [("type", .str "ipAddress"), ("ref", .obj [("account_id", .str "acc")])] =
      .ok (some (.ipAddress { Type_ := some "ipAddress", Value := none })) ∧
    UnmarshalAddress [("type", .str "serviceRef"), ("value", .str "10.0.0.1")] =
      .ok (some (.serviceRef { Type_ := some "serviceRef", Ref := none })) :=
  ⟨rfl, rfl⟩

theorem UnmarshalPrimitive_type (m : RawObject) (t : String)
    (h : m.lookup "type" = some (.str t)) :
    core.UnmarshalPrimitive m "type" (some : String → Option String) none = .ok (some t) := by
  simp [core.UnmarshalPrimitive, h]

/-- C4, amended: for a raw object whose `type` names a variant, a shape that
does not fit is an error only when the property of the named variant is itself
present with the wrong kind of JSON value (`value` an object, array, number or
boolean; `ref` a string, array, number or boolean). When the property of the
named variant is absent, the object is decoded without error with that field
nil, whatever other properties (such as the other variants' `ref` or `value`)
it carries. -/
theorem UnmarshalAddress_shape_mismatch (m : RawObject) :
    (m.lookup "type" = some (.str "ipAddress") → m.lookup "value" = none →
      UnmarshalAddress m = .ok (some (.ipAddress ⟨some "ipAddress", none⟩))) ∧
    (m.lookup "type" = some (.str "ipRange") → m.lookup "value" = none →
      UnmarshalAddress m = .ok (some (.ipRange ⟨some "ipRange", none⟩))) ∧
    (m.lookup "type" = some (.str "subnet") → m.lookup "value" = none →
      UnmarshalAddress m = .ok (some (.subnet ⟨some "subnet", none⟩))) ∧
    (m.lookup "type" = some (.str "vpc") → m.lookup "value" = none →
      UnmarshalAddress m = .ok (some (.vpc ⟨some "vpc", none⟩))) ∧
    (m.lookup "type" = some (.str "serviceRef") → m.lookup "ref" = none →
      UnmarshalAddress m = .ok (some (.serviceRef ⟨some "serviceRef", none⟩))) ∧
    (∀ t ∈ ["ipAddress", "ipRange", "subnet", "vpc"], ∀ v : Json,
      m.lookup "type" = some (.str t) → m.lookup "value" = some v →
      (∀ s, v ≠ .str s) → v ≠ .null →
      UnmarshalAddress m =
        .error (.unmarshalModel "" (.unmarshalPrimitive "value"))) ∧
    (∀ v : Json, m.lookup "type" = some (.str "serviceRef") → m.lookup "ref" = some v →
      (∀ fields, v ≠ .obj fields) → v ≠ .null →
      UnmarshalAddress m = .error (.unmarshalModel "" (.unmarshalModelInput "ref"))) := by
  refine ⟨?_, ?_, ?_, ?_, ?_, ?_, ?_⟩
  · intro ht hv
    rw [UnmarshalAddress_of_type m _ ht]
    simp only [UnmarshalAddressIPAddress, UnmarshalPrimitive_type m _ ht]
    simp [core.UnmarshalPrimitive, hv, viaUnmarshalModel, bind, Except.bind, pure, Except.pure]
  · intro ht hv
    rw [UnmarshalAddress_of_type m _ ht]
    simp only [UnmarshalAddressIPAddressRange, UnmarshalPrimitive_type m _ ht]
    simp [core.UnmarshalPrimitive, hv, viaUnmarshalModel, bind, Except.bind, pure, Except.pure]
  · intro ht hv
    rw [UnmarshalAddress_of_type m _ ht]
    simp only [UnmarshalAddressSubnet, UnmarshalPrimitive_type m _ ht]
    simp [core.UnmarshalPrimitive, hv, viaUnmarshalModel, bind, Except.bind, pure, Except.pure]
  · intro ht hv
    rw [UnmarshalAddress_of_type m _ ht]
    simp only [UnmarshalAddressVPC, UnmarshalPrimitive_type m _ ht]
    simp [core.UnmarshalPrimitive, hv, viaUnmarshalModel, bind, Except.bind, pure, Except.pure]
  · intro ht hv
    rw [UnmarshalAddress_of_type m _ ht]
    simp only [UnmarshalAddressServiceRef, UnmarshalPrimitive_type m _ ht]
    simp [core.UnmarshalModel, hv, viaUnmarshalModel, bind, Except.bind, pure, Except.pure]
  · intro t htmem v ht hv hstr hnull
    have hp : core.UnmarshalPrimitive m "value" (some : String → Option String) none =
        .error (.unmarshalPrimitive "value") := by
      unfold core.UnmarshalPrimitive
      rw [hv]
      cases v with
      | null => exact absurd rfl hnull
      | str s => exact absurd rfl (hstr s)
      | bool b => rfl
      | num n => rfl
      | arr items => rfl
      | obj fields => rfl
    rw [UnmarshalAddress_of_type m _ ht]
    simp only [List.mem_cons, List.mem_singleton, List.not_mem_nil, or_false] at htmem
    rcases htmem with rfl | rfl | rfl | rfl <;>
      simp [UnmarshalAddressIPAddress, UnmarshalAddressIPAddressRange, UnmarshalAddressSubnet,
        UnmarshalAddressVPC, UnmarshalPrimitive_type m _ ht, hp, viaUnmarshalModel, bind,
        Except.bind]
  · intro v ht hv hobj hnull
    have hp : core.UnmarshalModel m "ref" UnmarshalServiceRefValue =
        .error (.unmarshalModelInput "ref") := by
      unfold core.UnmarshalModel
      rw [if_neg (by decide), hv]
      cases v with
      | null => exact absurd rfl hnull
      | obj fields => exact absurd rfl (hobj fields)
      | bool b => rfl
      | num n => rfl
      | arr items => rfl
      | str s => rfl
    rw [UnmarshalAddress_of_type m _ ht]
    simp [UnmarshalAddressServiceRef, UnmarshalPrimitive_type m _ ht, hp, viaUnmarshalModel,
      bind, Except.bind]

/-- Witness of C4, amended: type "vpc" with a `ref` and no `value` decodes;
type "vpc" whose `value` is an object is rejected. -/
theorem UnmarshalAddress_shape_mismatch_witness :
    UnmarshalAddress [("type", .str "vpc"), ("ref", .obj [("account_id", .str "acc")])] =
        .ok (some (.vpc ⟨some "vpc", none⟩)) ∧
      UnmarshalAddress [("type", .str "vpc"), ("value", .obj [("account_id", .str "acc")])] =
        .error (.unmarshalModel "" (.unmarshalPrimitive "value")) :=
  ⟨(UnmarshalAddress_shape_mismatch
      [("type", .str "vpc"), ("ref", .obj [("account_id", .str "acc")])]).2.2.2.1 rfl rfl,
   (UnmarshalAddress_shape_mismatch
      [("type", .str "vpc"), ("value", .obj [("account_id", .str "acc")])]).2.2.2.2.2.1
      "vpc" (by decide) (.obj [("account_id", .str "acc")]) rfl rfl
      (fun s h => by cases h) (fun h => by cases h)⟩

/-! ## Flattening -/

theorem lookup_mapSet (m : FlatMap) (k key : String) (v : Value) :
    List.lookup k (mapSet m key v) = if k = key then some v else List.lookup k m := by
  induction m with
  | nil =>
    by_cases h : k = key
    · subst h; simp [mapSet, List.lookup]
    · have hb : (k == key) = false := by simpa using h
      simp [mapSet, List.lookup, h, hb]
  | cons p rest ih =>
    obtain ⟨k', v'⟩ := p
    by_cases h' : k' = key
    · subst h'
      by_cases h : k = k'
      · subst h; simp [mapSet, List.lookup]
      · have hb : (k == k') = false := by simpa using h
        simp [mapSet, List.lookup, h, hb]
    · by_cases h : k = key
      · subst h
        have hk : (k == k') = false := by simpa using Ne.symm h'
        simp [mapSet, List.lookup, h', hk, ih]
      · simp only [mapSet, h', if_false, List.lookup, ih, h]

theorem lookup_setIfNotNil (m : FlatMap) (k key : String) (v : Option String) :
    List.lookup k (setIfNotNil m key v) =
      if k = key then (match v with | some s => some (.str s) | none => List.lookup k m)
      else List.lookup k m := by
  cases v with
  | none => simp [setIfNotNil]
  | some s => simp [setIfNotNil, lookup_mapSet]

theorem lookup_FloatingIpsToMap (item : FloatingIPReference) (k : String) :
    List.lookup k (dataSourceNetworkInterfaceFloatingIpsToMap item) =
      if k = "address" then item.Address.map Value.str
      else if k = "crn" then item.CRN.map Value.str
      else if k = "deleted" then
        item.Deleted.map
          (fun del => Value.maps [dataSourceNetworkInterfaceFloatingIpsDeletedToMap del])
      else if k = "href" then item.Href.map Value.str
      else if k = "id" then item.ID.map Value.str
      else if k = "name" then item.Name.map Value.str
      else none := by
  obtain ⟨a, c, d, h, i, n⟩ := item
  simp only [dataSourceNetworkInterfaceFloatingIpsToMap]
  by_cases h1 : k = "address"
  · subst h1
    cases a <;> cases d <;> simp [lookup_setIfNotNil, lookup_mapSet, List.lookup]
  by_cases h2 : k = "crn"
  · subst h2
    cases c <;> cases d <;> simp [lookup_setIfNotNil, lookup_mapSet, List.lookup]
  by_cases h3 : k = "deleted"
  · subst h3
    cases d <;> simp [lookup_setIfNotNil, lookup_mapSet, List.lookup]
  by_cases h4 : k = "href"
  · subst h4
    cases h <;> cases d <;> simp [lookup_setIfNotNil, lookup_mapSet, List.lookup]
  by_cases h5 : k = "id"
  · subst h5
    cases i <;> cases d <;> simp [lookup_setIfNotNil, lookup_mapSet, List.lookup]
  by_cases h6 : k = "name"
  · subst h6
    cases n <;> cases d <;> simp [lookup_setIfNotNil, lookup_mapSet, List.lookup]
  cases d <;> simp [lookup_setIfNotNil, lookup_mapSet, List.lookup, h1, h2, h3, h4, h5, h6]

theorem lookup_SecurityGroupsToMap (item : SecurityGroupReference) (k : String) :
    List.lookup k (dataSourceNetworkInterfaceSecurityGroupsToMap item) =
      if k = "crn" then item.CRN.map Value.str
      else if k = "deleted" then
        item.Deleted.map
          (fun del => Value.maps [dataSourceNetworkInterfaceSecurityGroupsDeletedToMap del])
      else if k = "href" then item.Href.map Value.str
      else if k = "id" then item.ID.map Value.str
      else if k = "name" then item.Name.map Value.str
      else none := by
  obtain ⟨c, d, h, i, n⟩ := item
  simp only [dataSourceNetworkInterfaceSecurityGroupsToMap]
  by_cases h2 : k = "crn"
  · subst h2
    cases c <;> cases d <;> simp [lookup_setIfNotNil, lookup_mapSet, List.lookup]
  by_cases h3 : k = "deleted"
  · subst h3
    cases d <;> simp [lookup_setIfNotNil, lookup_mapSet, List.lookup]
  by_cases h4 : k = "href"
  · subst h4
    cases h <;> cases d <;> simp [lookup_setIfNotNil, lookup_mapSet, List.lookup]
  by_cases h5 : k = "id"
  · subst h5
    cases i <;> cases d <;> simp [lookup_setIfNotNil, lookup_mapSet, List.lookup]
  by_cases h6 : k = "name"
  · subst h6
    cases n <;> cases d <;> simp [lookup_setIfNotNil, lookup_mapSet, List.lookup]
  cases d <;> simp [lookup_setIfNotNil, lookup_mapSet, List.lookup, h2, h3, h4, h5, h6]

theorem lookup_SubnetToMap (item : SubnetReference) (k : String) :
    List.lookup k (dataSourceNetworkInterfaceSubnetToMap item) =
      if k = "crn" then item.CRN.map Value.str
      else if k = "deleted" then
        item.Deleted.map
          (fun del => Value.maps [dataSourceNetworkInterfaceSubnetDeletedToMap del])
      else if k = "href" then item.Href.map Value.str
      else if k = "id" then item.ID.map Value.str
      else if k = "name" then item.Name.map Value.str
      else none := by
  obtain ⟨c, d, h, i, n⟩ := item
  simp only [dataSourceNetworkInterfaceSubnetToMap]
  by_cases h2 : k = "crn"
  · subst h2
    cases c <;> cases d <;> simp [lookup_setIfNotNil, lookup_mapSet, List.lookup]
  by_cases h3 : k = "deleted"
  · subst h3
    cases d <;> simp [lookup_setIfNotNil, lookup_mapSet, List.lookup]
  by_cases h4 : k = "href"
  · subst h4
    cases h <;> cases d <;> simp [lookup_setIfNotNil, lookup_mapSet, List.lookup]
  by_cases h5 : k = "id"
  · subst h5
    cases i <;> cases d <;> simp [lookup_setIfNotNil, lookup_mapSet, List.lookup]
  by_cases h6 : k = "name"
  · subst h6
    cases n <;> cases d <;> simp [lookup_setIfNotNil, lookup_mapSet, List.lookup]
  cases d <;> simp [lookup_setIfNotNil, lookup_mapSet, List.lookup, h2, h3, h4, h5, h6]

/-- C9: in the map built for a FloatingIPReference, a SecurityGroupReference or
a SubnetReference, looking up any key `k` gives exactly: the value of the field
`address` (floating IPs only), `crn`, `href`, `id` or `name` when `k` is that
key and the field is non-nil; a one-element list holding the map of `Deleted`
when `k` is `deleted` and `Deleted` is non-nil; and nothing in every other
case (a nil field, or any other key). The map of a `Deleted` object holds
`more_info` exactly when `MoreInfo` is non-nil, and no other key. -/
theorem ToMap_has_key_iff_field_not_nil :
    (∀ (item : FloatingIPReference) (k : String),
      List.lookup k (dataSourceNetworkInterfaceFloatingIpsToMap item) =
        if k = "address" then item.Address.map Value.str
        else if k = "crn" then item.CRN.map Value.str
        else if k = "deleted" then
          item.Deleted.map
            (fun del => Value.maps [dataSourceNetworkInterfaceFloatingIpsDeletedToMap del])
        else if k = "href" then item.Href.map Value.str
        else if k = "id" then item.ID.map Value.str
        else if k = "name" then item.Name.map Value.str
        else none) ∧
    (∀ (item : SecurityGroupReference) (k : String),
      List.lookup k (dataSourceNetworkInterfaceSecurityGroupsToMap item) =
        if k = "crn" then item.CRN.map Value.str
        else if k = "deleted" then
          item.Deleted.map
            (fun del => Value.maps [dataSourceNetworkInterfaceSecurityGroupsDeletedToMap del])
        else if k = "href" then item.Href.map Value.str
        else if k = "id" then item.ID.map Value.str
        else if k = "name" then item.Name.map Value.str
        else none) ∧
    (∀ (item : SubnetReference) (k : String),
      List.lookup k (dataSourceNetworkInterfaceSubnetToMap item) =
        if k = "crn" then item.CRN.map Value.str
        else if k = "deleted" then
          item.Deleted.map
            (fun del => Value.maps [dataSourceNetworkInterfaceSubnetDeletedToMap del])
        else if k = "href" then item.Href.map Value.str
        else if k = "id" then item.ID.map Value.str
        else if k = "name" then item.Name.map Value.str
        else none) ∧
    (∀ (del : FloatingIPReferenceDeleted) (k : String),
      List.lookup k (dataSourceNetworkInterfaceFloatingIpsDeletedToMap del) =
        if k = "more_info" then del.MoreInfo.map Value.str else none) ∧
    (∀ (del : SecurityGroupReferenceDeleted) (k : String),
      List.lookup k (dataSourceNetworkInterfaceSecurityGroupsDeletedToMap del) =
        if k = "more_info" then del.MoreInfo.map Value.str else none) ∧
    (∀ (del : SubnetReferenceDeleted) (k : String),
      List.lookup k (dataSourceNetworkInterfaceSubnetDeletedToMap del) =
        if k = "more_info" then del.MoreInfo.map Value.str else none) := by
  refine ⟨lookup_FloatingIpsToMap, lookup_SecurityGroupsToMap, lookup_SubnetToMap, ?_, ?_, ?_⟩
  · intro del k
    obtain ⟨mi⟩ := del
    by_cases hk : k = "more_info"
    · subst hk
      cases mi <;> rfl
    · have hb : (k == "more_info") = false := by simpa using hk
      cases mi <;>
        simp [dataSourceNetworkInterfaceFloatingIpsDeletedToMap, setIfNotNil, mapSet, List.lookup, hk, hb]
  · intro del k
    obtain ⟨mi⟩ := del
    by_cases hk : k = "more_info"
    · subst hk
      cases mi <;> rfl
    · have hb : (k == "more_info") = false := by simpa using hk
      cases mi <;>
        simp [dataSourceNetworkInterfaceSecurityGroupsDeletedToMap, setIfNotNil, mapSet, List.lookup, hk, hb]
  · intro del k
    obtain ⟨mi⟩ := del
    by_cases hk : k = "more_info"
    · subst hk
      cases mi <;> rfl
    · have hb : (k == "more_info") = false := by simpa using hk
      cases mi <;>
        simp [dataSourceNetworkInterfaceSubnetDeletedToMap, setIfNotNil, mapSet, List.lookup, hk, hb]

theorem foldl_append_singleton {α β : Type} (f : α → β) (xs : List α) (acc : List β) :
    xs.foldl (fun ys x => ys ++ [f x]) acc = acc ++ xs.map f := by
  induction xs generalizing acc with
  | nil => simp
  | cons x rest ih => simp [List.foldl, ih]

theorem FlattenFloatingIps_eq_map (result : List FloatingIPReference) :
    dataSourceNetworkInterfaceFlattenFloatingIps result =
      result.map dataSourceNetworkInterfaceFloatingIpsToMap := by
  simp [dataSourceNetworkInterfaceFlattenFloatingIps, foldl_append_singleton]

theorem FlattenSecurityGroups_eq_map (result : List SecurityGroupReference) :
    dataSourceNetworkInterfaceFlattenSecurityGroups result =
      result.map dataSourceNetworkInterfaceSecurityGroupsToMap := by
  simp [dataSourceNetworkInterfaceFlattenSecurityGroups, foldl_append_singleton]

/-- C10: flattening a list of FloatingIPReference (resp. SecurityGroupReference)
gives a list of the same length whose i-th element is the ToMap image of the
i-th input element (and nothing beyond the input's length), and flattening a
concatenation is the concatenation of the flattenings. -/
theorem Flatten_preserves_order :
    (∀ result : List FloatingIPReference,
      (dataSourceNetworkInterfaceFlattenFloatingIps result).length = result.length ∧
      ∀ i : Nat, (dataSourceNetworkInterfaceFlattenFloatingIps result)[i]? =
        result[i]?.map dataSourceNetworkInterfaceFloatingIpsToMap) ∧
    (∀ xs ys : List FloatingIPReference,
      dataSourceNetworkInterfaceFlattenFloatingIps (xs ++ ys) =
        dataSourceNetworkInterfaceFlattenFloatingIps xs ++
          dataSourceNetworkInterfaceFlattenFloatingIps ys) ∧
    (∀ result : List SecurityGroupReference,
      (dataSourceNetworkInterfaceFlattenSecurityGroups result).length = result.length ∧
      ∀ i : Nat, (dataSourceNetworkInterfaceFlattenSecurityGroups result)[i]? =
        result[i]?.map dataSourceNetworkInterfaceSecurityGroupsToMap) ∧
    (∀ xs ys : List SecurityGroupReference,
      dataSourceNetworkInterfaceFlattenSecurityGroups (xs ++ ys) =
        dataSourceNetworkInterfaceFlattenSecurityGroups xs ++
          dataSourceNetworkInterfaceFlattenSecurityGroups ys) := by
  refine ⟨?_, ?_, ?_, ?_⟩
  · intro result
    simp [FlattenFloatingIps_eq_map]
  · intro xs ys
    simp [FlattenFloatingIps_eq_map]
  · intro result
    simp [FlattenSecurityGroups_eq_map]
  · intro xs ys
    simp [FlattenSecurityGroups_eq_map]

/-! ## The pagination loop -/

theorem listInstancesLoop_startSet (env : Env) (fuel : Nat) (start : String) (b : Bool)
    (allrecs : List Instance) (starts : List (Option String)) (h : start ≠ "") :
    listInstancesLoop env fuel start b allrecs starts =
      listInstancesLoop env fuel start true allrecs starts := by
  cases fuel with
  | zero => rfl
  | succ n => simp [listInstancesLoop, h]

theorem listInstancesLoop_step (env : Env) (pages : List InstanceCollection) (j fuel : Nat)
    (allrecs : List Instance) (starts : List (Option String)) (hlen : starts.length = j) :
    listInstancesLoop env (fuel + 1) ((expectedStart env pages j).getD "")
        (expectedStart env pages j).isSome allrecs starts =
      match env.ListInstancesWithContext j (expectedStart env pages j) with
      | .error failure => (.failed failure, starts ++ [expectedStart env pages j])
      | .ok none => (.panicked, starts ++ [expectedStart env pages j])
      | .ok (some instances) =>
        if env.GetNext instances.Next = "" then
          (.done (allrecs ++ instances.Instances), starts ++ [expectedStart env pages j])
        else
          listInstancesLoop env fuel (env.GetNext instances.Next) true
            (allrecs ++ instances.Instances) (starts ++ [expectedStart env pages j]) := by
  have hsent : (if (if (expectedStart env pages j).getD "" ≠ "" then true
        else (expectedStart env pages j).isSome) = true
      then some ((expectedStart env pages j).getD "") else none) = expectedStart env pages j := by
    cases expectedStart env pages j with
    | none => simp
    | some s => simp
  simp only [listInstancesLoop, hsent, hlen]
  cases env.ListInstancesWithContext j (expectedStart env pages j) with
  | error failure => rfl
  | ok result =>
    cases result with
    | none => rfl
    | some instances =>
      simp only
      by_cases h : env.GetNext instances.Next = ""
      · simp only [h, if_true]
      · simp only [h, if_false]
        rw [listInstancesLoop_startSet env fuel _ _ _ _ h]

theorem listInstancesLoop_steps (env : Env) (pages : List InstanceCollection) (j : Nat)
    (hj : j ≤ pages.length)
    (hans : ∀ k p, k < j → pages[k]? = some p →
      env.ListInstancesWithContext k (expectedStart env pages k) = .ok (some p))
    (hcur : ∀ k p, k < j → pages[k]? = some p → env.GetNext p.Next ≠ "")
    (fuel : Nat) :
    listInstancesLoop env (j + fuel) "" false [] [] =
      listInstancesLoop env fuel ((expectedStart env pages j).getD "")
        (expectedStart env pages j).isSome
        ((pages.take j).map (fun page => page.Instances)).flatten
        ((List.range j).map (expectedStart env pages)) := by
  induction j generalizing fuel with
  | zero => simp [expectedStart]
  | succ i ih =>
    have hi : i < pages.length := hj
    have hp : pages[i]? = some pages[i] := List.getElem?_eq_getElem hi
    have h1 := ih (Nat.le_of_lt hi) (fun k p hk => hans k p (Nat.lt_succ_of_lt hk))
      (fun k p hk => hcur k p (Nat.lt_succ_of_lt hk)) (fuel + 1)
    have harith : i + 1 + fuel = i + (fuel + 1) := by omega
    rw [harith, h1, listInstancesLoop_step env pages i fuel _ _ (by simp),
      hans i _ (Nat.lt_succ_self i) hp]
    simp only [hcur i _ (Nat.lt_succ_self i) hp, if_false]
    have e1 : expectedStart env pages (i + 1) = some (env.GetNext pages[i].Next) := by
      show pages[i]?.map _ = _
      rw [hp]
      rfl
    have e2 : pages.take (i + 1) = pages.take i ++ [pages[i]] := by
      rw [List.take_succ, hp]
      rfl
    rw [e1, e2, List.range_succ]
    simp only [Option.getD_some, Option.isSome_some, List.map_append, List.map_cons,
      List.map_nil, List.flatten_append, List.flatten_cons, List.flatten_nil, List.append_nil]

/-- C5: if the list service answers the calls the loop makes with the N >= 1
pages `pages` (call k being asked with the cursor of page k-1) and exactly the
last page has an empty cursor, then with fuel for N iterations the pagination
loop ends as done after exactly N list calls, and `allrecs` is the
concatenation of the pages' `Instances` in page order. -/
theorem listInstancesLoop_accumulates_all_pages (env : Env) (pages : List InstanceCollection)
    (fuel : Nat) (hN : 1 ≤ pages.length)
    (hans : ∀ k p, pages[k]? = some p →
      env.ListInstancesWithContext k (expectedStart env pages k) = .ok (some p))
    (hcur : ∀ k p, pages[k]? = some p → (env.GetNext p.Next = "" ↔ k + 1 = pages.length))
    (hfuel : pages.length ≤ fuel) :
    listInstancesLoop env fuel "" false [] [] =
        (.done (pages.map fun page => page.Instances).flatten,
          (List.range pages.length).map (expectedStart env pages)) ∧
      (listInstancesLoop env fuel "" false [] []).2.length = pages.length := by
  obtain ⟨n, hn⟩ : ∃ n, pages.length = n + 1 := ⟨pages.length - 1, by omega⟩
  obtain ⟨f, hf⟩ : ∃ f, fuel = n + (f + 1) := ⟨fuel - pages.length, by omega⟩
  have hlt : n < pages.length := by omega
  have hp : pages[n]? = some pages[n] := List.getElem?_eq_getElem hlt
  have hsteps := listInstancesLoop_steps env pages n (Nat.le_of_lt hlt)
    (fun k p _ h => hans k p h)
    (fun k p hk h hz => by
      have := (hcur k p h).1 hz
      omega)
    (f + 1)
  have hlast : env.GetNext pages[n].Next = "" := (hcur n _ hp).2 hn.symm
  have htake : pages.take n ++ [pages[n]] = pages := by
    have h1 := List.take_succ (l := pages) (n := n)
    rw [hp, ← hn, List.take_length] at h1
    exact h1.symm
  have hres : listInstancesLoop env fuel "" false [] [] =
      (.done (pages.map fun page => page.Instances).flatten,
        (List.range pages.length).map (expectedStart env pages)) := by
    rw [hf, hsteps, listInstancesLoop_step env pages n f _ _ (by simp), hans n _ hp]
    simp only [hlast, if_true]
    have hflat : (pages.map fun page => page.Instances).flatten =
        ((pages.take n).map fun page => page.Instances).flatten ++ pages[n].Instances := by
      conv_lhs => rw [← htake]
      simp only [List.map_append, List.map_cons, List.map_nil, List.flatten_append,
        List.flatten_cons, List.flatten_nil, List.append_nil]
    rw [hn, List.range_succ, hflat, List.map_append]
    rfl
  exact ⟨hres, by rw [hres]; simp⟩

/-- Witness of C5: two pages, the first with cursor "c1", the second without
a `next` link. -/
theorem listInstancesLoop_accumulates_all_pages_witness :
    listInstancesLoop (sampleEnv [samplePage1, samplePage2] []) 5 "" false [] [] =
        (.done [{ ID := some "i-1", Name := some "alpha" }, { ID := some "i-2", Name := some "beta" },
            { ID := some "i-3", Name := some "beta" }],
          [none, some "c1"]) ∧
      (listInstancesLoop (sampleEnv [samplePage1, samplePage2] []) 5 "" false [] []).2.length = 2 :=
  listInstancesLoop_accumulates_all_pages (sampleEnv [samplePage1, samplePage2] [])
    [samplePage1, samplePage2] 5 (by decide)
    (fun k p h => by
      match k, h with
      | 0, h => cases h; rfl
      | 1, h => cases h; rfl
      | k + 2, h => simp at h)
    (fun k p h => by
      match k, h with
      | 0, h => cases h; decide
      | 1, h => cases h; decide
      | k + 2, h => simp at h)
    (by decide)

theorem listInstancesLoop_trace (env : Env) (fuel : Nat) :
    ∀ (start : String) (startSet : Bool) (allrecs : List Instance)
      (starts : List (Option String)),
    ∃ ext : List (Option String),
      (listInstancesLoop env fuel start startSet allrecs starts).2 = starts ++ ext ∧
      (0 < fuel → ext[0]? =
        some (if (if start ≠ "" then true else startSet) = true then some start else none)) ∧
      (∀ k, k + 1 < ext.length → ∃ s page, ext[k]? = some s ∧
        env.ListInstancesWithContext (starts.length + k) s = .ok (some page) ∧
        env.GetNext page.Next ≠ "" ∧ ext[k + 1]? = some (some (env.GetNext page.Next))) := by
  induction fuel with
  | zero =>
    intro start startSet allrecs starts
    exact ⟨[], by simp [listInstancesLoop], by simp, by simp⟩
  | succ n ih =>
    intro start startSet allrecs starts
    simp only [listInstancesLoop]
    generalize hopt :
      (if (if start ≠ "" then true else startSet) = true then some start else none) = opt
    cases hcall : env.ListInstancesWithContext starts.length opt with
    | error failure =>
      exact ⟨[opt], rfl, fun _ => rfl, by simp⟩
    | ok result =>
      cases result with
      | none => exact ⟨[opt], rfl, fun _ => rfl, by simp⟩
      | some instances =>
        simp only
        by_cases hz : env.GetNext instances.Next = ""
        · simp only [hz, if_true]
          exact ⟨[opt], rfl, fun _ => rfl, by simp⟩
        · simp only [hz, if_false]
          obtain ⟨ext, hext, hhead, hchain⟩ := ih (env.GetNext instances.Next)
            (if start ≠ "" then true else startSet) (allrecs ++ instances.Instances)
            (starts ++ [opt])
          refine ⟨opt :: ext, by rw [hext]; simp, fun _ => by simp, ?_⟩
          intro k hk
          cases k with
          | zero =>
            have hpos : 0 < n := by
              rcases Nat.eq_zero_or_pos n with h0 | h0
              · subst h0
                simp [listInstancesLoop] at hext
                subst hext
                simp at hk
              · exact h0
            refine ⟨opt, instances, by simp, by simpa using hcall, hz, ?_⟩
            have := hhead hpos
            simp only [hz, ne_eq, not_false_eq_true, if_true] at this
            simpa using this
          | succ j =>
            have hj : j + 1 < ext.length := by simpa using hk
            obtain ⟨s, page, h1, h2, h3, h4⟩ := hchain j hj
            refine ⟨s, page, by simpa using h1, ?_, h3, by simpa using h4⟩
            have : starts.length + (j + 1) = (starts ++ [opt]).length + j := by
              simp; omega
            rw [this]
            exact h2

/-- C6: whatever the list service answers and however long the loop runs, the
`Start` options of the list calls made (in order) satisfy: the first call has
a nil `Start`; every later call k+1 follows a call k that returned a page with
a non-empty cursor, and carries exactly that cursor; and a call answered by a
page with an empty cursor is the last list call. -/
theorem listInstancesLoop_start_cursors (env : Env) (fuel : Nat) :
    (0 < fuel → (listInstancesLoop env fuel "" false [] []).2[0]? = some none) ∧
    (∀ k, k + 1 < (listInstancesLoop env fuel "" false [] []).2.length →
      ∃ s page, (listInstancesLoop env fuel "" false [] []).2[k]? = some s ∧
        env.ListInstancesWithContext k s = .ok (some page) ∧
        env.GetNext page.Next ≠ "" ∧
        (listInstancesLoop env fuel "" false [] []).2[k + 1]? =
          some (some (env.GetNext page.Next))) ∧
    (∀ k s page, (listInstancesLoop env fuel "" false [] []).2[k]? = some s →
      env.ListInstancesWithContext k s = .ok (some page) → env.GetNext page.Next = "" →
      (listInstancesLoop env fuel "" false [] []).2.length = k + 1) := by
  obtain ⟨ext, hext, hhead, hchain⟩ := listInstancesLoop_trace env fuel "" false [] []
  simp only [List.nil_append, List.length_nil, Nat.zero_add] at hext hchain
  rw [hext]
  have hchain2 : ∀ k, k + 1 < ext.length → ∃ s page, ext[k]? = some s ∧
      env.ListInstancesWithContext k s = .ok (some page) ∧
      env.GetNext page.Next ≠ "" ∧ ext[k + 1]? = some (some (env.GetNext page.Next)) := hchain
  refine ⟨fun h => by simpa using hhead h, hchain2, ?_⟩
  intro k s page hk hcall hz
  have hlt : k < ext.length := by
    rcases Nat.lt_or_ge k ext.length with h | h
    · exact h
    · rw [List.getElem?_eq_none h] at hk
      cases hk
  rcases Nat.lt_or_ge (k + 1) ext.length with h | h
  · obtain ⟨s2, page2, h1, h2, h3, _⟩ := hchain2 k h
    rw [hk] at h1
    cases h1
    rw [hcall] at h2
    cases h2
    exact absurd hz h3
  · omega

/-- Witness of C6 on the two sample pages: the first call has no `start`, the
second carries "c1", and the page without cursor ends the calls. -/
theorem listInstancesLoop_start_cursors_witness :
    (listInstancesLoop (sampleEnv [samplePage1, samplePage2] []) 5 "" false [] []).2[0]? =
        some none ∧
      (listInstancesLoop (sampleEnv [samplePage1, samplePage2] []) 5 "" false [] []).2.length =
        1 + 1 :=
  ⟨(listInstancesLoop_start_cursors (sampleEnv [samplePage1, samplePage2] []) 5).1 (by decide),
   (listInstancesLoop_start_cursors (sampleEnv [samplePage1, samplePage2] []) 5).2.2
      1 (some "c1") samplePage2 rfl rfl rfl⟩

/-! ## The read handler -/

theorem Read_of_loop_failed (env : Env) (fuel : Nat) (d : ResourceData)
    (failure : CallFailure) (starts : List (Option String))
    (hclient : env.VpcV1API = none)
    (hloop : listInstancesLoop env fuel "" false [] [] = (.failed failure, starts)) :
    dataSourceIBMIsInstanceNetworkInterfaceRead env fuel d =
      { outcome := .returned
          (some ("Error Fetching Instances " ++ failure.err ++ "\n" ++ failure.response)),
        d := d, calls := starts.map Call.listInstances } := by
  simp only [dataSourceIBMIsInstanceNetworkInterfaceRead, hclient, hloop]

theorem Read_of_loop_done (env : Env) (fuel : Nat) (d : ResourceData)
    (allrecs : List Instance) (starts : List (Option String))
    (hclient : env.VpcV1API = none)
    (hloop : listInstancesLoop env fuel "" false [] [] = (.done allrecs, starts)) :
    dataSourceIBMIsInstanceNetworkInterfaceRead env fuel d =
      scanInstances env (starts.map Call.listInstances) d d.instance_name none allrecs := by
  simp only [dataSourceIBMIsInstanceNetworkInterfaceRead, hclient, hloop]

/-- C7: if the pages before it were fetched (each with a non-empty cursor) and
the next page fetch, the k-th, returns an error, then the read returns the
error diagnostic "Error Fetching Instances <err>\n<response>", whose text
contains the response; the calls made are exactly the k list calls (no
network-interface call), and the resource data is returned as it was given:
no ID, no attribute set, whatever records the earlier pages held. -/
theorem Read_page_error_aborts (env : Env) (d : ResourceData) (pages : List InstanceCollection)
    (failure : CallFailure) (fuel : Nat)
    (hclient : env.VpcV1API = none)
    (hans : ∀ k p, pages[k]? = some p →
      env.ListInstancesWithContext k (expectedStart env pages k) = .ok (some p))
    (hcur : ∀ (k : Nat) (p : InstanceCollection), pages[k]? = some p → env.GetNext p.Next ≠ "")
    (hfail : env.ListInstancesWithContext pages.length
      (expectedStart env pages pages.length) = .error failure)
    (hfuel : pages.length < fuel) :
    dataSourceIBMIsInstanceNetworkInterfaceRead env fuel d =
        { outcome := .returned
            (some ("Error Fetching Instances " ++ failure.err ++ "\n" ++ failure.response)),
          d := d,
          calls := (List.range (pages.length + 1)).map
            fun k => Call.listInstances (expectedStart env pages k) } ∧
      failure.response.data <:+:
        ("Error Fetching Instances " ++ failure.err ++ "\n" ++ failure.response).data := by
  obtain ⟨f, hf⟩ : ∃ f, fuel = pages.length + (f + 1) := ⟨fuel - pages.length - 1, by omega⟩
  have hsteps := listInstancesLoop_steps env pages pages.length (Nat.le_refl _)
    (fun k p _ h => hans k p h) (fun k p _ h => hcur k p h) (f + 1)
  have hloop : listInstancesLoop env fuel "" false [] [] =
      (.failed failure, (List.range (pages.length + 1)).map (expectedStart env pages)) := by
    rw [hf, hsteps, listInstancesLoop_step env pages pages.length f _ _ (by simp), hfail,
      List.range_succ, List.map_append]
    rfl
  constructor
  · rw [Read_of_loop_failed env fuel d failure _ hclient hloop, List.map_map]
    rfl
  · refine ⟨("Error Fetching Instances " ++ failure.err ++ "\n").data, [], ?_⟩
    simp [String.data_append]

/-- Witness of C7: the first page is fetched, the second fetch fails. -/
theorem Read_page_error_aborts_witness :
    dataSourceIBMIsInstanceNetworkInterfaceRead (sampleEnv [samplePage1] []) 5
        { instance_name := "alpha", network_interface_name := "eth0", id := none, attrs := [] } =
      { outcome := .returned
          (some ("Error Fetching Instances " ++ "Internal Server Error" ++ "\n" ++ "status 500")),
        d := { instance_name := "alpha", network_interface_name := "eth0", id := none,
               attrs := [] },
        calls := [.listInstances none, .listInstances (some "c1")] } :=
  (Read_page_error_aborts (sampleEnv [samplePage1] [])
    { instance_name := "alpha", network_interface_name := "eth0", id := none, attrs := [] }
    [samplePage1] { err := "Internal Server Error", response := "status 500" } 5 rfl
    (fun k p h => by
      match k, h with
      | 0, h => cases h; rfl
      | k + 1, h => simp at h)
    (fun k p h => by
      match k, h with
      | 0, h => cases h; decide
      | k + 1, h => simp at h)
    rfl (by decide)).1

theorem scanInstances_no_match (env : Env) (calls : List Call) (d : ResourceData)
    (instance_name : String) (err : Option String) (allrecs : List Instance)
    (h : ∀ inst ∈ allrecs, ∃ n, inst.Name = some n ∧ n ≠ instance_name) :
    scanInstances env calls d instance_name err allrecs =
      { outcome := .returned
          (some ("Instance " ++ instance_name ++ " not found. " ++ formatError err)),
        d := d, calls := calls } := by
  induction allrecs with
  | nil => rfl
  | cons inst rest ih =>
    obtain ⟨n, hn, hne⟩ := h inst (List.mem_cons_self _ _)
    simp only [scanInstances, hn, hne, if_false]
    exact ih fun i hi => h i (List.mem_cons_of_mem _ hi)

theorem scanInstances_first_match (env : Env) (calls : List Call) (d : ResourceData)
    (instance_name : String) (err : Option String) (pre post : List Instance)
    (inst : Instance) (ins_id : String)
    (hpre : ∀ i ∈ pre, ∃ n, i.Name = some n ∧ n ≠ instance_name)
    (hname : inst.Name = some instance_name) (hid : inst.ID = some ins_id) :
    scanInstances env calls d instance_name err (pre ++ inst :: post) =
      match env.ListInstanceNetworkInterfacesWithContext ins_id with
      | .error failure =>
        { outcome := .returned
            (some ("ListSecurityGroupNetworkInterfacesWithContext failed "
              ++ failure.err ++ "\n" ++ failure.response)),
          d := d, calls := calls ++ [.listInstanceNetworkInterfaces ins_id] }
      | .ok none =>
        { outcome := .panicked, d := d,
          calls := calls ++ [.listInstanceNetworkInterfaces ins_id] }
      | .ok (some networkInterfaceCollection) =>
        scanNetworkInterfaces env (calls ++ [.listInstanceNetworkInterfaces ins_id]) d ins_id
          d.network_interface_name networkInterfaceCollection.NetworkInterfaces := by
  induction pre with
  | nil =>
    simp only [List.nil_append, scanInstances, hname, hid, if_true]
  | cons i rest ih =>
    obtain ⟨n, hn, hne⟩ := hpre i (List.mem_cons_self _ _)
    simp only [List.cons_append, scanInstances, hn, hne, if_false]
    exact ih fun j hj => hpre j (List.mem_cons_of_mem _ hj)

theorem scanNetworkInterfaces_no_match (env : Env) (calls : List Call) (d : ResourceData)
    (ins_id network_interface_name : String) (interfaces : List NetworkInterface)
    (h : ∀ ni ∈ interfaces, ∃ n, ni.Name = some n ∧ n ≠ network_interface_name) :
    scanNetworkInterfaces env calls d ins_id network_interface_name interfaces =
      { outcome := .returned
          (some ("Network interface " ++ network_interface_name ++ " not found.")),
        d := d, calls := calls } := by
  induction interfaces with
  | nil => rfl
  | cons ni rest ih =>
    obtain ⟨n, hn, hne⟩ := h ni (List.mem_cons_self _ _)
    simp only [scanNetworkInterfaces, hn, hne, if_false]
    exact ih fun i hi => h i (List.mem_cons_of_mem _ hi)

theorem scanNetworkInterfaces_first_match (env : Env) (calls : List Call) (d : ResourceData)
    (ins_id network_interface_name : String) (pre post : List NetworkInterface)
    (ni : NetworkInterface)
    (hpre : ∀ i ∈ pre, ∃ n, i.Name = some n ∧ n ≠ network_interface_name)
    (hname : ni.Name = some network_interface_name) :
    scanNetworkInterfaces env calls d ins_id network_interface_name (pre ++ ni :: post) =
      setNetworkInterface env calls d ins_id ni := by
  induction pre with
  | nil =>
    simp only [List.nil_append, scanNetworkInterfaces, hname, if_true]
  | cons i rest ih =>
    obtain ⟨n, hn, hne⟩ := hpre i (List.mem_cons_self _ _)
    simp only [List.cons_append, scanNetworkInterfaces, hn, hne, if_false]
    exact ih fun j hj => hpre j (List.mem_cons_of_mem _ hj)

/-- C8: once the pagination loop is done, the read is the scan of `allrecs` for
`instance_name`, and (the listed instances and interfaces having names, the
selected instance an ID):
* if no record has exactly that name, the read returns "Instance <name> not
  found. ..." and makes no further call;
* otherwise the first record with exactly that name is selected, whatever
  follows it: its ID is the one the network interfaces are listed for;
* in the interfaces of the selected instance, if none is named exactly
  `network_interface_name` the read returns "Network interface <name> not
  found.", otherwise the first one so named is the one whose ID and attributes
  are set.
Names are compared as exact strings, so a name that differs in letter case
does not match. -/
theorem Read_selects_first_exact_name (env : Env) (calls : List Call) (d : ResourceData) :
    (∀ (fuel : Nat) (allrecs : List Instance) (starts : List (Option String)),
      env.VpcV1API = none →
      listInstancesLoop env fuel "" false [] [] = (.done allrecs, starts) →
      dataSourceIBMIsInstanceNetworkInterfaceRead env fuel d =
        scanInstances env (starts.map Call.listInstances) d d.instance_name none allrecs) ∧
    (∀ (instance_name : String) (err : Option String) (allrecs : List Instance),
      (∀ inst ∈ allrecs, ∃ n, inst.Name = some n ∧ n ≠ instance_name) →
      scanInstances env calls d instance_name err allrecs =
        { outcome := .returned
            (some ("Instance " ++ instance_name ++ " not found. " ++ formatError err)),
          d := d, calls := calls }) ∧
    (∀ (instance_name : String) (err : Option String) (pre post : List Instance)
        (inst : Instance) (ins_id : String),
      (∀ i ∈ pre, ∃ n, i.Name = some n ∧ n ≠ instance_name) →
      inst.Name = some instance_name → inst.ID = some ins_id →
      scanInstances env calls d instance_name err (pre ++ inst :: post) =
        match env.ListInstanceNetworkInterfacesWithContext ins_id with
        | .error failure =>
          { outcome := .returned
              (some ("ListSecurityGroupNetworkInterfacesWithContext failed "
                ++ failure.err ++ "\n" ++ failure.response)),
            d := d, calls := calls ++ [.listInstanceNetworkInterfaces ins_id] }
        | .ok none =>
          { outcome := .panicked, d := d,
            calls := calls ++ [.listInstanceNetworkInterfaces ins_id] }
        | .ok (some networkInterfaceCollection) =>
          scanNetworkInterfaces env (calls ++ [.listInstanceNetworkInterfaces ins_id]) d ins_id
            d.network_interface_name networkInterfaceCollection.NetworkInterfaces) ∧
    (∀ (ins_id network_interface_name : String) (interfaces : List NetworkInterface),
      (∀ ni ∈ interfaces, ∃ n, ni.Name = some n ∧ n ≠ network_interface_name) →
      scanNetworkInterfaces env calls d ins_id network_interface_name interfaces =
        { outcome := .returned
            (some ("Network interface " ++ network_interface_name ++ " not found.")),
          d := d, calls := calls }) ∧
    (∀ (ins_id network_interface_name : String) (pre post : List NetworkInterface)
        (ni : NetworkInterface),
      (∀ i ∈ pre, ∃ n, i.Name = some n ∧ n ≠ network_interface_name) →
      ni.Name = some network_interface_name →
      scanNetworkInterfaces env calls d ins_id network_interface_name (pre ++ ni :: post) =
        setNetworkInterface env calls d ins_id ni) :=
  ⟨fun fuel allrecs starts hclient hloop => Read_of_loop_done env fuel d allrecs starts hclient hloop,
   scanInstances_no_match env calls d,
   scanInstances_first_match env calls d,
   scanNetworkInterfaces_no_match env calls d,
   scanNetworkInterfaces_first_match env calls d⟩

/-- Witness of C8: among "alpha", "beta", "beta" the name "beta" selects the
first "beta" (ID "i-2"), and "Beta" matches nothing. -/
theorem Read_selects_first_exact_name_witness :
    scanInstances (sampleEnv [] [sampleInterface "n-1" "eth0"]) [] (sampleData "beta" "eth0")
        "beta" none
        ([{ ID := some "i-1", Name := some "alpha" }] ++
          { ID := some "i-2", Name := some "beta" } :: [{ ID := some "i-3", Name := some "beta" }]) =
      scanNetworkInterfaces (sampleEnv [] [sampleInterface "n-1" "eth0"])
        [.listInstanceNetworkInterfaces "i-2"] (sampleData "beta" "eth0") "i-2" "eth0"
        [sampleInterface "n-1" "eth0"] ∧
    scanInstances (sampleEnv [] []) [] (sampleData "Beta" "eth0") "Beta" none
        [{ ID := some "i-1", Name := some "alpha" }, { ID := some "i-2", Name := some "beta" }] =
      { outcome := .returned (some ("Instance " ++ "Beta" ++ " not found. " ++ "%!s(<nil>)")),
        d := sampleData "Beta" "eth0", calls := [] } :=
  ⟨(Read_selects_first_exact_name (sampleEnv [] [sampleInterface "n-1" "eth0"]) []
      (sampleData "beta" "eth0")).2.2.1 "beta" none [{ ID := some "i-1", Name := some "alpha" }]
      [{ ID := some "i-3", Name := some "beta" }] { ID := some "i-2", Name := some "beta" } "i-2"
      (by
        intro i hi
        simp only [List.mem_singleton] at hi
        subst hi
        exact ⟨"alpha", rfl, by decide⟩)
      rfl rfl,
   (Read_selects_first_exact_name (sampleEnv [] []) [] (sampleData "Beta" "eth0")).2.1
      "Beta" none [{ ID := some "i-1", Name := some "alpha" }, { ID := some "i-2", Name := some "beta" }]
      (by
        intro i hi
        simp only [List.mem_cons, List.mem_singleton, List.not_mem_nil, or_false] at hi
        rcases hi with rfl | rfl
        · exact ⟨"alpha", rfl, by decide⟩
        · exact ⟨"beta", rfl, by decide⟩)⟩

/-! ## Lookups in assigned maps -/

theorem lookup_mapAssign {β : Type} (m : List (String × β)) (k key : String) (v : β) :
    List.lookup k (mapAssign m key v) = if k = key then some v else List.lookup k m := by
  induction m with
  | nil =>
    by_cases h : k = key
    · subst h; simp [mapAssign, List.lookup]
    · have hb : (k == key) = false := by simpa using h
      simp [mapAssign, List.lookup, h, hb]
  | cons p rest ih =>
    obtain ⟨k', v'⟩ := p
    by_cases h' : k' = key
    · subst h'
      by_cases h : k = k'
      · subst h; simp [mapAssign, List.lookup]
      · have hb : (k == k') = false := by simpa using h
        simp [mapAssign, List.lookup, h, hb]
    · by_cases h : k = key
      · subst h
        have hk : (k == k') = false := by simpa using Ne.symm h'
        simp [mapAssign, List.lookup, h', hk, ih]
      · simp only [mapAssign, h', if_false, List.lookup, ih, h]

theorem lookup_mapAssignIfNotNil {β : Type} (m : List (String × β)) (k key : String)
    (v : Option β) :
    List.lookup k (mapAssignIfNotNil m key v) =
      if k = key then (match v with | some x => some x | none => List.lookup k m)
      else List.lookup k m := by
  cases v with
  | none => simp [mapAssignIfNotNil]
  | some x => simp [mapAssignIfNotNil, lookup_mapAssign]

theorem lookup_setBodyIfNotNil {α : Type} (body : BodyMap) (k key : String)
    (inj : α → BodyValue) (v : Option α) :
    List.lookup k (setBodyIfNotNil body key inj v) =
      if k = key then (match v with | some x => some (inj x) | none => List.lookup k body)
      else List.lookup k body := by
  cases v with
  | none => simp [setBodyIfNotNil]
  | some x => simp [setBodyIfNotNil, lookup_mapAssign]

theorem lookup_queryAdd (q : List (String × List String)) (k name value : String) :
    List.lookup k (queryAdd q name value) =
      if k = name then some ((q.lookup name).getD [] ++ [value]) else List.lookup k q := by
  simp [queryAdd, lookup_mapAssign]

theorem lookup_queryAddIfNotNil (q : List (String × List String)) (k name : String)
    (v : Option String) :
    List.lookup k (queryAddIfNotNil q name v) =
      if k = name then
        (match v with
          | some x => some ((q.lookup name).getD [] ++ [x])
          | none => List.lookup k q)
      else List.lookup k q := by
  cases v with
  | none => simp [queryAddIfNotNil]
  | some x => simp [queryAddIfNotNil, lookup_queryAdd]

theorem lookup_mapAssignAll_of_not_mem {β : Type} (entries m : List (String × β)) (k : String)
    (h : k ∉ entries.map Prod.fst) :
    List.lookup k (mapAssignAll m entries) = List.lookup k m := by
  induction entries generalizing m with
  | nil => rfl
  | cons e rest ih =>
    simp only [List.map_cons, List.mem_cons, not_or] at h
    simp only [mapAssignAll, List.foldl] at ih ⊢
    rw [ih _ h.2, lookup_mapAssign, if_neg h.1]

theorem lookup_mapAssignAll_of_mem {β : Type} (entries m : List (String × β)) (k : String)
    (v : β) (hnodup : (entries.map Prod.fst).Nodup) (hmem : (k, v) ∈ entries) :
    List.lookup k (mapAssignAll m entries) = some v := by
  induction entries generalizing m with
  | nil => cases hmem
  | cons e rest ih =>
    simp only [List.map_cons, List.nodup_cons] at hnodup
    rcases List.mem_cons.1 hmem with h | h
    · subst h
      have := lookup_mapAssignAll_of_not_mem rest (mapAssign m k v) k hnodup.1
      simp only [mapAssignAll, List.foldl] at this ⊢
      rw [this, lookup_mapAssign, if_pos rfl]
    · have := ih (mapAssign m e.1 e.2) hnodup.2 h
      simpa only [mapAssignAll, List.foldl] using this

theorem exchange_sent {ρ : Type} (svc : ContextBasedRestrictionsV1) (request : RequestBuilder)
    (unmarshaller : RawObject → Except DecodeError ρ) :
    (svc.exchange request unmarshaller).sent = some request := by
  unfold ContextBasedRestrictionsV1.exchange
  split
  · rfl
  · rfl
  · split <;> rfl

theorem exchangeNoResult_sent (svc : ContextBasedRestrictionsV1) (request : RequestBuilder) :
    (svc.exchangeNoResult request).sent = some request := by
  unfold ContextBasedRestrictionsV1.exchangeNoResult
  split <;> rfl

/-! ## The requests built by the operations -/

theorem AddHeaders_eq (b : RequestBuilder) (headers : List (String × String)) :
    b.AddHeaders headers = { b with Header := mapAssignAll b.Header headers } := by
  induction headers generalizing b with
  | nil => rfl
  | cons h rest ih =>
    simp only [RequestBuilder.AddHeaders, List.foldl] at ih ⊢
    rw [ih]
    simp [RequestBuilder.AddHeader, mapAssignAll]

theorem AddHeaderIfNotNil_eq (b : RequestBuilder) (name : String) (v : Option String) :
    b.AddHeaderIfNotNil name v = { b with Header := mapAssignIfNotNil b.Header name v } := by
  cases v <;> rfl

theorem AddQueryIfNotNil_eq (b : RequestBuilder) (name : String) (v : Option String) :
    b.AddQueryIfNotNil name v = { b with Query := queryAddIfNotNil b.Query name v } := by
  cases v <;> rfl

theorem CreateZoneWithContext_request_ok_iff (svc : ContextBasedRestrictionsV1)
    (options : Option CreateZoneOptions) (req : RequestBuilder) :
    CreateZoneWithContext_request svc options = .ok req ↔
      ∃ (o : CreateZoneOptions) (url : String),
        options = some o ∧
        svc.ResolveRequestURL svc.URL "/v1/zones" [] = .ok url ∧
        req =
          { Method := .POST, URL := url,
            Header :=
              (mapAssignIfNotNil (mapAssignIfNotNil (mapAssign (mapAssign (callerAndSdkHeaders svc o.Headers "CreateZone")
                "Accept" "application/json")
                "Content-Type" "application/json")
                "X-Correlation-Id" o.XCorrelationID)
                "Transaction-Id" o.TransactionID),
            Query :=
              [],
            Body :=
              (some (setBodyIfNotNil (setBodyIfNotNil (setBodyIfNotNil (setBodyIfNotNil (setBodyIfNotNil []
                "name" BodyValue.string o.Name)
                "account_id" BodyValue.string o.AccountID)
                "description" BodyValue.string o.Description)
                "addresses" BodyValue.addresses o.Addresses)
                "excluded" BodyValue.addresses o.Excluded)),
            EnableGzipCompression := svc.EnableGzipCompression } := by
  unfold CreateZoneWithContext_request
  cases options with
  | none =>
    simp [core.ValidateNotNil, core.ValidateStruct, CreateZoneOptions.validated, firstFailure,
      ValidatedField.firstFailure, ValidateTag.holds, bind, Except.bind, deref,
      RequestBuilder.ResolveRequestURL, core.NewRequestBuilder, RequestBuilder.SetBodyContentJSON,
      RequestBuilder.Build, AddHeaders_eq, AddHeaderIfNotNil_eq, AddQueryIfNotNil_eq,
      RequestBuilder.AddHeader, RequestBuilder.AddQuery, callerAndSdkHeaders, queryAdd]
  | some o =>
    cases hr : svc.ResolveRequestURL svc.URL "/v1/zones" [] with
    | error msg =>
      simp [core.ValidateNotNil, core.ValidateStruct, CreateZoneOptions.validated, firstFailure,
        ValidatedField.firstFailure, ValidateTag.holds, bind, Except.bind, deref,
        RequestBuilder.ResolveRequestURL, core.NewRequestBuilder, RequestBuilder.SetBodyContentJSON,
        RequestBuilder.Build, AddHeaders_eq, AddHeaderIfNotNil_eq, AddQueryIfNotNil_eq,
        RequestBuilder.AddHeader, RequestBuilder.AddQuery, callerAndSdkHeaders, queryAdd, hr]
    | ok url =>
      simp [core.ValidateNotNil, core.ValidateStruct, CreateZoneOptions.validated, firstFailure,
        ValidatedField.firstFailure, ValidateTag.holds, bind, Except.bind, deref,
        RequestBuilder.ResolveRequestURL, core.NewRequestBuilder, RequestBuilder.SetBodyContentJSON,
        RequestBuilder.Build, AddHeaders_eq, AddHeaderIfNotNil_eq, AddQueryIfNotNil_eq,
        RequestBuilder.AddHeader, RequestBuilder.AddQuery, callerAndSdkHeaders, queryAdd, hr]
      all_goals exact eq_comm

theorem ListZonesWithContext_request_ok_iff (svc : ContextBasedRestrictionsV1)
    (options : Option ListZonesOptions) (req : RequestBuilder) :
    ListZonesWithContext_request svc options = .ok req ↔
      ∃ (o : ListZonesOptions) (account_id url : String),
        options = some o ∧
        o.AccountID = some account_id ∧
        svc.ResolveRequestURL svc.URL "/v1/zones" [] = .ok url ∧
        req =
          { Method := .GET, URL := url,
            Header :=
              (mapAssignIfNotNil (mapAssignIfNotNil (mapAssign (callerAndSdkHeaders svc o.Headers "ListZones")
                "Accept" "application/json")
                "X-Correlation-Id" o.XCorrelationID)
                "Transaction-Id" o.TransactionID),
            Query :=
              (queryAddIfNotNil (queryAddIfNotNil (queryAdd [] "account_id" account_id)
                "name" o.Name)
                "sort" o.Sort_),
            Body :=
              none,
            EnableGzipCompression := svc.EnableGzipCompression } := by
  unfold ListZonesWithContext_request
  cases options with
  | none =>
    simp [core.ValidateNotNil, core.ValidateStruct, ListZonesOptions.validated, firstFailure,
      ValidatedField.firstFailure, ValidateTag.holds, bind, Except.bind, deref,
      RequestBuilder.ResolveRequestURL, core.NewRequestBuilder, RequestBuilder.SetBodyContentJSON,
      RequestBuilder.Build, AddHeaders_eq, AddHeaderIfNotNil_eq, AddQueryIfNotNil_eq,
      RequestBuilder.AddHeader, RequestBuilder.AddQuery, callerAndSdkHeaders, queryAdd]
  | some o =>
    cases hAccountID : o.AccountID with
    | none =>
      simp [core.ValidateNotNil, core.ValidateStruct, ListZonesOptions.validated, firstFailure,
        ValidatedField.firstFailure, ValidateTag.holds, bind, Except.bind, deref,
        RequestBuilder.ResolveRequestURL, core.NewRequestBuilder, RequestBuilder.SetBodyContentJSON,
        RequestBuilder.Build, AddHeaders_eq, AddHeaderIfNotNil_eq, AddQueryIfNotNil_eq,
        RequestBuilder.AddHeader, RequestBuilder.AddQuery, callerAndSdkHeaders, queryAdd, hAccountID]
    | some account_id =>
      cases hr : svc.ResolveRequestURL svc.URL "/v1/zones" [] with
      | error msg =>
        simp [core.ValidateNotNil, core.ValidateStruct, ListZonesOptions.validated, firstFailure,
          ValidatedField.firstFailure, ValidateTag.holds, bind, Except.bind, deref,
          RequestBuilder.ResolveRequestURL, core.NewRequestBuilder, RequestBuilder.SetBodyContentJSON,
          RequestBuilder.Build, AddHeaders_eq, AddHeaderIfNotNil_eq, AddQueryIfNotNil_eq,
          RequestBuilder.AddHeader, RequestBuilder.AddQuery, callerAndSdkHeaders, queryAdd, hAccountID, hr]
      | ok url =>
        simp [core.ValidateNotNil, core.ValidateStruct, ListZonesOptions.validated, firstFailure,
          ValidatedField.firstFailure, ValidateTag.holds, bind, Except.bind, deref,
          RequestBuilder.ResolveRequestURL, core.NewRequestBuilder, RequestBuilder.SetBodyContentJSON,
          RequestBuilder.Build, AddHeaders_eq, AddHeaderIfNotNil_eq, AddQueryIfNotNil_eq,
          RequestBuilder.AddHeader, RequestBuilder.AddQuery, callerAndSdkHeaders, queryAdd, hAccountID, hr]
        all_goals exact eq_comm

theorem GetZoneWithContext_request_ok_iff (svc : ContextBasedRestrictionsV1)
    (options : Option GetZoneOptions) (req : RequestBuilder) :
    GetZoneWithContext_request svc options = .ok req ↔
      ∃ (o : GetZoneOptions) (zone_id url : String),
        options = some o ∧
        o.ZoneID = some zone_id ∧
        zone_id ≠ "" ∧
        svc.ResolveRequestURL svc.URL "/v1/zones/{zone_id}" [("zone_id", zone_id)] = .ok url ∧
        req =
          { Method := .GET, URL := url,
            Header :=
              (mapAssignIfNotNil (mapAssignIfNotNil (mapAssign (callerAndSdkHeaders svc o.Headers "GetZone")
                "Accept" "application/json")
                "X-Correlation-Id" o.XCorrelationID)
                "Transaction-Id" o.TransactionID),
            Query :=
              [],
            Body :=
              none,
            EnableGzipCompression := svc.EnableGzipCompression } := by
  unfold GetZoneWithContext_request
  cases options with
  | none =>
    simp [core.ValidateNotNil, core.ValidateStruct, GetZoneOptions.validated, firstFailure,
      ValidatedField.firstFailure, ValidateTag.holds, bind, Except.bind, deref,
      RequestBuilder.ResolveRequestURL, core.NewRequestBuilder, RequestBuilder.SetBodyContentJSON,
      RequestBuilder.Build, AddHeaders_eq, AddHeaderIfNotNil_eq, AddQueryIfNotNil_eq,
      RequestBuilder.AddHeader, RequestBuilder.AddQuery, callerAndSdkHeaders, queryAdd]
  | some o =>
    cases hZoneID : o.ZoneID with
    | none =>
      simp [core.ValidateNotNil, core.ValidateStruct, GetZoneOptions.validated, firstFailure,
        ValidatedField.firstFailure, ValidateTag.holds, bind, Except.bind, deref,
        RequestBuilder.ResolveRequestURL, core.NewRequestBuilder, RequestBuilder.SetBodyContentJSON,
        RequestBuilder.Build, AddHeaders_eq, AddHeaderIfNotNil_eq, AddQueryIfNotNil_eq,
        RequestBuilder.AddHeader, RequestBuilder.AddQuery, callerAndSdkHeaders, queryAdd, hZoneID]
    | some zone_id =>
      by_cases hneZoneID : zone_id = ""
      · simp [core.ValidateNotNil, core.ValidateStruct, GetZoneOptions.validated, firstFailure,
          ValidatedField.firstFailure, ValidateTag.holds, bind, Except.bind, deref,
          RequestBuilder.ResolveRequestURL, core.NewRequestBuilder, RequestBuilder.SetBodyContentJSON,
          RequestBuilder.Build, AddHeaders_eq, AddHeaderIfNotNil_eq, AddQueryIfNotNil_eq,
          RequestBuilder.AddHeader, RequestBuilder.AddQuery, callerAndSdkHeaders, queryAdd, hZoneID, hneZoneID]
      cases hr : svc.ResolveRequestURL svc.URL "/v1/zones/{zone_id}" [("zone_id", zone_id)] with
      | error msg =>
        simp [core.ValidateNotNil, core.ValidateStruct, GetZoneOptions.validated, firstFailure,
          ValidatedField.firstFailure, ValidateTag.holds, bind, Except.bind, deref,
          RequestBuilder.ResolveRequestURL, core.NewRequestBuilder, RequestBuilder.SetBodyContentJSON,
          RequestBuilder.Build, AddHeaders_eq, AddHeaderIfNotNil_eq, AddQueryIfNotNil_eq,
          RequestBuilder.AddHeader, RequestBuilder.AddQuery, callerAndSdkHeaders, queryAdd, hZoneID, hneZoneID, hr]
      | ok url =>
        simp [core.ValidateNotNil, core.ValidateStruct, GetZoneOptions.validated, firstFailure,
          ValidatedField.firstFailure, ValidateTag.holds, bind, Except.bind, deref,
          RequestBuilder.ResolveRequestURL, core.NewRequestBuilder, RequestBuilder.SetBodyContentJSON,
          RequestBuilder.Build, AddHeaders_eq, AddHeaderIfNotNil_eq, AddQueryIfNotNil_eq,
          RequestBuilder.AddHeader, RequestBuilder.AddQuery, callerAndSdkHeaders, queryAdd, hZoneID, hneZoneID, hr]
        all_goals exact eq_comm

theorem ReplaceZoneWithContext_request_ok_iff (svc : ContextBasedRestrictionsV1)
    (options : Option ReplaceZoneOptions) (req : RequestBuilder) :
    ReplaceZoneWithContext_request svc options = .ok req ↔
      ∃ (o : ReplaceZoneOptions) (zone_id ifMatch url : String),
        options = some o ∧
        o.ZoneID = some zone_id ∧
        zone_id ≠ "" ∧
        o.IfMatch = some ifMatch ∧
        svc.ResolveRequestURL svc.URL "/v1/zones/{zone_id}" [("zone_id", zone_id)] = .ok url ∧
        req =
          { Method := .PUT, URL := url,
            Header :=
              (mapAssignIfNotNil (mapAssignIfNotNil (mapAssignIfNotNil (mapAssign (mapAssign (callerAndSdkHeaders svc o.Headers "ReplaceZone")
                "Accept" "application/json")
                "Content-Type" "application/json")
                "If-Match" o.IfMatch)
                "X-Correlation-Id" o.XCorrelationID)
                "Transaction-Id" o.TransactionID),
            Query :=
              [],
            Body :=
              (some (setBodyIfNotNil (setBodyIfNotNil (setBodyIfNotNil (setBodyIfNotNil (setBodyIfNotNil []
                "name" BodyValue.string o.Name)
                "account_id" BodyValue.string o.AccountID)
                "description" BodyValue.string o.Description)
                "addresses" BodyValue.addresses o.Addresses)
                "excluded" BodyValue.addresses o.Excluded)),
            EnableGzipCompression := svc.EnableGzipCompression } := by
  unfold ReplaceZoneWithContext_request
  cases options with
  | none =>
    simp [core.ValidateNotNil, core.ValidateStruct, ReplaceZoneOptions.validated, firstFailure,
      ValidatedField.firstFailure, ValidateTag.holds, bind, Except.bind, deref,
      RequestBuilder.ResolveRequestURL, core.NewRequestBuilder, RequestBuilder.SetBodyContentJSON,
      RequestBuilder.Build, AddHeaders_eq, AddHeaderIfNotNil_eq, AddQueryIfNotNil_eq,
      RequestBuilder.AddHeader, RequestBuilder.AddQuery, callerAndSdkHeaders, queryAdd]
  | some o =>
    cases hZoneID : o.ZoneID with
    | none =>
      simp [core.ValidateNotNil, core.ValidateStruct, ReplaceZoneOptions.validated, firstFailure,
        ValidatedField.firstFailure, ValidateTag.holds, bind, Except.bind, deref,
        RequestBuilder.ResolveRequestURL, core.NewRequestBuilder, RequestBuilder.SetBodyContentJSON,
        RequestBuilder.Build, AddHeaders_eq, AddHeaderIfNotNil_eq, AddQueryIfNotNil_eq,
        RequestBuilder.AddHeader, RequestBuilder.AddQuery, callerAndSdkHeaders, queryAdd, hZoneID]
    | some zone_id =>
      by_cases hneZoneID : zone_id = ""
      · simp [core.ValidateNotNil, core.ValidateStruct, ReplaceZoneOptions.validated, firstFailure,
          ValidatedField.firstFailure, ValidateTag.holds, bind, Except.bind, deref,
          RequestBuilder.ResolveRequestURL, core.NewRequestBuilder, RequestBuilder.SetBodyContentJSON,
          RequestBuilder.Build, AddHeaders_eq, AddHeaderIfNotNil_eq, AddQueryIfNotNil_eq,
          RequestBuilder.AddHeader, RequestBuilder.AddQuery, callerAndSdkHeaders, queryAdd, hZoneID, hneZoneID]
      cases hIfMatch : o.IfMatch with
      | none =>
        simp [core.ValidateNotNil, core.ValidateStruct, ReplaceZoneOptions.validated, firstFailure,
          ValidatedField.firstFailure, ValidateTag.holds, bind, Except.bind, deref,
          RequestBuilder.ResolveRequestURL, core.NewRequestBuilder, RequestBuilder.SetBodyContentJSON,
          RequestBuilder.Build, AddHeaders_eq, AddHeaderIfNotNil_eq, AddQueryIfNotNil_eq,
          RequestBuilder.AddHeader, RequestBuilder.AddQuery, callerAndSdkHeaders, queryAdd, hZoneID, hneZoneID, hIfMatch]
      | some ifMatch =>
        cases hr : svc.ResolveRequestURL svc.URL "/v1/zones/{zone_id}" [("zone_id", zone_id)] with
        | error msg =>
          simp [core.ValidateNotNil, core.ValidateStruct, ReplaceZoneOptions.validated, firstFailure,
            ValidatedField.firstFailure, ValidateTag.holds, bind, Except.bind, deref,
            RequestBuilder.ResolveRequestURL, core.NewRequestBuilder, RequestBuilder.SetBodyContentJSON,
            RequestBuilder.Build, AddHeaders_eq, AddHeaderIfNotNil_eq, AddQueryIfNotNil_eq,
            RequestBuilder.AddHeader, RequestBuilder.AddQuery, callerAndSdkHeaders, queryAdd, hZoneID, hneZoneID, hIfMatch, hr]
        | ok url =>
          simp [core.ValidateNotNil, core.ValidateStruct, ReplaceZoneOptions.validated, firstFailure,
            ValidatedField.firstFailure, ValidateTag.holds, bind, Except.bind, deref,
            RequestBuilder.ResolveRequestURL, core.NewRequestBuilder, RequestBuilder.SetBodyContentJSON,
            RequestBuilder.Build, AddHeaders_eq, AddHeaderIfNotNil_eq, AddQueryIfNotNil_eq,
            RequestBuilder.AddHeader, RequestBuilder.AddQuery, callerAndSdkHeaders, queryAdd, hZoneID, hneZoneID, hIfMatch, hr]
          all_goals exact eq_comm

theorem DeleteZoneWithContext_request_ok_iff (svc : ContextBasedRestrictionsV1)
    (options : Option DeleteZoneOptions) (req : RequestBuilder) :
    DeleteZoneWithContext_request svc options = .ok req ↔
      ∃ (o : DeleteZoneOptions) (zone_id url : String),
        options = some o ∧
        o.ZoneID = some zone_id ∧
        zone_id ≠ "" ∧
        svc.ResolveRequestURL svc.URL "/v1/zones/{zone_id}" [("zone_id", zone_id)] = .ok url ∧
        req =
          { Method := .DELETE, URL := url,
            Header :=
              (mapAssignIfNotNil (mapAssignIfNotNil (callerAndSdkHeaders svc o.Headers "DeleteZone")
                "X-Correlation-Id" o.XCorrelationID)
                "Transaction-Id" o.TransactionID),
            Query :=
              [],
            Body :=
              none,
            EnableGzipCompression := svc.EnableGzipCompression } := by
  unfold DeleteZoneWithContext_request
  cases options with
  | none =>
    simp [core.ValidateNotNil, core.ValidateStruct, DeleteZoneOptions.validated, firstFailure,
      ValidatedField.firstFailure, ValidateTag.holds, bind, Except.bind, deref,
      RequestBuilder.ResolveRequestURL, core.NewRequestBuilder, RequestBuilder.SetBodyContentJSON,
      RequestBuilder.Build, AddHeaders_eq, AddHeaderIfNotNil_eq, AddQueryIfNotNil_eq,
      RequestBuilder.AddHeader, RequestBuilder.AddQuery, callerAndSdkHeaders, queryAdd]
  | some o =>
    cases hZoneID : o.ZoneID with
    | none =>
      simp [core.ValidateNotNil, core.ValidateStruct, DeleteZoneOptions.validated, firstFailure,
        ValidatedField.firstFailure, ValidateTag.holds, bind, Except.bind, deref,
        RequestBuilder.ResolveRequestURL, core.NewRequestBuilder, RequestBuilder.SetBodyContentJSON,
        RequestBuilder.Build, AddHeaders_eq, AddHeaderIfNotNil_eq, AddQueryIfNotNil_eq,
        RequestBuilder.AddHeader, RequestBuilder.AddQuery, callerAndSdkHeaders, queryAdd, hZoneID]
    | some zone_id =>
      by_cases hneZoneID : zone_id = ""
      · simp [core.ValidateNotNil, core.ValidateStruct, DeleteZoneOptions.validated, firstFailure,
          ValidatedField.firstFailure, ValidateTag.holds, bind, Except.bind, deref,
          RequestBuilder.ResolveRequestURL, core.NewRequestBuilder, RequestBuilder.SetBodyContentJSON,
          RequestBuilder.Build, AddHeaders_eq, AddHeaderIfNotNil_eq, AddQueryIfNotNil_eq,
          RequestBuilder.AddHeader, RequestBuilder.AddQuery, callerAndSdkHeaders, queryAdd, hZoneID, hneZoneID]
      cases hr : svc.ResolveRequestURL svc.URL "/v1/zones/{zone_id}" [("zone_id", zone_id)] with
      | error msg =>
        simp [core.ValidateNotNil, core.ValidateStruct, DeleteZoneOptions.validated, firstFailure,
          ValidatedField.firstFailure, ValidateTag.holds, bind, Except.bind, deref,
          RequestBuilder.ResolveRequestURL, core.NewRequestBuilder, RequestBuilder.SetBodyContentJSON,
          RequestBuilder.Build, AddHeaders_eq, AddHeaderIfNotNil_eq, AddQueryIfNotNil_eq,
          RequestBuilder.AddHeader, RequestBuilder.AddQuery, callerAndSdkHeaders, queryAdd, hZoneID, hneZoneID, hr]
      | ok url =>
        simp [core.ValidateNotNil, core.ValidateStruct, DeleteZoneOptions.validated, firstFailure,
          ValidatedField.firstFailure, ValidateTag.holds, bind, Except.bind, deref,
          RequestBuilder.ResolveRequestURL, core.NewRequestBuilder, RequestBuilder.SetBodyContentJSON,
          RequestBuilder.Build, AddHeaders_eq, AddHeaderIfNotNil_eq, AddQueryIfNotNil_eq,
          RequestBuilder.AddHeader, RequestBuilder.AddQuery, callerAndSdkHeaders, queryAdd, hZoneID, hneZoneID, hr]
        all_goals exact eq_comm

theorem ListAvailableServicerefTargetsWithContext_request_ok_iff (svc : ContextBasedRestrictionsV1)
    (options : Option ListAvailableServicerefTargetsOptions) (req : RequestBuilder) :
    ListAvailableServicerefTargetsWithContext_request svc options = .ok req ↔
      ∃ (o : ListAvailableServicerefTargetsOptions) (url : String),
        options = some o ∧
        svc.ResolveRequestURL svc.URL "/v1/zones/serviceref_targets" [] = .ok url ∧
        req =
          { Method := .GET, URL := url,
            Header :=
              (mapAssignIfNotNil (mapAssignIfNotNil (mapAssign (callerAndSdkHeaders svc o.Headers "ListAvailableServicerefTargets")
                "Accept" "application/json")
                "X-Correlation-Id" o.XCorrelationID)
                "Transaction-Id" o.TransactionID),
            Query :=
              (queryAddIfNotNil []
                "type" o.Type_),
            Body :=
              none,
            EnableGzipCompression := svc.EnableGzipCompression } := by
  unfold ListAvailableServicerefTargetsWithContext_request
  cases options with
  | none =>
    simp [core.ValidateNotNil, core.ValidateStruct, ListAvailableServicerefTargetsOptions.validated, firstFailure,
      ValidatedField.firstFailure, ValidateTag.holds, bind, Except.bind, deref,
      RequestBuilder.ResolveRequestURL, core.NewRequestBuilder, RequestBuilder.SetBodyContentJSON,
      RequestBuilder.Build, AddHeaders_eq, AddHeaderIfNotNil_eq, AddQueryIfNotNil_eq,
      RequestBuilder.AddHeader, RequestBuilder.AddQuery, callerAndSdkHeaders, queryAdd]
  | some o =>
    cases hr : svc.ResolveRequestURL svc.URL "/v1/zones/serviceref_targets" [] with
    | error msg =>
      simp [core.ValidateNotNil, core.ValidateStruct, ListAvailableServicerefTargetsOptions.validated, firstFailure,
        ValidatedField.firstFailure, ValidateTag.holds, bind, Except.bind, deref,
        RequestBuilder.ResolveRequestURL, core.NewRequestBuilder, RequestBuilder.SetBodyContentJSON,
        RequestBuilder.Build, AddHeaders_eq, AddHeaderIfNotNil_eq, AddQueryIfNotNil_eq,
        RequestBuilder.AddHeader, RequestBuilder.AddQuery, callerAndSdkHeaders, queryAdd, hr]
    | ok url =>
      simp [core.ValidateNotNil, core.ValidateStruct, ListAvailableServicerefTargetsOptions.validated, firstFailure,
        ValidatedField.firstFailure, ValidateTag.holds, bind, Except.bind, deref,
        RequestBuilder.ResolveRequestURL, core.NewRequestBuilder, RequestBuilder.SetBodyContentJSON,
        RequestBuilder.Build, AddHeaders_eq, AddHeaderIfNotNil_eq, AddQueryIfNotNil_eq,
        RequestBuilder.AddHeader, RequestBuilder.AddQuery, callerAndSdkHeaders, queryAdd, hr]
      all_goals exact eq_comm

theorem CreateRuleWithContext_request_ok_iff (svc : ContextBasedRestrictionsV1)
    (options : Option CreateRuleOptions) (req : RequestBuilder) :
    CreateRuleWithContext_request svc options = .ok req ↔
      ∃ (o : CreateRuleOptions) (url : String),
        options = some o ∧
        svc.ResolveRequestURL svc.URL "/v1/rules" [] = .ok url ∧
        req =
          { Method := .POST, URL := url,
            Header :=
              (mapAssignIfNotNil (mapAssignIfNotNil (mapAssign (mapAssign (callerAndSdkHeaders svc o.Headers "CreateRule")
                "Accept" "application/json")
                "Content-Type" "application/json")
                "X-Correlation-Id" o.XCorrelationID)
                "Transaction-Id" o.TransactionID),
            Query :=
              [],
            Body :=
              (some (setBodyIfNotNil (setBodyIfNotNil (setBodyIfNotNil []
                "description" BodyValue.string o.Description)
                "contexts" BodyValue.contexts o.Contexts)
                "resources" BodyValue.resources o.Resources)),
            EnableGzipCompression := svc.EnableGzipCompression } := by
  unfold CreateRuleWithContext_request
  cases options with
  | none =>
    simp [core.ValidateNotNil, core.ValidateStruct, CreateRuleOptions.validated, firstFailure,
      ValidatedField.firstFailure, ValidateTag.holds, bind, Except.bind, deref,
      RequestBuilder.ResolveRequestURL, core.NewRequestBuilder, RequestBuilder.SetBodyContentJSON,
      RequestBuilder.Build, AddHeaders_eq, AddHeaderIfNotNil_eq, AddQueryIfNotNil_eq,
      RequestBuilder.AddHeader, RequestBuilder.AddQuery, callerAndSdkHeaders, queryAdd]
  | some o =>
    cases hr : svc.ResolveRequestURL svc.URL "/v1/rules" [] with
    | error msg =>
      simp [core.ValidateNotNil, core.ValidateStruct, CreateRuleOptions.validated, firstFailure,
        ValidatedField.firstFailure, ValidateTag.holds, bind, Except.bind, deref,
        RequestBuilder.ResolveRequestURL, core.NewRequestBuilder, RequestBuilder.SetBodyContentJSON,
        RequestBuilder.Build, AddHeaders_eq, AddHeaderIfNotNil_eq, AddQueryIfNotNil_eq,
        RequestBuilder.AddHeader, RequestBuilder.AddQuery, callerAndSdkHeaders, queryAdd, hr]
    | ok url =>
      simp [core.ValidateNotNil, core.ValidateStruct, CreateRuleOptions.validated, firstFailure,
        ValidatedField.firstFailure, ValidateTag.holds, bind, Except.bind, deref,
        RequestBuilder.ResolveRequestURL, core.NewRequestBuilder, RequestBuilder.SetBodyContentJSON,
        RequestBuilder.Build, AddHeaders_eq, AddHeaderIfNotNil_eq, AddQueryIfNotNil_eq,
        RequestBuilder.AddHeader, RequestBuilder.AddQuery, callerAndSdkHeaders, queryAdd, hr]
      all_goals exact eq_comm

theorem ListRulesWithContext_request_ok_iff (svc : ContextBasedRestrictionsV1)
    (options : Option ListRulesOptions) (req : RequestBuilder) :
    ListRulesWithContext_request svc options = .ok req ↔
      ∃ (o : ListRulesOptions) (account_id url : String),
        options = some o ∧
        o.AccountID = some account_id ∧
        svc.ResolveRequestURL svc.URL "/v1/rules" [] = .ok url ∧
        req =
          { Method := .GET, URL := url,
            Header :=
              (mapAssignIfNotNil (mapAssignIfNotNil (mapAssign (callerAndSdkHeaders svc o.Headers "ListRules")
                "Accept" "application/json")
                "X-Correlation-Id" o.XCorrelationID)
                "Transaction-Id" o.TransactionID),
            Query :=
              (queryAddIfNotNil (queryAddIfNotNil (queryAddIfNotNil (queryAddIfNotNil (queryAddIfNotNil (queryAddIfNotNil (queryAddIfNotNil (queryAddIfNotNil (queryAdd [] "account_id" account_id)
                "region" o.Region)
                "resource" o.Resource)
                "resource_type" o.ResourceType)
                "service_instance" o.ServiceInstance)
                "service_name" o.ServiceName)
                "service_type" o.ServiceType)
                "zone_id" o.ZoneID)
                "sort" o.Sort_),
            Body :=
              none,
            EnableGzipCompression := svc.EnableGzipCompression } := by
  unfold ListRulesWithContext_request
  cases options with
  | none =>
    simp [core.ValidateNotNil, core.ValidateStruct, ListRulesOptions.validated, firstFailure,
      ValidatedField.firstFailure, ValidateTag.holds, bind, Except.bind, deref,
      RequestBuilder.ResolveRequestURL, core.NewRequestBuilder, RequestBuilder.SetBodyContentJSON,
      RequestBuilder.Build, AddHeaders_eq, AddHeaderIfNotNil_eq, AddQueryIfNotNil_eq,
      RequestBuilder.AddHeader, RequestBuilder.AddQuery, callerAndSdkHeaders, queryAdd]
  | some o =>
    cases hAccountID : o.AccountID with
    | none =>
      simp [core.ValidateNotNil, core.ValidateStruct, ListRulesOptions.validated, firstFailure,
        ValidatedField.firstFailure, ValidateTag.holds, bind, Except.bind, deref,
        RequestBuilder.ResolveRequestURL, core.NewRequestBuilder, RequestBuilder.SetBodyContentJSON,
        RequestBuilder.Build, AddHeaders_eq, AddHeaderIfNotNil_eq, AddQueryIfNotNil_eq,
        RequestBuilder.AddHeader, RequestBuilder.AddQuery, callerAndSdkHeaders, queryAdd, hAccountID]
    | some account_id =>
      cases hr : svc.ResolveRequestURL svc.URL "/v1/rules" [] with
      | error msg =>
        simp [core.ValidateNotNil, core.ValidateStruct, ListRulesOptions.validated, firstFailure,
          ValidatedField.firstFailure, ValidateTag.holds, bind, Except.bind, deref,
          RequestBuilder.ResolveRequestURL, core.NewRequestBuilder, RequestBuilder.SetBodyContentJSON,
          RequestBuilder.Build, AddHeaders_eq, AddHeaderIfNotNil_eq, AddQueryIfNotNil_eq,
          RequestBuilder.AddHeader, RequestBuilder.AddQuery, callerAndSdkHeaders, queryAdd, hAccountID, hr]
      | ok url =>
        simp [core.ValidateNotNil, core.ValidateStruct, ListRulesOptions.validated, firstFailure,
          ValidatedField.firstFailure, ValidateTag.holds, bind, Except.bind, deref,
          RequestBuilder.ResolveRequestURL, core.NewRequestBuilder, RequestBuilder.SetBodyContentJSON,
          RequestBuilder.Build, AddHeaders_eq, AddHeaderIfNotNil_eq, AddQueryIfNotNil_eq,
          RequestBuilder.AddHeader, RequestBuilder.AddQuery, callerAndSdkHeaders, queryAdd, hAccountID, hr]
        all_goals exact eq_comm

theorem GetRuleWithContext_request_ok_iff (svc : ContextBasedRestrictionsV1)
    (options : Option GetRuleOptions) (req : RequestBuilder) :
    GetRuleWithContext_request svc options = .ok req ↔
      ∃ (o : GetRuleOptions) (rule_id url : String),
        options = some o ∧
        o.RuleID = some rule_id ∧
        rule_id ≠ "" ∧
        svc.ResolveRequestURL svc.URL "/v1/rules/{rule_id}" [("rule_id", rule_id)] = .ok url ∧
        req =
          { Method := .GET, URL := url,
            Header :=
              (mapAssignIfNotNil (mapAssignIfNotNil (mapAssign (callerAndSdkHeaders svc o.Headers "GetRule")
                "Accept" "application/json")
                "X-Correlation-Id" o.XCorrelationID)
                "Transaction-Id" o.TransactionID),
            Query :=
              [],
            Body :=
              none,
            EnableGzipCompression := svc.EnableGzipCompression } := by
  unfold GetRuleWithContext_request
  cases options with
  | none =>
    simp [core.ValidateNotNil, core.ValidateStruct, GetRuleOptions.validated, firstFailure,
      ValidatedField.firstFailure, ValidateTag.holds, bind, Except.bind, deref,
      RequestBuilder.ResolveRequestURL, core.NewRequestBuilder, RequestBuilder.SetBodyContentJSON,
      RequestBuilder.Build, AddHeaders_eq, AddHeaderIfNotNil_eq, AddQueryIfNotNil_eq,
      RequestBuilder.AddHeader, RequestBuilder.AddQuery, callerAndSdkHeaders, queryAdd]
  | some o =>
    cases hRuleID : o.RuleID with
    | none =>
      simp [core.ValidateNotNil, core.ValidateStruct, GetRuleOptions.validated, firstFailure,
        ValidatedField.firstFailure, ValidateTag.holds, bind, Except.bind, deref,
        RequestBuilder.ResolveRequestURL, core.NewRequestBuilder, RequestBuilder.SetBodyContentJSON,
        RequestBuilder.Build, AddHeaders_eq, AddHeaderIfNotNil_eq, AddQueryIfNotNil_eq,
        RequestBuilder.AddHeader, RequestBuilder.AddQuery, callerAndSdkHeaders, queryAdd, hRuleID]
    | some rule_id =>
      by_cases hneRuleID : rule_id = ""
      · simp [core.ValidateNotNil, core.ValidateStruct, GetRuleOptions.validated, firstFailure,
          ValidatedField.firstFailure, ValidateTag.holds, bind, Except.bind, deref,
          RequestBuilder.ResolveRequestURL, core.NewRequestBuilder, RequestBuilder.SetBodyContentJSON,
          RequestBuilder.Build, AddHeaders_eq, AddHeaderIfNotNil_eq, AddQueryIfNotNil_eq,
          RequestBuilder.AddHeader, RequestBuilder.AddQuery, callerAndSdkHeaders, queryAdd, hRuleID, hneRuleID]
      cases hr : svc.ResolveRequestURL svc.URL "/v1/rules/{rule_id}" [("rule_id", rule_id)] with
      | error msg =>
        simp [core.ValidateNotNil, core.ValidateStruct, GetRuleOptions.validated, firstFailure,
          ValidatedField.firstFailure, ValidateTag.holds, bind, Except.bind, deref,
          RequestBuilder.ResolveRequestURL, core.NewRequestBuilder, RequestBuilder.SetBodyContentJSON,
          RequestBuilder.Build, AddHeaders_eq, AddHeaderIfNotNil_eq, AddQueryIfNotNil_eq,
          RequestBuilder.AddHeader, RequestBuilder.AddQuery, callerAndSdkHeaders, queryAdd, hRuleID, hneRuleID, hr]
      | ok url =>
        simp [core.ValidateNotNil, core.ValidateStruct, GetRuleOptions.validated, firstFailure,
          ValidatedField.firstFailure, ValidateTag.holds, bind, Except.bind, deref,
          RequestBuilder.ResolveRequestURL, core.NewRequestBuilder, RequestBuilder.SetBodyContentJSON,
          RequestBuilder.Build, AddHeaders_eq, AddHeaderIfNotNil_eq, AddQueryIfNotNil_eq,
          RequestBuilder.AddHeader, RequestBuilder.AddQuery, callerAndSdkHeaders, queryAdd, hRuleID, hneRuleID, hr]
        all_goals exact eq_comm

theorem ReplaceRuleWithContext_request_ok_iff (svc : ContextBasedRestrictionsV1)
    (options : Option ReplaceRuleOptions) (req : RequestBuilder) :
    ReplaceRuleWithContext_request svc options = .ok req ↔
      ∃ (o : ReplaceRuleOptions) (rule_id ifMatch url : String),
        options = some o ∧
        o.RuleID = some rule_id ∧
        rule_id ≠ "" ∧
        o.IfMatch = some ifMatch ∧
        svc.ResolveRequestURL svc.URL "/v1/rules/{rule_id}" [("rule_id", rule_id)] = .ok url ∧
        req =
          { Method := .PUT, URL := url,
            Header :=
              (mapAssignIfNotNil (mapAssignIfNotNil (mapAssignIfNotNil (mapAssign (mapAssign (callerAndSdkHeaders svc o.Headers "ReplaceRule")
                "Accept" "application/json")
                "Content-Type" "application/json")
                "If-Match" o.IfMatch)
                "X-Correlation-Id" o.XCorrelationID)
                "Transaction-Id" o.TransactionID),
            Query :=
              [],
            Body :=
              (some (setBodyIfNotNil (setBodyIfNotNil (setBodyIfNotNil []
                "description" BodyValue.string o.Description)
                "contexts" BodyValue.contexts o.Contexts)
                "resources" BodyValue.resources o.Resources)),
            EnableGzipCompression := svc.EnableGzipCompression } := by
  unfold ReplaceRuleWithContext_request
  cases options with
  | none =>
    simp [core.ValidateNotNil, core.ValidateStruct, ReplaceRuleOptions.validated, firstFailure,
      ValidatedField.firstFailure, ValidateTag.holds, bind, Except.bind, deref,
      RequestBuilder.ResolveRequestURL, core.NewRequestBuilder, RequestBuilder.SetBodyContentJSON,
      RequestBuilder.Build, AddHeaders_eq, AddHeaderIfNotNil_eq, AddQueryIfNotNil_eq,
      RequestBuilder.AddHeader, RequestBuilder.AddQuery, callerAndSdkHeaders, queryAdd]
  | some o =>
    cases hRuleID : o.RuleID with
    | none =>
      simp [core.ValidateNotNil, core.ValidateStruct, ReplaceRuleOptions.validated, firstFailure,
        ValidatedField.firstFailure, ValidateTag.holds, bind, Except.bind, deref,
        RequestBuilder.ResolveRequestURL, core.NewRequestBuilder, RequestBuilder.SetBodyContentJSON,
        RequestBuilder.Build, AddHeaders_eq, AddHeaderIfNotNil_eq, AddQueryIfNotNil_eq,
        RequestBuilder.AddHeader, RequestBuilder.AddQuery, callerAndSdkHeaders, queryAdd, hRuleID]
    | some rule_id =>
      by_cases hneRuleID : rule_id = ""
      · simp [core.ValidateNotNil, core.ValidateStruct, ReplaceRuleOptions.validated, firstFailure,
          ValidatedField.firstFailure, ValidateTag.holds, bind, Except.bind, deref,
          RequestBuilder.ResolveRequestURL, core.NewRequestBuilder, RequestBuilder.SetBodyContentJSON,
          RequestBuilder.Build, AddHeaders_eq, AddHeaderIfNotNil_eq, AddQueryIfNotNil_eq,
          RequestBuilder.AddHeader, RequestBuilder.AddQuery, callerAndSdkHeaders, queryAdd, hRuleID, hneRuleID]
      cases hIfMatch : o.IfMatch with
      | none =>
        simp [core.ValidateNotNil, core.ValidateStruct, ReplaceRuleOptions.validated, firstFailure,
          ValidatedField.firstFailure, ValidateTag.holds, bind, Except.bind, deref,
          RequestBuilder.ResolveRequestURL, core.NewRequestBuilder, RequestBuilder.SetBodyContentJSON,
          RequestBuilder.Build, AddHeaders_eq, AddHeaderIfNotNil_eq, AddQueryIfNotNil_eq,
          RequestBuilder.AddHeader, RequestBuilder.AddQuery, callerAndSdkHeaders, queryAdd, hRuleID, hneRuleID, hIfMatch]
      | some ifMatch =>
        cases hr : svc.ResolveRequestURL svc.URL "/v1/rules/{rule_id}" [("rule_id", rule_id)] with
        | error msg =>
          simp [core.ValidateNotNil, core.ValidateStruct, ReplaceRuleOptions.validated, firstFailure,
            ValidatedField.firstFailure, ValidateTag.holds, bind, Except.bind, deref,
            RequestBuilder.ResolveRequestURL, core.NewRequestBuilder, RequestBuilder.SetBodyContentJSON,
            RequestBuilder.Build, AddHeaders_eq, AddHeaderIfNotNil_eq, AddQueryIfNotNil_eq,
            RequestBuilder.AddHeader, RequestBuilder.AddQuery, callerAndSdkHeaders, queryAdd, hRuleID, hneRuleID, hIfMatch, hr]
        | ok url =>
          simp [core.ValidateNotNil, core.ValidateStruct, ReplaceRuleOptions.validated, firstFailure,
            ValidatedField.firstFailure, ValidateTag.holds, bind, Except.bind, deref,
            RequestBuilder.ResolveRequestURL, core.NewRequestBuilder, RequestBuilder.SetBodyContentJSON,
            RequestBuilder.Build, AddHeaders_eq, AddHeaderIfNotNil_eq, AddQueryIfNotNil_eq,
            RequestBuilder.AddHeader, RequestBuilder.AddQuery, callerAndSdkHeaders, queryAdd, hRuleID, hneRuleID, hIfMatch, hr]
          all_goals exact eq_comm

theorem DeleteRuleWithContext_request_ok_iff (svc : ContextBasedRestrictionsV1)
    (options : Option DeleteRuleOptions) (req : RequestBuilder) :
    DeleteRuleWithContext_request svc options = .ok req ↔
      ∃ (o : DeleteRuleOptions) (rule_id url : String),
        options = some o ∧
        o.RuleID = some rule_id ∧
        rule_id ≠ "" ∧
        svc.ResolveRequestURL svc.URL "/v1/rules/{rule_id}" [("rule_id", rule_id)] = .ok url ∧
        req =
          { Method := .DELETE, URL := url,
            Header :=
              (mapAssignIfNotNil (mapAssignIfNotNil (callerAndSdkHeaders svc o.Headers "DeleteRule")
                "X-Correlation-Id" o.XCorrelationID)
                "Transaction-Id" o.TransactionID),
            Query :=
              [],
            Body :=
              none,
            EnableGzipCompression := svc.EnableGzipCompression } := by
  unfold DeleteRuleWithContext_request
  cases options with
  | none =>
    simp [core.ValidateNotNil, core.ValidateStruct, DeleteRuleOptions.validated, firstFailure,
      ValidatedField.firstFailure, ValidateTag.holds, bind, Except.bind, deref,
      RequestBuilder.ResolveRequestURL, core.NewRequestBuilder, RequestBuilder.SetBodyContentJSON,
      RequestBuilder.Build, AddHeaders_eq, AddHeaderIfNotNil_eq, AddQueryIfNotNil_eq,
      RequestBuilder.AddHeader, RequestBuilder.AddQuery, callerAndSdkHeaders, queryAdd]
  | some o =>
    cases hRuleID : o.RuleID with
    | none =>
      simp [core.ValidateNotNil, core.ValidateStruct, DeleteRuleOptions.validated, firstFailure,
        ValidatedField.firstFailure, ValidateTag.holds, bind, Except.bind, deref,
        RequestBuilder.ResolveRequestURL, core.NewRequestBuilder, RequestBuilder.SetBodyContentJSON,
        RequestBuilder.Build, AddHeaders_eq, AddHeaderIfNotNil_eq, AddQueryIfNotNil_eq,
        RequestBuilder.AddHeader, RequestBuilder.AddQuery, callerAndSdkHeaders, queryAdd, hRuleID]
    | some rule_id =>
      by_cases hneRuleID : rule_id = ""
      · simp [core.ValidateNotNil, core.ValidateStruct, DeleteRuleOptions.validated, firstFailure,
          ValidatedField.firstFailure, ValidateTag.holds, bind, Except.bind, deref,
          RequestBuilder.ResolveRequestURL, core.NewRequestBuilder, RequestBuilder.SetBodyContentJSON,
          RequestBuilder.Build, AddHeaders_eq, AddHeaderIfNotNil_eq, AddQueryIfNotNil_eq,
          RequestBuilder.AddHeader, RequestBuilder.AddQuery, callerAndSdkHeaders, queryAdd, hRuleID, hneRuleID]
      cases hr : svc.ResolveRequestURL svc.URL "/v1/rules/{rule_id}" [("rule_id", rule_id)] with
      | error msg =>
        simp [core.ValidateNotNil, core.ValidateStruct, DeleteRuleOptions.validated, firstFailure,
          ValidatedField.firstFailure, ValidateTag.holds, bind, Except.bind, deref,
          RequestBuilder.ResolveRequestURL, core.NewRequestBuilder, RequestBuilder.SetBodyContentJSON,
          RequestBuilder.Build, AddHeaders_eq, AddHeaderIfNotNil_eq, AddQueryIfNotNil_eq,
          RequestBuilder.AddHeader, RequestBuilder.AddQuery, callerAndSdkHeaders, queryAdd, hRuleID, hneRuleID, hr]
      | ok url =>
        simp [core.ValidateNotNil, core.ValidateStruct, DeleteRuleOptions.validated, firstFailure,
          ValidatedField.firstFailure, ValidateTag.holds, bind, Except.bind, deref,
          RequestBuilder.ResolveRequestURL, core.NewRequestBuilder, RequestBuilder.SetBodyContentJSON,
          RequestBuilder.Build, AddHeaders_eq, AddHeaderIfNotNil_eq, AddQueryIfNotNil_eq,
          RequestBuilder.AddHeader, RequestBuilder.AddQuery, callerAndSdkHeaders, queryAdd, hRuleID, hneRuleID, hr]
        all_goals exact eq_comm

theorem GetAccountSettingsWithContext_request_ok_iff (svc : ContextBasedRestrictionsV1)
    (options : Option GetAccountSettingsOptions) (req : RequestBuilder) :
    GetAccountSettingsWithContext_request svc options = .ok req ↔
      ∃ (o : GetAccountSettingsOptions) (account_id url : String),
        options = some o ∧
        o.AccountID = some account_id ∧
        account_id ≠ "" ∧
        svc.ResolveRequestURL svc.URL "/v1/account_settings/{account_id}" [("account_id", account_id)] = .ok url ∧
        req =
          { Method := .GET, URL := url,
            Header :=
              (mapAssignIfNotNil (mapAssignIfNotNil (mapAssign (callerAndSdkHeaders svc o.Headers "GetAccountSettings")
                "Accept" "application/json")
                "X-Correlation-Id" o.XCorrelationID)
                "Transaction-Id" o.TransactionID),
            Query :=
              [],
            Body :=
              none,
            EnableGzipCompression := svc.EnableGzipCompression } := by
  unfold GetAccountSettingsWithContext_request
  cases options with
  | none =>
    simp [core.ValidateNotNil, core.ValidateStruct, GetAccountSettingsOptions.validated, firstFailure,
      ValidatedField.firstFailure, ValidateTag.holds, bind, Except.bind, deref,
      RequestBuilder.ResolveRequestURL, core.NewRequestBuilder, RequestBuilder.SetBodyContentJSON,
      RequestBuilder.Build, AddHeaders_eq, AddHeaderIfNotNil_eq, AddQueryIfNotNil_eq,
      RequestBuilder.AddHeader, RequestBuilder.AddQuery, callerAndSdkHeaders, queryAdd]
  | some o =>
    cases hAccountID : o.AccountID with
    | none =>
      simp [core.ValidateNotNil, core.ValidateStruct, GetAccountSettingsOptions.validated, firstFailure,
        ValidatedField.firstFailure, ValidateTag.holds, bind, Except.bind, deref,
        RequestBuilder.ResolveRequestURL, core.NewRequestBuilder, RequestBuilder.SetBodyContentJSON,
        RequestBuilder.Build, AddHeaders_eq, AddHeaderIfNotNil_eq, AddQueryIfNotNil_eq,
        RequestBuilder.AddHeader, RequestBuilder.AddQuery, callerAndSdkHeaders, queryAdd, hAccountID]
    | some account_id =>
      by_cases hneAccountID : account_id = ""
      · simp [core.ValidateNotNil, core.ValidateStruct, GetAccountSettingsOptions.validated, firstFailure,
          ValidatedField.firstFailure, ValidateTag.holds, bind, Except.bind, deref,
          RequestBuilder.ResolveRequestURL, core.NewRequestBuilder, RequestBuilder.SetBodyContentJSON,
          RequestBuilder.Build, AddHeaders_eq, AddHeaderIfNotNil_eq, AddQueryIfNotNil_eq,
          RequestBuilder.AddHeader, RequestBuilder.AddQuery, callerAndSdkHeaders, queryAdd, hAccountID, hneAccountID]
      cases hr : svc.ResolveRequestURL svc.URL "/v1/account_settings/{account_id}" [("account_id", account_id)] with
      | error msg =>
        simp [core.ValidateNotNil, core.ValidateStruct, GetAccountSettingsOptions.validated, firstFailure,
          ValidatedField.firstFailure, ValidateTag.holds, bind, Except.bind, deref,
          RequestBuilder.ResolveRequestURL, core.NewRequestBuilder, RequestBuilder.SetBodyContentJSON,
          RequestBuilder.Build, AddHeaders_eq, AddHeaderIfNotNil_eq, AddQueryIfNotNil_eq,
          RequestBuilder.AddHeader, RequestBuilder.AddQuery, callerAndSdkHeaders, queryAdd, hAccountID, hneAccountID, hr]
      | ok url =>
        simp [core.ValidateNotNil, core.ValidateStruct, GetAccountSettingsOptions.validated, firstFailure,
          ValidatedField.firstFailure, ValidateTag.holds, bind, Except.bind, deref,
          RequestBuilder.ResolveRequestURL, core.NewRequestBuilder, RequestBuilder.SetBodyContentJSON,
          RequestBuilder.Build, AddHeaders_eq, AddHeaderIfNotNil_eq, AddQueryIfNotNil_eq,
          RequestBuilder.AddHeader, RequestBuilder.AddQuery, callerAndSdkHeaders, queryAdd, hAccountID, hneAccountID, hr]
        all_goals exact eq_comm

/-! ## Local validation -/

theorem rejectedLocally_of_request_error {ρ : Type} (prepared : Except Abort RequestBuilder)
    (send : RequestBuilder → OperationResult ρ) (e : OperationError)
    (h : prepared = .error (.error e)) (hv : e.isValidation = true) :
    (runOperation prepared send).rejectedLocally = true := by
  subst h
  simp [runOperation, OperationResult.rejectedLocally, hv]

theorem ValidateStruct_error_of_firstFailure {τ : Type} (fields : τ → List ValidatedField)
    (p : τ) (paramName : String) (h : firstFailure (fields p) ≠ none) :
    ∃ e, core.ValidateStruct fields (some p) paramName = .error (.error e) ∧
      e.isValidation = true := by
  cases hf : firstFailure (fields p) with
  | none => exact absurd hf h
  | some ft =>
    exact ⟨.validateStruct paramName ft.1 ft.2, by simp [core.ValidateStruct, hf], rfl⟩

/-- C11: for GetZone, ReplaceZone, DeleteZone, GetRule, ReplaceRule, DeleteRule,
GetAccountSettings, ListZones and ListRules (in their WithContext form, which
the plain form calls), if the options are nil or a required option (ZoneID,
RuleID or AccountID; also IfMatch for the Replace operations) is unset, the
operation returns a local validation error and hands no request to the
transport. -/
theorem required_options_validated_before_request (svc : ContextBasedRestrictionsV1) :
    (∀ options : Option GetZoneOptions,
      (options = none ∨ ∃ o, options = some o ∧ (o.ZoneID = none)) →
      (GetZoneWithContext svc options).rejectedLocally = true) ∧
    (∀ options : Option ReplaceZoneOptions,
      (options = none ∨ ∃ o, options = some o ∧ (o.ZoneID = none ∨ o.IfMatch = none)) →
      (ReplaceZoneWithContext svc options).rejectedLocally = true) ∧
    (∀ options : Option DeleteZoneOptions,
      (options = none ∨ ∃ o, options = some o ∧ (o.ZoneID = none)) →
      (DeleteZoneWithContext svc options).rejectedLocally = true) ∧
    (∀ options : Option GetRuleOptions,
      (options = none ∨ ∃ o, options = some o ∧ (o.RuleID = none)) →
      (GetRuleWithContext svc options).rejectedLocally = true) ∧
    (∀ options : Option ReplaceRuleOptions,
      (options = none ∨ ∃ o, options = some o ∧ (o.RuleID = none ∨ o.IfMatch = none)) →
      (ReplaceRuleWithContext svc options).rejectedLocally = true) ∧
    (∀ options : Option DeleteRuleOptions,
      (options = none ∨ ∃ o, options = some o ∧ (o.RuleID = none)) →
      (DeleteRuleWithContext svc options).rejectedLocally = true) ∧
    (∀ options : Option GetAccountSettingsOptions,
      (options = none ∨ ∃ o, options = some o ∧ (o.AccountID = none)) →
      (GetAccountSettingsWithContext svc options).rejectedLocally = true) ∧
    (∀ options : Option ListZonesOptions,
      (options = none ∨ ∃ o, options = some o ∧ (o.AccountID = none)) →
      (ListZonesWithContext svc options).rejectedLocally = true) ∧
    (∀ options : Option ListRulesOptions,
      (options = none ∨ ∃ o, options = some o ∧ (o.AccountID = none)) →
      (ListRulesWithContext svc options).rejectedLocally = true) := by
  refine ⟨?_, ?_, ?_, ?_, ?_, ?_, ?_, ?_, ?_⟩
  · intro options h
    unfold GetZoneWithContext
    rcases h with rfl | ⟨o, rfl, h⟩
    · exact rejectedLocally_of_request_error _ _ _ rfl rfl
    · have hff : firstFailure (GetZoneOptions.validated o) ≠ none := by
        simp [GetZoneOptions.validated, firstFailure, ValidatedField.firstFailure,
          ValidateTag.holds, h]
      obtain ⟨e, he, hv⟩ := ValidateStruct_error_of_firstFailure GetZoneOptions.validated o
        "getZoneOptions" hff
      refine rejectedLocally_of_request_error _ _ e ?_ hv
      simp [GetZoneWithContext_request, core.ValidateNotNil, he, bind, Except.bind]
  · intro options h
    unfold ReplaceZoneWithContext
    rcases h with rfl | ⟨o, rfl, h⟩
    · exact rejectedLocally_of_request_error _ _ _ rfl rfl
    · have hff : firstFailure (ReplaceZoneOptions.validated o) ≠ none := by
        rcases h with h | h <;>
        simp [ReplaceZoneOptions.validated, firstFailure, ValidatedField.firstFailure,
          ValidateTag.holds, h] <;> try (split <;> simp)
      obtain ⟨e, he, hv⟩ := ValidateStruct_error_of_firstFailure ReplaceZoneOptions.validated o
        "replaceZoneOptions" hff
      refine rejectedLocally_of_request_error _ _ e ?_ hv
      simp [ReplaceZoneWithContext_request, core.ValidateNotNil, he, bind, Except.bind]
  · intro options h
    unfold DeleteZoneWithContext
    rcases h with rfl | ⟨o, rfl, h⟩
    · exact rejectedLocally_of_request_error _ _ _ rfl rfl
    · have hff : firstFailure (DeleteZoneOptions.validated o) ≠ none := by
        simp [DeleteZoneOptions.validated, firstFailure, ValidatedField.firstFailure,
          ValidateTag.holds, h]
      obtain ⟨e, he, hv⟩ := ValidateStruct_error_of_firstFailure DeleteZoneOptions.validated o
        "deleteZoneOptions" hff
      refine rejectedLocally_of_request_error _ _ e ?_ hv
      simp [DeleteZoneWithContext_request, core.ValidateNotNil, he, bind, Except.bind]
  · intro options h
    unfold GetRuleWithContext
    rcases h with rfl | ⟨o, rfl, h⟩
    · exact rejectedLocally_of_request_error _ _ _ rfl rfl
    · have hff : firstFailure (GetRuleOptions.validated o) ≠ none := by
        simp [GetRuleOptions.validated, firstFailure, ValidatedField.firstFailure,
          ValidateTag.holds, h]
      obtain ⟨e, he, hv⟩ := ValidateStruct_error_of_firstFailure GetRuleOptions.validated o
        "getRuleOptions" hff
      refine rejectedLocally_of_request_error _ _ e ?_ hv
      simp [GetRuleWithContext_request, core.ValidateNotNil, he, bind, Except.bind]
  · intro options h
    unfold ReplaceRuleWithContext
    rcases h with rfl | ⟨o, rfl, h⟩
    · exact rejectedLocally_of_request_error _ _ _ rfl rfl
    · have hff : firstFailure (ReplaceRuleOptions.validated o) ≠ none := by
        rcases h with h | h <;>
        simp [ReplaceRuleOptions.validated, firstFailure, ValidatedField.firstFailure,
          ValidateTag.holds, h] <;> try (split <;> simp)
      obtain ⟨e, he, hv⟩ := ValidateStruct_error_of_firstFailure ReplaceRuleOptions.validated o
        "replaceRuleOptions" hff
      refine rejectedLocally_of_request_error _ _ e ?_ hv
      simp [ReplaceRuleWithContext_request, core.ValidateNotNil, he, bind, Except.bind]
  · intro options h
    unfold DeleteRuleWithContext
    rcases h with rfl | ⟨o, rfl, h⟩
    · exact rejectedLocally_of_request_error _ _ _ rfl rfl
    · have hff : firstFailure (DeleteRuleOptions.validated o) ≠ none := by
        simp [DeleteRuleOptions.validated, firstFailure, ValidatedField.firstFailure,
          ValidateTag.holds, h]
      obtain ⟨e, he, hv⟩ := ValidateStruct_error_of_firstFailure DeleteRuleOptions.validated o
        "deleteRuleOptions" hff
      refine rejectedLocally_of_request_error _ _ e ?_ hv
      simp [DeleteRuleWithContext_request, core.ValidateNotNil, he, bind, Except.bind]
  · intro options h
    unfold GetAccountSettingsWithContext
    rcases h with rfl | ⟨o, rfl, h⟩
    · exact rejectedLocally_of_request_error _ _ _ rfl rfl
    · have hff : firstFailure (GetAccountSettingsOptions.validated o) ≠ none := by
        simp [GetAccountSettingsOptions.validated, firstFailure, ValidatedField.firstFailure,
          ValidateTag.holds, h]
      obtain ⟨e, he, hv⟩ := ValidateStruct_error_of_firstFailure GetAccountSettingsOptions.validated o
        "getAccountSettingsOptions" hff
      refine rejectedLocally_of_request_error _ _ e ?_ hv
      simp [GetAccountSettingsWithContext_request, core.ValidateNotNil, he, bind, Except.bind]
  · intro options h
    unfold ListZonesWithContext
    rcases h with rfl | ⟨o, rfl, h⟩
    · exact rejectedLocally_of_request_error _ _ _ rfl rfl
    · have hff : firstFailure (ListZonesOptions.validated o) ≠ none := by
        simp [ListZonesOptions.validated, firstFailure, ValidatedField.firstFailure,
          ValidateTag.holds, h]
      obtain ⟨e, he, hv⟩ := ValidateStruct_error_of_firstFailure ListZonesOptions.validated o
        "listZonesOptions" hff
      refine rejectedLocally_of_request_error _ _ e ?_ hv
      simp [ListZonesWithContext_request, core.ValidateNotNil, he, bind, Except.bind]
  · intro options h
    unfold ListRulesWithContext
    rcases h with rfl | ⟨o, rfl, h⟩
    · exact rejectedLocally_of_request_error _ _ _ rfl rfl
    · have hff : firstFailure (ListRulesOptions.validated o) ≠ none := by
        simp [ListRulesOptions.validated, firstFailure, ValidatedField.firstFailure,
          ValidateTag.holds, h]
      obtain ⟨e, he, hv⟩ := ValidateStruct_error_of_firstFailure ListRulesOptions.validated o
        "listRulesOptions" hff
      refine rejectedLocally_of_request_error _ _ e ?_ hv
      simp [ListRulesWithContext_request, core.ValidateNotNil, he, bind, Except.bind]

/-- Witness of C11: ReplaceZone with a zone ID but no IfMatch, and ListRules
with nil options. -/
theorem required_options_validated_before_request_witness :
    (ReplaceZoneWithContext sampleService
        (some { ZoneID := some "z-1", IfMatch := none, Name := none, AccountID := none,
                Description := none, Addresses := none, Excluded := none,
                XCorrelationID := none, TransactionID := none, Headers := [] })).rejectedLocally
        = true ∧
      (ListRulesWithContext sampleService none).rejectedLocally = true :=
  ⟨(required_options_validated_before_request sampleService).2.1 _
      (Or.inr ⟨_, rfl, Or.inr rfl⟩),
   (required_options_validated_before_request sampleService).2.2.2.2.2.2.2.2 none
      (Or.inl rfl)⟩

/-- Counterexample to C12: ListZones with an empty-string AccountID and
ReplaceZone with an empty-string IfMatch are not stopped by validation; the
request is handed to the transport with `account_id` empty, resp. with an
empty `If-Match` header. -/
theorem empty_required_option_passes_validation :
    (ListZonesWithContext sampleService
        (some { AccountID := some "", XCorrelationID := none, TransactionID := none,
                Name := none, Sort_ := none, Headers := [] })).rejectedLocally = false ∧
      (ListZonesWithContext sampleService
        (some { AccountID := some "", XCorrelationID := none, TransactionID := none,
                Name := none, Sort_ := none, Headers := [] })).sent.map (fun r => r.Query)
        = some [("account_id", [""])] ∧
      (ReplaceZoneWithContext sampleService
        (some { ZoneID := some "z-1", IfMatch := some "", Name := none, AccountID := none,
                Description := none, Addresses := none, Excluded := none,
                XCorrelationID := none, TransactionID := none,
                Headers := [] })).rejectedLocally = false ∧
      (ReplaceZoneWithContext sampleService
        (some { ZoneID := some "z-1", IfMatch := some "", Name := none, AccountID := none,
                Description := none, Addresses := none, Excluded := none,
                XCorrelationID := none, TransactionID := none,
                Headers := [] })).sent.map (fun r => r.Header.lookup "If-Match")
        = some (some "") :=
  ⟨rfl, rfl, rfl, rfl⟩

/-- C12, amended: an empty-string path parameter (ZoneID, RuleID, or the
AccountID of GetAccountSettings; tag `required,ne=`) is rejected by local
validation before any request, like a missing one. An empty-string AccountID
of ListZones or ListRules and an empty-string IfMatch of ReplaceZone or
ReplaceRule (tag `required` alone) pass validation: once the URL resolves the
request is handed to the transport with `account_id` empty, resp. with an
empty `If-Match` header. -/
theorem empty_path_parameter_rejected (svc : ContextBasedRestrictionsV1) :
    (∀ o : GetZoneOptions, o.ZoneID = some "" →
      (GetZoneWithContext svc (some o)).rejectedLocally = true) ∧
    (∀ o : ReplaceZoneOptions, o.ZoneID = some "" →
      (ReplaceZoneWithContext svc (some o)).rejectedLocally = true) ∧
    (∀ o : DeleteZoneOptions, o.ZoneID = some "" →
      (DeleteZoneWithContext svc (some o)).rejectedLocally = true) ∧
    (∀ o : GetRuleOptions, o.RuleID = some "" →
      (GetRuleWithContext svc (some o)).rejectedLocally = true) ∧
    (∀ o : ReplaceRuleOptions, o.RuleID = some "" →
      (ReplaceRuleWithContext svc (some o)).rejectedLocally = true) ∧
    (∀ o : DeleteRuleOptions, o.RuleID = some "" →
      (DeleteRuleWithContext svc (some o)).rejectedLocally = true) ∧
    (∀ o : GetAccountSettingsOptions, o.AccountID = some "" →
      (GetAccountSettingsWithContext svc (some o)).rejectedLocally = true) ∧
    (∀ (o : ListZonesOptions) (url : String), o.AccountID = some "" →
      svc.ResolveRequestURL svc.URL "/v1/zones" [] = .ok url →
      ∃ req, (ListZonesWithContext svc (some o)).sent = some req ∧
        req.Query.lookup "account_id" = some [""]) ∧
    (∀ (o : ListRulesOptions) (url : String), o.AccountID = some "" →
      svc.ResolveRequestURL svc.URL "/v1/rules" [] = .ok url →
      ∃ req, (ListRulesWithContext svc (some o)).sent = some req ∧
        req.Query.lookup "account_id" = some [""]) ∧
    (∀ (o : ReplaceZoneOptions) (zone_id url : String), o.ZoneID = some zone_id → zone_id ≠ "" →
      o.IfMatch = some "" →
      svc.ResolveRequestURL svc.URL "/v1/zones/{zone_id}" [("zone_id", zone_id)] = .ok url →
      ∃ req, (ReplaceZoneWithContext svc (some o)).sent = some req ∧
        req.Header.lookup "If-Match" = some "") ∧
    (∀ (o : ReplaceRuleOptions) (rule_id url : String), o.RuleID = some rule_id → rule_id ≠ "" →
      o.IfMatch = some "" →
      svc.ResolveRequestURL svc.URL "/v1/rules/{rule_id}" [("rule_id", rule_id)] = .ok url →
      ∃ req, (ReplaceRuleWithContext svc (some o)).sent = some req ∧
        req.Header.lookup "If-Match" = some "") := by
  refine ⟨?_, ?_, ?_, ?_, ?_, ?_, ?_, ?_, ?_, ?_, ?_⟩
  · intro o h
    unfold GetZoneWithContext
    have hff : firstFailure (GetZoneOptions.validated o) ≠ none := by
      simp [GetZoneOptions.validated, firstFailure, ValidatedField.firstFailure,
        ValidateTag.holds, h]
    obtain ⟨e, he, hv⟩ := ValidateStruct_error_of_firstFailure GetZoneOptions.validated o
      "getZoneOptions" hff
    refine rejectedLocally_of_request_error _ _ e ?_ hv
    simp [GetZoneWithContext_request, core.ValidateNotNil, he, bind, Except.bind]
  · intro o h
    unfold ReplaceZoneWithContext
    have hff : firstFailure (ReplaceZoneOptions.validated o) ≠ none := by
      simp [ReplaceZoneOptions.validated, firstFailure, ValidatedField.firstFailure,
        ValidateTag.holds, h]
    obtain ⟨e, he, hv⟩ := ValidateStruct_error_of_firstFailure ReplaceZoneOptions.validated o
      "replaceZoneOptions" hff
    refine rejectedLocally_of_request_error _ _ e ?_ hv
    simp [ReplaceZoneWithContext_request, core.ValidateNotNil, he, bind, Except.bind]
  · intro o h
    unfold DeleteZoneWithContext
    have hff : firstFailure (DeleteZoneOptions.validated o) ≠ none := by
      simp [DeleteZoneOptions.validated, firstFailure, ValidatedField.firstFailure,
        ValidateTag.holds, h]
    obtain ⟨e, he, hv⟩ := ValidateStruct_error_of_firstFailure DeleteZoneOptions.validated o
      "deleteZoneOptions" hff
    refine rejectedLocally_of_request_error _ _ e ?_ hv
    simp [DeleteZoneWithContext_request, core.ValidateNotNil, he, bind, Except.bind]
  · intro o h
    unfold GetRuleWithContext
    have hff : firstFailure (GetRuleOptions.validated o) ≠ none := by
      simp [GetRuleOptions.validated, firstFailure, ValidatedField.firstFailure,
        ValidateTag.holds, h]
    obtain ⟨e, he, hv⟩ := ValidateStruct_error_of_firstFailure GetRuleOptions.validated o
      "getRuleOptions" hff
    refine rejectedLocally_of_request_error _ _ e ?_ hv
    simp [GetRuleWithContext_request, core.ValidateNotNil, he, bind, Except.bind]
  · intro o h
    unfold ReplaceRuleWithContext
    have hff : firstFailure (ReplaceRuleOptions.validated o) ≠ none := by
      simp [ReplaceRuleOptions.validated, firstFailure, ValidatedField.firstFailure,
        ValidateTag.holds, h]
    obtain ⟨e, he, hv⟩ := ValidateStruct_error_of_firstFailure ReplaceRuleOptions.validated o
      "replaceRuleOptions" hff
    refine rejectedLocally_of_request_error _ _ e ?_ hv
    simp [ReplaceRuleWithContext_request, core.ValidateNotNil, he, bind, Except.bind]
  · intro o h
    unfold DeleteRuleWithContext
    have hff : firstFailure (DeleteRuleOptions.validated o) ≠ none := by
      simp [DeleteRuleOptions.validated, firstFailure, ValidatedField.firstFailure,
        ValidateTag.holds, h]
    obtain ⟨e, he, hv⟩ := ValidateStruct_error_of_firstFailure DeleteRuleOptions.validated o
      "deleteRuleOptions" hff
    refine rejectedLocally_of_request_error _ _ e ?_ hv
    simp [DeleteRuleWithContext_request, core.ValidateNotNil, he, bind, Except.bind]
  · intro o h
    unfold GetAccountSettingsWithContext
    have hff : firstFailure (GetAccountSettingsOptions.validated o) ≠ none := by
      simp [GetAccountSettingsOptions.validated, firstFailure, ValidatedField.firstFailure,
        ValidateTag.holds, h]
    obtain ⟨e, he, hv⟩ := ValidateStruct_error_of_firstFailure GetAccountSettingsOptions.validated o
      "getAccountSettingsOptions" hff
    refine rejectedLocally_of_request_error _ _ e ?_ hv
    simp [GetAccountSettingsWithContext_request, core.ValidateNotNil, he, bind, Except.bind]
  · intro o url h hr
    obtain ⟨req, hreq, hq⟩ : ∃ req, ListZonesWithContext_request svc (some o) = .ok req ∧
        req.Query.lookup "account_id" = some [""] :=
      ⟨_, (ListZonesWithContext_request_ok_iff svc (some o) _).2 ⟨o, "", url, rfl, h, hr, rfl⟩,
        by simp [lookup_queryAddIfNotNil, lookup_queryAdd, List.lookup]⟩
    refine ⟨req, ?_, hq⟩
    unfold ListZonesWithContext
    rw [hreq]
    exact exchange_sent _ _ _
  · intro o url h hr
    obtain ⟨req, hreq, hq⟩ : ∃ req, ListRulesWithContext_request svc (some o) = .ok req ∧
        req.Query.lookup "account_id" = some [""] :=
      ⟨_, (ListRulesWithContext_request_ok_iff svc (some o) _).2 ⟨o, "", url, rfl, h, hr, rfl⟩,
        by simp [lookup_queryAddIfNotNil, lookup_queryAdd, List.lookup]⟩
    refine ⟨req, ?_, hq⟩
    unfold ListRulesWithContext
    rw [hreq]
    exact exchange_sent _ _ _
  · intro o zone_id url h hne hi hr
    obtain ⟨req, hreq, hq⟩ : ∃ req, ReplaceZoneWithContext_request svc (some o) = .ok req ∧
        req.Header.lookup "If-Match" = some "" :=
      ⟨_, (ReplaceZoneWithContext_request_ok_iff svc (some o) _).2
        ⟨o, zone_id, "", url, rfl, h, hne, hi, hr, rfl⟩,
        by simp [lookup_mapAssignIfNotNil, lookup_mapAssign, hi]⟩
    refine ⟨req, ?_, hq⟩
    unfold ReplaceZoneWithContext
    rw [hreq]
    exact exchange_sent _ _ _
  · intro o rule_id url h hne hi hr
    obtain ⟨req, hreq, hq⟩ : ∃ req, ReplaceRuleWithContext_request svc (some o) = .ok req ∧
        req.Header.lookup "If-Match" = some "" :=
      ⟨_, (ReplaceRuleWithContext_request_ok_iff svc (some o) _).2
        ⟨o, rule_id, "", url, rfl, h, hne, hi, hr, rfl⟩,
        by simp [lookup_mapAssignIfNotNil, lookup_mapAssign, hi]⟩
    refine ⟨req, ?_, hq⟩
    unfold ReplaceRuleWithContext
    rw [hreq]
    exact exchange_sent _ _ _

/-- Witness of C12, amended: GetZone with an empty zone ID is rejected;
ListRules with an empty account ID is sent. -/
theorem empty_path_parameter_rejected_witness :
    (GetZoneWithContext sampleService
        (some { ZoneID := some "", XCorrelationID := none, TransactionID := none,
                Headers := [] })).rejectedLocally = true ∧
      ∃ req, (ListRulesWithContext sampleService
        (some { AccountID := some "", XCorrelationID := none, TransactionID := none,
                Region := none, Resource := none, ResourceType := none,
                ServiceInstance := none, ServiceName := none, ServiceType := none,
                ZoneID := none, Sort_ := none, Headers := [] })).sent = some req ∧
        req.Query.lookup "account_id" = some [""] :=
  ⟨(empty_path_parameter_rejected sampleService).1 _ rfl,
   (empty_path_parameter_rejected sampleService).2.2.2.2.2.2.2.2.1 _
      "https://cbr.cloud.ibm.com/v1/rules" rfl rfl⟩

/-! ## Query, body and headers of the built requests -/

/-- C14: the query of a request built by ListRules holds `account_id` with the
value of AccountID, holds each of `region`, `resource`, `resource_type`,
`service_instance`, `service_name`, `service_type`, `zone_id` and `sort` exactly
when the corresponding option is not nil, with exactly that value, and holds
no other parameter. Likewise ListZones (`account_id`, `name`, `sort`) and
ListAvailableServicerefTargets (`type`). -/
theorem list_operations_query (svc : ContextBasedRestrictionsV1) :
    (∀ (options : Option ListRulesOptions) (req : RequestBuilder),
      ListRulesWithContext_request svc options = .ok req →
      ∃ o account_id, options = some o ∧ o.AccountID = some account_id ∧
        ∀ k : String, req.Query.lookup k =
          if k = "account_id" then some [account_id]
          else if k = "region" then o.Region.map fun v => [v]
          else if k = "resource" then o.Resource.map fun v => [v]
          else if k = "resource_type" then o.ResourceType.map fun v => [v]
          else if k = "service_instance" then o.ServiceInstance.map fun v => [v]
          else if k = "service_name" then o.ServiceName.map fun v => [v]
          else if k = "service_type" then o.ServiceType.map fun v => [v]
          else if k = "zone_id" then o.ZoneID.map fun v => [v]
          else if k = "sort" then o.Sort_.map fun v => [v]
          else none) ∧
    (∀ (options : Option ListZonesOptions) (req : RequestBuilder),
      ListZonesWithContext_request svc options = .ok req →
      ∃ o account_id, options = some o ∧ o.AccountID = some account_id ∧
        ∀ k : String, req.Query.lookup k =
          if k = "account_id" then some [account_id]
          else if k = "name" then o.Name.map fun v => [v]
          else if k = "sort" then o.Sort_.map fun v => [v]
          else none) ∧
    (∀ (options : Option ListAvailableServicerefTargetsOptions) (req : RequestBuilder),
      ListAvailableServicerefTargetsWithContext_request svc options = .ok req →
      ∃ o, options = some o ∧
        ∀ k : String, req.Query.lookup k =
          if k = "type" then o.Type_.map fun v => [v]
          else none) := by
  refine ⟨?_, ?_, ?_⟩
  · intro options req h
    obtain ⟨o, account_id, url, rfl, hAccountID, hr, rfl⟩ :=
      (ListRulesWithContext_request_ok_iff svc options req).1 h
    refine ⟨o, account_id, rfl, hAccountID, ?_⟩
    intro k
    by_cases hk0 : k = "account_id"
    · subst hk0
      simp [lookup_queryAddIfNotNil, lookup_queryAdd, List.lookup]
    by_cases hk1 : k = "region"
    · subst hk1
      cases o.Region <;> simp [lookup_queryAddIfNotNil, lookup_queryAdd, List.lookup]
    by_cases hk2 : k = "resource"
    · subst hk2
      cases o.Resource <;> simp [lookup_queryAddIfNotNil, lookup_queryAdd, List.lookup]
    by_cases hk3 : k = "resource_type"
    · subst hk3
      cases o.ResourceType <;> simp [lookup_queryAddIfNotNil, lookup_queryAdd, List.lookup]
    by_cases hk4 : k = "service_instance"
    · subst hk4
      cases o.ServiceInstance <;> simp [lookup_queryAddIfNotNil, lookup_queryAdd, List.lookup]
    by_cases hk5 : k = "service_name"
    · subst hk5
      cases o.ServiceName <;> simp [lookup_queryAddIfNotNil, lookup_queryAdd, List.lookup]
    by_cases hk6 : k = "service_type"
    · subst hk6
      cases o.ServiceType <;> simp [lookup_queryAddIfNotNil, lookup_queryAdd, List.lookup]
    by_cases hk7 : k = "zone_id"
    · subst hk7
      cases o.ZoneID <;> simp [lookup_queryAddIfNotNil, lookup_queryAdd, List.lookup]
    by_cases hk8 : k = "sort"
    · subst hk8
      cases o.Sort_ <;> simp [lookup_queryAddIfNotNil, lookup_queryAdd, List.lookup]
    have hb0 : (k == "account_id") = false := by simpa using hk0
    simp [lookup_queryAddIfNotNil, lookup_queryAdd, List.lookup, hk0, hk1, hk2, hk3, hk4, hk5, hk6, hk7, hk8, hb0]
  · intro options req h
    obtain ⟨o, account_id, url, rfl, hAccountID, hr, rfl⟩ :=
      (ListZonesWithContext_request_ok_iff svc options req).1 h
    refine ⟨o, account_id, rfl, hAccountID, ?_⟩
    intro k
    by_cases hk0 : k = "account_id"
    · subst hk0
      simp [lookup_queryAddIfNotNil, lookup_queryAdd, List.lookup]
    by_cases hk1 : k = "name"
    · subst hk1
      cases o.Name <;> simp [lookup_queryAddIfNotNil, lookup_queryAdd, List.lookup]
    by_cases hk2 : k = "sort"
    · subst hk2
      cases o.Sort_ <;> simp [lookup_queryAddIfNotNil, lookup_queryAdd, List.lookup]
    have hb0 : (k == "account_id") = false := by simpa using hk0
    simp [lookup_queryAddIfNotNil, lookup_queryAdd, List.lookup, hk0, hk1, hk2, hb0]
  · intro options req h
    obtain ⟨o, url, rfl, hr, rfl⟩ :=
      (ListAvailableServicerefTargetsWithContext_request_ok_iff svc options req).1 h
    refine ⟨o, rfl, ?_⟩
    intro k
    by_cases hk0 : k = "type"
    · subst hk0
      cases o.Type_ <;> simp [lookup_queryAddIfNotNil, lookup_queryAdd, List.lookup]
    simp [lookup_queryAddIfNotNil, lookup_queryAdd, List.lookup, hk0]

/-- Witness of C14: ListZones with a name and no sort. -/
theorem list_operations_query_witness :
    ∃ o account_id,
      some ({ AccountID := some "acc", XCorrelationID := none, TransactionID := none,
              Name := some "zone-a", Sort_ := none, Headers := [] } : ListZonesOptions) = some o ∧
      o.AccountID = some account_id ∧
      ∀ k : String,
        (mapAssign (mapAssign ([] : List (String × List String)) "account_id" ["acc"])
          "name" ["zone-a"]).lookup k =
          if k = "account_id" then some [account_id]
          else if k = "name" then o.Name.map fun v => [v]
          else if k = "sort" then o.Sort_.map fun v => [v]
          else none :=
  (list_operations_query sampleService).2.1
    (some { AccountID := some "acc", XCorrelationID := none, TransactionID := none,
            Name := some "zone-a", Sort_ := none, Headers := [] })
    { Method := .GET, URL := "https://cbr.cloud.ibm.com/v1/zones",
      Header := [("Accept", "application/json")],
      Query := mapAssign (mapAssign [] "account_id" ["acc"]) "name" ["zone-a"],
      Body := none, EnableGzipCompression := false } rfl

/-- C15: the JSON body map of a request built by CreateZone or ReplaceZone
holds each of `name`, `account_id`, `description`, `addresses`, `excluded`
exactly when the corresponding option is not nil, mapped to the option's value,
and holds no other key (so none for ZoneID, IfMatch, XCorrelationID,
TransactionID or Headers); likewise `description`, `contexts`, `resources` for
CreateRule and ReplaceRule. -/
theorem body_holds_non_nil_options (svc : ContextBasedRestrictionsV1) :
    (∀ (options : Option CreateZoneOptions) (req : RequestBuilder),
      CreateZoneWithContext_request svc options = .ok req →
      ∃ o body, options = some o ∧ req.Body = some body ∧
        ∀ k : String, body.lookup k =
          if k = "name" then o.Name.map BodyValue.string
          else if k = "account_id" then o.AccountID.map BodyValue.string
          else if k = "description" then o.Description.map BodyValue.string
          else if k = "addresses" then o.Addresses.map BodyValue.addresses
          else if k = "excluded" then o.Excluded.map BodyValue.addresses
          else none) ∧
    (∀ (options : Option ReplaceZoneOptions) (req : RequestBuilder),
      ReplaceZoneWithContext_request svc options = .ok req →
      ∃ o body, options = some o ∧ req.Body = some body ∧
        ∀ k : String, body.lookup k =
          if k = "name" then o.Name.map BodyValue.string
          else if k = "account_id" then o.AccountID.map BodyValue.string
          else if k = "description" then o.Description.map BodyValue.string
          else if k = "addresses" then o.Addresses.map BodyValue.addresses
          else if k = "excluded" then o.Excluded.map BodyValue.addresses
          else none) ∧
    (∀ (options : Option CreateRuleOptions) (req : RequestBuilder),
      CreateRuleWithContext_request svc options = .ok req →
      ∃ o body, options = some o ∧ req.Body = some body ∧
        ∀ k : String, body.lookup k =
          if k = "description" then o.Description.map BodyValue.string
          else if k = "contexts" then o.Contexts.map BodyValue.contexts
          else if k = "resources" then o.Resources.map BodyValue.resources
          else none) ∧
    (∀ (options : Option ReplaceRuleOptions) (req : RequestBuilder),
      ReplaceRuleWithContext_request svc options = .ok req →
      ∃ o body, options = some o ∧ req.Body = some body ∧
        ∀ k : String, body.lookup k =
          if k = "description" then o.Description.map BodyValue.string
          else if k = "contexts" then o.Contexts.map BodyValue.contexts
          else if k = "resources" then o.Resources.map BodyValue.resources
          else none) := by
  refine ⟨?_, ?_, ?_, ?_⟩
  · intro options req h
    obtain ⟨o, url, rfl, hr, rfl⟩ :=
      (CreateZoneWithContext_request_ok_iff svc options req).1 h
    refine ⟨o, _, rfl, rfl, ?_⟩
    intro k
    by_cases hk0 : k = "name"
    · subst hk0
      cases o.Name <;> simp [lookup_setBodyIfNotNil, List.lookup]
    by_cases hk1 : k = "account_id"
    · subst hk1
      cases o.AccountID <;> simp [lookup_setBodyIfNotNil, List.lookup]
    by_cases hk2 : k = "description"
    · subst hk2
      cases o.Description <;> simp [lookup_setBodyIfNotNil, List.lookup]
    by_cases hk3 : k = "addresses"
    · subst hk3
      cases o.Addresses <;> simp [lookup_setBodyIfNotNil, List.lookup]
    by_cases hk4 : k = "excluded"
    · subst hk4
      cases o.Excluded <;> simp [lookup_setBodyIfNotNil, List.lookup]
    simp [lookup_setBodyIfNotNil, List.lookup, hk0, hk1, hk2, hk3, hk4]
  · intro options req h
    obtain ⟨o, zone_id, ifMatch, url, rfl, hZoneID, hneZoneID, hIfMatch, hr, rfl⟩ :=
      (ReplaceZoneWithContext_request_ok_iff svc options req).1 h
    refine ⟨o, _, rfl, rfl, ?_⟩
    intro k
    by_cases hk0 : k = "name"
    · subst hk0
      cases o.Name <;> simp [lookup_setBodyIfNotNil, List.lookup]
    by_cases hk1 : k = "account_id"
    · subst hk1
      cases o.AccountID <;> simp [lookup_setBodyIfNotNil, List.lookup]
    by_cases hk2 : k = "description"
    · subst hk2
      cases o.Description <;> simp [lookup_setBodyIfNotNil, List.lookup]
    by_cases hk3 : k = "addresses"
    · subst hk3
      cases o.Addresses <;> simp [lookup_setBodyIfNotNil, List.lookup]
    by_cases hk4 : k = "excluded"
    · subst hk4
      cases o.Excluded <;> simp [lookup_setBodyIfNotNil, List.lookup]
    simp [lookup_setBodyIfNotNil, List.lookup, hk0, hk1, hk2, hk3, hk4]
  · intro options req h
    obtain ⟨o, url, rfl, hr, rfl⟩ :=
      (CreateRuleWithContext_request_ok_iff svc options req).1 h
    refine ⟨o, _, rfl, rfl, ?_⟩
    intro k
    by_cases hk0 : k = "description"
    · subst hk0
      cases o.Description <;> simp [lookup_setBodyIfNotNil, List.lookup]
    by_cases hk1 : k = "contexts"
    · subst hk1
      cases o.Contexts <;> simp [lookup_setBodyIfNotNil, List.lookup]
    by_cases hk2 : k = "resources"
    · subst hk2
      cases o.Resources <;> simp [lookup_setBodyIfNotNil, List.lookup]
    simp [lookup_setBodyIfNotNil, List.lookup, hk0, hk1, hk2]
  · intro options req h
    obtain ⟨o, rule_id, ifMatch, url, rfl, hRuleID, hneRuleID, hIfMatch, hr, rfl⟩ :=
      (ReplaceRuleWithContext_request_ok_iff svc options req).1 h
    refine ⟨o, _, rfl, rfl, ?_⟩
    intro k
    by_cases hk0 : k = "description"
    · subst hk0
      cases o.Description <;> simp [lookup_setBodyIfNotNil, List.lookup]
    by_cases hk1 : k = "contexts"
    · subst hk1
      cases o.Contexts <;> simp [lookup_setBodyIfNotNil, List.lookup]
    by_cases hk2 : k = "resources"
    · subst hk2
      cases o.Resources <;> simp [lookup_setBodyIfNotNil, List.lookup]
    simp [lookup_setBodyIfNotNil, List.lookup, hk0, hk1, hk2]

/-- Witness of C15: CreateRule with a description only. -/
theorem body_holds_non_nil_options_witness :
    ∃ o body,
      some ({ Description := some "rule", Contexts := none, Resources := none,
              XCorrelationID := none, TransactionID := none, Headers := [] } :
        CreateRuleOptions) = some o ∧
      some ([("description", BodyValue.string "rule")] : BodyMap) = some body ∧
      ∀ k : String, body.lookup k =
        if k = "description" then o.Description.map BodyValue.string
        else if k = "contexts" then o.Contexts.map BodyValue.contexts
        else if k = "resources" then o.Resources.map BodyValue.resources
        else none :=
  (body_holds_non_nil_options sampleService).2.2.1
    (some { Description := some "rule", Contexts := none, Resources := none,
            XCorrelationID := none, TransactionID := none, Headers := [] })
    { Method := .POST, URL := "https://cbr.cloud.ibm.com/v1/rules",
      Header := [("Accept", "application/json"), ("Content-Type", "application/json")],
      Query := [], Body := some [("description", BodyValue.string "rule")],
      EnableGzipCompression := false } rfl

theorem lookup_callerAndSdkHeaders_none (svc : ContextBasedRestrictionsV1)
    (headers : List (String × String)) (operationId k : String)
    (hcaller : k ∉ headers.map Prod.fst)
    (hsdk : k ∉ (svc.GetSdkHeaders "context_based_restrictions" "V1" operationId).map Prod.fst) :
    (callerAndSdkHeaders svc headers operationId).lookup k = none := by
  unfold callerAndSdkHeaders
  rw [lookup_mapAssignAll_of_not_mem _ _ _ hsdk, lookup_mapAssignAll_of_not_mem _ _ _ hcaller]
  rfl

theorem lookup_callerAndSdkHeaders_caller (svc : ContextBasedRestrictionsV1)
    (headers : List (String × String)) (operationId k v : String)
    (hmem : (k, v) ∈ headers) (hnodup : (headers.map Prod.fst).Nodup)
    (hsdk : k ∉ (svc.GetSdkHeaders "context_based_restrictions" "V1" operationId).map Prod.fst) :
    (callerAndSdkHeaders svc headers operationId).lookup k = some v := by
  unfold callerAndSdkHeaders
  rw [lookup_mapAssignAll_of_not_mem _ _ _ hsdk, lookup_mapAssignAll_of_mem _ _ _ _ hnodup hmem]

/-- Counterexample to C16: DeleteZone with a nil XCorrelationID whose Headers
map names `X-Correlation-Id` builds a request that carries that header. -/
theorem tracing_header_without_option :
    (DeleteZoneWithContext sampleService
        (some { ZoneID := some "z-1", XCorrelationID := none, TransactionID := none,
                Headers := [("X-Correlation-Id", "abc")] })).sent.map
        (fun r => r.Header.lookup "X-Correlation-Id") = some (some "abc") :=
  rfl

/-- C16, amended: in the request built by any of the twelve operations, when
XCorrelationID is not nil the header `X-Correlation-Id` holds exactly the
supplied string, and when it is nil the operation adds no such header: the
request then holds under that name what the caller's Headers and the SDK
headers put there. The same holds, independently, for TransactionID and
`Transaction-Id`; when both options are supplied both headers are sent. -/
theorem tracing_headers_follow_options (svc : ContextBasedRestrictionsV1) :
    (∀ (options : Option CreateZoneOptions) (req : RequestBuilder),
      CreateZoneWithContext_request svc options = .ok req →
      ∃ o, options = some o ∧
        req.Header.lookup "X-Correlation-Id" =
          (match o.XCorrelationID with
            | some v => some v
            | none => (callerAndSdkHeaders svc o.Headers "CreateZone").lookup "X-Correlation-Id") ∧
        req.Header.lookup "Transaction-Id" =
          (match o.TransactionID with
            | some v => some v
            | none => (callerAndSdkHeaders svc o.Headers "CreateZone").lookup "Transaction-Id")) ∧
    (∀ (options : Option ListZonesOptions) (req : RequestBuilder),
      ListZonesWithContext_request svc options = .ok req →
      ∃ o, options = some o ∧
        req.Header.lookup "X-Correlation-Id" =
          (match o.XCorrelationID with
            | some v => some v
            | none => (callerAndSdkHeaders svc o.Headers "ListZones").lookup "X-Correlation-Id") ∧
        req.Header.lookup "Transaction-Id" =
          (match o.TransactionID with
            | some v => some v
            | none => (callerAndSdkHeaders svc o.Headers "ListZones").lookup "Transaction-Id")) ∧
    (∀ (options : Option GetZoneOptions) (req : RequestBuilder),
      GetZoneWithContext_request svc options = .ok req →
      ∃ o, options = some o ∧
        req.Header.lookup "X-Correlation-Id" =
          (match o.XCorrelationID with
            | some v => some v
            | none => (callerAndSdkHeaders svc o.Headers "GetZone").lookup "X-Correlation-Id") ∧
        req.Header.lookup "Transaction-Id" =
          (match o.TransactionID with
            | some v => some v
            | none => (callerAndSdkHeaders svc o.Headers "GetZone").lookup "Transaction-Id")) ∧
    (∀ (options : Option ReplaceZoneOptions) (req : RequestBuilder),
      ReplaceZoneWithContext_request svc options = .ok req →
      ∃ o, options = some o ∧
        req.Header.lookup "X-Correlation-Id" =
          (match o.XCorrelationID with
            | some v => some v
            | none => (callerAndSdkHeaders svc o.Headers "ReplaceZone").lookup "X-Correlation-Id") ∧
        req.Header.lookup "Transaction-Id" =
          (match o.TransactionID with
            | some v => some v
            | none => (callerAndSdkHeaders svc o.Headers "ReplaceZone").lookup "Transaction-Id")) ∧
    (∀ (options : Option DeleteZoneOptions) (req : RequestBuilder),
      DeleteZoneWithContext_request svc options = .ok req →
      ∃ o, options = some o ∧
        req.Header.lookup "X-Correlation-Id" =
          (match o.XCorrelationID with
            | some v => some v
            | none => (callerAndSdkHeaders svc o.Headers "DeleteZone").lookup "X-Correlation-Id") ∧
        req.Header.lookup "Transaction-Id" =
          (match o.TransactionID with
            | some v => some v
            | none => (callerAndSdkHeaders svc o.Headers "DeleteZone").lookup "Transaction-Id")) ∧
    (∀ (options : Option ListAvailableServicerefTargetsOptions) (req : RequestBuilder),
      ListAvailableServicerefTargetsWithContext_request svc options = .ok req →
      ∃ o, options = some o ∧
        req.Header.lookup "X-Correlation-Id" =
          (match o.XCorrelationID with
            | some v => some v
            | none => (callerAndSdkHeaders svc o.Headers "ListAvailableServicerefTargets").lookup "X-Correlation-Id") ∧
        req.Header.lookup "Transaction-Id" =
          (match o.TransactionID with
            | some v => some v
            | none => (callerAndSdkHeaders svc o.Headers "ListAvailableServicerefTargets").lookup "Transaction-Id")) ∧
    (∀ (options : Option CreateRuleOptions) (req : RequestBuilder),
      CreateRuleWithContext_request svc options = .ok req →
      ∃ o, options = some o ∧
        req.Header.lookup "X-Correlation-Id" =
          (match o.XCorrelationID with
            | some v => some v
            | none => (callerAndSdkHeaders svc o.Headers "CreateRule").lookup "X-Correlation-Id") ∧
        req.Header.lookup "Transaction-Id" =
          (match o.TransactionID with
            | some v => some v
            | none => (callerAndSdkHeaders svc o.Headers "CreateRule").lookup "Transaction-Id")) ∧
    (∀ (options : Option ListRulesOptions) (req : RequestBuilder),
      ListRulesWithContext_request svc options = .ok req →
      ∃ o, options = some o ∧
        req.Header.lookup "X-Correlation-Id" =
          (match o.XCorrelationID with
            | some v => some v
            | none => (callerAndSdkHeaders svc o.Headers "ListRules").lookup "X-Correlation-Id") ∧
        req.Header.lookup "Transaction-Id" =
          (match o.TransactionID with
            | some v => some v
            | none => (callerAndSdkHeaders svc o.Headers "ListRules").lookup "Transaction-Id")) ∧
    (∀ (options : Option GetRuleOptions) (req : RequestBuilder),
      GetRuleWithContext_request svc options = .ok req →
      ∃ o, options = some o ∧
        req.Header.lookup "X-Correlation-Id" =
          (match o.XCorrelationID with
            | some v => some v
            | none => (callerAndSdkHeaders svc o.Headers "GetRule").lookup "X-Correlation-Id") ∧
        req.Header.lookup "Transaction-Id" =
          (match o.TransactionID with
            | some v => some v
            | none => (callerAndSdkHeaders svc o.Headers "GetRule").lookup "Transaction-Id")) ∧
    (∀ (options : Option ReplaceRuleOptions) (req : RequestBuilder),
      ReplaceRuleWithContext_request svc options = .ok req →
      ∃ o, options = some o ∧
        req.Header.lookup "X-Correlation-Id" =
          (match o.XCorrelationID with
            | some v => some v
            | none => (callerAndSdkHeaders svc o.Headers "ReplaceRule").lookup "X-Correlation-Id") ∧
        req.Header.lookup "Transaction-Id" =
          (match o.TransactionID with
            | some v => some v
            | none => (callerAndSdkHeaders svc o.Headers "ReplaceRule").lookup "Transaction-Id")) ∧
    (∀ (options : Option DeleteRuleOptions) (req : RequestBuilder),
      DeleteRuleWithContext_request svc options = .ok req →
      ∃ o, options = some o ∧
        req.Header.lookup "X-Correlation-Id" =
          (match o.XCorrelationID with
            | some v => some v
            | none => (callerAndSdkHeaders svc o.Headers "DeleteRule").lookup "X-Correlation-Id") ∧
        req.Header.lookup "Transaction-Id" =
          (match o.TransactionID with
            | some v => some v
            | none => (callerAndSdkHeaders svc o.Headers "DeleteRule").lookup "Transaction-Id")) ∧
    (∀ (options : Option GetAccountSettingsOptions) (req : RequestBuilder),
      GetAccountSettingsWithContext_request svc options = .ok req →
      ∃ o, options = some o ∧
        req.Header.lookup "X-Correlation-Id" =
          (match o.XCorrelationID with
            | some v => some v
            | none => (callerAndSdkHeaders svc o.Headers "GetAccountSettings").lookup "X-Correlation-Id") ∧
        req.Header.lookup "Transaction-Id" =
          (match o.TransactionID with
            | some v => some v
            | none => (callerAndSdkHeaders svc o.Headers "GetAccountSettings").lookup "Transaction-Id")) := by
  refine ⟨?_, ?_, ?_, ?_, ?_, ?_, ?_, ?_, ?_, ?_, ?_, ?_⟩
  · intro options req h
    obtain ⟨o, url, rfl, hr, rfl⟩ :=
      (CreateZoneWithContext_request_ok_iff svc options req).1 h
    refine ⟨o, rfl, ?_, ?_⟩
    · cases o.XCorrelationID <;> cases o.TransactionID <;>
        simp [lookup_mapAssignIfNotNil, lookup_mapAssign]
    · cases o.XCorrelationID <;> cases o.TransactionID <;>
        simp [lookup_mapAssignIfNotNil, lookup_mapAssign]
  · intro options req h
    obtain ⟨o, account_id, url, rfl, hAccountID, hr, rfl⟩ :=
      (ListZonesWithContext_request_ok_iff svc options req).1 h
    refine ⟨o, rfl, ?_, ?_⟩
    · cases o.XCorrelationID <;> cases o.TransactionID <;>
        simp [lookup_mapAssignIfNotNil, lookup_mapAssign]
    · cases o.XCorrelationID <;> cases o.TransactionID <;>
        simp [lookup_mapAssignIfNotNil, lookup_mapAssign]
  · intro options req h
    obtain ⟨o, zone_id, url, rfl, hZoneID, hneZoneID, hr, rfl⟩ :=
      (GetZoneWithContext_request_ok_iff svc options req).1 h
    refine ⟨o, rfl, ?_, ?_⟩
    · cases o.XCorrelationID <;> cases o.TransactionID <;>
        simp [lookup_mapAssignIfNotNil, lookup_mapAssign]
    · cases o.XCorrelationID <;> cases o.TransactionID <;>
        simp [lookup_mapAssignIfNotNil, lookup_mapAssign]
  · intro options req h
    obtain ⟨o, zone_id, ifMatch, url, rfl, hZoneID, hneZoneID, hIfMatch, hr, rfl⟩ :=
      (ReplaceZoneWithContext_request_ok_iff svc options req).1 h
    refine ⟨o, rfl, ?_, ?_⟩
    · cases o.XCorrelationID <;> cases o.TransactionID <;>
        simp [lookup_mapAssignIfNotNil, lookup_mapAssign]
    · cases o.XCorrelationID <;> cases o.TransactionID <;>
        simp [lookup_mapAssignIfNotNil, lookup_mapAssign]
  · intro options req h
    obtain ⟨o, zone_id, url, rfl, hZoneID, hneZoneID, hr, rfl⟩ :=
      (DeleteZoneWithContext_request_ok_iff svc options req).1 h
    refine ⟨o, rfl, ?_, ?_⟩
    · cases o.XCorrelationID <;> cases o.TransactionID <;>
        simp [lookup_mapAssignIfNotNil, lookup_mapAssign]
    · cases o.XCorrelationID <;> cases o.TransactionID <;>
        simp [lookup_mapAssignIfNotNil, lookup_mapAssign]
  · intro options req h
    obtain ⟨o, url, rfl, hr, rfl⟩ :=
      (ListAvailableServicerefTargetsWithContext_request_ok_iff svc options req).1 h
    refine ⟨o, rfl, ?_, ?_⟩
    · cases o.XCorrelationID <;> cases o.TransactionID <;>
        simp [lookup_mapAssignIfNotNil, lookup_mapAssign]
    · cases o.XCorrelationID <;> cases o.TransactionID <;>
        simp [lookup_mapAssignIfNotNil, lookup_mapAssign]
  · intro options req h
    obtain ⟨o, url, rfl, hr, rfl⟩ :=
      (CreateRuleWithContext_request_ok_iff svc options req).1 h
    refine ⟨o, rfl, ?_, ?_⟩
    · cases o.XCorrelationID <;> cases o.TransactionID <;>
        simp [lookup_mapAssignIfNotNil, lookup_mapAssign]
    · cases o.XCorrelationID <;> cases o.TransactionID <;>
        simp [lookup_mapAssignIfNotNil, lookup_mapAssign]
  · intro options req h
    obtain ⟨o, account_id, url, rfl, hAccountID, hr, rfl⟩ :=
      (ListRulesWithContext_request_ok_iff svc options req).1 h
    refine ⟨o, rfl, ?_, ?_⟩
    · cases o.XCorrelationID <;> cases o.TransactionID <;>
        simp [lookup_mapAssignIfNotNil, lookup_mapAssign]
    · cases o.XCorrelationID <;> cases o.TransactionID <;>
        simp [lookup_mapAssignIfNotNil, lookup_mapAssign]
  · intro options req h
    obtain ⟨o, rule_id, url, rfl, hRuleID, hneRuleID, hr, rfl⟩ :=
      (GetRuleWithContext_request_ok_iff svc options req).1 h
    refine ⟨o, rfl, ?_, ?_⟩
    · cases o.XCorrelationID <;> cases o.TransactionID <;>
        simp [lookup_mapAssignIfNotNil, lookup_mapAssign]
    · cases o.XCorrelationID <;> cases o.TransactionID <;>
        simp [lookup_mapAssignIfNotNil, lookup_mapAssign]
  · intro options req h
    obtain ⟨o, rule_id, ifMatch, url, rfl, hRuleID, hneRuleID, hIfMatch, hr, rfl⟩ :=
      (ReplaceRuleWithContext_request_ok_iff svc options req).1 h
    refine ⟨o, rfl, ?_, ?_⟩
    · cases o.XCorrelationID <;> cases o.TransactionID <;>
        simp [lookup_mapAssignIfNotNil, lookup_mapAssign]
    · cases o.XCorrelationID <;> cases o.TransactionID <;>
        simp [lookup_mapAssignIfNotNil, lookup_mapAssign]
  · intro options req h
    obtain ⟨o, rule_id, url, rfl, hRuleID, hneRuleID, hr, rfl⟩ :=
      (DeleteRuleWithContext_request_ok_iff svc options req).1 h
    refine ⟨o, rfl, ?_, ?_⟩
    · cases o.XCorrelationID <;> cases o.TransactionID <;>
        simp [lookup_mapAssignIfNotNil, lookup_mapAssign]
    · cases o.XCorrelationID <;> cases o.TransactionID <;>
        simp [lookup_mapAssignIfNotNil, lookup_mapAssign]
  · intro options req h
    obtain ⟨o, account_id, url, rfl, hAccountID, hneAccountID, hr, rfl⟩ :=
      (GetAccountSettingsWithContext_request_ok_iff svc options req).1 h
    refine ⟨o, rfl, ?_, ?_⟩
    · cases o.XCorrelationID <;> cases o.TransactionID <;>
        simp [lookup_mapAssignIfNotNil, lookup_mapAssign]
    · cases o.XCorrelationID <;> cases o.TransactionID <;>
        simp [lookup_mapAssignIfNotNil, lookup_mapAssign]

/-- Witness of C16, amended: GetZone with both options supplied. -/
theorem tracing_headers_follow_options_witness :
    ∃ o,
      some ({ ZoneID := some "z-1", XCorrelationID := some "c-1", TransactionID := some "t-1",
              Headers := [] } : GetZoneOptions) = some o ∧
      List.lookup "X-Correlation-Id"
          [("Accept", "application/json"), ("X-Correlation-Id", "c-1"), ("Transaction-Id", "t-1")] =
        (match o.XCorrelationID with
          | some v => some v
          | none => (callerAndSdkHeaders sampleService o.Headers "GetZone").lookup
              "X-Correlation-Id") ∧
      List.lookup "Transaction-Id"
          [("Accept", "application/json"), ("X-Correlation-Id", "c-1"), ("Transaction-Id", "t-1")] =
        (match o.TransactionID with
          | some v => some v
          | none => (callerAndSdkHeaders sampleService o.Headers "GetZone").lookup
              "Transaction-Id") :=
  (tracing_headers_follow_options sampleService).2.2.1
    (some { ZoneID := some "z-1", XCorrelationID := some "c-1", TransactionID := some "t-1",
            Headers := [] })
    { Method := .GET, URL := "https://cbr.cloud.ibm.com/v1/zones/{zone_id}",
      Header := [("Accept", "application/json"), ("X-Correlation-Id", "c-1"),
        ("Transaction-Id", "t-1")],
      Query := [], Body := none, EnableGzipCompression := false } rfl

theorem lookup_callerAndSdkHeaders_sdk (svc : ContextBasedRestrictionsV1)
    (headers : List (String × String)) (operationId k v : String)
    (hmem : (k, v) ∈ svc.GetSdkHeaders "context_based_restrictions" "V1" operationId)
    (hnodup : ((svc.GetSdkHeaders "context_based_restrictions" "V1" operationId).map
      Prod.fst).Nodup) :
    (callerAndSdkHeaders svc headers operationId).lookup k = some v := by
  unfold callerAndSdkHeaders
  rw [lookup_mapAssignAll_of_mem _ _ _ _ hnodup hmem]

/-- Counterexample to C17: GetZone called with `Accept: text/plain` in its
Headers map builds a request whose `Accept` header is the operation's
"application/json"; the caller's value is gone. -/
theorem caller_header_overridden_by_operation :
    (GetZoneWithContext sampleService
        (some { ZoneID := some "z-1", XCorrelationID := none, TransactionID := none,
                Headers := [("Accept", "text/plain")] })).sent.map
        (fun r => r.Header) = some [("Accept", "application/json")] :=
  rfl

/-- C17, amended: in the request built by any of the twelve operations, a
caller-supplied header is present with the caller's value when its name is
neither one the operation sets itself (Accept, Content-Type, If-Match,
X-Correlation-Id, Transaction-Id) nor an SDK header name. On a name the
operation or the SDK headers also set, the caller's value is replaced: the
headers `Accept` and `Content-Type` (where the operation sets them) are
"application/json", `If-Match` is the IfMatch option, `X-Correlation-Id` and
`Transaction-Id` are the options when these are not nil, and an SDK header
keeps the SDK's value, whatever the Headers map holds. -/
theorem operation_headers_replace_caller_headers (svc : ContextBasedRestrictionsV1) :
    (∀ (options : Option CreateZoneOptions) (req : RequestBuilder),
      CreateZoneWithContext_request svc options = .ok req →
      ∃ o, options = some o ∧
        req.Header.lookup "Accept" = some "application/json" ∧
        req.Header.lookup "Content-Type" = some "application/json" ∧
        (∀ v, o.XCorrelationID = some v → req.Header.lookup "X-Correlation-Id" = some v) ∧
        (∀ v, o.TransactionID = some v → req.Header.lookup "Transaction-Id" = some v) ∧
        (∀ k v, (k, v) ∈ svc.GetSdkHeaders "context_based_restrictions" "V1" "CreateZone" →
          ((svc.GetSdkHeaders "context_based_restrictions" "V1" "CreateZone").map Prod.fst).Nodup →
          k ∉ operationHeaderNames → req.Header.lookup k = some v) ∧
        (∀ k v, (k, v) ∈ o.Headers → (o.Headers.map Prod.fst).Nodup →
          k ∉ (svc.GetSdkHeaders "context_based_restrictions" "V1" "CreateZone").map Prod.fst →
          k ∉ operationHeaderNames → req.Header.lookup k = some v)) ∧
    (∀ (options : Option ListZonesOptions) (req : RequestBuilder),
      ListZonesWithContext_request svc options = .ok req →
      ∃ o, options = some o ∧
        req.Header.lookup "Accept" = some "application/json" ∧
        (∀ v, o.XCorrelationID = some v → req.Header.lookup "X-Correlation-Id" = some v) ∧
        (∀ v, o.TransactionID = some v → req.Header.lookup "Transaction-Id" = some v) ∧
        (∀ k v, (k, v) ∈ svc.GetSdkHeaders "context_based_restrictions" "V1" "ListZones" →
          ((svc.GetSdkHeaders "context_based_restrictions" "V1" "ListZones").map Prod.fst).Nodup →
          k ∉ operationHeaderNames → req.Header.lookup k = some v) ∧
        (∀ k v, (k, v) ∈ o.Headers → (o.Headers.map Prod.fst).Nodup →
          k ∉ (svc.GetSdkHeaders "context_based_restrictions" "V1" "ListZones").map Prod.fst →
          k ∉ operationHeaderNames → req.Header.lookup k = some v)) ∧
    (∀ (options : Option GetZoneOptions) (req : RequestBuilder),
      GetZoneWithContext_request svc options = .ok req →
      ∃ o, options = some o ∧
        req.Header.lookup "Accept" = some "application/json" ∧
        (∀ v, o.XCorrelationID = some v → req.Header.lookup "X-Correlation-Id" = some v) ∧
        (∀ v, o.TransactionID = some v → req.Header.lookup "Transaction-Id" = some v) ∧
        (∀ k v, (k, v) ∈ svc.GetSdkHeaders "context_based_restrictions" "V1" "GetZone" →
          ((svc.GetSdkHeaders "context_based_restrictions" "V1" "GetZone").map Prod.fst).Nodup →
          k ∉ operationHeaderNames → req.Header.lookup k = some v) ∧
        (∀ k v, (k, v) ∈ o.Headers → (o.Headers.map Prod.fst).Nodup →
          k ∉ (svc.GetSdkHeaders "context_based_restrictions" "V1" "GetZone").map Prod.fst →
          k ∉ operationHeaderNames → req.Header.lookup k = some v)) ∧
    (∀ (options : Option ReplaceZoneOptions) (req : RequestBuilder),
      ReplaceZoneWithContext_request svc options = .ok req →
      ∃ o, options = some o ∧
        req.Header.lookup "Accept" = some "application/json" ∧
        req.Header.lookup "Content-Type" = some "application/json" ∧
        req.Header.lookup "If-Match" = o.IfMatch ∧
        (∀ v, o.XCorrelationID = some v → req.Header.lookup "X-Correlation-Id" = some v) ∧
        (∀ v, o.TransactionID = some v → req.Header.lookup "Transaction-Id" = some v) ∧
        (∀ k v, (k, v) ∈ svc.GetSdkHeaders "context_based_restrictions" "V1" "ReplaceZone" →
          ((svc.GetSdkHeaders "context_based_restrictions" "V1" "ReplaceZone").map Prod.fst).Nodup →
          k ∉ operationHeaderNames → req.Header.lookup k = some v) ∧
        (∀ k v, (k, v) ∈ o.Headers → (o.Headers.map Prod.fst).Nodup →
          k ∉ (svc.GetSdkHeaders "context_based_restrictions" "V1" "ReplaceZone").map Prod.fst →
          k ∉ operationHeaderNames → req.Header.lookup k = some v)) ∧
    (∀ (options : Option DeleteZoneOptions) (req : RequestBuilder),
      DeleteZoneWithContext_request svc options = .ok req →
      ∃ o, options = some o ∧
        (∀ v, o.XCorrelationID = some v → req.Header.lookup "X-Correlation-Id" = some v) ∧
        (∀ v, o.TransactionID = some v → req.Header.lookup "Transaction-Id" = some v) ∧
        (∀ k v, (k, v) ∈ svc.GetSdkHeaders "context_based_restrictions" "V1" "DeleteZone" →
          ((svc.GetSdkHeaders "context_based_restrictions" "V1" "DeleteZone").map Prod.fst).Nodup →
          k ∉ operationHeaderNames → req.Header.lookup k = some v) ∧
        (∀ k v, (k, v) ∈ o.Headers → (o.Headers.map Prod.fst).Nodup →
          k ∉ (svc.GetSdkHeaders "context_based_restrictions" "V1" "DeleteZone").map Prod.fst →
          k ∉ operationHeaderNames → req.Header.lookup k = some v)) ∧
    (∀ (options : Option ListAvailableServicerefTargetsOptions) (req : RequestBuilder),
      ListAvailableServicerefTargetsWithContext_request svc options = .ok req →
      ∃ o, options = some o ∧
        req.Header.lookup "Accept" = some "application/json" ∧
        (∀ v, o.XCorrelationID = some v → req.Header.lookup "X-Correlation-Id" = some v) ∧
        (∀ v, o.TransactionID = some v → req.Header.lookup "Transaction-Id" = some v) ∧
        (∀ k v, (k, v) ∈ svc.GetSdkHeaders "context_based_restrictions" "V1" "ListAvailableServicerefTargets" →
          ((svc.GetSdkHeaders "context_based_restrictions" "V1" "ListAvailableServicerefTargets").map Prod.fst).Nodup →
          k ∉ operationHeaderNames → req.Header.lookup k = some v) ∧
        (∀ k v, (k, v) ∈ o.Headers → (o.Headers.map Prod.fst).Nodup →
          k ∉ (svc.GetSdkHeaders "context_based_restrictions" "V1" "ListAvailableServicerefTargets").map Prod.fst →
          k ∉ operationHeaderNames → req.Header.lookup k = some v)) ∧
    (∀ (options : Option CreateRuleOptions) (req : RequestBuilder),
      CreateRuleWithContext_request svc options = .ok req →
      ∃ o, options = some o ∧
        req.Header.lookup "Accept" = some "application/json" ∧
        req.Header.lookup "Content-Type" = some "application/json" ∧
        (∀ v, o.XCorrelationID = some v → req.Header.lookup "X-Correlation-Id" = some v) ∧
        (∀ v, o.TransactionID = some v → req.Header.lookup "Transaction-Id" = some v) ∧
        (∀ k v, (k, v) ∈ svc.GetSdkHeaders "context_based_restrictions" "V1" "CreateRule" →
          ((svc.GetSdkHeaders "context_based_restrictions" "V1" "CreateRule").map Prod.fst).Nodup →
          k ∉ operationHeaderNames → req.Header.lookup k = some v) ∧
        (∀ k v, (k, v) ∈ o.Headers → (o.Headers.map Prod.fst).Nodup →
          k ∉ (svc.GetSdkHeaders "context_based_restrictions" "V1" "CreateRule").map Prod.fst →
          k ∉ operationHeaderNames → req.Header.lookup k = some v)) ∧
    (∀ (options : Option ListRulesOptions) (req : RequestBuilder),
      ListRulesWithContext_request svc options = .ok req →
      ∃ o, options = some o ∧
        req.Header.lookup "Accept" = some "application/json" ∧
        (∀ v, o.XCorrelationID = some v → req.Header.lookup "X-Correlation-Id" = some v) ∧
        (∀ v, o.TransactionID = some v → req.Header.lookup "Transaction-Id" = some v) ∧
        (∀ k v, (k, v) ∈ svc.GetSdkHeaders "context_based_restrictions" "V1" "ListRules" →
          ((svc.GetSdkHeaders "context_based_restrictions" "V1" "ListRules").map Prod.fst).Nodup →
          k ∉ operationHeaderNames → req.Header.lookup k = some v) ∧
        (∀ k v, (k, v) ∈ o.Headers → (o.Headers.map Prod.fst).Nodup →
          k ∉ (svc.GetSdkHeaders "context_based_restrictions" "V1" "ListRules").map Prod.fst →
          k ∉ operationHeaderNames → req.Header.lookup k = some v)) ∧
    (∀ (options : Option GetRuleOptions) (req : RequestBuilder),
      GetRuleWithContext_request svc options = .ok req →
      ∃ o, options = some o ∧
        req.Header.lookup "Accept" = some "application/json" ∧
        (∀ v, o.XCorrelationID = some v → req.Header.lookup "X-Correlation-Id" = some v) ∧
        (∀ v, o.TransactionID = some v → req.Header.lookup "Transaction-Id" = some v) ∧
        (∀ k v, (k, v) ∈ svc.GetSdkHeaders "context_based_restrictions" "V1" "GetRule" →
          ((svc.GetSdkHeaders "context_based_restrictions" "V1" "GetRule").map Prod.fst).Nodup →
          k ∉ operationHeaderNames → req.Header.lookup k = some v) ∧
        (∀ k v, (k, v) ∈ o.Headers → (o.Headers.map Prod.fst).Nodup →
          k ∉ (svc.GetSdkHeaders "context_based_restrictions" "V1" "GetRule").map Prod.fst →
          k ∉ operationHeaderNames → req.Header.lookup k = some v)) ∧
    (∀ (options : Option ReplaceRuleOptions) (req : RequestBuilder),
      ReplaceRuleWithContext_request svc options = .ok req →
      ∃ o, options = some o ∧
        req.Header.lookup "Accept" = some "application/json" ∧
        req.Header.lookup "Content-Type" = some "application/json" ∧
        req.Header.lookup "If-Match" = o.IfMatch ∧
        (∀ v, o.XCorrelationID = some v → req.Header.lookup "X-Correlation-Id" = some v) ∧
        (∀ v, o.TransactionID = some v → req.Header.lookup "Transaction-Id" = some v) ∧
        (∀ k v, (k, v) ∈ svc.GetSdkHeaders "context_based_restrictions" "V1" "ReplaceRule" →
          ((svc.GetSdkHeaders "context_based_restrictions" "V1" "ReplaceRule").map Prod.fst).Nodup →
          k ∉ operationHeaderNames → req.Header.lookup k = some v) ∧
        (∀ k v, (k, v) ∈ o.Headers → (o.Headers.map Prod.fst).Nodup →
          k ∉ (svc.GetSdkHeaders "context_based_restrictions" "V1" "ReplaceRule").map Prod.fst →
          k ∉ operationHeaderNames → req.Header.lookup k = some v)) ∧
    (∀ (options : Option DeleteRuleOptions) (req : RequestBuilder),
      DeleteRuleWithContext_request svc options = .ok req →
      ∃ o, options = some o ∧
        (∀ v, o.XCorrelationID = some v → req.Header.lookup "X-Correlation-Id" = some v) ∧
        (∀ v, o.TransactionID = some v → req.Header.lookup "Transaction-Id" = some v) ∧
        (∀ k v, (k, v) ∈ svc.GetSdkHeaders "context_based_restrictions" "V1" "DeleteRule" →
          ((svc.GetSdkHeaders "context_based_restrictions" "V1" "DeleteRule").map Prod.fst).Nodup →
          k ∉ operationHeaderNames → req.Header.lookup k = some v) ∧
        (∀ k v, (k, v) ∈ o.Headers → (o.Headers.map Prod.fst).Nodup →
          k ∉ (svc.GetSdkHeaders "context_based_restrictions" "V1" "DeleteRule").map Prod.fst →
          k ∉ operationHeaderNames → req.Header.lookup k = some v)) ∧
    (∀ (options : Option GetAccountSettingsOptions) (req : RequestBuilder),
      GetAccountSettingsWithContext_request svc options = .ok req →
      ∃ o, options = some o ∧
        req.Header.lookup "Accept" = some "application/json" ∧
        (∀ v, o.XCorrelationID = some v → req.Header.lookup "X-Correlation-Id" = some v) ∧
        (∀ v, o.TransactionID = some v → req.Header.lookup "Transaction-Id" = some v) ∧
        (∀ k v, (k, v) ∈ svc.GetSdkHeaders "context_based_restrictions" "V1" "GetAccountSettings" →
          ((svc.GetSdkHeaders "context_based_restrictions" "V1" "GetAccountSettings").map Prod.fst).Nodup →
          k ∉ operationHeaderNames → req.Header.lookup k = some v) ∧
        (∀ k v, (k, v) ∈ o.Headers → (o.Headers.map Prod.fst).Nodup →
          k ∉ (svc.GetSdkHeaders "context_based_restrictions" "V1" "GetAccountSettings").map Prod.fst →
          k ∉ operationHeaderNames → req.Header.lookup k = some v)) := by
  refine ⟨?_, ?_, ?_, ?_, ?_, ?_, ?_, ?_, ?_, ?_, ?_, ?_⟩
  · intro options req h
    obtain ⟨o, url, rfl, hr, rfl⟩ :=
      (CreateZoneWithContext_request_ok_iff svc options req).1 h
    refine ⟨o, rfl, ?_, ?_, ?_, ?_, ?_, ?_⟩
    · cases o.XCorrelationID <;> cases o.TransactionID <;>
        simp [lookup_mapAssignIfNotNil, lookup_mapAssign]
    · cases o.XCorrelationID <;> cases o.TransactionID <;>
        simp [lookup_mapAssignIfNotNil, lookup_mapAssign]
    · intro v hv
      cases o.TransactionID <;> simp [lookup_mapAssignIfNotNil, lookup_mapAssign, hv]
    · intro v hv
      simp [lookup_mapAssignIfNotNil, lookup_mapAssign, hv]
    · intro k v hmem hnodup hk
      simp only [operationHeaderNames, List.mem_cons, List.mem_singleton, List.not_mem_nil,
        or_false, not_or] at hk
      obtain ⟨h1, h2, h3, h4, h5⟩ := hk
      simp only [lookup_mapAssignIfNotNil, lookup_mapAssign, h1, h2, h3, h4, h5, if_false]
      exact lookup_callerAndSdkHeaders_sdk svc o.Headers _ k v hmem hnodup
    · intro k v hmem hnodup hsdk hk
      simp only [operationHeaderNames, List.mem_cons, List.mem_singleton, List.not_mem_nil,
        or_false, not_or] at hk
      obtain ⟨h1, h2, h3, h4, h5⟩ := hk
      simp only [lookup_mapAssignIfNotNil, lookup_mapAssign, h1, h2, h3, h4, h5, if_false]
      exact lookup_callerAndSdkHeaders_caller svc o.Headers _ k v hmem hnodup hsdk
  · intro options req h
    obtain ⟨o, account_id, url, rfl, hAccountID, hr, rfl⟩ :=
      (ListZonesWithContext_request_ok_iff svc options req).1 h
    refine ⟨o, rfl, ?_, ?_, ?_, ?_, ?_⟩
    · cases o.XCorrelationID <;> cases o.TransactionID <;>
        simp [lookup_mapAssignIfNotNil, lookup_mapAssign]
    · intro v hv
      cases o.TransactionID <;> simp [lookup_mapAssignIfNotNil, lookup_mapAssign, hv]
    · intro v hv
      simp [lookup_mapAssignIfNotNil, lookup_mapAssign, hv]
    · intro k v hmem hnodup hk
      simp only [operationHeaderNames, List.mem_cons, List.mem_singleton, List.not_mem_nil,
        or_false, not_or] at hk
      obtain ⟨h1, h2, h3, h4, h5⟩ := hk
      simp only [lookup_mapAssignIfNotNil, lookup_mapAssign, h1, h2, h3, h4, h5, if_false]
      exact lookup_callerAndSdkHeaders_sdk svc o.Headers _ k v hmem hnodup
    · intro k v hmem hnodup hsdk hk
      simp only [operationHeaderNames, List.mem_cons, List.mem_singleton, List.not_mem_nil,
        or_false, not_or] at hk
      obtain ⟨h1, h2, h3, h4, h5⟩ := hk
      simp only [lookup_mapAssignIfNotNil, lookup_mapAssign, h1, h2, h3, h4, h5, if_false]
      exact lookup_callerAndSdkHeaders_caller svc o.Headers _ k v hmem hnodup hsdk
  · intro options req h
    obtain ⟨o, zone_id, url, rfl, hZoneID, hneZoneID, hr, rfl⟩ :=
      (GetZoneWithContext_request_ok_iff svc options req).1 h
    refine ⟨o, rfl, ?_, ?_, ?_, ?_, ?_⟩
    · cases o.XCorrelationID <;> cases o.TransactionID <;>
        simp [lookup_mapAssignIfNotNil, lookup_mapAssign]
    · intro v hv
      cases o.TransactionID <;> simp [lookup_mapAssignIfNotNil, lookup_mapAssign, hv]
    · intro v hv
      simp [lookup_mapAssignIfNotNil, lookup_mapAssign, hv]
    · intro k v hmem hnodup hk
      simp only [operationHeaderNames, List.mem_cons, List.mem_singleton, List.not_mem_nil,
        or_false, not_or] at hk
      obtain ⟨h1, h2, h3, h4, h5⟩ := hk
      simp only [lookup_mapAssignIfNotNil, lookup_mapAssign, h1, h2, h3, h4, h5, if_false]
      exact lookup_callerAndSdkHeaders_sdk svc o.Headers _ k v hmem hnodup
    · intro k v hmem hnodup hsdk hk
      simp only [operationHeaderNames, List.mem_cons, List.mem_singleton, List.not_mem_nil,
        or_false, not_or] at hk
      obtain ⟨h1, h2, h3, h4, h5⟩ := hk
      simp only [lookup_mapAssignIfNotNil, lookup_mapAssign, h1, h2, h3, h4, h5, if_false]
      exact lookup_callerAndSdkHeaders_caller svc o.Headers _ k v hmem hnodup hsdk
  · intro options req h
    obtain ⟨o, zone_id, ifMatch, url, rfl, hZoneID, hneZoneID, hIfMatch, hr, rfl⟩ :=
      (ReplaceZoneWithContext_request_ok_iff svc options req).1 h
    refine ⟨o, rfl, ?_, ?_, ?_, ?_, ?_, ?_, ?_⟩
    · cases o.XCorrelationID <;> cases o.TransactionID <;>
        simp [lookup_mapAssignIfNotNil, lookup_mapAssign]
    · cases o.XCorrelationID <;> cases o.TransactionID <;>
        simp [lookup_mapAssignIfNotNil, lookup_mapAssign]
    · cases o.XCorrelationID <;> cases o.TransactionID <;>
        simp [lookup_mapAssignIfNotNil, lookup_mapAssign, hIfMatch]
    · intro v hv
      cases o.TransactionID <;> simp [lookup_mapAssignIfNotNil, lookup_mapAssign, hv]
    · intro v hv
      simp [lookup_mapAssignIfNotNil, lookup_mapAssign, hv]
    · intro k v hmem hnodup hk
      simp only [operationHeaderNames, List.mem_cons, List.mem_singleton, List.not_mem_nil,
        or_false, not_or] at hk
      obtain ⟨h1, h2, h3, h4, h5⟩ := hk
      simp only [lookup_mapAssignIfNotNil, lookup_mapAssign, h1, h2, h3, h4, h5, if_false]
      exact lookup_callerAndSdkHeaders_sdk svc o.Headers _ k v hmem hnodup
    · intro k v hmem hnodup hsdk hk
      simp only [operationHeaderNames, List.mem_cons, List.mem_singleton, List.not_mem_nil,
        or_false, not_or] at hk
      obtain ⟨h1, h2, h3, h4, h5⟩ := hk
      simp only [lookup_mapAssignIfNotNil, lookup_mapAssign, h1, h2, h3, h4, h5, if_false]
      exact lookup_callerAndSdkHeaders_caller svc o.Headers _ k v hmem hnodup hsdk
  · intro options req h
    obtain ⟨o, zone_id, url, rfl, hZoneID, hneZoneID, hr, rfl⟩ :=
      (DeleteZoneWithContext_request_ok_iff svc options req).1 h
    refine ⟨o, rfl, ?_, ?_, ?_, ?_⟩
    · intro v hv
      cases o.TransactionID <;> simp [lookup_mapAssignIfNotNil, lookup_mapAssign, hv]
    · intro v hv
      simp [lookup_mapAssignIfNotNil, lookup_mapAssign, hv]
    · intro k v hmem hnodup hk
      simp only [operationHeaderNames, List.mem_cons, List.mem_singleton, List.not_mem_nil,
        or_false, not_or] at hk
      obtain ⟨h1, h2, h3, h4, h5⟩ := hk
      simp only [lookup_mapAssignIfNotNil, lookup_mapAssign, h1, h2, h3, h4, h5, if_false]
      exact lookup_callerAndSdkHeaders_sdk svc o.Headers _ k v hmem hnodup
    · intro k v hmem hnodup hsdk hk
      simp only [operationHeaderNames, List.mem_cons, List.mem_singleton, List.not_mem_nil,
        or_false, not_or] at hk
      obtain ⟨h1, h2, h3, h4, h5⟩ := hk
      simp only [lookup_mapAssignIfNotNil, lookup_mapAssign, h1, h2, h3, h4, h5, if_false]
      exact lookup_callerAndSdkHeaders_caller svc o.Headers _ k v hmem hnodup hsdk
  · intro options req h
    obtain ⟨o, url, rfl, hr, rfl⟩ :=
      (ListAvailableServicerefTargetsWithContext_request_ok_iff svc options req).1 h
    refine ⟨o, rfl, ?_, ?_, ?_, ?_, ?_⟩
    · cases o.XCorrelationID <;> cases o.TransactionID <;>
        simp [lookup_mapAssignIfNotNil, lookup_mapAssign]
    · intro v hv
      cases o.TransactionID <;> simp [lookup_mapAssignIfNotNil, lookup_mapAssign, hv]
    · intro v hv
      simp [lookup_mapAssignIfNotNil, lookup_mapAssign, hv]
    · intro k v hmem hnodup hk
      simp only [operationHeaderNames, List.mem_cons, List.mem_singleton, List.not_mem_nil,
        or_false, not_or] at hk
      obtain ⟨h1, h2, h3, h4, h5⟩ := hk
      simp only [lookup_mapAssignIfNotNil, lookup_mapAssign, h1, h2, h3, h4, h5, if_false]
      exact lookup_callerAndSdkHeaders_sdk svc o.Headers _ k v hmem hnodup
    · intro k v hmem hnodup hsdk hk
      simp only [operationHeaderNames, List.mem_cons, List.mem_singleton, List.not_mem_nil,
        or_false, not_or] at hk
      obtain ⟨h1, h2, h3, h4, h5⟩ := hk
      simp only [lookup_mapAssignIfNotNil, lookup_mapAssign, h1, h2, h3, h4, h5, if_false]
      exact lookup_callerAndSdkHeaders_caller svc o.Headers _ k v hmem hnodup hsdk
  · intro options req h
    obtain ⟨o, url, rfl, hr, rfl⟩ :=
      (CreateRuleWithContext_request_ok_iff svc options req).1 h
    refine ⟨o, rfl, ?_, ?_, ?_, ?_, ?_, ?_⟩
    · cases o.XCorrelationID <;> cases o.TransactionID <;>
        simp [lookup_mapAssignIfNotNil, lookup_mapAssign]
    · cases o.XCorrelationID <;> cases o.TransactionID <;>
        simp [lookup_mapAssignIfNotNil, lookup_mapAssign]
    · intro v hv
      cases o.TransactionID <;> simp [lookup_mapAssignIfNotNil, lookup_mapAssign, hv]
    · intro v hv
      simp [lookup_mapAssignIfNotNil, lookup_mapAssign, hv]
    · intro k v hmem hnodup hk
      simp only [operationHeaderNames, List.mem_cons, List.mem_singleton, List.not_mem_nil,
        or_false, not_or] at hk
      obtain ⟨h1, h2, h3, h4, h5⟩ := hk
      simp only [lookup_mapAssignIfNotNil, lookup_mapAssign, h1, h2, h3, h4, h5, if_false]
      exact lookup_callerAndSdkHeaders_sdk svc o.Headers _ k v hmem hnodup
    · intro k v hmem hnodup hsdk hk
      simp only [operationHeaderNames, List.mem_cons, List.mem_singleton, List.not_mem_nil,
        or_false, not_or] at hk
      obtain ⟨h1, h2, h3, h4, h5⟩ := hk
      simp only [lookup_mapAssignIfNotNil, lookup_mapAssign, h1, h2, h3, h4, h5, if_false]
      exact lookup_callerAndSdkHeaders_caller svc o.Headers _ k v hmem hnodup hsdk
  · intro options req h
    obtain ⟨o, account_id, url, rfl, hAccountID, hr, rfl⟩ :=
      (ListRulesWithContext_request_ok_iff svc options req).1 h
    refine ⟨o, rfl, ?_, ?_, ?_, ?_, ?_⟩
    · cases o.XCorrelationID <;> cases o.TransactionID <;>
        simp [lookup_mapAssignIfNotNil, lookup_mapAssign]
    · intro v hv
      cases o.TransactionID <;> simp [lookup_mapAssignIfNotNil, lookup_mapAssign, hv]
    · intro v hv
      simp [lookup_mapAssignIfNotNil, lookup_mapAssign, hv]
    · intro k v hmem hnodup hk
      simp only [operationHeaderNames, List.mem_cons, List.mem_singleton, List.not_mem_nil,
        or_false, not_or] at hk
      obtain ⟨h1, h2, h3, h4, h5⟩ := hk
      simp only [lookup_mapAssignIfNotNil, lookup_mapAssign, h1, h2, h3, h4, h5, if_false]
      exact lookup_callerAndSdkHeaders_sdk svc o.Headers _ k v hmem hnodup
    · intro k v hmem hnodup hsdk hk
      simp only [operationHeaderNames, List.mem_cons, List.mem_singleton, List.not_mem_nil,
        or_false, not_or] at hk
      obtain ⟨h1, h2, h3, h4, h5⟩ := hk
      simp only [lookup_mapAssignIfNotNil, lookup_mapAssign, h1, h2, h3, h4, h5, if_false]
      exact lookup_callerAndSdkHeaders_caller svc o.Headers _ k v hmem hnodup hsdk
  · intro options req h
    obtain ⟨o, rule_id, url, rfl, hRuleID, hneRuleID, hr, rfl⟩ :=
      (GetRuleWithContext_request_ok_iff svc options req).1 h
    refine ⟨o, rfl, ?_, ?_, ?_, ?_, ?_⟩
    · cases o.XCorrelationID <;> cases o.TransactionID <;>
        simp [lookup_mapAssignIfNotNil, lookup_mapAssign]
    · intro v hv
      cases o.TransactionID <;> simp [lookup_mapAssignIfNotNil, lookup_mapAssign, hv]
    · intro v hv
      simp [lookup_mapAssignIfNotNil, lookup_mapAssign, hv]
    · intro k v hmem hnodup hk
      simp only [operationHeaderNames, List.mem_cons, List.mem_singleton, List.not_mem_nil,
        or_false, not_or] at hk
      obtain ⟨h1, h2, h3, h4, h5⟩ := hk
      simp only [lookup_mapAssignIfNotNil, lookup_mapAssign, h1, h2, h3, h4, h5, if_false]
      exact lookup_callerAndSdkHeaders_sdk svc o.Headers _ k v hmem hnodup
    · intro k v hmem hnodup hsdk hk
      simp only [operationHeaderNames, List.mem_cons, List.mem_singleton, List.not_mem_nil,
        or_false, not_or] at hk
      obtain ⟨h1, h2, h3, h4, h5⟩ := hk
      simp only [lookup_mapAssignIfNotNil, lookup_mapAssign, h1, h2, h3, h4, h5, if_false]
      exact lookup_callerAndSdkHeaders_caller svc o.Headers _ k v hmem hnodup hsdk
  · intro options req h
    obtain ⟨o, rule_id, ifMatch, url, rfl, hRuleID, hneRuleID, hIfMatch, hr, rfl⟩ :=
      (ReplaceRuleWithContext_request_ok_iff svc options req).1 h
    refine ⟨o, rfl, ?_, ?_, ?_, ?_, ?_, ?_, ?_⟩
    · cases o.XCorrelationID <;> cases o.TransactionID <;>
        simp [lookup_mapAssignIfNotNil, lookup_mapAssign]
    · cases o.XCorrelationID <;> cases o.TransactionID <;>
        simp [lookup_mapAssignIfNotNil, lookup_mapAssign]
    · cases o.XCorrelationID <;> cases o.TransactionID <;>
        simp [lookup_mapAssignIfNotNil, lookup_mapAssign, hIfMatch]
    · intro v hv
      cases o.TransactionID <;> simp [lookup_mapAssignIfNotNil, lookup_mapAssign, hv]
    · intro v hv
      simp [lookup_mapAssignIfNotNil, lookup_mapAssign, hv]
    · intro k v hmem hnodup hk
      simp only [operationHeaderNames, List.mem_cons, List.mem_singleton, List.not_mem_nil,
        or_false, not_or] at hk
      obtain ⟨h1, h2, h3, h4, h5⟩ := hk
      simp only [lookup_mapAssignIfNotNil, lookup_mapAssign, h1, h2, h3, h4, h5, if_false]
      exact lookup_callerAndSdkHeaders_sdk svc o.Headers _ k v hmem hnodup
    · intro k v hmem hnodup hsdk hk
      simp only [operationHeaderNames, List.mem_cons, List.mem_singleton, List.not_mem_nil,
        or_false, not_or] at hk
      obtain ⟨h1, h2, h3, h4, h5⟩ := hk
      simp only [lookup_mapAssignIfNotNil, lookup_mapAssign, h1, h2, h3, h4, h5, if_false]
      exact lookup_callerAndSdkHeaders_caller svc o.Headers _ k v hmem hnodup hsdk
  · intro options req h
    obtain ⟨o, rule_id, url, rfl, hRuleID, hneRuleID, hr, rfl⟩ :=
      (DeleteRuleWithContext_request_ok_iff svc options req).1 h
    refine ⟨o, rfl, ?_, ?_, ?_, ?_⟩
    · intro v hv
      cases o.TransactionID <;> simp [lookup_mapAssignIfNotNil, lookup_mapAssign, hv]
    · intro v hv
      simp [lookup_mapAssignIfNotNil, lookup_mapAssign, hv]
    · intro k v hmem hnodup hk
      simp only [operationHeaderNames, List.mem_cons, List.mem_singleton, List.not_mem_nil,
        or_false, not_or] at hk
      obtain ⟨h1, h2, h3, h4, h5⟩ := hk
      simp only [lookup_mapAssignIfNotNil, lookup_mapAssign, h1, h2, h3, h4, h5, if_false]
      exact lookup_callerAndSdkHeaders_sdk svc o.Headers _ k v hmem hnodup
    · intro k v hmem hnodup hsdk hk
      simp only [operationHeaderNames, List.mem_cons, List.mem_singleton, List.not_mem_nil,
        or_false, not_or] at hk
      obtain ⟨h1, h2, h3, h4, h5⟩ := hk
      simp only [lookup_mapAssignIfNotNil, lookup_mapAssign, h1, h2, h3, h4, h5, if_false]
      exact lookup_callerAndSdkHeaders_caller svc o.Headers _ k v hmem hnodup hsdk
  · intro options req h
    obtain ⟨o, account_id, url, rfl, hAccountID, hneAccountID, hr, rfl⟩ :=
      (GetAccountSettingsWithContext_request_ok_iff svc options req).1 h
    refine ⟨o, rfl, ?_, ?_, ?_, ?_, ?_⟩
    · cases o.XCorrelationID <;> cases o.TransactionID <;>
        simp [lookup_mapAssignIfNotNil, lookup_mapAssign]
    · intro v hv
      cases o.TransactionID <;> simp [lookup_mapAssignIfNotNil, lookup_mapAssign, hv]
    · intro v hv
      simp [lookup_mapAssignIfNotNil, lookup_mapAssign, hv]
    · intro k v hmem hnodup hk
      simp only [operationHeaderNames, List.mem_cons, List.mem_singleton, List.not_mem_nil,
        or_false, not_or] at hk
      obtain ⟨h1, h2, h3, h4, h5⟩ := hk
      simp only [lookup_mapAssignIfNotNil, lookup_mapAssign, h1, h2, h3, h4, h5, if_false]
      exact lookup_callerAndSdkHeaders_sdk svc o.Headers _ k v hmem hnodup
    · intro k v hmem hnodup hsdk hk
      simp only [operationHeaderNames, List.mem_cons, List.mem_singleton, List.not_mem_nil,
        or_false, not_or] at hk
      obtain ⟨h1, h2, h3, h4, h5⟩ := hk
      simp only [lookup_mapAssignIfNotNil, lookup_mapAssign, h1, h2, h3, h4, h5, if_false]
      exact lookup_callerAndSdkHeaders_caller svc o.Headers _ k v hmem hnodup hsdk

/-- Witness of C17, amended: a caller header `X-Trace` is kept by DeleteRule. -/
theorem operation_headers_replace_caller_headers_witness :
    (DeleteRuleWithContext sampleService
        (some { RuleID := some "r-1", XCorrelationID := none, TransactionID := none,
                Headers := [("X-Trace", "on")] })).sent.map (fun r => r.Header)
        = some [("X-Trace", "on")] ∧
      List.lookup "X-Trace" [("X-Trace", "on")] = some "on" :=
  ⟨rfl, (((operation_headers_replace_caller_headers sampleService).2.2.2.2.2.2.2.2.2.2.1
    (some { RuleID := some "r-1", XCorrelationID := none, TransactionID := none,
            Headers := [("X-Trace", "on")] })
    { Method := .DELETE, URL := "https://cbr.cloud.ibm.com/v1/rules/{rule_id}",
      Header := [("X-Trace", "on")], Query := [], Body := none,
      EnableGzipCompression := false } rfl).elim
    fun o ho => (Option.some.inj ho.1) ▸ ho.2.2.2.2) "X-Trace" "on"
    (by simp) (by simp) (by simp [sampleService]) (by decide)⟩

/-- C18: the request built by each operation has the method and the URL
resolved from the path template as follows: CreateZone POST /v1/zones,
ListZones GET /v1/zones, GetZone GET, ReplaceZone PUT and DeleteZone DELETE on
/v1/zones/{zone_id} with `zone_id` taken from ZoneID,
ListAvailableServicerefTargets GET /v1/zones/serviceref_targets, CreateRule
POST /v1/rules, ListRules GET /v1/rules, GetRule GET, ReplaceRule PUT and
DeleteRule DELETE on /v1/rules/{rule_id} with `rule_id` taken from RuleID,
GetAccountSettings GET /v1/account_settings/{account_id} with `account_id`
taken from AccountID. No operation builds a PATCH request. -/
theorem operations_method_and_path (svc : ContextBasedRestrictionsV1) :
    (∀ (options : Option CreateZoneOptions) (req : RequestBuilder),
      CreateZoneWithContext_request svc options = .ok req →
      ∃ o url, options = some o ∧
        svc.ResolveRequestURL svc.URL "/v1/zones" [] = .ok url ∧
        req.Method = .POST ∧ req.URL = url ∧ req.Method ≠ .PATCH) ∧
    (∀ (options : Option ListZonesOptions) (req : RequestBuilder),
      ListZonesWithContext_request svc options = .ok req →
      ∃ o url, options = some o ∧
        svc.ResolveRequestURL svc.URL "/v1/zones" [] = .ok url ∧
        req.Method = .GET ∧ req.URL = url ∧ req.Method ≠ .PATCH) ∧
    (∀ (options : Option GetZoneOptions) (req : RequestBuilder),
      GetZoneWithContext_request svc options = .ok req →
      ∃ o zone_id url, options = some o ∧ o.ZoneID = some zone_id ∧
        svc.ResolveRequestURL svc.URL "/v1/zones/{zone_id}" [("zone_id", zone_id)] = .ok url ∧
        req.Method = .GET ∧ req.URL = url ∧ req.Method ≠ .PATCH) ∧
    (∀ (options : Option ReplaceZoneOptions) (req : RequestBuilder),
      ReplaceZoneWithContext_request svc options = .ok req →
      ∃ o zone_id url, options = some o ∧ o.ZoneID = some zone_id ∧
        svc.ResolveRequestURL svc.URL "/v1/zones/{zone_id}" [("zone_id", zone_id)] = .ok url ∧
        req.Method = .PUT ∧ req.URL = url ∧ req.Method ≠ .PATCH) ∧
    (∀ (options : Option DeleteZoneOptions) (req : RequestBuilder),
      DeleteZoneWithContext_request svc options = .ok req →
      ∃ o zone_id url, options = some o ∧ o.ZoneID = some zone_id ∧
        svc.ResolveRequestURL svc.URL "/v1/zones/{zone_id}" [("zone_id", zone_id)] = .ok url ∧
        req.Method = .DELETE ∧ req.URL = url ∧ req.Method ≠ .PATCH) ∧
    (∀ (options : Option ListAvailableServicerefTargetsOptions) (req : RequestBuilder),
      ListAvailableServicerefTargetsWithContext_request svc options = .ok req →
      ∃ o url, options = some o ∧
        svc.ResolveRequestURL svc.URL "/v1/zones/serviceref_targets" [] = .ok url ∧
        req.Method = .GET ∧ req.URL = url ∧ req.Method ≠ .PATCH) ∧
    (∀ (options : Option CreateRuleOptions) (req : RequestBuilder),
      CreateRuleWithContext_request svc options = .ok req →
      ∃ o url, options = some o ∧
        svc.ResolveRequestURL svc.URL "/v1/rules" [] = .ok url ∧
        req.Method = .POST ∧ req.URL = url ∧ req.Method ≠ .PATCH) ∧
    (∀ (options : Option ListRulesOptions) (req : RequestBuilder),
      ListRulesWithContext_request svc options = .ok req →
      ∃ o url, options = some o ∧
        svc.ResolveRequestURL svc.URL "/v1/rules" [] = .ok url ∧
        req.Method = .GET ∧ req.URL = url ∧ req.Method ≠ .PATCH) ∧
    (∀ (options : Option GetRuleOptions) (req : RequestBuilder),
      GetRuleWithContext_request svc options = .ok req →
      ∃ o rule_id url, options = some o ∧ o.RuleID = some rule_id ∧
        svc.ResolveRequestURL svc.URL "/v1/rules/{rule_id}" [("rule_id", rule_id)] = .ok url ∧
        req.Method = .GET ∧ req.URL = url ∧ req.Method ≠ .PATCH) ∧
    (∀ (options : Option ReplaceRuleOptions) (req : RequestBuilder),
      ReplaceRuleWithContext_request svc options = .ok req →
      ∃ o rule_id url, options = some o ∧ o.RuleID = some rule_id ∧
        svc.ResolveRequestURL svc.URL "/v1/rules/{rule_id}" [("rule_id", rule_id)] = .ok url ∧
        req.Method = .PUT ∧ req.URL = url ∧ req.Method ≠ .PATCH) ∧
    (∀ (options : Option DeleteRuleOptions) (req : RequestBuilder),
      DeleteRuleWithContext_request svc options = .ok req →
      ∃ o rule_id url, options = some o ∧ o.RuleID = some rule_id ∧
        svc.ResolveRequestURL svc.URL "/v1/rules/{rule_id}" [("rule_id", rule_id)] = .ok url ∧
        req.Method = .DELETE ∧ req.URL = url ∧ req.Method ≠ .PATCH) ∧
    (∀ (options : Option GetAccountSettingsOptions) (req : RequestBuilder),
      GetAccountSettingsWithContext_request svc options = .ok req →
      ∃ o account_id url, options = some o ∧ o.AccountID = some account_id ∧
        svc.ResolveRequestURL svc.URL "/v1/account_settings/{account_id}" [("account_id", account_id)] = .ok url ∧
        req.Method = .GET ∧ req.URL = url ∧ req.Method ≠ .PATCH) := by
  refine ⟨?_, ?_, ?_, ?_, ?_, ?_, ?_, ?_, ?_, ?_, ?_, ?_⟩
  · intro options req h
    obtain ⟨o, url, rfl, hr, rfl⟩ :=
      (CreateZoneWithContext_request_ok_iff svc options req).1 h
    exact ⟨o, url, rfl, hr, rfl, rfl, by simp⟩
  · intro options req h
    obtain ⟨o, account_id, url, rfl, hAccountID, hr, rfl⟩ :=
      (ListZonesWithContext_request_ok_iff svc options req).1 h
    exact ⟨o, url, rfl, hr, rfl, rfl, by simp⟩
  · intro options req h
    obtain ⟨o, zone_id, url, rfl, hZoneID, hneZoneID, hr, rfl⟩ :=
      (GetZoneWithContext_request_ok_iff svc options req).1 h
    exact ⟨o, zone_id, url, rfl, hZoneID, hr, rfl, rfl, by simp⟩
  · intro options req h
    obtain ⟨o, zone_id, ifMatch, url, rfl, hZoneID, hneZoneID, hIfMatch, hr, rfl⟩ :=
      (ReplaceZoneWithContext_request_ok_iff svc options req).1 h
    exact ⟨o, zone_id, url, rfl, hZoneID, hr, rfl, rfl, by simp⟩
  · intro options req h
    obtain ⟨o, zone_id, url, rfl, hZoneID, hneZoneID, hr, rfl⟩ :=
      (DeleteZoneWithContext_request_ok_iff svc options req).1 h
    exact ⟨o, zone_id, url, rfl, hZoneID, hr, rfl, rfl, by simp⟩
  · intro options req h
    obtain ⟨o, url, rfl, hr, rfl⟩ :=
      (ListAvailableServicerefTargetsWithContext_request_ok_iff svc options req).1 h
    exact ⟨o, url, rfl, hr, rfl, rfl, by simp⟩
  · intro options req h
    obtain ⟨o, url, rfl, hr, rfl⟩ :=
      (CreateRuleWithContext_request_ok_iff svc options req).1 h
    exact ⟨o, url, rfl, hr, rfl, rfl, by simp⟩
  · intro options req h
    obtain ⟨o, account_id, url, rfl, hAccountID, hr, rfl⟩ :=
      (ListRulesWithContext_request_ok_iff svc options req).1 h
    exact ⟨o, url, rfl, hr, rfl, rfl, by simp⟩
  · intro options req h
    obtain ⟨o, rule_id, url, rfl, hRuleID, hneRuleID, hr, rfl⟩ :=
      (GetRuleWithContext_request_ok_iff svc options req).1 h
    exact ⟨o, rule_id, url, rfl, hRuleID, hr, rfl, rfl, by simp⟩
  · intro options req h
    obtain ⟨o, rule_id, ifMatch, url, rfl, hRuleID, hneRuleID, hIfMatch, hr, rfl⟩ :=
      (ReplaceRuleWithContext_request_ok_iff svc options req).1 h
    exact ⟨o, rule_id, url, rfl, hRuleID, hr, rfl, rfl, by simp⟩
  · intro options req h
    obtain ⟨o, rule_id, url, rfl, hRuleID, hneRuleID, hr, rfl⟩ :=
      (DeleteRuleWithContext_request_ok_iff svc options req).1 h
    exact ⟨o, rule_id, url, rfl, hRuleID, hr, rfl, rfl, by simp⟩
  · intro options req h
    obtain ⟨o, account_id, url, rfl, hAccountID, hneAccountID, hr, rfl⟩ :=
      (GetAccountSettingsWithContext_request_ok_iff svc options req).1 h
    exact ⟨o, account_id, url, rfl, hAccountID, hr, rfl, rfl, by simp⟩

/-- Witness of C18: ReplaceZone builds a PUT on the zone's path. -/
theorem operations_method_and_path_witness :
    ∃ o zone_id url,
      some ({ ZoneID := some "z-1", IfMatch := some "1-abc", Name := none, AccountID := none,
              Description := none, Addresses := none, Excluded := none,
              XCorrelationID := none, TransactionID := none, Headers := [] } :
        ReplaceZoneOptions) = some o ∧
      o.ZoneID = some zone_id ∧
      sampleService.ResolveRequestURL sampleService.URL "/v1/zones/{zone_id}"
        [("zone_id", zone_id)] = .ok url ∧
      HTTPMethod.PUT = .PUT ∧ "https://cbr.cloud.ibm.com/v1/zones/{zone_id}" = url ∧
      HTTPMethod.PUT ≠ .PATCH :=
  (operations_method_and_path sampleService).2.2.2.1
    (some { ZoneID := some "z-1", IfMatch := some "1-abc", Name := none, AccountID := none,
            Description := none, Addresses := none, Excluded := none,
            XCorrelationID := none, TransactionID := none, Headers := [] })
    { Method := .PUT, URL := "https://cbr.cloud.ibm.com/v1/zones/{zone_id}",
      Header := [("Accept", "application/json"), ("Content-Type", "application/json"),
        ("If-Match", "1-abc")],
      Query := [], Body := some [], EnableGzipCompression := false } rfl

/-! ## The composite identifier -/

theorem setOrReturn_keeps_id (env : Env) (calls : List Call) (d : ResourceData)
    (key : String) (value : Value) (prefix_ : String) (rest : ResourceData → ReadResult)
    (hrest : ∀ d', (rest d').outcome = .returned none → (rest d').d.id = d'.id)
    (h : (setOrReturn env calls d key value prefix_ rest).outcome = .returned none) :
    (setOrReturn env calls d key value prefix_ rest).d.id = d.id := by
  unfold setOrReturn at h ⊢
  unfold ResourceData.Set at h ⊢
  cases hs : env.setError key value with
  | some e => simp [hs] at h
  | none =>
    simp only [hs] at h ⊢
    exact hrest _ h

theorem setNetworkInterface_success (env : Env) (calls : List Call) (d : ResourceData)
    (ins_id : String) (networkInterface : NetworkInterface)
    (h : (setNetworkInterface env calls d ins_id networkInterface).outcome = .returned none) :
    ∃ ni_id, networkInterface.ID = some ni_id ∧
      (setNetworkInterface env calls d ins_id networkInterface).d.id =
        some (ins_id ++ "/" ++ ni_id) := by
  unfold setNetworkInterface at h ⊢
  cases hid : networkInterface.ID with
  | none => simp [hid] at h
  | some ni_id =>
    refine ⟨ni_id, rfl, ?_⟩
    simp only [hid] at h ⊢
    refine setOrReturn_keeps_id env calls _ "allow_ip_spoofing" _ _ _ ?_ h
    clear h
    intro d h
    refine setOrReturn_keeps_id env calls _ "created_at" _ _ _ ?_ h
    clear h
    intro d h
    cases hf : networkInterface.FloatingIps <;> simp only [hf] at h ⊢
    all_goals
      first
      | (refine setOrReturn_keeps_id env calls _ "floating_ips" _ _ _ ?_ h
         clear h
         intro d h)
      | skip
    all_goals
      refine setOrReturn_keeps_id env calls _ "href" _ _ _ ?_ h
      clear h
      intro d h
      refine setOrReturn_keeps_id env calls _ "name" _ _ _ ?_ h
      clear h
      intro d h
      refine setOrReturn_keeps_id env calls _ "port_speed" _ _ _ ?_ h
      clear h
      intro d h
      refine setOrReturn_keeps_id env calls _ "primary_ipv4_address" _ _ _ ?_ h
      clear h
      intro d h
      refine setOrReturn_keeps_id env calls _ "resource_type" _ _ _ ?_ h
      clear h
      intro d h
      cases hsg : networkInterface.SecurityGroups <;> simp only [hsg] at h ⊢
    all_goals
      first
      | (refine setOrReturn_keeps_id env calls _ "security_groups" _ _ _ ?_ h
         clear h
         intro d h)
      | skip
    all_goals
      refine setOrReturn_keeps_id env calls _ "status" _ _ _ ?_ h
      clear h
      intro d h
      cases hsub : networkInterface.Subnet <;> simp only [hsub] at h ⊢
    all_goals
      first
      | (refine setOrReturn_keeps_id env calls _ "subnet" _ _ _ ?_ h
         clear h
         intro d h)
      | skip
    all_goals
      refine setOrReturn_keeps_id env calls _ "type" _ _ _ ?_ h
      clear h
      intro d h
      rfl

theorem scanNetworkInterfaces_success (env : Env) (calls : List Call) (d : ResourceData)
    (ins_id network_interface_name : String) (interfaces : List NetworkInterface)
    (h : (scanNetworkInterfaces env calls d ins_id network_interface_name interfaces).outcome =
      .returned none) :
    ∃ pre ni post ni_id, interfaces = pre ++ ni :: post ∧
      (∀ i ∈ pre, i.Name ≠ some network_interface_name) ∧
      ni.Name = some network_interface_name ∧ ni.ID = some ni_id ∧
      (scanNetworkInterfaces env calls d ins_id network_interface_name interfaces).d.id =
        some (ins_id ++ "/" ++ ni_id) := by
  induction interfaces with
  | nil => simp [scanNetworkInterfaces] at h
  | cons x rest ih =>
    unfold scanNetworkInterfaces at h ⊢
    cases hn : x.Name with
    | none => simp [hn] at h
    | some name =>
      simp only [hn] at h ⊢
      by_cases heq : name = network_interface_name
      · simp only [heq, if_true] at h ⊢
        obtain ⟨ni_id, hid, hres⟩ := setNetworkInterface_success env calls d ins_id x h
        exact ⟨[], x, rest, ni_id, rfl, by simp, by rw [hn, heq], hid, hres⟩
      · simp only [heq, if_false] at h ⊢
        obtain ⟨pre, ni, post, ni_id, hsplit, hpre, hname, hid, hres⟩ := ih h
        refine ⟨x :: pre, ni, post, ni_id, by rw [hsplit]; rfl, ?_, hname, hid, hres⟩
        intro i hi
        rcases List.mem_cons.1 hi with hi | hi
        · subst hi
          rw [hn]
          intro hc
          exact heq (Option.some.inj hc)
        · exact hpre i hi

theorem scanInstances_success (env : Env) (calls : List Call) (d : ResourceData)
    (instance_name : String) (err : Option String) (allrecs : List Instance)
    (h : (scanInstances env calls d instance_name err allrecs).outcome = .returned none) :
    ∃ pre inst post ins_id collection npre ni npost ni_id,
      allrecs = pre ++ inst :: post ∧ (∀ i ∈ pre, i.Name ≠ some instance_name) ∧
      inst.Name = some instance_name ∧ inst.ID = some ins_id ∧
      env.ListInstanceNetworkInterfacesWithContext ins_id = .ok (some collection) ∧
      collection.NetworkInterfaces = npre ++ ni :: npost ∧
      (∀ i ∈ npre, i.Name ≠ some d.network_interface_name) ∧
      ni.Name = some d.network_interface_name ∧ ni.ID = some ni_id ∧
      (scanInstances env calls d instance_name err allrecs).d.id =
        some (ins_id ++ "/" ++ ni_id) := by
  induction allrecs with
  | nil => simp [scanInstances] at h
  | cons x rest ih =>
    unfold scanInstances at h ⊢
    cases hn : x.Name with
    | none => simp [hn] at h
    | some name =>
      simp only [hn] at h ⊢
      by_cases heq : name = instance_name
      · simp only [heq, if_true] at h ⊢
        cases hid : x.ID with
        | none => simp [hid] at h
        | some ins_id =>
          simp only [hid] at h ⊢
          cases hc : env.ListInstanceNetworkInterfacesWithContext ins_id with
          | error failure => simp [hc] at h
          | ok result =>
            cases result with
            | none => simp [hc] at h
            | some collection =>
              simp only [hc] at h ⊢
              obtain ⟨npre, ni, npost, ni_id, hsplit, hpre, hname, hnid, hres⟩ :=
                scanNetworkInterfaces_success env _ d ins_id _ _ h
              exact ⟨[], x, rest, ins_id, collection, npre, ni, npost, ni_id, rfl, by simp,
                by rw [hn, heq], hid, hc, hsplit, hpre, hname, hnid, hres⟩
      · simp only [heq, if_false] at h ⊢
        obtain ⟨pre, inst, post, ins_id, collection, npre, ni, npost, ni_id, hsplit, hpre,
          hname, hid, hc, hnsplit, hnpre, hnname, hnid, hres⟩ := ih h
        refine ⟨x :: pre, inst, post, ins_id, collection, npre, ni, npost, ni_id,
          by rw [hsplit]; rfl, ?_, hname, hid, hc, hnsplit, hnpre, hnname, hnid, hres⟩
        intro i hi
        rcases List.mem_cons.1 hi with hi | hi
        · subst hi
          rw [hn]
          intro hc'
          exact heq (Option.some.inj hc')
        · exact hpre i hi

/-- C13: when the read returns without error, the resource ID is the ID of
the matched instance (the first listed instance named `instance_name`),
followed by one "/", followed by the ID of the matched network interface (the
first interface of that instance named `network_interface_name`). The "/" put
between them is the only one added: the identifier has as many "/" as the two
IDs together plus one. -/
theorem Read_sets_composite_id (env : Env) (fuel : Nat) (d : ResourceData)
    (h : (dataSourceIBMIsInstanceNetworkInterfaceRead env fuel d).outcome = .returned none) :
    ∃ allrecs starts pre inst post ins_id collection npre ni npost ni_id,
      listInstancesLoop env fuel "" false [] [] = (.done allrecs, starts) ∧
      allrecs = pre ++ inst :: post ∧ (∀ i ∈ pre, i.Name ≠ some d.instance_name) ∧
      inst.Name = some d.instance_name ∧ inst.ID = some ins_id ∧
      env.ListInstanceNetworkInterfacesWithContext ins_id = .ok (some collection) ∧
      collection.NetworkInterfaces = npre ++ ni :: npost ∧
      (∀ i ∈ npre, i.Name ≠ some d.network_interface_name) ∧
      ni.Name = some d.network_interface_name ∧ ni.ID = some ni_id ∧
      (dataSourceIBMIsInstanceNetworkInterfaceRead env fuel d).d.id =
        some (ins_id ++ "/" ++ ni_id) ∧
      (ins_id ++ "/" ++ ni_id).data.count '/' =
        ins_id.data.count '/' + 1 + ni_id.data.count '/' := by
  unfold dataSourceIBMIsInstanceNetworkInterfaceRead at h ⊢
  cases hclient : env.VpcV1API with
  | some e => simp [hclient] at h
  | none =>
    simp only [hclient] at h ⊢
    cases hloop : listInstancesLoop env fuel "" false [] [] with
    | mk out starts =>
      cases out with
      | looping => simp [hloop] at h
      | failed failure => simp [hloop] at h
      | panicked => simp [hloop] at h
      | done allrecs =>
        simp only [hloop] at h ⊢
        obtain ⟨pre, inst, post, ins_id, collection, npre, ni, npost, ni_id, hsplit, hpre,
          hname, hid, hc, hnsplit, hnpre, hnname, hnid, hres⟩ :=
          scanInstances_success env _ d _ _ allrecs h
        refine ⟨allrecs, starts, pre, inst, post, ins_id, collection, npre, ni, npost, ni_id,
          rfl, hsplit, hpre, hname, hid, hc, hnsplit, hnpre, hnname, hnid, hres, ?_⟩
        simp [String.data_append, List.count_append]
        omega

/-- Witness of C13: the instance "beta" with interface "eth0" on the two
sample pages gets the ID "i-2/n-1". -/
theorem Read_sets_composite_id_witness :
    (dataSourceIBMIsInstanceNetworkInterfaceRead
        (sampleEnv [samplePage1, samplePage2] [sampleInterface "n-1" "eth0"]) 5
        (sampleData "beta" "eth0")).d.id = some "i-2/n-1" ∧
      ∃ allrecs starts pre inst post ins_id collection npre ni npost ni_id,
        listInstancesLoop (sampleEnv [samplePage1, samplePage2] [sampleInterface "n-1" "eth0"])
          5 "" false [] [] = (.done allrecs, starts) ∧
        allrecs = pre ++ inst :: post ∧
        (∀ i ∈ pre, i.Name ≠ some (sampleData "beta" "eth0").instance_name) ∧
        inst.Name = some (sampleData "beta" "eth0").instance_name ∧ inst.ID = some ins_id ∧
        (sampleEnv [samplePage1, samplePage2]
          [sampleInterface "n-1" "eth0"]).ListInstanceNetworkInterfacesWithContext ins_id =
          .ok (some collection) ∧
        collection.NetworkInterfaces = npre ++ ni :: npost ∧
        (∀ i ∈ npre, i.Name ≠ some (sampleData "beta" "eth0").network_interface_name) ∧
        ni.Name = some (sampleData "beta" "eth0").network_interface_name ∧
        ni.ID = some ni_id ∧
        (dataSourceIBMIsInstanceNetworkInterfaceRead
          (sampleEnv [samplePage1, samplePage2] [sampleInterface "n-1" "eth0"]) 5
          (sampleData "beta" "eth0")).d.id = some (ins_id ++ "/" ++ ni_id) ∧
        (ins_id ++ "/" ++ ni_id).data.count '/' =
          ins_id.data.count '/' + 1 + ni_id.data.count '/' :=
  ⟨rfl, Read_sets_composite_id
    (sampleEnv [samplePage1, samplePage2] [sampleInterface "n-1" "eth0"]) 5
    (sampleData "beta" "eth0") rfl⟩

/-! ## Decoding of zones, rules and account settings -/

theorem bind_eq_ok {ε α β : Type} {x : Except ε α} {f : α → Except ε β} {b : β}
    (h : (x >>= f) = .ok b) : ∃ a, x = .ok a ∧ f a = .ok b := by
  cases x with
  | error e => cases h
  | ok a => exact ⟨a, rfl, h⟩

theorem unmarshalElement_address_ne_ok (propertyName : String) (item : Json)
    (hbad : ∀ fields, item = .obj fields → ∀ a, UnmarshalAddress fields ≠ .ok a)
    (a : Option AddressIntf) :
    core.unmarshalElement propertyName UnmarshalAddress item ≠ .ok a := by
  cases item with
  | obj fields =>
    have h := hbad fields rfl
    unfold core.unmarshalElement
    cases hu : UnmarshalAddress fields with
    | error e => simp [hu]
    | ok x => exact absurd hu (h x)
  | null =>
    have h0 : UnmarshalAddress [] = .error .discriminatorNotFound := rfl
    simp [core.unmarshalElement, h0]
  | bool b => simp [core.unmarshalElement]
  | num n => simp [core.unmarshalElement]
  | str s => simp [core.unmarshalElement]
  | arr items => simp [core.unmarshalElement]

theorem unmarshalElements_ne_ok {τ : Type} (propertyName : String)
    (unmarshaller : RawObject → Except DecodeError τ) (items : List Json) (item : Json)
    (hmem : item ∈ items)
    (hbad : ∀ a, core.unmarshalElement propertyName unmarshaller item ≠ .ok a)
    (r : List τ) :
    core.unmarshalElements propertyName unmarshaller items ≠ .ok r := by
  induction items generalizing r with
  | nil => cases hmem
  | cons x rest ih =>
    unfold core.unmarshalElements
    rcases List.mem_cons.1 hmem with h | h
    · subst h
      cases hx : core.unmarshalElement propertyName unmarshaller item with
      | error e => simp [hx]
      | ok a => exact absurd hx (hbad a)
    · cases hx : core.unmarshalElement propertyName unmarshaller x with
      | error e => simp [hx]
      | ok a =>
        cases hr : core.unmarshalElements propertyName unmarshaller rest with
        | error e => simp [hx, hr]
        | ok objs => exact absurd hr (ih h objs)

theorem UnmarshalModelSlice_ne_ok {τ : Type} (m : RawObject) (propertyName : String)
    (unmarshaller : RawObject → Except DecodeError τ) (items : List Json) (item : Json)
    (hlookup : m.lookup propertyName = some (.arr items)) (hmem : item ∈ items)
    (hbad : ∀ a, core.unmarshalElement propertyName unmarshaller item ≠ .ok a)
    (r : Option (List τ)) :
    core.UnmarshalModelSlice m propertyName unmarshaller ≠ .ok r := by
  unfold core.UnmarshalModelSlice
  rw [hlookup]
  cases hr : core.unmarshalElements propertyName unmarshaller items with
  | error e => simp [hr]
  | ok objs => exact absurd hr (unmarshalElements_ne_ok _ _ _ _ hmem hbad objs)

theorem UnmarshalZoneSummary_ne_ok_of_bad_address (ParseDateTime : String → Option DateTime)
    (m : RawObject) (items : List Json) (item : Json)
    (hlookup : m.lookup "addresses_preview" = some (.arr items)) (hmem : item ∈ items)
    (hbad : ∀ fields, item = .obj fields → ∀ a, UnmarshalAddress fields ≠ .ok a)
    (z : ZoneSummary) : UnmarshalZoneSummary ParseDateTime m ≠ .ok z := by
  intro hz
  unfold UnmarshalZoneSummary at hz
  obtain ⟨_, _, hz⟩ := bind_eq_ok hz
  obtain ⟨_, _, hz⟩ := bind_eq_ok hz
  obtain ⟨_, _, hz⟩ := bind_eq_ok hz
  obtain ⟨_, _, hz⟩ := bind_eq_ok hz
  obtain ⟨a, ha, _⟩ := bind_eq_ok hz
  exact UnmarshalModelSlice_ne_ok m "addresses_preview" UnmarshalAddress items item hlookup hmem
    (unmarshalElement_address_ne_ok _ item hbad) a ha

/-- C19: if one element of the `addresses` array, or of the `excluded` array,
of a zone payload fails to decode (an object on which `UnmarshalAddress` fails,
for instance because its `type` is absent or unrecognised, or a value that is
not an object), `UnmarshalZone` returns an error and no zone at all; the same
holds for `addresses_preview` in `UnmarshalZoneSummary`; and a `zones` array
containing one zone summary with such an element makes `UnmarshalZoneList`
return an error and no list. -/
theorem bad_address_fails_whole_zone (ParseDateTime : String → Option DateTime)
    (item : Json)
    (hbad : ∀ fields, item = .obj fields → ∀ a, UnmarshalAddress fields ≠ .ok a) :
    (∀ (m : RawObject) (items : List Json),
      m.lookup "addresses" = some (.arr items) → item ∈ items →
      ∀ z, UnmarshalZone ParseDateTime m ≠ .ok z) ∧
    (∀ (m : RawObject) (items : List Json),
      m.lookup "excluded" = some (.arr items) → item ∈ items →
      ∀ z, UnmarshalZone ParseDateTime m ≠ .ok z) ∧
    (∀ (m : RawObject) (items : List Json),
      m.lookup "addresses_preview" = some (.arr items) → item ∈ items →
      ∀ z, UnmarshalZoneSummary ParseDateTime m ≠ .ok z) ∧
    (∀ (m zone : RawObject) (zones items : List Json),
      m.lookup "zones" = some (.arr zones) → Json.obj zone ∈ zones →
      zone.lookup "addresses_preview" = some (.arr items) → item ∈ items →
      ∀ l, UnmarshalZoneList ParseDateTime m ≠ .ok l) := by
  refine ⟨?_, ?_, ?_, ?_⟩
  · intro m items hlookup hmem z hz
    unfold UnmarshalZone at hz
    obtain ⟨_, _, hz⟩ := bind_eq_ok hz
    obtain ⟨_, _, hz⟩ := bind_eq_ok hz
    obtain ⟨_, _, hz⟩ := bind_eq_ok hz
    obtain ⟨_, _, hz⟩ := bind_eq_ok hz
    obtain ⟨_, _, hz⟩ := bind_eq_ok hz
    obtain ⟨_, _, hz⟩ := bind_eq_ok hz
    obtain ⟨_, _, hz⟩ := bind_eq_ok hz
    obtain ⟨a, ha, _⟩ := bind_eq_ok hz
    exact UnmarshalModelSlice_ne_ok m "addresses" UnmarshalAddress items item hlookup hmem
      (unmarshalElement_address_ne_ok _ item hbad) a ha
  · intro m items hlookup hmem z hz
    unfold UnmarshalZone at hz
    obtain ⟨_, _, hz⟩ := bind_eq_ok hz
    obtain ⟨_, _, hz⟩ := bind_eq_ok hz
    obtain ⟨_, _, hz⟩ := bind_eq_ok hz
    obtain ⟨_, _, hz⟩ := bind_eq_ok hz
    obtain ⟨_, _, hz⟩ := bind_eq_ok hz
    obtain ⟨_, _, hz⟩ := bind_eq_ok hz
    obtain ⟨_, _, hz⟩ := bind_eq_ok hz
    obtain ⟨_, _, hz⟩ := bind_eq_ok hz
    obtain ⟨a, ha, _⟩ := bind_eq_ok hz
    exact UnmarshalModelSlice_ne_ok m "excluded" UnmarshalAddress items item hlookup hmem
      (unmarshalElement_address_ne_ok _ item hbad) a ha
  · intro m items hlookup hmem z
    exact UnmarshalZoneSummary_ne_ok_of_bad_address ParseDateTime m items item hlookup hmem hbad z
  · intro m zone zones items hzones hzone hlookup hmem l hl
    unfold UnmarshalZoneList at hl
    obtain ⟨_, _, hl⟩ := bind_eq_ok hl
    obtain ⟨a, ha, _⟩ := bind_eq_ok hl
    refine UnmarshalModelSlice_ne_ok m "zones" (UnmarshalZoneSummary ParseDateTime) zones
      (.obj zone) hzones hzone ?_ a ha
    intro s hs
    unfold core.unmarshalElement at hs
    cases hu : UnmarshalZoneSummary ParseDateTime zone with
    | error e => simp [hu] at hs
    | ok x =>
      exact UnmarshalZoneSummary_ne_ok_of_bad_address ParseDateTime zone items item hlookup hmem
        hbad x hu

/-- Witness of C19: a zone whose second address has no `type`. -/
theorem bad_address_fails_whole_zone_witness :
    ¬ ∃ z, UnmarshalZone sampleService.ParseDateTime
        [("id", .str "z-1"),
         ("addresses", .arr [.obj [("type", .str "ipAddress"), ("value", .str "10.0.0.1")],
                             .obj [("value", .str "10.0.0.2")]])] = .ok z :=
  fun ⟨z, hz⟩ =>
    (bad_address_fails_whole_zone sampleService.ParseDateTime
      (.obj [("value", .str "10.0.0.2")])
      (fun fields h a => by
        cases h
        simp [UnmarshalAddress, core.UnmarshalPrimitive, List.lookup])).1
      [("id", .str "z-1"),
       ("addresses", .arr [.obj [("type", .str "ipAddress"), ("value", .str "10.0.0.1")],
                           .obj [("value", .str "10.0.0.2")]])]
      [.obj [("type", .str "ipAddress"), ("value", .str "10.0.0.1")],
       .obj [("value", .str "10.0.0.2")]]
      rfl (by simp) z hz

/-- Counterexample to C20: a resource attribute without its required `name`,
a zone payload that has only a `name` (no `id`, no `crn`), and an empty account
settings payload are all decoded without error, the missing fields left nil. -/
theorem missing_required_field_decodes :
    UnmarshalResourceAttribute [("value", .str "x")] =
        .ok { Name := none, Value := some "x", Operator := none } ∧
      UnmarshalZone sampleService.ParseDateTime [("name", .str "zone-a")] =
        .ok { ID := none, CRN := none, AddressCount := none, ExcludedCount := none,
              Name := some "zone-a", AccountID := none, Description := none,
              Addresses := none, Excluded := none, Href := none, CreatedAt := none,
              CreatedByID := none, LastModifiedAt := none, LastModifiedByID := none } ∧
      UnmarshalAccountSettings sampleService.ParseDateTime [] =
        .ok { ID := none, CRN := none, RuleCountLimit := none, ZoneCountLimit := none,
              CurrentRuleCount := none, CurrentZoneCount := none, Href := none,
              CreatedAt := none, CreatedByID := none, LastModifiedAt := none,
              LastModifiedByID := none } :=
  ⟨rfl, rfl, rfl⟩

theorem lookup_without (m : RawObject) (name k : String) :
    List.lookup name (m.filter fun p => p.1 != k) =
      if name = k then none else List.lookup name m := by
  induction m with
  | nil => simp [List.lookup]
  | cons p rest ih =>
    obtain ⟨k', v⟩ := p
    by_cases hk : k' = k
    · subst hk
      have hf : List.filter (fun p : String × Json => p.1 != k') ((k', v) :: rest) =
          List.filter (fun p : String × Json => p.1 != k') rest := by
        simp [List.filter]
      rw [hf, ih]
      by_cases hn : name = k'
      · simp [hn]
      · have hb : (name == k') = false := by simpa using hn
        simp [hn, List.lookup, hb]
    · have hf : List.filter (fun p : String × Json => p.1 != k) ((k', v) :: rest) =
          (k', v) :: List.filter (fun p : String × Json => p.1 != k) rest := by
        have hb : (k' != k) = true := by simpa using hk
        simp [List.filter, hb]
      rw [hf]
      by_cases hn : name = k'
      · subst hn
        simp [List.lookup, hk]
      · have hb : (name == k') = false := by simpa using hn
        simp only [List.lookup, hb, ih]

theorem succeeds_bind_mono {ε α β : Type} {x x' : Except ε α} {f f' : α → Except ε β}
    (h : ∃ b, (x >>= f) = .ok b) (hx : (∃ a, x = .ok a) → ∃ a, x' = .ok a)
    (hf : ∀ a a', (∃ b, f a = .ok b) → ∃ b, f' a' = .ok b) :
    ∃ b, (x' >>= f') = .ok b := by
  obtain ⟨b, hb⟩ := h
  obtain ⟨a, ha, hfa⟩ := bind_eq_ok hb
  obtain ⟨a', ha'⟩ := hx ⟨a, ha⟩
  obtain ⟨b', hb'⟩ := hf a a' ⟨b, hfa⟩
  exact ⟨b', by rw [ha']; exact hb'⟩

theorem succeeds_UnmarshalPrimitive_without {τ : Type} (m : RawObject) (name k : String)
    (store : String → τ) (result : τ)
    (h : ∃ a, core.UnmarshalPrimitive m name store result = .ok a) :
    ∃ a, core.UnmarshalPrimitive (m.filter fun p => p.1 != k) name store result = .ok a := by
  unfold core.UnmarshalPrimitive at h ⊢
  rw [lookup_without]
  by_cases hn : name = k
  · exact ⟨result, by simp [hn]⟩
  · simpa [hn] using h

theorem succeeds_UnmarshalPrimitiveInt64_without (m : RawObject) (name k : String)
    (result : Option Int)
    (h : ∃ a, core.UnmarshalPrimitiveInt64 m name result = .ok a) :
    ∃ a, core.UnmarshalPrimitiveInt64 (m.filter fun p => p.1 != k) name result = .ok a := by
  unfold core.UnmarshalPrimitiveInt64 at h ⊢
  rw [lookup_without]
  by_cases hn : name = k
  · exact ⟨result, by simp [hn]⟩
  · simpa [hn] using h

theorem succeeds_UnmarshalPrimitiveDateTime_without (ParseDateTime : String → Option DateTime)
    (m : RawObject) (name k : String) (result : Option DateTime)
    (h : ∃ a, core.UnmarshalPrimitiveDateTime ParseDateTime m name result = .ok a) :
    ∃ a, core.UnmarshalPrimitiveDateTime ParseDateTime (m.filter fun p => p.1 != k) name
      result = .ok a := by
  unfold core.UnmarshalPrimitiveDateTime at h ⊢
  rw [lookup_without]
  by_cases hn : name = k
  · exact ⟨result, by simp [hn]⟩
  · simpa [hn] using h

theorem succeeds_UnmarshalModelSlice_without {τ : Type} (m : RawObject) (name k : String)
    (unmarshaller : RawObject → Except DecodeError τ)
    (h : ∃ a, core.UnmarshalModelSlice m name unmarshaller = .ok a) :
    ∃ a, core.UnmarshalModelSlice (m.filter fun p => p.1 != k) name unmarshaller = .ok a := by
  unfold core.UnmarshalModelSlice at h ⊢
  rw [lookup_without]
  by_cases hn : name = k
  · exact ⟨none, by simp [hn]⟩
  · simpa [hn] using h

theorem UnmarshalPrimitive_absent {τ : Type} (m : RawObject) (name : String)
    (store : String → τ) (result a : τ) (habsent : m.lookup name = none)
    (h : core.UnmarshalPrimitive m name store result = .ok a) : a = result := by
  unfold core.UnmarshalPrimitive at h
  rw [habsent] at h
  cases h
  rfl

theorem succeeds_UnmarshalModel_without {τ : Type} (m : RawObject) (name k : String)
    (unmarshaller : RawObject → Except DecodeError τ) (hname : name ≠ "")
    (h : ∃ a, core.UnmarshalModel m name unmarshaller = .ok a) :
    ∃ a, core.UnmarshalModel (m.filter fun p => p.1 != k) name unmarshaller = .ok a := by
  unfold core.UnmarshalModel at h ⊢
  simp only [hname, if_false] at h ⊢
  rw [lookup_without]
  by_cases hn : name = k
  · exact ⟨none, by simp [hn]⟩
  · simpa [hn] using h

theorem UnmarshalPrimitiveInt64_absent (m : RawObject) (name : String)
    (result a : Option Int) (habsent : m.lookup name = none)
    (h : core.UnmarshalPrimitiveInt64 m name result = .ok a) : a = result := by
  unfold core.UnmarshalPrimitiveInt64 at h
  rw [habsent] at h
  cases h
  rfl

theorem UnmarshalPrimitiveDateTime_absent (ParseDateTime : String → Option DateTime)
    (m : RawObject) (name : String) (result a : Option DateTime)
    (habsent : m.lookup name = none)
    (h : core.UnmarshalPrimitiveDateTime ParseDateTime m name result = .ok a) :
    a = result := by
  unfold core.UnmarshalPrimitiveDateTime at h
  rw [habsent] at h
  cases h
  rfl

theorem UnmarshalModelSlice_absent {τ : Type} (m : RawObject) (name : String)
    (unmarshaller : RawObject → Except DecodeError τ) (a : Option (List τ))
    (habsent : m.lookup name = none)
    (h : core.UnmarshalModelSlice m name unmarshaller = .ok a) : a = none := by
  unfold core.UnmarshalModelSlice at h
  rw [habsent] at h
  cases h
  rfl

theorem UnmarshalModel_absent {τ : Type} (m : RawObject) (name : String)
    (unmarshaller : RawObject → Except DecodeError τ) (a : Option τ) (hname : name ≠ "")
    (habsent : m.lookup name = none)
    (h : core.UnmarshalModel m name unmarshaller = .ok a) : a = none := by
  unfold core.UnmarshalModel at h
  simp only [hname, if_false, habsent] at h
  cases h
  rfl

theorem UnmarshalAccountSettings_succeeds_without (ParseDateTime : String → Option DateTime) (m : RawObject) (k : String)
    (h : ∃ r, UnmarshalAccountSettings ParseDateTime m = .ok r) :
    ∃ r, UnmarshalAccountSettings ParseDateTime (m.filter fun p => p.1 != k) = .ok r := by
  unfold UnmarshalAccountSettings at h ⊢
  refine succeeds_bind_mono h
    (succeeds_UnmarshalPrimitive_without m "id" k some none) fun _ _ h => ?_
  refine succeeds_bind_mono h
    (succeeds_UnmarshalPrimitive_without m "crn" k some none) fun _ _ h => ?_
  refine succeeds_bind_mono h
    (succeeds_UnmarshalPrimitiveInt64_without m "rule_count_limit" k none) fun _ _ h => ?_
  refine succeeds_bind_mono h
    (succeeds_UnmarshalPrimitiveInt64_without m "zone_count_limit" k none) fun _ _ h => ?_
  refine succeeds_bind_mono h
    (succeeds_UnmarshalPrimitiveInt64_without m "current_rule_count" k none) fun _ _ h => ?_
  refine succeeds_bind_mono h
    (succeeds_UnmarshalPrimitiveInt64_without m "current_zone_count" k none) fun _ _ h => ?_
  refine succeeds_bind_mono h
    (succeeds_UnmarshalPrimitive_without m "href" k some none) fun _ _ h => ?_
  refine succeeds_bind_mono h
    (succeeds_UnmarshalPrimitiveDateTime_without ParseDateTime m "created_at" k none) fun _ _ h => ?_
  refine succeeds_bind_mono h
    (succeeds_UnmarshalPrimitive_without m "created_by_id" k some none) fun _ _ h => ?_
  refine succeeds_bind_mono h
    (succeeds_UnmarshalPrimitiveDateTime_without ParseDateTime m "last_modified_at" k none) fun _ _ h => ?_
  refine succeeds_bind_mono h
    (succeeds_UnmarshalPrimitive_without m "last_modified_by_id" k some none) fun _ _ h => ?_
  exact ⟨_, rfl⟩

theorem UnmarshalResource_succeeds_without (m : RawObject) (k : String)
    (h : ∃ r, UnmarshalResource m = .ok r) :
    ∃ r, UnmarshalResource (m.filter fun p => p.1 != k) = .ok r := by
  unfold UnmarshalResource at h ⊢
  refine succeeds_bind_mono h
    (succeeds_UnmarshalModelSlice_without m "attributes" k _) fun _ _ h => ?_
  refine succeeds_bind_mono h
    (succeeds_UnmarshalModelSlice_without m "tags" k _) fun _ _ h => ?_
  exact ⟨_, rfl⟩

theorem UnmarshalResourceAttribute_succeeds_without (m : RawObject) (k : String)
    (h : ∃ r, UnmarshalResourceAttribute m = .ok r) :
    ∃ r, UnmarshalResourceAttribute (m.filter fun p => p.1 != k) = .ok r := by
  unfold UnmarshalResourceAttribute at h ⊢
  refine succeeds_bind_mono h
    (succeeds_UnmarshalPrimitive_without m "name" k some none) fun _ _ h => ?_
  refine succeeds_bind_mono h
    (succeeds_UnmarshalPrimitive_without m "value" k some none) fun _ _ h => ?_
  refine succeeds_bind_mono h
    (succeeds_UnmarshalPrimitive_without m "operator" k some none) fun _ _ h => ?_
  exact ⟨_, rfl⟩

theorem UnmarshalResourceTagAttribute_succeeds_without (m : RawObject) (k : String)
    (h : ∃ r, UnmarshalResourceTagAttribute m = .ok r) :
    ∃ r, UnmarshalResourceTagAttribute (m.filter fun p => p.1 != k) = .ok r := by
  unfold UnmarshalResourceTagAttribute at h ⊢
  refine succeeds_bind_mono h
    (succeeds_UnmarshalPrimitive_without m "name" k some none) fun _ _ h => ?_
  refine succeeds_bind_mono h
    (succeeds_UnmarshalPrimitive_without m "value" k some none) fun _ _ h => ?_
  refine succeeds_bind_mono h
    (succeeds_UnmarshalPrimitive_without m "operator" k some none) fun _ _ h => ?_
  exact ⟨_, rfl⟩

theorem UnmarshalRule_succeeds_without (ParseDateTime : String → Option DateTime) (m : RawObject) (k : String)
    (h : ∃ r, UnmarshalRule ParseDateTime m = .ok r) :
    ∃ r, UnmarshalRule ParseDateTime (m.filter fun p => p.1 != k) = .ok r := by
  unfold UnmarshalRule at h ⊢
  refine succeeds_bind_mono h
    (succeeds_UnmarshalPrimitive_without m "id" k some none) fun _ _ h => ?_
  refine succeeds_bind_mono h
    (succeeds_UnmarshalPrimitive_without m "crn" k some none) fun _ _ h => ?_
  refine succeeds_bind_mono h
    (succeeds_UnmarshalPrimitive_without m "description" k some none) fun _ _ h => ?_
  refine succeeds_bind_mono h
    (succeeds_UnmarshalModelSlice_without m "contexts" k _) fun _ _ h => ?_
  refine succeeds_bind_mono h
    (succeeds_UnmarshalModelSlice_without m "resources" k _) fun _ _ h => ?_
  refine succeeds_bind_mono h
    (succeeds_UnmarshalPrimitive_without m "href" k some none) fun _ _ h => ?_
  refine succeeds_bind_mono h
    (succeeds_UnmarshalPrimitiveDateTime_without ParseDateTime m "created_at" k none) fun _ _ h => ?_
  refine succeeds_bind_mono h
    (succeeds_UnmarshalPrimitive_without m "created_by_id" k some none) fun _ _ h => ?_
  refine succeeds_bind_mono h
    (succeeds_UnmarshalPrimitiveDateTime_without ParseDateTime m "last_modified_at" k none) fun _ _ h => ?_
  refine succeeds_bind_mono h
    (succeeds_UnmarshalPrimitive_without m "last_modified_by_id" k some none) fun _ _ h => ?_
  exact ⟨_, rfl⟩

theorem UnmarshalRuleContext_succeeds_without (m : RawObject) (k : String)
    (h : ∃ r, UnmarshalRuleContext m = .ok r) :
    ∃ r, UnmarshalRuleContext (m.filter fun p => p.1 != k) = .ok r := by
  unfold UnmarshalRuleContext at h ⊢
  refine succeeds_bind_mono h
    (succeeds_UnmarshalModelSlice_without m "attributes" k _) fun _ _ h => ?_
  exact ⟨_, rfl⟩

theorem UnmarshalRuleContextAttribute_succeeds_without (m : RawObject) (k : String)
    (h : ∃ r, UnmarshalRuleContextAttribute m = .ok r) :
    ∃ r, UnmarshalRuleContextAttribute (m.filter fun p => p.1 != k) = .ok r := by
  unfold UnmarshalRuleContextAttribute at h ⊢
  refine succeeds_bind_mono h
    (succeeds_UnmarshalPrimitive_without m "name" k some none) fun _ _ h => ?_
  refine succeeds_bind_mono h
    (succeeds_UnmarshalPrimitive_without m "value" k some none) fun _ _ h => ?_
  exact ⟨_, rfl⟩

theorem UnmarshalRuleList_succeeds_without (ParseDateTime : String → Option DateTime) (m : RawObject) (k : String)
    (h : ∃ r, UnmarshalRuleList ParseDateTime m = .ok r) :
    ∃ r, UnmarshalRuleList ParseDateTime (m.filter fun p => p.1 != k) = .ok r := by
  unfold UnmarshalRuleList at h ⊢
  refine succeeds_bind_mono h
    (succeeds_UnmarshalPrimitiveInt64_without m "count" k none) fun _ _ h => ?_
  refine succeeds_bind_mono h
    (succeeds_UnmarshalModelSlice_without m "rules" k _) fun _ _ h => ?_
  exact ⟨_, rfl⟩

theorem UnmarshalServiceRefTarget_succeeds_without (m : RawObject) (k : String)
    (h : ∃ r, UnmarshalServiceRefTarget m = .ok r) :
    ∃ r, UnmarshalServiceRefTarget (m.filter fun p => p.1 != k) = .ok r := by
  unfold UnmarshalServiceRefTarget at h ⊢
  refine succeeds_bind_mono h
    (succeeds_UnmarshalPrimitive_without m "service_name" k some none) fun _ _ h => ?_
  refine succeeds_bind_mono h
    (succeeds_UnmarshalPrimitive_without m "service_type" k some none) fun _ _ h => ?_
  exact ⟨_, rfl⟩

theorem UnmarshalServiceRefTargetList_succeeds_without (m : RawObject) (k : String)
    (h : ∃ r, UnmarshalServiceRefTargetList m = .ok r) :
    ∃ r, UnmarshalServiceRefTargetList (m.filter fun p => p.1 != k) = .ok r := by
  unfold UnmarshalServiceRefTargetList at h ⊢
  refine succeeds_bind_mono h
    (succeeds_UnmarshalPrimitiveInt64_without m "count" k none) fun _ _ h => ?_
  refine succeeds_bind_mono h
    (succeeds_UnmarshalModelSlice_without m "targets" k _) fun _ _ h => ?_
  exact ⟨_, rfl⟩

theorem UnmarshalServiceRefValue_succeeds_without (m : RawObject) (k : String)
    (h : ∃ r, UnmarshalServiceRefValue m = .ok r) :
    ∃ r, UnmarshalServiceRefValue (m.filter fun p => p.1 != k) = .ok r := by
  unfold UnmarshalServiceRefValue at h ⊢
  refine succeeds_bind_mono h
    (succeeds_UnmarshalPrimitive_without m "account_id" k some none) fun _ _ h => ?_
  refine succeeds_bind_mono h
    (succeeds_UnmarshalPrimitive_without m "service_type" k some none) fun _ _ h => ?_
  refine succeeds_bind_mono h
    (succeeds_UnmarshalPrimitive_without m "service_name" k some none) fun _ _ h => ?_
  refine succeeds_bind_mono h
    (succeeds_UnmarshalPrimitive_without m "service_instance" k some none) fun _ _ h => ?_
  exact ⟨_, rfl⟩

theorem UnmarshalZone_succeeds_without (ParseDateTime : String → Option DateTime) (m : RawObject) (k : String)
    (h : ∃ r, UnmarshalZone ParseDateTime m = .ok r) :
    ∃ r, UnmarshalZone ParseDateTime (m.filter fun p => p.1 != k) = .ok r := by
  unfold UnmarshalZone at h ⊢
  refine succeeds_bind_mono h
    (succeeds_UnmarshalPrimitive_without m "id" k some none) fun _ _ h => ?_
  refine succeeds_bind_mono h
    (succeeds_UnmarshalPrimitive_without m "crn" k some none) fun _ _ h => ?_
  refine succeeds_bind_mono h
    (succeeds_UnmarshalPrimitiveInt64_without m "address_count" k none) fun _ _ h => ?_
  refine succeeds_bind_mono h
    (succeeds_UnmarshalPrimitiveInt64_without m "excluded_count" k none) fun _ _ h => ?_
  refine succeeds_bind_mono h
    (succeeds_UnmarshalPrimitive_without m "name" k some none) fun _ _ h => ?_
  refine succeeds_bind_mono h
    (succeeds_UnmarshalPrimitive_without m "account_id" k some none) fun _ _ h => ?_
  refine succeeds_bind_mono h
    (succeeds_UnmarshalPrimitive_without m "description" k some none) fun _ _ h => ?_
  refine succeeds_bind_mono h
    (succeeds_UnmarshalModelSlice_without m "addresses" k _) fun _ _ h => ?_
  refine succeeds_bind_mono h
    (succeeds_UnmarshalModelSlice_without m "excluded" k _) fun _ _ h => ?_
  refine succeeds_bind_mono h
    (succeeds_UnmarshalPrimitive_without m "href" k some none) fun _ _ h => ?_
  refine succeeds_bind_mono h
    (succeeds_UnmarshalPrimitiveDateTime_without ParseDateTime m "created_at" k none) fun _ _ h => ?_
  refine succeeds_bind_mono h
    (succeeds_UnmarshalPrimitive_without m "created_by_id" k some none) fun _ _ h => ?_
  refine succeeds_bind_mono h
    (succeeds_UnmarshalPrimitiveDateTime_without ParseDateTime m "last_modified_at" k none) fun _ _ h => ?_
  refine succeeds_bind_mono h
    (succeeds_UnmarshalPrimitive_without m "last_modified_by_id" k some none) fun _ _ h => ?_
  exact ⟨_, rfl⟩

theorem UnmarshalZoneList_succeeds_without (ParseDateTime : String → Option DateTime) (m : RawObject) (k : String)
    (h : ∃ r, UnmarshalZoneList ParseDateTime m = .ok r) :
    ∃ r, UnmarshalZoneList ParseDateTime (m.filter fun p => p.1 != k) = .ok r := by
  unfold UnmarshalZoneList at h ⊢
  refine succeeds_bind_mono h
    (succeeds_UnmarshalPrimitiveInt64_without m "count" k none) fun _ _ h => ?_
  refine succeeds_bind_mono h
    (succeeds_UnmarshalModelSlice_without m "zones" k _) fun _ _ h => ?_
  exact ⟨_, rfl⟩

theorem UnmarshalZoneSummary_succeeds_without (ParseDateTime : String → Option DateTime) (m : RawObject) (k : String)
    (h : ∃ r, UnmarshalZoneSummary ParseDateTime m = .ok r) :
    ∃ r, UnmarshalZoneSummary ParseDateTime (m.filter fun p => p.1 != k) = .ok r := by
  unfold UnmarshalZoneSummary at h ⊢
  refine succeeds_bind_mono h
    (succeeds_UnmarshalPrimitive_without m "id" k some none) fun _ _ h => ?_
  refine succeeds_bind_mono h
    (succeeds_UnmarshalPrimitive_without m "crn" k some none) fun _ _ h => ?_
  refine succeeds_bind_mono h
    (succeeds_UnmarshalPrimitive_without m "name" k some none) fun _ _ h => ?_
  refine succeeds_bind_mono h
    (succeeds_UnmarshalPrimitive_without m "description" k some none) fun _ _ h => ?_
  refine succeeds_bind_mono h
    (succeeds_UnmarshalModelSlice_without m "addresses_preview" k _) fun _ _ h => ?_
  refine succeeds_bind_mono h
    (succeeds_UnmarshalPrimitiveInt64_without m "address_count" k none) fun _ _ h => ?_
  refine succeeds_bind_mono h
    (succeeds_UnmarshalPrimitiveInt64_without m "excluded_count" k none) fun _ _ h => ?_
  refine succeeds_bind_mono h
    (succeeds_UnmarshalPrimitive_without m "href" k some none) fun _ _ h => ?_
  refine succeeds_bind_mono h
    (succeeds_UnmarshalPrimitiveDateTime_without ParseDateTime m "created_at" k none) fun _ _ h => ?_
  refine succeeds_bind_mono h
    (succeeds_UnmarshalPrimitive_without m "created_by_id" k some none) fun _ _ h => ?_
  refine succeeds_bind_mono h
    (succeeds_UnmarshalPrimitiveDateTime_without ParseDateTime m "last_modified_at" k none) fun _ _ h => ?_
  refine succeeds_bind_mono h
    (succeeds_UnmarshalPrimitive_without m "last_modified_by_id" k some none) fun _ _ h => ?_
  exact ⟨_, rfl⟩

theorem UnmarshalAddressIPAddress_succeeds_without (m : RawObject) (k : String)
    (h : ∃ r, UnmarshalAddressIPAddress m = .ok r) :
    ∃ r, UnmarshalAddressIPAddress (m.filter fun p => p.1 != k) = .ok r := by
  unfold UnmarshalAddressIPAddress at h ⊢
  refine succeeds_bind_mono h
    (succeeds_UnmarshalPrimitive_without m "type" k some none) fun _ _ h => ?_
  refine succeeds_bind_mono h
    (succeeds_UnmarshalPrimitive_without m "value" k some none) fun _ _ h => ?_
  exact ⟨_, rfl⟩

theorem UnmarshalAddressIPAddressRange_succeeds_without (m : RawObject) (k : String)
    (h : ∃ r, UnmarshalAddressIPAddressRange m = .ok r) :
    ∃ r, UnmarshalAddressIPAddressRange (m.filter fun p => p.1 != k) = .ok r := by
  unfold UnmarshalAddressIPAddressRange at h ⊢
  refine succeeds_bind_mono h
    (succeeds_UnmarshalPrimitive_without m "type" k some none) fun _ _ h => ?_
  refine succeeds_bind_mono h
    (succeeds_UnmarshalPrimitive_without m "value" k some none) fun _ _ h => ?_
  exact ⟨_, rfl⟩

theorem UnmarshalAddressServiceRef_succeeds_without (m : RawObject) (k : String)
    (h : ∃ r, UnmarshalAddressServiceRef m = .ok r) :
    ∃ r, UnmarshalAddressServiceRef (m.filter fun p => p.1 != k) = .ok r := by
  unfold UnmarshalAddressServiceRef at h ⊢
  refine succeeds_bind_mono h
    (succeeds_UnmarshalPrimitive_without m "type" k some none) fun _ _ h => ?_
  refine succeeds_bind_mono h
    (succeeds_UnmarshalModel_without m "ref" k _ (by decide)) fun _ _ h => ?_
  exact ⟨_, rfl⟩

theorem UnmarshalAddressSubnet_succeeds_without (m : RawObject) (k : String)
    (h : ∃ r, UnmarshalAddressSubnet m = .ok r) :
    ∃ r, UnmarshalAddressSubnet (m.filter fun p => p.1 != k) = .ok r := by
  unfold UnmarshalAddressSubnet at h ⊢
  refine succeeds_bind_mono h
    (succeeds_UnmarshalPrimitive_without m "type" k some none) fun _ _ h => ?_
  refine succeeds_bind_mono h
    (succeeds_UnmarshalPrimitive_without m "value" k some none) fun _ _ h => ?_
  exact ⟨_, rfl⟩

theorem UnmarshalAddressVPC_succeeds_without (m : RawObject) (k : String)
    (h : ∃ r, UnmarshalAddressVPC m = .ok r) :
    ∃ r, UnmarshalAddressVPC (m.filter fun p => p.1 != k) = .ok r := by
  unfold UnmarshalAddressVPC at h ⊢
  refine succeeds_bind_mono h
    (succeeds_UnmarshalPrimitive_without m "type" k some none) fun _ _ h => ?_
  refine succeeds_bind_mono h
    (succeeds_UnmarshalPrimitive_without m "value" k some none) fun _ _ h => ?_
  exact ⟨_, rfl⟩

theorem viaUnmarshalModel_succeeds {τ : Type} (inj : τ → AddressIntf)
    (r r' : Except DecodeError τ) (hr : (∃ a, r = .ok a) → ∃ a, r' = .ok a)
    (h : ∃ a, viaUnmarshalModel inj r = .ok a) : ∃ a, viaUnmarshalModel inj r' = .ok a := by
  cases r with
  | error e =>
    obtain ⟨a, ha⟩ := h
    simp [viaUnmarshalModel] at ha
  | ok obj =>
    obtain ⟨obj', hobj'⟩ := hr ⟨obj, rfl⟩
    exact ⟨some (inj obj'), by rw [hobj']; rfl⟩

theorem UnmarshalAddress_succeeds_without (m : RawObject) (k : String) (hk : k ≠ "type")
    (h : ∃ r, UnmarshalAddress m = .ok r) :
    ∃ r, UnmarshalAddress (m.filter fun p => p.1 != k) = .ok r := by
  have hdisc : core.UnmarshalPrimitive (m.filter fun p => p.1 != k) "type" id "" =
      core.UnmarshalPrimitive m "type" id "" := by
    unfold core.UnmarshalPrimitive
    rw [lookup_without]
    simp [Ne.symm hk]
  unfold UnmarshalAddress at h ⊢
  rw [hdisc]
  cases hp : core.UnmarshalPrimitive m "type" id "" with
  | error e =>
    obtain ⟨r, hr⟩ := h
    simp [hp] at hr
  | ok discValue =>
    simp only [hp, core_UnmarshalModel_self] at h ⊢
    split_ifs at h ⊢
    · obtain ⟨r, hr⟩ := h
      cases hr
    · exact viaUnmarshalModel_succeeds _ _ _ (UnmarshalAddressIPAddress_succeeds_without m k) h
    · exact viaUnmarshalModel_succeeds _ _ _
        (UnmarshalAddressIPAddressRange_succeeds_without m k) h
    · exact viaUnmarshalModel_succeeds _ _ _ (UnmarshalAddressSubnet_succeeds_without m k) h
    · exact viaUnmarshalModel_succeeds _ _ _ (UnmarshalAddressVPC_succeeds_without m k) h
    · exact viaUnmarshalModel_succeeds _ _ _ (UnmarshalAddressServiceRef_succeeds_without m k) h
    · obtain ⟨r, hr⟩ := h
      cases hr

theorem UnmarshalAddress_without_type (m : RawObject) :
    UnmarshalAddress (m.filter fun p => p.1 != "type") = .error .discriminatorNotFound := by
  unfold UnmarshalAddress core.UnmarshalPrimitive
  rw [lookup_without]
  simp

/-- C20, amended: for every model unmarshaler the absence of a field is never
a decode error, whether the field is marked required or optional. For each of
the nineteen struct unmarshalers (`UnmarshalAccountSettings`, `UnmarshalResource`,
..., `UnmarshalZoneSummary` and the five address variants), removing any
property `k` from a payload that decodes leaves a payload that decodes, and
each of their 80 fields is left nil when its property is absent (`id`, `crn`,
`name` as much as ZoneSummary `description`, ResourceAttribute `operator` or
ServiceRefValue `service_type`). The one exception is the discriminator of
`UnmarshalAddress`: removing any property other than `type` keeps an address
payload decodable, while a payload without `type` is always rejected with
"required discriminator property 'type' not found". -/
theorem absent_field_is_left_nil (ParseDateTime : String → Option DateTime) (k : String) :
    (∀ m : RawObject, (∃ r, UnmarshalAccountSettings ParseDateTime m = .ok r) →
      ∃ r, UnmarshalAccountSettings ParseDateTime (m.filter fun p => p.1 != k) = .ok r) ∧
    (∀ m : RawObject, (∃ r, UnmarshalResource m = .ok r) →
      ∃ r, UnmarshalResource (m.filter fun p => p.1 != k) = .ok r) ∧
    (∀ m : RawObject, (∃ r, UnmarshalResourceAttribute m = .ok r) →
      ∃ r, UnmarshalResourceAttribute (m.filter fun p => p.1 != k) = .ok r) ∧
    (∀ m : RawObject, (∃ r, UnmarshalResourceTagAttribute m = .ok r) →
      ∃ r, UnmarshalResourceTagAttribute (m.filter fun p => p.1 != k) = .ok r) ∧
    (∀ m : RawObject, (∃ r, UnmarshalRule ParseDateTime m = .ok r) →
      ∃ r, UnmarshalRule ParseDateTime (m.filter fun p => p.1 != k) = .ok r) ∧
    (∀ m : RawObject, (∃ r, UnmarshalRuleContext m = .ok r) →
      ∃ r, UnmarshalRuleContext (m.filter fun p => p.1 != k) = .ok r) ∧
    (∀ m : RawObject, (∃ r, UnmarshalRuleContextAttribute m = .ok r) →
      ∃ r, UnmarshalRuleContextAttribute (m.filter fun p => p.1 != k) = .ok r) ∧
    (∀ m : RawObject, (∃ r, UnmarshalRuleList ParseDateTime m = .ok r) →
      ∃ r, UnmarshalRuleList ParseDateTime (m.filter fun p => p.1 != k) = .ok r) ∧
    (∀ m : RawObject, (∃ r, UnmarshalServiceRefTarget m = .ok r) →
      ∃ r, UnmarshalServiceRefTarget (m.filter fun p => p.1 != k) = .ok r) ∧
    (∀ m : RawObject, (∃ r, UnmarshalServiceRefTargetList m = .ok r) →
      ∃ r, UnmarshalServiceRefTargetList (m.filter fun p => p.1 != k) = .ok r) ∧
    (∀ m : RawObject, (∃ r, UnmarshalServiceRefValue m = .ok r) →
      ∃ r, UnmarshalServiceRefValue (m.filter fun p => p.1 != k) = .ok r) ∧
    (∀ m : RawObject, (∃ r, UnmarshalZone ParseDateTime m = .ok r) →
      ∃ r, UnmarshalZone ParseDateTime (m.filter fun p => p.1 != k) = .ok r) ∧
    (∀ m : RawObject, (∃ r, UnmarshalZoneList ParseDateTime m = .ok r) →
      ∃ r, UnmarshalZoneList ParseDateTime (m.filter fun p => p.1 != k) = .ok r) ∧
    (∀ m : RawObject, (∃ r, UnmarshalZoneSummary ParseDateTime m = .ok r) →
      ∃ r, UnmarshalZoneSummary ParseDateTime (m.filter fun p => p.1 != k) = .ok r) ∧
    (∀ m : RawObject, (∃ r, UnmarshalAddressIPAddress m = .ok r) →
      ∃ r, UnmarshalAddressIPAddress (m.filter fun p => p.1 != k) = .ok r) ∧
    (∀ m : RawObject, (∃ r, UnmarshalAddressIPAddressRange m = .ok r) →
      ∃ r, UnmarshalAddressIPAddressRange (m.filter fun p => p.1 != k) = .ok r) ∧
    (∀ m : RawObject, (∃ r, UnmarshalAddressServiceRef m = .ok r) →
      ∃ r, UnmarshalAddressServiceRef (m.filter fun p => p.1 != k) = .ok r) ∧
    (∀ m : RawObject, (∃ r, UnmarshalAddressSubnet m = .ok r) →
      ∃ r, UnmarshalAddressSubnet (m.filter fun p => p.1 != k) = .ok r) ∧
    (∀ m : RawObject, (∃ r, UnmarshalAddressVPC m = .ok r) →
      ∃ r, UnmarshalAddressVPC (m.filter fun p => p.1 != k) = .ok r) ∧
    (k ≠ "type" → ∀ m : RawObject, (∃ r, UnmarshalAddress m = .ok r) →
      ∃ r, UnmarshalAddress (m.filter fun p => p.1 != k) = .ok r) ∧
    (∀ m : RawObject,
      UnmarshalAddress (m.filter fun p => p.1 != "type") = .error .discriminatorNotFound) ∧
    (∀ (m : RawObject) (r : AccountSettings), UnmarshalAccountSettings ParseDateTime m = .ok r →
      m.lookup "id" = none → r.ID = none) ∧
    (∀ (m : RawObject) (r : AccountSettings), UnmarshalAccountSettings ParseDateTime m = .ok r →
      m.lookup "crn" = none → r.CRN = none) ∧
    (∀ (m : RawObject) (r : AccountSettings), UnmarshalAccountSettings ParseDateTime m = .ok r →
      m.lookup "rule_count_limit" = none → r.RuleCountLimit = none) ∧
    (∀ (m : RawObject) (r : AccountSettings), UnmarshalAccountSettings ParseDateTime m = .ok r →
      m.lookup "zone_count_limit" = none → r.ZoneCountLimit = none) ∧
    (∀ (m : RawObject) (r : AccountSettings), UnmarshalAccountSettings ParseDateTime m = .ok r →
      m.lookup "current_rule_count" = none → r.CurrentRuleCount = none) ∧
    (∀ (m : RawObject) (r : AccountSettings), UnmarshalAccountSettings ParseDateTime m = .ok r →
      m.lookup "current_zone_count" = none → r.CurrentZoneCount = none) ∧
    (∀ (m : RawObject) (r : AccountSettings), UnmarshalAccountSettings ParseDateTime m = .ok r →
      m.lookup "href" = none → r.Href = none) ∧
    (∀ (m : RawObject) (r : AccountSettings), UnmarshalAccountSettings ParseDateTime m = .ok r →
      m.lookup "created_at" = none → r.CreatedAt = none) ∧
    (∀ (m : RawObject) (r : AccountSettings), UnmarshalAccountSettings ParseDateTime m = .ok r →
      m.lookup "created_by_id" = none → r.CreatedByID = none) ∧
    (∀ (m : RawObject) (r : AccountSettings), UnmarshalAccountSettings ParseDateTime m = .ok r →
      m.lookup "last_modified_at" = none → r.LastModifiedAt = none) ∧
    (∀ (m : RawObject) (r : AccountSettings), UnmarshalAccountSettings ParseDateTime m = .ok r →
      m.lookup "last_modified_by_id" = none → r.LastModifiedByID = none) ∧
    (∀ (m : RawObject) (r : Resource), UnmarshalResource m = .ok r →
      m.lookup "attributes" = none → r.Attributes = none) ∧
    (∀ (m : RawObject) (r : Resource), UnmarshalResource m = .ok r →
      m.lookup "tags" = none → r.Tags = none) ∧
    (∀ (m : RawObject) (r : ResourceAttribute), UnmarshalResourceAttribute m = .ok r →
      m.lookup "name" = none → r.Name = none) ∧
    (∀ (m : RawObject) (r : ResourceAttribute), UnmarshalResourceAttribute m = .ok r →
      m.lookup "value" = none → r.Value = none) ∧
    (∀ (m : RawObject) (r : ResourceAttribute), UnmarshalResourceAttribute m = .ok r →
      m.lookup "operator" = none → r.Operator = none) ∧
    (∀ (m : RawObject) (r : ResourceTagAttribute), UnmarshalResourceTagAttribute m = .ok r →
      m.lookup "name" = none → r.Name = none) ∧
    (∀ (m : RawObject) (r : ResourceTagAttribute), UnmarshalResourceTagAttribute m = .ok r →
      m.lookup "value" = none → r.Value = none) ∧
    (∀ (m : RawObject) (r : ResourceTagAttribute), UnmarshalResourceTagAttribute m = .ok r →
      m.lookup "operator" = none → r.Operator = none) ∧
    (∀ (m : RawObject) (r : Rule), UnmarshalRule ParseDateTime m = .ok r →
      m.lookup "id" = none → r.ID = none) ∧
    (∀ (m : RawObject) (r : Rule), UnmarshalRule ParseDateTime m = .ok r →
      m.lookup "crn" = none → r.CRN = none) ∧
    (∀ (m : RawObject) (r : Rule), UnmarshalRule ParseDateTime m = .ok r →
      m.lookup "description" = none → r.Description = none) ∧
    (∀ (m : RawObject) (r : Rule), UnmarshalRule ParseDateTime m = .ok r →
      m.lookup "contexts" = none → r.Contexts = none) ∧
    (∀ (m : RawObject) (r : Rule), UnmarshalRule ParseDateTime m = .ok r →
      m.lookup "resources" = none → r.Resources = none) ∧
    (∀ (m : RawObject) (r : Rule), UnmarshalRule ParseDateTime m = .ok r →
      m.lookup "href" = none → r.Href = none) ∧
    (∀ (m : RawObject) (r : Rule), UnmarshalRule ParseDateTime m = .ok r →
      m.lookup "created_at" = none → r.CreatedAt = none) ∧
    (∀ (m : RawObject) (r : Rule), UnmarshalRule ParseDateTime m = .ok r →
      m.lookup "created_by_id" = none → r.CreatedByID = none) ∧
    (∀ (m : RawObject) (r : Rule), UnmarshalRule ParseDateTime m = .ok r →
      m.lookup "last_modified_at" = none → r.LastModifiedAt = none) ∧
    (∀ (m : RawObject) (r : Rule), UnmarshalRule ParseDateTime m = .ok r →
      m.lookup "last_modified_by_id" = none → r.LastModifiedByID = none) ∧
    (∀ (m : RawObject) (r : RuleContext), UnmarshalRuleContext m = .ok r →
      m.lookup "attributes" = none → r.Attributes = none) ∧
    (∀ (m : RawObject) (r : RuleContextAttribute), UnmarshalRuleContextAttribute m = .ok r →
      m.lookup "name" = none → r.Name = none) ∧
    (∀ (m : RawObject) (r : RuleContextAttribute), UnmarshalRuleContextAttribute m = .ok r →
      m.lookup "value" = none → r.Value = none) ∧
    (∀ (m : RawObject) (r : RuleList), UnmarshalRuleList ParseDateTime m = .ok r →
      m.lookup "count" = none → r.Count = none) ∧
    (∀ (m : RawObject) (r : RuleList), UnmarshalRuleList ParseDateTime m = .ok r →
      m.lookup "rules" = none → r.Rules = none) ∧
    (∀ (m : RawObject) (r : ServiceRefTarget), UnmarshalServiceRefTarget m = .ok r →
      m.lookup "service_name" = none → r.ServiceName = none) ∧
    (∀ (m : RawObject) (r : ServiceRefTarget), UnmarshalServiceRefTarget m = .ok r →
      m.lookup "service_type" = none → r.ServiceType = none) ∧
    (∀ (m : RawObject) (r : ServiceRefTargetList), UnmarshalServiceRefTargetList m = .ok r →
      m.lookup "count" = none → r.Count = none) ∧
    (∀ (m : RawObject) (r : ServiceRefTargetList), UnmarshalServiceRefTargetList m = .ok r →
      m.lookup "targets" = none → r.Targets = none) ∧
    (∀ (m : RawObject) (r : ServiceRefValue), UnmarshalServiceRefValue m = .ok r →
      m.lookup "account_id" = none → r.AccountID = none) ∧
    (∀ (m : RawObject) (r : ServiceRefValue), UnmarshalServiceRefValue m = .ok r →
      m.lookup "service_type" = none → r.ServiceType = none) ∧
    (∀ (m : RawObject) (r : ServiceRefValue), UnmarshalServiceRefValue m = .ok r →
      m.lookup "service_name" = none → r.ServiceName = none) ∧
    (∀ (m : RawObject) (r : ServiceRefValue), UnmarshalServiceRefValue m = .ok r →
      m.lookup "service_instance" = none → r.ServiceInstance = none) ∧
    (∀ (m : RawObject) (r : Zone), UnmarshalZone ParseDateTime m = .ok r →
      m.lookup "id" = none → r.ID = none) ∧
    (∀ (m : RawObject) (r : Zone), UnmarshalZone ParseDateTime m = .ok r →
      m.lookup "crn" = none → r.CRN = none) ∧
    (∀ (m : RawObject) (r : Zone), UnmarshalZone ParseDateTime m = .ok r →
      m.lookup "address_count" = none → r.AddressCount = none) ∧
    (∀ (m : RawObject) (r : Zone), UnmarshalZone ParseDateTime m = .ok r →
      m.lookup "excluded_count" = none → r.ExcludedCount = none) ∧
    (∀ (m : RawObject) (r : Zone), UnmarshalZone ParseDateTime m = .ok r →
      m.lookup "name" = none → r.Name = none) ∧
    (∀ (m : RawObject) (r : Zone), UnmarshalZone ParseDateTime m = .ok r →
      m.lookup "account_id" = none → r.AccountID = none) ∧
    (∀ (m : RawObject) (r : Zone), UnmarshalZone ParseDateTime m = .ok r →
      m.lookup "description" = none → r.Description = none) ∧
    (∀ (m : RawObject) (r : Zone), UnmarshalZone ParseDateTime m = .ok r →
      m.lookup "addresses" = none → r.Addresses = none) ∧
    (∀ (m : RawObject) (r : Zone), UnmarshalZone ParseDateTime m = .ok r →
      m.lookup "excluded" = none → r.Excluded = none) ∧
    (∀ (m : RawObject) (r : Zone), UnmarshalZone ParseDateTime m = .ok r →
      m.lookup "href" = none → r.Href = none) ∧
    (∀ (m : RawObject) (r : Zone), UnmarshalZone ParseDateTime m = .ok r →
      m.lookup "created_at" = none → r.CreatedAt = none) ∧
    (∀ (m : RawObject) (r : Zone), UnmarshalZone ParseDateTime m = .ok r →
      m.lookup "created_by_id" = none → r.CreatedByID = none) ∧
    (∀ (m : RawObject) (r : Zone), UnmarshalZone ParseDateTime m = .ok r →
      m.lookup "last_modified_at" = none → r.LastModifiedAt = none) ∧
    (∀ (m : RawObject) (r : Zone), UnmarshalZone ParseDateTime m = .ok r →
      m.lookup "last_modified_by_id" = none → r.LastModifiedByID = none) ∧
    (∀ (m : RawObject) (r : ZoneList), UnmarshalZoneList ParseDateTime m = .ok r →
      m.lookup "count" = none → r.Count = none) ∧
    (∀ (m : RawObject) (r : ZoneList), UnmarshalZoneList ParseDateTime m = .ok r →
      m.lookup "zones" = none → r.Zones = none) ∧
    (∀ (m : RawObject) (r : ZoneSummary), UnmarshalZoneSummary ParseDateTime m = .ok r →
      m.lookup "id" = none → r.ID = none) ∧
    (∀ (m : RawObject) (r : ZoneSummary), UnmarshalZoneSummary ParseDateTime m = .ok r →
      m.lookup "crn" = none → r.CRN = none) ∧
    (∀ (m : RawObject) (r : ZoneSummary), UnmarshalZoneSummary ParseDateTime m = .ok r →
      m.lookup "name" = none → r.Name = none) ∧
    (∀ (m : RawObject) (r : ZoneSummary), UnmarshalZoneSummary ParseDateTime m = .ok r →
      m.lookup "description" = none → r.Description = none) ∧
    (∀ (m : RawObject) (r : ZoneSummary), UnmarshalZoneSummary ParseDateTime m = .ok r →
      m.lookup "addresses_preview" = none → r.AddressesPreview = none) ∧
    (∀ (m : RawObject) (r : ZoneSummary), UnmarshalZoneSummary ParseDateTime m = .ok r →
      m.lookup "address_count" = none → r.AddressCount = none) ∧
    (∀ (m : RawObject) (r : ZoneSummary), UnmarshalZoneSummary ParseDateTime m = .ok r →
      m.lookup "excluded_count" = none → r.ExcludedCount = none) ∧
    (∀ (m : RawObject) (r : ZoneSummary), UnmarshalZoneSummary ParseDateTime m = .ok r →
      m.lookup "href" = none → r.Href = none) ∧
    (∀ (m : RawObject) (r : ZoneSummary), UnmarshalZoneSummary ParseDateTime m = .ok r →
      m.lookup "created_at" = none → r.CreatedAt = none) ∧
    (∀ (m : RawObject) (r : ZoneSummary), UnmarshalZoneSummary ParseDateTime m = .ok r →
      m.lookup "created_by_id" = none → r.CreatedByID = none) ∧
    (∀ (m : RawObject) (r : ZoneSummary), UnmarshalZoneSummary ParseDateTime m = .ok r →
      m.lookup "last_modified_at" = none → r.LastModifiedAt = none) ∧
    (∀ (m : RawObject) (r : ZoneSummary), UnmarshalZoneSummary ParseDateTime m = .ok r →
      m.lookup "last_modified_by_id" = none → r.LastModifiedByID = none) ∧
    (∀ (m : RawObject) (r : AddressIPAddress), UnmarshalAddressIPAddress m = .ok r →
      m.lookup "type" = none → r.Type_ = none) ∧
    (∀ (m : RawObject) (r : AddressIPAddress), UnmarshalAddressIPAddress m = .ok r →
      m.lookup "value" = none → r.Value = none) ∧
    (∀ (m : RawObject) (r : AddressIPAddressRange), UnmarshalAddressIPAddressRange m = .ok r →
      m.lookup "type" = none → r.Type_ = none) ∧
    (∀ (m : RawObject) (r : AddressIPAddressRange), UnmarshalAddressIPAddressRange m = .ok r →
      m.lookup "value" = none → r.Value = none) ∧
    (∀ (m : RawObject) (r : AddressServiceRef), UnmarshalAddressServiceRef m = .ok r →
      m.lookup "type" = none → r.Type_ = none) ∧
    (∀ (m : RawObject) (r : AddressServiceRef), UnmarshalAddressServiceRef m = .ok r →
      m.lookup "ref" = none → r.Ref = none) ∧
    (∀ (m : RawObject) (r : AddressSubnet), UnmarshalAddressSubnet m = .ok r →
      m.lookup "type" = none → r.Type_ = none) ∧
    (∀ (m : RawObject) (r : AddressSubnet), UnmarshalAddressSubnet m = .ok r →
      m.lookup "value" = none → r.Value = none) ∧
    (∀ (m : RawObject) (r : AddressVPC), UnmarshalAddressVPC m = .ok r →
      m.lookup "type" = none → r.Type_ = none) ∧
    (∀ (m : RawObject) (r : AddressVPC), UnmarshalAddressVPC m = .ok r →
      m.lookup "value" = none → r.Value = none) := by
  refine ⟨?_, ?_, ?_, ?_, ?_, ?_, ?_, ?_, ?_, ?_, ?_, ?_, ?_, ?_, ?_, ?_, ?_, ?_, ?_, ?_,
    ?_, ?_, ?_, ?_, ?_, ?_, ?_, ?_, ?_, ?_, ?_, ?_, ?_, ?_, ?_, ?_, ?_, ?_, ?_, ?_,
    ?_, ?_, ?_, ?_, ?_, ?_, ?_, ?_, ?_, ?_, ?_, ?_, ?_, ?_, ?_, ?_, ?_, ?_, ?_, ?_,
    ?_, ?_, ?_, ?_, ?_, ?_, ?_, ?_, ?_, ?_, ?_, ?_, ?_, ?_, ?_, ?_, ?_, ?_, ?_, ?_,
    ?_, ?_, ?_, ?_, ?_, ?_, ?_, ?_, ?_, ?_, ?_, ?_, ?_, ?_, ?_, ?_, ?_, ?_, ?_, ?_,
    ?_⟩
  · exact fun m h => UnmarshalAccountSettings_succeeds_without ParseDateTime m k h
  · exact fun m h => UnmarshalResource_succeeds_without m k h
  · exact fun m h => UnmarshalResourceAttribute_succeeds_without m k h
  · exact fun m h => UnmarshalResourceTagAttribute_succeeds_without m k h
  · exact fun m h => UnmarshalRule_succeeds_without ParseDateTime m k h
  · exact fun m h => UnmarshalRuleContext_succeeds_without m k h
  · exact fun m h => UnmarshalRuleContextAttribute_succeeds_without m k h
  · exact fun m h => UnmarshalRuleList_succeeds_without ParseDateTime m k h
  · exact fun m h => UnmarshalServiceRefTarget_succeeds_without m k h
  · exact fun m h => UnmarshalServiceRefTargetList_succeeds_without m k h
  · exact fun m h => UnmarshalServiceRefValue_succeeds_without m k h
  · exact fun m h => UnmarshalZone_succeeds_without ParseDateTime m k h
  · exact fun m h => UnmarshalZoneList_succeeds_without ParseDateTime m k h
  · exact fun m h => UnmarshalZoneSummary_succeeds_without ParseDateTime m k h
  · exact fun m h => UnmarshalAddressIPAddress_succeeds_without m k h
  · exact fun m h => UnmarshalAddressIPAddressRange_succeeds_without m k h
  · exact fun m h => UnmarshalAddressServiceRef_succeeds_without m k h
  · exact fun m h => UnmarshalAddressSubnet_succeeds_without m k h
  · exact fun m h => UnmarshalAddressVPC_succeeds_without m k h
  · exact fun hk m h => UnmarshalAddress_succeeds_without m k hk h
  · exact UnmarshalAddress_without_type
  · intro m r h habsent
    unfold UnmarshalAccountSettings at h
    obtain ⟨a, ha, h⟩ := bind_eq_ok h
    obtain ⟨_, _, h⟩ := bind_eq_ok h
    obtain ⟨_, _, h⟩ := bind_eq_ok h
    obtain ⟨_, _, h⟩ := bind_eq_ok h
    obtain ⟨_, _, h⟩ := bind_eq_ok h
    obtain ⟨_, _, h⟩ := bind_eq_ok h
    obtain ⟨_, _, h⟩ := bind_eq_ok h
    obtain ⟨_, _, h⟩ := bind_eq_ok h
    obtain ⟨_, _, h⟩ := bind_eq_ok h
    obtain ⟨_, _, h⟩ := bind_eq_ok h
    obtain ⟨_, _, h⟩ := bind_eq_ok h
    cases h
    exact UnmarshalPrimitive_absent m _ _ _ _ habsent ha
  · intro m r h habsent
    unfold UnmarshalAccountSettings at h
    obtain ⟨_, _, h⟩ := bind_eq_ok h
    obtain ⟨a, ha, h⟩ := bind_eq_ok h
    obtain ⟨_, _, h⟩ := bind_eq_ok h
    obtain ⟨_, _, h⟩ := bind_eq_ok h
    obtain ⟨_, _, h⟩ := bind_eq_ok h
    obtain ⟨_, _, h⟩ := bind_eq_ok h
    obtain ⟨_, _, h⟩ := bind_eq_ok h
    obtain ⟨_, _, h⟩ := bind_eq_ok h
    obtain ⟨_, _, h⟩ := bind_eq_ok h
    obtain ⟨_, _, h⟩ := bind_eq_ok h
    obtain ⟨_, _, h⟩ := bind_eq_ok h
    cases h
    exact UnmarshalPrimitive_absent m _ _ _ _ habsent ha
  · intro m r h habsent
    unfold UnmarshalAccountSettings at h
    obtain ⟨_, _, h⟩ := bind_eq_ok h
    obtain ⟨_, _, h⟩ := bind_eq_ok h
    obtain ⟨a, ha, h⟩ := bind_eq_ok h
    obtain ⟨_, _, h⟩ := bind_eq_ok h
    obtain ⟨_, _, h⟩ := bind_eq_ok h
    obtain ⟨_, _, h⟩ := bind_eq_ok h
    obtain ⟨_, _, h⟩ := bind_eq_ok h
    obtain ⟨_, _, h⟩ := bind_eq_ok h
    obtain ⟨_, _, h⟩ := bind_eq_ok h
    obtain ⟨_, _, h⟩ := bind_eq_ok h
    obtain ⟨_, _, h⟩ := bind_eq_ok h
    cases h
    exact UnmarshalPrimitiveInt64_absent m _ _ _ habsent ha
  · intro m r h habsent
    unfold UnmarshalAccountSettings at h
    obtain ⟨_, _, h⟩ := bind_eq_ok h
    obtain ⟨_, _, h⟩ := bind_eq_ok h
    obtain ⟨_, _, h⟩ := bind_eq_ok h
    obtain ⟨a, ha, h⟩ := bind_eq_ok h
    obtain ⟨_, _, h⟩ := bind_eq_ok h
    obtain ⟨_, _, h⟩ := bind_eq_ok h
    obtain ⟨_, _, h⟩ := bind_eq_ok h
    obtain ⟨_, _, h⟩ := bind_eq_ok h
    obtain ⟨_, _, h⟩ := bind_eq_ok h
    obtain ⟨_, _, h⟩ := bind_eq_ok h
    obtain ⟨_, _, h⟩ := bind_eq_ok h
    cases h
    exact UnmarshalPrimitiveInt64_absent m _ _ _ habsent ha
  · intro m r h habsent
    unfold UnmarshalAccountSettings at h
    obtain ⟨_, _, h⟩ := bind_eq_ok h
    obtain ⟨_, _, h⟩ := bind_eq_ok h
    obtain ⟨_, _, h⟩ := bind_eq_ok h
    obtain ⟨_, _, h⟩ := bind_eq_ok h
    obtain ⟨a, ha, h⟩ := bind_eq_ok h
    obtain ⟨_, _, h⟩ := bind_eq_ok h
    obtain ⟨_, _, h⟩ := bind_eq_ok h
    obtain ⟨_, _, h⟩ := bind_eq_ok h
    obtain ⟨_, _, h⟩ := bind_eq_ok h
    obtain ⟨_, _, h⟩ := bind_eq_ok h
    obtain ⟨_, _, h⟩ := bind_eq_ok h
    cases h
    exact UnmarshalPrimitiveInt64_absent m _ _ _ habsent ha
  · intro m r h habsent
    unfold UnmarshalAccountSettings at h
    obtain ⟨_, _, h⟩ := bind_eq_ok h
    obtain ⟨_, _, h⟩ := bind_eq_ok h
    obtain ⟨_, _, h⟩ := bind_eq_ok h
    obtain ⟨_, _, h⟩ := bind_eq_ok h
    obtain ⟨_, _, h⟩ := bind_eq_ok h
    obtain ⟨a, ha, h⟩ := bind_eq_ok h
    obtain ⟨_, _, h⟩ := bind_eq_ok h
    obtain ⟨_, _, h⟩ := bind_eq_ok h
    obtain ⟨_, _, h⟩ := bind_eq_ok h
    obtain ⟨_, _, h⟩ := bind_eq_ok h
    obtain ⟨_, _, h⟩ := bind_eq_ok h
    cases h
    exact UnmarshalPrimitiveInt64_absent m _ _ _ habsent ha
  · intro m r h habsent
    unfold UnmarshalAccountSettings at h
    obtain ⟨_, _, h⟩ := bind_eq_ok h
    obtain ⟨_, _, h⟩ := bind_eq_ok h
    obtain ⟨_, _, h⟩ := bind_eq_ok h
    obtain ⟨_, _, h⟩ := bind_eq_ok h
    obtain ⟨_, _, h⟩ := bind_eq_ok h
    obtain ⟨_, _, h⟩ := bind_eq_ok h
    obtain ⟨a, ha, h⟩ := bind_eq_ok h
    obtain ⟨_, _, h⟩ := bind_eq_ok h
    obtain ⟨_, _, h⟩ := bind_eq_ok h
    obtain ⟨_, _, h⟩ := bind_eq_ok h
    obtain ⟨_, _, h⟩ := bind_eq_ok h
    cases h
    exact UnmarshalPrimitive_absent m _ _ _ _ habsent ha
  · intro m r h habsent
    unfold UnmarshalAccountSettings at h
    obtain ⟨_, _, h⟩ := bind_eq_ok h
    obtain ⟨_, _, h⟩ := bind_eq_ok h
    obtain ⟨_, _, h⟩ := bind_eq_ok h
    obtain ⟨_, _, h⟩ := bind_eq_ok h
    obtain ⟨_, _, h⟩ := bind_eq_ok h
    obtain ⟨_, _, h⟩ := bind_eq_ok h
    obtain ⟨_, _, h⟩ := bind_eq_ok h
    obtain ⟨a, ha, h⟩ := bind_eq_ok h
    obtain ⟨_, _, h⟩ := bind_eq_ok h
    obtain ⟨_, _, h⟩ := bind_eq_ok h
    obtain ⟨_, _, h⟩ := bind_eq_ok h
    cases h
    exact UnmarshalPrimitiveDateTime_absent ParseDateTime m _ _ _ habsent ha
  · intro m r h habsent
    unfold UnmarshalAccountSettings at h
    obtain ⟨_, _, h⟩ := bind_eq_ok h
    obtain ⟨_, _, h⟩ := bind_eq_ok h
    obtain ⟨_, _, h⟩ := bind_eq_ok h
    obtain ⟨_, _, h⟩ := bind_eq_ok h
    obtain ⟨_, _, h⟩ := bind_eq_ok h
    obtain ⟨_, _, h⟩ := bind_eq_ok h
    obtain ⟨_, _, h⟩ := bind_eq_ok h
    obtain ⟨_, _, h⟩ := bind_eq_ok h
    obtain ⟨a, ha, h⟩ := bind_eq_ok h
    obtain ⟨_, _, h⟩ := bind_eq_ok h
    obtain ⟨_, _, h⟩ := bind_eq_ok h
    cases h
    exact UnmarshalPrimitive_absent m _ _ _ _ habsent ha
  · intro m r h habsent
    unfold UnmarshalAccountSettings at h
    obtain ⟨_, _, h⟩ := bind_eq_ok h
    obtain ⟨_, _, h⟩ := bind_eq_ok h
    obtain ⟨_, _, h⟩ := bind_eq_ok h
    obtain ⟨_, _, h⟩ := bind_eq_ok h
    obtain ⟨_, _, h⟩ := bind_eq_ok h
    obtain ⟨_, _, h⟩ := bind_eq_ok h
    obtain ⟨_, _, h⟩ := bind_eq_ok h
    obtain ⟨_, _, h⟩ := bind_eq_ok h
    obtain ⟨_, _, h⟩ := bind_eq_ok h
    obtain ⟨a, ha, h⟩ := bind_eq_ok h
    obtain ⟨_, _, h⟩ := bind_eq_ok h
    cases h
    exact UnmarshalPrimitiveDateTime_absent ParseDateTime m _ _ _ habsent ha
  · intro m r h habsent
    unfold UnmarshalAccountSettings at h
    obtain ⟨_, _, h⟩ := bind_eq_ok h
    obtain ⟨_, _, h⟩ := bind_eq_ok h
    obtain ⟨_, _, h⟩ := bind_eq_ok h
    obtain ⟨_, _, h⟩ := bind_eq_ok h
    obtain ⟨_, _, h⟩ := bind_eq_ok h
    obtain ⟨_, _, h⟩ := bind_eq_ok h
    obtain ⟨_, _, h⟩ := bind_eq_ok h
    obtain ⟨_, _, h⟩ := bind_eq_ok h
    obtain ⟨_, _, h⟩ := bind_eq_ok h
    obtain ⟨_, _, h⟩ := bind_eq_ok h
    obtain ⟨a, ha, h⟩ := bind_eq_ok h
    cases h
    exact UnmarshalPrimitive_absent m _ _ _ _ habsent ha
  · intro m r h habsent
    unfold UnmarshalResource at h
    obtain ⟨a, ha, h⟩ := bind_eq_ok h
    obtain ⟨_, _, h⟩ := bind_eq_ok h
    cases h
    exact UnmarshalModelSlice_absent m _ _ _ habsent ha
  · intro m r h habsent
    unfold UnmarshalResource at h
    obtain ⟨_, _, h⟩ := bind_eq_ok h
    obtain ⟨a, ha, h⟩ := bind_eq_ok h
    cases h
    exact UnmarshalModelSlice_absent m _ _ _ habsent ha
  · intro m r h habsent
    unfold UnmarshalResourceAttribute at h
    obtain ⟨a, ha, h⟩ := bind_eq_ok h
    obtain ⟨_, _, h⟩ := bind_eq_ok h
    obtain ⟨_, _, h⟩ := bind_eq_ok h
    cases h
    exact UnmarshalPrimitive_absent m _ _ _ _ habsent ha
  · intro m r h habsent
    unfold UnmarshalResourceAttribute at h
    obtain ⟨_, _, h⟩ := bind_eq_ok h
    obtain ⟨a, ha, h⟩ := bind_eq_ok h
    obtain ⟨_, _, h⟩ := bind_eq_ok h
    cases h
    exact UnmarshalPrimitive_absent m _ _ _ _ habsent ha
  · intro m r h habsent
    unfold UnmarshalResourceAttribute at h
    obtain ⟨_, _, h⟩ := bind_eq_ok h
    obtain ⟨_, _, h⟩ := bind_eq_ok h
    obtain ⟨a, ha, h⟩ := bind_eq_ok h
    cases h
    exact UnmarshalPrimitive_absent m _ _ _ _ habsent ha
  · intro m r h habsent
    unfold UnmarshalResourceTagAttribute at h
    obtain ⟨a, ha, h⟩ := bind_eq_ok h
    obtain ⟨_, _, h⟩ := bind_eq_ok h
    obtain ⟨_, _, h⟩ := bind_eq_ok h
    cases h
    exact UnmarshalPrimitive_absent m _ _ _ _ habsent ha
  · intro m r h habsent
    unfold UnmarshalResourceTagAttribute at h
    obtain ⟨_, _, h⟩ := bind_eq_ok h
    obtain ⟨a, ha, h⟩ := bind_eq_ok h
    obtain ⟨_, _, h⟩ := bind_eq_ok h
    cases h
    exact UnmarshalPrimitive_absent m _ _ _ _ habsent ha
  · intro m r h habsent
    unfold UnmarshalResourceTagAttribute at h
    obtain ⟨_, _, h⟩ := bind_eq_ok h
    obtain ⟨_, _, h⟩ := bind_eq_ok h
    obtain ⟨a, ha, h⟩ := bind_eq_ok h
    cases h
    exact UnmarshalPrimitive_absent m _ _ _ _ habsent ha
  · intro m r h habsent
    unfold UnmarshalRule at h
    obtain ⟨a, ha, h⟩ := bind_eq_ok h
    obtain ⟨_, _, h⟩ := bind_eq_ok h
    obtain ⟨_, _, h⟩ := bind_eq_ok h
    obtain ⟨_, _, h⟩ := bind_eq_ok h
    obtain ⟨_, _, h⟩ := bind_eq_ok h
    obtain ⟨_, _, h⟩ := bind_eq_ok h
    obtain ⟨_, _, h⟩ := bind_eq_ok h
    obtain ⟨_, _, h⟩ := bind_eq_ok h
    obtain ⟨_, _, h⟩ := bind_eq_ok h
    obtain ⟨_, _, h⟩ := bind_eq_ok h
    cases h
    exact UnmarshalPrimitive_absent m _ _ _ _ habsent ha
  · intro m r h habsent
    unfold UnmarshalRule at h
    obtain ⟨_, _, h⟩ := bind_eq_ok h
    obtain ⟨a, ha, h⟩ := bind_eq_ok h
    obtain ⟨_, _, h⟩ := bind_eq_ok h
    obtain ⟨_, _, h⟩ := bind_eq_ok h
    obtain ⟨_, _, h⟩ := bind_eq_ok h
    obtain ⟨_, _, h⟩ := bind_eq_ok h
    obtain ⟨_, _, h⟩ := bind_eq_ok h
    obtain ⟨_, _, h⟩ := bind_eq_ok h
    obtain ⟨_, _, h⟩ := bind_eq_ok h
    obtain ⟨_, _, h⟩ := bind_eq_ok h
    cases h
    exact UnmarshalPrimitive_absent m _ _ _ _ habsent ha
  · intro m r h habsent
    unfold UnmarshalRule at h
    obtain ⟨_, _, h⟩ := bind_eq_ok h
    obtain ⟨_, _, h⟩ := bind_eq_ok h
    obtain ⟨a, ha, h⟩ := bind_eq_ok h
    obtain ⟨_, _, h⟩ := bind_eq_ok h
    obtain ⟨_, _, h⟩ := bind_eq_ok h
    obtain ⟨_, _, h⟩ := bind_eq_ok h
    obtain ⟨_, _, h⟩ := bind_eq_ok h
    obtain ⟨_, _, h⟩ := bind_eq_ok h
    obtain ⟨_, _, h⟩ := bind_eq_ok h
    obtain ⟨_, _, h⟩ := bind_eq_ok h
    cases h
    exact UnmarshalPrimitive_absent m _ _ _ _ habsent ha
  · intro m r h habsent
    unfold UnmarshalRule at h
    obtain ⟨_, _, h⟩ := bind_eq_ok h
    obtain ⟨_, _, h⟩ := bind_eq_ok h
    obtain ⟨_, _, h⟩ := bind_eq_ok h
    obtain ⟨a, ha, h⟩ := bind_eq_ok h
    obtain ⟨_, _, h⟩ := bind_eq_ok h
    obtain ⟨_, _, h⟩ := bind_eq_ok h
    obtain ⟨_, _, h⟩ := bind_eq_ok h
    obtain ⟨_, _, h⟩ := bind_eq_ok h
    obtain ⟨_, _, h⟩ := bind_eq_ok h
    obtain ⟨_, _, h⟩ := bind_eq_ok h
    cases h
    exact UnmarshalModelSlice_absent m _ _ _ habsent ha
  · intro m r h habsent
    unfold UnmarshalRule at h
    obtain ⟨_, _, h⟩ := bind_eq_ok h
    obtain ⟨_, _, h⟩ := bind_eq_ok h
    obtain ⟨_, _, h⟩ := bind_eq_ok h
    obtain ⟨_, _, h⟩ := bind_eq_ok h
    obtain ⟨a, ha, h⟩ := bind_eq_ok h
    obtain ⟨_, _, h⟩ := bind_eq_ok h
    obtain ⟨_, _, h⟩ := bind_eq_ok h
    obtain ⟨_, _, h⟩ := bind_eq_ok h
    obtain ⟨_, _, h⟩ := bind_eq_ok h
    obtain ⟨_, _, h⟩ := bind_eq_ok h
    cases h
    exact UnmarshalModelSlice_absent m _ _ _ habsent ha
  · intro m r h habsent
    unfold UnmarshalRule at h
    obtain ⟨_, _, h⟩ := bind_eq_ok h
    obtain ⟨_, _, h⟩ := bind_eq_ok h
    obtain ⟨_, _, h⟩ := bind_eq_ok h
    obtain ⟨_, _, h⟩ := bind_eq_ok h
    obtain ⟨_, _, h⟩ := bind_eq_ok h
    obtain ⟨a, ha, h⟩ := bind_eq_ok h
    obtain ⟨_, _, h⟩ := bind_eq_ok h
    obtain ⟨_, _, h⟩ := bind_eq_ok h
    obtain ⟨_, _, h⟩ := bind_eq_ok h
    obtain ⟨_, _, h⟩ := bind_eq_ok h
    cases h
    exact UnmarshalPrimitive_absent m _ _ _ _ habsent ha
  · intro m r h habsent
    unfold UnmarshalRule at h
    obtain ⟨_, _, h⟩ := bind_eq_ok h
    obtain ⟨_, _, h⟩ := bind_eq_ok h
    obtain ⟨_, _, h⟩ := bind_eq_ok h
    obtain ⟨_, _, h⟩ := bind_eq_ok h
    obtain ⟨_, _, h⟩ := bind_eq_ok h
    obtain ⟨_, _, h⟩ := bind_eq_ok h
    obtain ⟨a, ha, h⟩ := bind_eq_ok h
    obtain ⟨_, _, h⟩ := bind_eq_ok h
    obtain ⟨_, _, h⟩ := bind_eq_ok h
    obtain ⟨_, _, h⟩ := bind_eq_ok h
    cases h
    exact UnmarshalPrimitiveDateTime_absent ParseDateTime m _ _ _ habsent ha
  · intro m r h habsent
    unfold UnmarshalRule at h
    obtain ⟨_, _, h⟩ := bind_eq_ok h
    obtain ⟨_, _, h⟩ := bind_eq_ok h
    obtain ⟨_, _, h⟩ := bind_eq_ok h
    obtain ⟨_, _, h⟩ := bind_eq_ok h
    obtain ⟨_, _, h⟩ := bind_eq_ok h
    obtain ⟨_, _, h⟩ := bind_eq_ok h
    obtain ⟨_, _, h⟩ := bind_eq_ok h
    obtain ⟨a, ha, h⟩ := bind_eq_ok h
    obtain ⟨_, _, h⟩ := bind_eq_ok h
    obtain ⟨_, _, h⟩ := bind_eq_ok h
    cases h
    exact UnmarshalPrimitive_absent m _ _ _ _ habsent ha
  · intro m r h habsent
    unfold UnmarshalRule at h
    obtain ⟨_, _, h⟩ := bind_eq_ok h
    obtain ⟨_, _, h⟩ := bind_eq_ok h
    obtain ⟨_, _, h⟩ := bind_eq_ok h
    obtain ⟨_, _, h⟩ := bind_eq_ok h
    obtain ⟨_, _, h⟩ := bind_eq_ok h
    obtain ⟨_, _, h⟩ := bind_eq_ok h
    obtain ⟨_, _, h⟩ := bind_eq_ok h
    obtain ⟨_, _, h⟩ := bind_eq_ok h
    obtain ⟨a, ha, h⟩ := bind_eq_ok h
    obtain ⟨_, _, h⟩ := bind_eq_ok h
    cases h
    exact UnmarshalPrimitiveDateTime_absent ParseDateTime m _ _ _ habsent ha
  · intro m r h habsent
    unfold UnmarshalRule at h
    obtain ⟨_, _, h⟩ := bind_eq_ok h
    obtain ⟨_, _, h⟩ := bind_eq_ok h
    obtain ⟨_, _, h⟩ := bind_eq_ok h
    obtain ⟨_, _, h⟩ := bind_eq_ok h
    obtain ⟨_, _, h⟩ := bind_eq_ok h
    obtain ⟨_, _, h⟩ := bind_eq_ok h
    obtain ⟨_, _, h⟩ := bind_eq_ok h
    obtain ⟨_, _, h⟩ := bind_eq_ok h
    obtain ⟨_, _, h⟩ := bind_eq_ok h
    obtain ⟨a, ha, h⟩ := bind_eq_ok h
    cases h
    exact UnmarshalPrimitive_absent m _ _ _ _ habsent ha
  · intro m r h habsent
    unfold UnmarshalRuleContext at h
    obtain ⟨a, ha, h⟩ := bind_eq_ok h
    cases h
    exact UnmarshalModelSlice_absent m _ _ _ habsent ha
  · intro m r h habsent
    unfold UnmarshalRuleContextAttribute at h
    obtain ⟨a, ha, h⟩ := bind_eq_ok h
    obtain ⟨_, _, h⟩ := bind_eq_ok h
    cases h
    exact UnmarshalPrimitive_absent m _ _ _ _ habsent ha
  · intro m r h habsent
    unfold UnmarshalRuleContextAttribute at h
    obtain ⟨_, _, h⟩ := bind_eq_ok h
    obtain ⟨a, ha, h⟩ := bind_eq_ok h
    cases h
    exact UnmarshalPrimitive_absent m _ _ _ _ habsent ha
  · intro m r h habsent
    unfold UnmarshalRuleList at h
    obtain ⟨a, ha, h⟩ := bind_eq_ok h
    obtain ⟨_, _, h⟩ := bind_eq_ok h
    cases h
    exact UnmarshalPrimitiveInt64_absent m _ _ _ habsent ha
  · intro m r h habsent
    unfold UnmarshalRuleList at h
    obtain ⟨_, _, h⟩ := bind_eq_ok h
    obtain ⟨a, ha, h⟩ := bind_eq_ok h
    cases h
    exact UnmarshalModelSlice_absent m _ _ _ habsent ha
  · intro m r h habsent
    unfold UnmarshalServiceRefTarget at h
    obtain ⟨a, ha, h⟩ := bind_eq_ok h
    obtain ⟨_, _, h⟩ := bind_eq_ok h
    cases h
    exact UnmarshalPrimitive_absent m _ _ _ _ habsent ha
  · intro m r h habsent
    unfold UnmarshalServiceRefTarget at h
    obtain ⟨_, _, h⟩ := bind_eq_ok h
    obtain ⟨a, ha, h⟩ := bind_eq_ok h
    cases h
    exact UnmarshalPrimitive_absent m _ _ _ _ habsent ha
  · intro m r h habsent
    unfold UnmarshalServiceRefTargetList at h
    obtain ⟨a, ha, h⟩ := bind_eq_ok h
    obtain ⟨_, _, h⟩ := bind_eq_ok h
    cases h
    exact UnmarshalPrimitiveInt64_absent m _ _ _ habsent ha
  · intro m r h habsent
    unfold UnmarshalServiceRefTargetList at h
    obtain ⟨_, _, h⟩ := bind_eq_ok h
    obtain ⟨a, ha, h⟩ := bind_eq_ok h
    cases h
    exact UnmarshalModelSlice_absent m _ _ _ habsent ha
  · intro m r h habsent
    unfold UnmarshalServiceRefValue at h
    obtain ⟨a, ha, h⟩ := bind_eq_ok h
    obtain ⟨_, _, h⟩ := bind_eq_ok h
    obtain ⟨_, _, h⟩ := bind_eq_ok h
    obtain ⟨_, _, h⟩ := bind_eq_ok h
    cases h
    exact UnmarshalPrimitive_absent m _ _ _ _ habsent ha
  · intro m r h habsent
    unfold UnmarshalServiceRefValue at h
    obtain ⟨_, _, h⟩ := bind_eq_ok h
    obtain ⟨a, ha, h⟩ := bind_eq_ok h
    obtain ⟨_, _, h⟩ := bind_eq_ok h
    obtain ⟨_, _, h⟩ := bind_eq_ok h
    cases h
    exact UnmarshalPrimitive_absent m _ _ _ _ habsent ha
  · intro m r h habsent
    unfold UnmarshalServiceRefValue at h
    obtain ⟨_, _, h⟩ := bind_eq_ok h
    obtain ⟨_, _, h⟩ := bind_eq_ok h
    obtain ⟨a, ha, h⟩ := bind_eq_ok h
    obtain ⟨_, _, h⟩ := bind_eq_ok h
    cases h
    exact UnmarshalPrimitive_absent m _ _ _ _ habsent ha
  · intro m r h habsent
    unfold UnmarshalServiceRefValue at h
    obtain ⟨_, _, h⟩ := bind_eq_ok h
    obtain ⟨_, _, h⟩ := bind_eq_ok h
    obtain ⟨_, _, h⟩ := bind_eq_ok h
    obtain ⟨a, ha, h⟩ := bind_eq_ok h
    cases h
    exact UnmarshalPrimitive_absent m _ _ _ _ habsent ha
  · intro m r h habsent
    unfold UnmarshalZone at h
    obtain ⟨a, ha, h⟩ := bind_eq_ok h
    obtain ⟨_, _, h⟩ := bind_eq_ok h
    obtain ⟨_, _, h⟩ := bind_eq_ok h
    obtain ⟨_, _, h⟩ := bind_eq_ok h
    obtain ⟨_, _, h⟩ := bind_eq_ok h
    obtain ⟨_, _, h⟩ := bind_eq_ok h
    obtain ⟨_, _, h⟩ := bind_eq_ok h
    obtain ⟨_, _, h⟩ := bind_eq_ok h
    obtain ⟨_, _, h⟩ := bind_eq_ok h
    obtain ⟨_, _, h⟩ := bind_eq_ok h
    obtain ⟨_, _, h⟩ := bind_eq_ok h
    obtain ⟨_, _, h⟩ := bind_eq_ok h
    obtain ⟨_, _, h⟩ := bind_eq_ok h
    obtain ⟨_, _, h⟩ := bind_eq_ok h
    cases h
    exact UnmarshalPrimitive_absent m _ _ _ _ habsent ha
  · intro m r h habsent
    unfold UnmarshalZone at h
    obtain ⟨_, _, h⟩ := bind_eq_ok h
    obtain ⟨a, ha, h⟩ := bind_eq_ok h
    obtain ⟨_, _, h⟩ := bind_eq_ok h
    obtain ⟨_, _, h⟩ := bind_eq_ok h
    obtain ⟨_, _, h⟩ := bind_eq_ok h
    obtain ⟨_, _, h⟩ := bind_eq_ok h
    obtain ⟨_, _, h⟩ := bind_eq_ok h
    obtain ⟨_, _, h⟩ := bind_eq_ok h
    obtain ⟨_, _, h⟩ := bind_eq_ok h
    obtain ⟨_, _, h⟩ := bind_eq_ok h
    obtain ⟨_, _, h⟩ := bind_eq_ok h
    obtain ⟨_, _, h⟩ := bind_eq_ok h
    obtain ⟨_, _, h⟩ := bind_eq_ok h
    obtain ⟨_, _, h⟩ := bind_eq_ok h
    cases h
    exact UnmarshalPrimitive_absent m _ _ _ _ habsent ha
  · intro m r h habsent
    unfold UnmarshalZone at h
    obtain ⟨_, _, h⟩ := bind_eq_ok h
    obtain ⟨_, _, h⟩ := bind_eq_ok h
    obtain ⟨a, ha, h⟩ := bind_eq_ok h
    obtain ⟨_, _, h⟩ := bind_eq_ok h
    obtain ⟨_, _, h⟩ := bind_eq_ok h
    obtain ⟨_, _, h⟩ := bind_eq_ok h
    obtain ⟨_, _, h⟩ := bind_eq_ok h
    obtain ⟨_, _, h⟩ := bind_eq_ok h
    obtain ⟨_, _, h⟩ := bind_eq_ok h
    obtain ⟨_, _, h⟩ := bind_eq_ok h
    obtain ⟨_, _, h⟩ := bind_eq_ok h
    obtain ⟨_, _, h⟩ := bind_eq_ok h
    obtain ⟨_, _, h⟩ := bind_eq_ok h
    obtain ⟨_, _, h⟩ := bind_eq_ok h
    cases h
    exact UnmarshalPrimitiveInt64_absent m _ _ _ habsent ha
  · intro m r h habsent
    unfold UnmarshalZone at h
    obtain ⟨_, _, h⟩ := bind_eq_ok h
    obtain ⟨_, _, h⟩ := bind_eq_ok h
    obtain ⟨_, _, h⟩ := bind_eq_ok h
    obtain ⟨a, ha, h⟩ := bind_eq_ok h
    obtain ⟨_, _, h⟩ := bind_eq_ok h
    obtain ⟨_, _, h⟩ := bind_eq_ok h
    obtain ⟨_, _, h⟩ := bind_eq_ok h
    obtain ⟨_, _, h⟩ := bind_eq_ok h
    obtain ⟨_, _, h⟩ := bind_eq_ok h
    obtain ⟨_, _, h⟩ := bind_eq_ok h
    obtain ⟨_, _, h⟩ := bind_eq_ok h
    obtain ⟨_, _, h⟩ := bind_eq_ok h
    obtain ⟨_, _, h⟩ := bind_eq_ok h
    obtain ⟨_, _, h⟩ := bind_eq_ok h
    cases h
    exact UnmarshalPrimitiveInt64_absent m _ _ _ habsent ha
  · intro m r h habsent
    unfold UnmarshalZone at h
    obtain ⟨_, _, h⟩ := bind_eq_ok h
    obtain ⟨_, _, h⟩ := bind_eq_ok h
    obtain ⟨_, _, h⟩ := bind_eq_ok h
    obtain ⟨_, _, h⟩ := bind_eq_ok h
    obtain ⟨a, ha, h⟩ := bind_eq_ok h
    obtain ⟨_, _, h⟩ := bind_eq_ok h
    obtain ⟨_, _, h⟩ := bind_eq_ok h
    obtain ⟨_, _, h⟩ := bind_eq_ok h
    obtain ⟨_, _, h⟩ := bind_eq_ok h
    obtain ⟨_, _, h⟩ := bind_eq_ok h
    obtain ⟨_, _, h⟩ := bind_eq_ok h
    obtain ⟨_, _, h⟩ := bind_eq_ok h
    obtain ⟨_, _, h⟩ := bind_eq_ok h
    obtain ⟨_, _, h⟩ := bind_eq_ok h
    cases h
    exact UnmarshalPrimitive_absent m _ _ _ _ habsent ha
  · intro m r h habsent
    unfold UnmarshalZone at h
    obtain ⟨_, _, h⟩ := bind_eq_ok h
    obtain ⟨_, _, h⟩ := bind_eq_ok h
    obtain ⟨_, _, h⟩ := bind_eq_ok h
    obtain ⟨_, _, h⟩ := bind_eq_ok h
    obtain ⟨_, _, h⟩ := bind_eq_ok h
    obtain ⟨a, ha, h⟩ := bind_eq_ok h
    obtain ⟨_, _, h⟩ := bind_eq_ok h
    obtain ⟨_, _, h⟩ := bind_eq_ok h
    obtain ⟨_, _, h⟩ := bind_eq_ok h
    obtain ⟨_, _, h⟩ := bind_eq_ok h
    obtain ⟨_, _, h⟩ := bind_eq_ok h
    obtain ⟨_, _, h⟩ := bind_eq_ok h
    obtain ⟨_, _, h⟩ := bind_eq_ok h
    obtain ⟨_, _, h⟩ := bind_eq_ok h
    cases h
    exact UnmarshalPrimitive_absent m _ _ _ _ habsent ha
  · intro m r h habsent
    unfold UnmarshalZone at h
    obtain ⟨_, _, h⟩ := bind_eq_ok h
    obtain ⟨_, _, h⟩ := bind_eq_ok h
    obtain ⟨_, _, h⟩ := bind_eq_ok h
    obtain ⟨_, _, h⟩ := bind_eq_ok h
    obtain ⟨_, _, h⟩ := bind_eq_ok h
    obtain ⟨_, _, h⟩ := bind_eq_ok h
    obtain ⟨a, ha, h⟩ := bind_eq_ok h
    obtain ⟨_, _, h⟩ := bind_eq_ok h
    obtain ⟨_, _, h⟩ := bind_eq_ok h
    obtain ⟨_, _, h⟩ := bind_eq_ok h
    obtain ⟨_, _, h⟩ := bind_eq_ok h
    obtain ⟨_, _, h⟩ := bind_eq_ok h
    obtain ⟨_, _, h⟩ := bind_eq_ok h
    obtain ⟨_, _, h⟩ := bind_eq_ok h
    cases h
    exact UnmarshalPrimitive_absent m _ _ _ _ habsent ha
  · intro m r h habsent
    unfold UnmarshalZone at h
    obtain ⟨_, _, h⟩ := bind_eq_ok h
    obtain ⟨_, _, h⟩ := bind_eq_ok h
    obtain ⟨_, _, h⟩ := bind_eq_ok h
    obtain ⟨_, _, h⟩ := bind_eq_ok h
    obtain ⟨_, _, h⟩ := bind_eq_ok h
    obtain ⟨_, _, h⟩ := bind_eq_ok h
    obtain ⟨_, _, h⟩ := bind_eq_ok h
    obtain ⟨a, ha, h⟩ := bind_eq_ok h
    obtain ⟨_, _, h⟩ := bind_eq_ok h
    obtain ⟨_, _, h⟩ := bind_eq_ok h
    obtain ⟨_, _, h⟩ := bind_eq_ok h
    obtain ⟨_, _, h⟩ := bind_eq_ok h
    obtain ⟨_, _, h⟩ := bind_eq_ok h
    obtain ⟨_, _, h⟩ := bind_eq_ok h
    cases h
    exact UnmarshalModelSlice_absent m _ _ _ habsent ha
  · intro m r h habsent
    unfold UnmarshalZone at h
    obtain ⟨_, _, h⟩ := bind_eq_ok h
    obtain ⟨_, _, h⟩ := bind_eq_ok h
    obtain ⟨_, _, h⟩ := bind_eq_ok h
    obtain ⟨_, _, h⟩ := bind_eq_ok h
    obtain ⟨_, _, h⟩ := bind_eq_ok h
    obtain ⟨_, _, h⟩ := bind_eq_ok h
    obtain ⟨_, _, h⟩ := bind_eq_ok h
    obtain ⟨_, _, h⟩ := bind_eq_ok h
    obtain ⟨a, ha, h⟩ := bind_eq_ok h
    obtain ⟨_, _, h⟩ := bind_eq_ok h
    obtain ⟨_, _, h⟩ := bind_eq_ok h
    obtain ⟨_, _, h⟩ := bind_eq_ok h
    obtain ⟨_, _, h⟩ := bind_eq_ok h
    obtain ⟨_, _, h⟩ := bind_eq_ok h
    cases h
    exact UnmarshalModelSlice_absent m _ _ _ habsent ha
  · intro m r h habsent
    unfold UnmarshalZone at h
    obtain ⟨_, _, h⟩ := bind_eq_ok h
    obtain ⟨_, _, h⟩ := bind_eq_ok h
    obtain ⟨_, _, h⟩ := bind_eq_ok h
    obtain ⟨_, _, h⟩ := bind_eq_ok h
    obtain ⟨_, _, h⟩ := bind_eq_ok h
    obtain ⟨_, _, h⟩ := bind_eq_ok h
    obtain ⟨_, _, h⟩ := bind_eq_ok h
    obtain ⟨_, _, h⟩ := bind_eq_ok h
    obtain ⟨_, _, h⟩ := bind_eq_ok h
    obtain ⟨a, ha, h⟩ := bind_eq_ok h
    obtain ⟨_, _, h⟩ := bind_eq_ok h
    obtain ⟨_, _, h⟩ := bind_eq_ok h
    obtain ⟨_, _, h⟩ := bind_eq_ok h
    obtain ⟨_, _, h⟩ := bind_eq_ok h
    cases h
    exact UnmarshalPrimitive_absent m _ _ _ _ habsent ha
  · intro m r h habsent
    unfold UnmarshalZone at h
    obtain ⟨_, _, h⟩ := bind_eq_ok h
    obtain ⟨_, _, h⟩ := bind_eq_ok h
    obtain ⟨_, _, h⟩ := bind_eq_ok h
    obtain ⟨_, _, h⟩ := bind_eq_ok h
    obtain ⟨_, _, h⟩ := bind_eq_ok h
    obtain ⟨_, _, h⟩ := bind_eq_ok h
    obtain ⟨_, _, h⟩ := bind_eq_ok h
    obtain ⟨_, _, h⟩ := bind_eq_ok h
    obtain ⟨_, _, h⟩ := bind_eq_ok h
    obtain ⟨_, _, h⟩ := bind_eq_ok h
    obtain ⟨a, ha, h⟩ := bind_eq_ok h
    obtain ⟨_, _, h⟩ := bind_eq_ok h
    obtain ⟨_, _, h⟩ := bind_eq_ok h
    obtain ⟨_, _, h⟩ := bind_eq_ok h
    cases h
    exact UnmarshalPrimitiveDateTime_absent ParseDateTime m _ _ _ habsent ha
  · intro m r h habsent
    unfold UnmarshalZone at h
    obtain ⟨_, _, h⟩ := bind_eq_ok h
    obtain ⟨_, _, h⟩ := bind_eq_ok h
    obtain ⟨_, _, h⟩ := bind_eq_ok h
    obtain ⟨_, _, h⟩ := bind_eq_ok h
    obtain ⟨_, _, h⟩ := bind_eq_ok h
    obtain ⟨_, _, h⟩ := bind_eq_ok h
    obtain ⟨_, _, h⟩ := bind_eq_ok h
    obtain ⟨_, _, h⟩ := bind_eq_ok h
    obtain ⟨_, _, h⟩ := bind_eq_ok h
    obtain ⟨_, _, h⟩ := bind_eq_ok h
    obtain ⟨_, _, h⟩ := bind_eq_ok h
    obtain ⟨a, ha, h⟩ := bind_eq_ok h
    obtain ⟨_, _, h⟩ := bind_eq_ok h
    obtain ⟨_, _, h⟩ := bind_eq_ok h
    cases h
    exact UnmarshalPrimitive_absent m _ _ _ _ habsent ha
  · intro m r h habsent
    unfold UnmarshalZone at h
    obtain ⟨_, _, h⟩ := bind_eq_ok h
    obtain ⟨_, _, h⟩ := bind_eq_ok h
    obtain ⟨_, _, h⟩ := bind_eq_ok h
    obtain ⟨_, _, h⟩ := bind_eq_ok h
    obtain ⟨_, _, h⟩ := bind_eq_ok h
    obtain ⟨_, _, h⟩ := bind_eq_ok h
    obtain ⟨_, _, h⟩ := bind_eq_ok h
    obtain ⟨_, _, h⟩ := bind_eq_ok h
    obtain ⟨_, _, h⟩ := bind_eq_ok h
    obtain ⟨_, _, h⟩ := bind_eq_ok h
    obtain ⟨_, _, h⟩ := bind_eq_ok h
    obtain ⟨_, _, h⟩ := bind_eq_ok h
    obtain ⟨a, ha, h⟩ := bind_eq_ok h
    obtain ⟨_, _, h⟩ := bind_eq_ok h
    cases h
    exact UnmarshalPrimitiveDateTime_absent ParseDateTime m _ _ _ habsent ha
  · intro m r h habsent
    unfold UnmarshalZone at h
    obtain ⟨_, _, h⟩ := bind_eq_ok h
    obtain ⟨_, _, h⟩ := bind_eq_ok h
    obtain ⟨_, _, h⟩ := bind_eq_ok h
    obtain ⟨_, _, h⟩ := bind_eq_ok h
    obtain ⟨_, _, h⟩ := bind_eq_ok h
    obtain ⟨_, _, h⟩ := bind_eq_ok h
    obtain ⟨_, _, h⟩ := bind_eq_ok h
    obtain ⟨_, _, h⟩ := bind_eq_ok h
    obtain ⟨_, _, h⟩ := bind_eq_ok h
    obtain ⟨_, _, h⟩ := bind_eq_ok h
    obtain ⟨_, _, h⟩ := bind_eq_ok h
    obtain ⟨_, _, h⟩ := bind_eq_ok h
    obtain ⟨_, _, h⟩ := bind_eq_ok h
    obtain ⟨a, ha, h⟩ := bind_eq_ok h
    cases h
    exact UnmarshalPrimitive_absent m _ _ _ _ habsent ha
  · intro m r h habsent
    unfold UnmarshalZoneList at h
    obtain ⟨a, ha, h⟩ := bind_eq_ok h
    obtain ⟨_, _, h⟩ := bind_eq_ok h
    cases h
    exact UnmarshalPrimitiveInt64_absent m _ _ _ habsent ha
  · intro m r h habsent
    unfold UnmarshalZoneList at h
    obtain ⟨_, _, h⟩ := bind_eq_ok h
    obtain ⟨a, ha, h⟩ := bind_eq_ok h
    cases h
    exact UnmarshalModelSlice_absent m _ _ _ habsent ha
  · intro m r h habsent
    unfold UnmarshalZoneSummary at h
    obtain ⟨a, ha, h⟩ := bind_eq_ok h
    obtain ⟨_, _, h⟩ := bind_eq_ok h
    obtain ⟨_, _, h⟩ := bind_eq_ok h
    obtain ⟨_, _, h⟩ := bind_eq_ok h
    obtain ⟨_, _, h⟩ := bind_eq_ok h
    obtain ⟨_, _, h⟩ := bind_eq_ok h
    obtain ⟨_, _, h⟩ := bind_eq_ok h
    obtain ⟨_, _, h⟩ := bind_eq_ok h
    obtain ⟨_, _, h⟩ := bind_eq_ok h
    obtain ⟨_, _, h⟩ := bind_eq_ok h
    obtain ⟨_, _, h⟩ := bind_eq_ok h
    obtain ⟨_, _, h⟩ := bind_eq_ok h
    cases h
    exact UnmarshalPrimitive_absent m _ _ _ _ habsent ha
  · intro m r h habsent
    unfold UnmarshalZoneSummary at h
    obtain ⟨_, _, h⟩ := bind_eq_ok h
    obtain ⟨a, ha, h⟩ := bind_eq_ok h
    obtain ⟨_, _, h⟩ := bind_eq_ok h
    obtain ⟨_, _, h⟩ := bind_eq_ok h
    obtain ⟨_, _, h⟩ := bind_eq_ok h
    obtain ⟨_, _, h⟩ := bind_eq_ok h
    obtain ⟨_, _, h⟩ := bind_eq_ok h
    obtain ⟨_, _, h⟩ := bind_eq_ok h
    obtain ⟨_, _, h⟩ := bind_eq_ok h
    obtain ⟨_, _, h⟩ := bind_eq_ok h
    obtain ⟨_, _, h⟩ := bind_eq_ok h
    obtain ⟨_, _, h⟩ := bind_eq_ok h
    cases h
    exact UnmarshalPrimitive_absent m _ _ _ _ habsent ha
  · intro m r h habsent
    unfold UnmarshalZoneSummary at h
    obtain ⟨_, _, h⟩ := bind_eq_ok h
    obtain ⟨_, _, h⟩ := bind_eq_ok h
    obtain ⟨a, ha, h⟩ := bind_eq_ok h
    obtain ⟨_, _, h⟩ := bind_eq_ok h
    obtain ⟨_, _, h⟩ := bind_eq_ok h
    obtain ⟨_, _, h⟩ := bind_eq_ok h
    obtain ⟨_, _, h⟩ := bind_eq_ok h
    obtain ⟨_, _, h⟩ := bind_eq_ok h
    obtain ⟨_, _, h⟩ := bind_eq_ok h
    obtain ⟨_, _, h⟩ := bind_eq_ok h
    obtain ⟨_, _, h⟩ := bind_eq_ok h
    obtain ⟨_, _, h⟩ := bind_eq_ok h
    cases h
    exact UnmarshalPrimitive_absent m _ _ _ _ habsent ha
  · intro m r h habsent
    unfold UnmarshalZoneSummary at h
    obtain ⟨_, _, h⟩ := bind_eq_ok h
    obtain ⟨_, _, h⟩ := bind_eq_ok h
    obtain ⟨_, _, h⟩ := bind_eq_ok h
    obtain ⟨a, ha, h⟩ := bind_eq_ok h
    obtain ⟨_, _, h⟩ := bind_eq_ok h
    obtain ⟨_, _, h⟩ := bind_eq_ok h
    obtain ⟨_, _, h⟩ := bind_eq_ok h
    obtain ⟨_, _, h⟩ := bind_eq_ok h
    obtain ⟨_, _, h⟩ := bind_eq_ok h
    obtain ⟨_, _, h⟩ := bind_eq_ok h
    obtain ⟨_, _, h⟩ := bind_eq_ok h
    obtain ⟨_, _, h⟩ := bind_eq_ok h
    cases h
    exact UnmarshalPrimitive_absent m _ _ _ _ habsent ha
  · intro m r h habsent
    unfold UnmarshalZoneSummary at h
    obtain ⟨_, _, h⟩ := bind_eq_ok h
    obtain ⟨_, _, h⟩ := bind_eq_ok h
    obtain ⟨_, _, h⟩ := bind_eq_ok h
    obtain ⟨_, _, h⟩ := bind_eq_ok h
    obtain ⟨a, ha, h⟩ := bind_eq_ok h
    obtain ⟨_, _, h⟩ := bind_eq_ok h
    obtain ⟨_, _, h⟩ := bind_eq_ok h
    obtain ⟨_, _, h⟩ := bind_eq_ok h
    obtain ⟨_, _, h⟩ := bind_eq_ok h
    obtain ⟨_, _, h⟩ := bind_eq_ok h
    obtain ⟨_, _, h⟩ := bind_eq_ok h
    obtain ⟨_, _, h⟩ := bind_eq_ok h
    cases h
    exact UnmarshalModelSlice_absent m _ _ _ habsent ha
  · intro m r h habsent
    unfold UnmarshalZoneSummary at h
    obtain ⟨_, _, h⟩ := bind_eq_ok h
    obtain ⟨_, _, h⟩ := bind_eq_ok h
    obtain ⟨_, _, h⟩ := bind_eq_ok h
    obtain ⟨_, _, h⟩ := bind_eq_ok h
    obtain ⟨_, _, h⟩ := bind_eq_ok h
    obtain ⟨a, ha, h⟩ := bind_eq_ok h
    obtain ⟨_, _, h⟩ := bind_eq_ok h
    obtain ⟨_, _, h⟩ := bind_eq_ok h
    obtain ⟨_, _, h⟩ := bind_eq_ok h
    obtain ⟨_, _, h⟩ := bind_eq_ok h
    obtain ⟨_, _, h⟩ := bind_eq_ok h
    obtain ⟨_, _, h⟩ := bind_eq_ok h
    cases h
    exact UnmarshalPrimitiveInt64_absent m _ _ _ habsent ha
  · intro m r h habsent
    unfold UnmarshalZoneSummary at h
    obtain ⟨_, _, h⟩ := bind_eq_ok h
    obtain ⟨_, _, h⟩ := bind_eq_ok h
    obtain ⟨_, _, h⟩ := bind_eq_ok h
    obtain ⟨_, _, h⟩ := bind_eq_ok h
    obtain ⟨_, _, h⟩ := bind_eq_ok h
    obtain ⟨_, _, h⟩ := bind_eq_ok h
    obtain ⟨a, ha, h⟩ := bind_eq_ok h
    obtain ⟨_, _, h⟩ := bind_eq_ok h
    obtain ⟨_, _, h⟩ := bind_eq_ok h
    obtain ⟨_, _, h⟩ := bind_eq_ok h
    obtain ⟨_, _, h⟩ := bind_eq_ok h
    obtain ⟨_, _, h⟩ := bind_eq_ok h
    cases h
    exact UnmarshalPrimitiveInt64_absent m _ _ _ habsent ha
  · intro m r h habsent
    unfold UnmarshalZoneSummary at h
    obtain ⟨_, _, h⟩ := bind_eq_ok h
    obtain ⟨_, _, h⟩ := bind_eq_ok h
    obtain ⟨_, _, h⟩ := bind_eq_ok h
    obtain ⟨_, _, h⟩ := bind_eq_ok h
    obtain ⟨_, _, h⟩ := bind_eq_ok h
    obtain ⟨_, _, h⟩ := bind_eq_ok h
    obtain ⟨_, _, h⟩ := bind_eq_ok h
    obtain ⟨a, ha, h⟩ := bind_eq_ok h
    obtain ⟨_, _, h⟩ := bind_eq_ok h
    obtain ⟨_, _, h⟩ := bind_eq_ok h
    obtain ⟨_, _, h⟩ := bind_eq_ok h
    obtain ⟨_, _, h⟩ := bind_eq_ok h
    cases h
    exact UnmarshalPrimitive_absent m _ _ _ _ habsent ha
  · intro m r h habsent
    unfold UnmarshalZoneSummary at h
    obtain ⟨_, _, h⟩ := bind_eq_ok h
    obtain ⟨_, _, h⟩ := bind_eq_ok h
    obtain ⟨_, _, h⟩ := bind_eq_ok h
    obtain ⟨_, _, h⟩ := bind_eq_ok h
    obtain ⟨_, _, h⟩ := bind_eq_ok h
    obtain ⟨_, _, h⟩ := bind_eq_ok h
    obtain ⟨_, _, h⟩ := bind_eq_ok h
    obtain ⟨_, _, h⟩ := bind_eq_ok h
    obtain ⟨a, ha, h⟩ := bind_eq_ok h
    obtain ⟨_, _, h⟩ := bind_eq_ok h
    obtain ⟨_, _, h⟩ := bind_eq_ok h
    obtain ⟨_, _, h⟩ := bind_eq_ok h
    cases h
    exact UnmarshalPrimitiveDateTime_absent ParseDateTime m _ _ _ habsent ha
  · intro m r h habsent
    unfold UnmarshalZoneSummary at h
    obtain ⟨_, _, h⟩ := bind_eq_ok h
    obtain ⟨_, _, h⟩ := bind_eq_ok h
    obtain ⟨_, _, h⟩ := bind_eq_ok h
    obtain ⟨_, _, h⟩ := bind_eq_ok h
    obtain ⟨_, _, h⟩ := bind_eq_ok h
    obtain ⟨_, _, h⟩ := bind_eq_ok h
    obtain ⟨_, _, h⟩ := bind_eq_ok h
    obtain ⟨_, _, h⟩ := bind_eq_ok h
    obtain ⟨_, _, h⟩ := bind_eq_ok h
    obtain ⟨a, ha, h⟩ := bind_eq_ok h
    obtain ⟨_, _, h⟩ := bind_eq_ok h
    obtain ⟨_, _, h⟩ := bind_eq_ok h
    cases h
    exact UnmarshalPrimitive_absent m _ _ _ _ habsent ha
  · intro m r h habsent
    unfold UnmarshalZoneSummary at h
    obtain ⟨_, _, h⟩ := bind_eq_ok h
    obtain ⟨_, _, h⟩ := bind_eq_ok h
    obtain ⟨_, _, h⟩ := bind_eq_ok h
    obtain ⟨_, _, h⟩ := bind_eq_ok h
    obtain ⟨_, _, h⟩ := bind_eq_ok h
    obtain ⟨_, _, h⟩ := bind_eq_ok h
    obtain ⟨_, _, h⟩ := bind_eq_ok h
    obtain ⟨_, _, h⟩ := bind_eq_ok h
    obtain ⟨_, _, h⟩ := bind_eq_ok h
    obtain ⟨_, _, h⟩ := bind_eq_ok h
    obtain ⟨a, ha, h⟩ := bind_eq_ok h
    obtain ⟨_, _, h⟩ := bind_eq_ok h
    cases h
    exact UnmarshalPrimitiveDateTime_absent ParseDateTime m _ _ _ habsent ha
  · intro m r h habsent
    unfold UnmarshalZoneSummary at h
    obtain ⟨_, _, h⟩ := bind_eq_ok h
    obtain ⟨_, _, h⟩ := bind_eq_ok h
    obtain ⟨_, _, h⟩ := bind_eq_ok h
    obtain ⟨_, _, h⟩ := bind_eq_ok h
    obtain ⟨_, _, h⟩ := bind_eq_ok h
    obtain ⟨_, _, h⟩ := bind_eq_ok h
    obtain ⟨_, _, h⟩ := bind_eq_ok h
    obtain ⟨_, _, h⟩ := bind_eq_ok h
    obtain ⟨_, _, h⟩ := bind_eq_ok h
    obtain ⟨_, _, h⟩ := bind_eq_ok h
    obtain ⟨_, _, h⟩ := bind_eq_ok h
    obtain ⟨a, ha, h⟩ := bind_eq_ok h
    cases h
    exact UnmarshalPrimitive_absent m _ _ _ _ habsent ha
  · intro m r h habsent
    unfold UnmarshalAddressIPAddress at h
    obtain ⟨a, ha, h⟩ := bind_eq_ok h
    obtain ⟨_, _, h⟩ := bind_eq_ok h
    cases h
    exact UnmarshalPrimitive_absent m _ _ _ _ habsent ha
  · intro m r h habsent
    unfold UnmarshalAddressIPAddress at h
    obtain ⟨_, _, h⟩ := bind_eq_ok h
    obtain ⟨a, ha, h⟩ := bind_eq_ok h
    cases h
    exact UnmarshalPrimitive_absent m _ _ _ _ habsent ha
  · intro m r h habsent
    unfold UnmarshalAddressIPAddressRange at h
    obtain ⟨a, ha, h⟩ := bind_eq_ok h
    obtain ⟨_, _, h⟩ := bind_eq_ok h
    cases h
    exact UnmarshalPrimitive_absent m _ _ _ _ habsent ha
  · intro m r h habsent
    unfold UnmarshalAddressIPAddressRange at h
    obtain ⟨_, _, h⟩ := bind_eq_ok h
    obtain ⟨a, ha, h⟩ := bind_eq_ok h
    cases h
    exact UnmarshalPrimitive_absent m _ _ _ _ habsent ha
  · intro m r h habsent
    unfold UnmarshalAddressServiceRef at h
    obtain ⟨a, ha, h⟩ := bind_eq_ok h
    obtain ⟨_, _, h⟩ := bind_eq_ok h
    cases h
    exact UnmarshalPrimitive_absent m _ _ _ _ habsent ha
  · intro m r h habsent
    unfold UnmarshalAddressServiceRef at h
    obtain ⟨_, _, h⟩ := bind_eq_ok h
    obtain ⟨a, ha, h⟩ := bind_eq_ok h
    cases h
    exact UnmarshalModel_absent m _ _ _ (by decide) habsent ha
  · intro m r h habsent
    unfold UnmarshalAddressSubnet at h
    obtain ⟨a, ha, h⟩ := bind_eq_ok h
    obtain ⟨_, _, h⟩ := bind_eq_ok h
    cases h
    exact UnmarshalPrimitive_absent m _ _ _ _ habsent ha
  · intro m r h habsent
    unfold UnmarshalAddressSubnet at h
    obtain ⟨_, _, h⟩ := bind_eq_ok h
    obtain ⟨a, ha, h⟩ := bind_eq_ok h
    cases h
    exact UnmarshalPrimitive_absent m _ _ _ _ habsent ha
  · intro m r h habsent
    unfold UnmarshalAddressVPC at h
    obtain ⟨a, ha, h⟩ := bind_eq_ok h
    obtain ⟨_, _, h⟩ := bind_eq_ok h
    cases h
    exact UnmarshalPrimitive_absent m _ _ _ _ habsent ha
  · intro m r h habsent
    unfold UnmarshalAddressVPC at h
    obtain ⟨_, _, h⟩ := bind_eq_ok h
    obtain ⟨a, ha, h⟩ := bind_eq_ok h
    cases h
    exact UnmarshalPrimitive_absent m _ _ _ _ habsent ha

/-- Witness of C20, amended: a resource attribute payload still decodes once
its required `name` is removed. -/
theorem absent_field_is_left_nil_witness :
    ∃ r, UnmarshalResourceAttribute
        (List.filter (fun p => p.1 != "name")
          [("name", Json.str "region"), ("value", Json.str "us-south")]) = .ok r :=
  (absent_field_is_left_nil sampleService.ParseDateTime "name").2.2.1
    [("name", .str "region"), ("value", .str "us-south")]
    ⟨{ Name := some "region", Value := some "us-south", Operator := none }, rfl⟩

/-! ## Dereferences of required options -/

theorem runOperation_outcome_ne_panic {ρ : Type} (prepared : Except Abort RequestBuilder)
    (send : RequestBuilder → OperationResult ρ) (hprep : prepared ≠ .error .panic)
    (hsend : ∀ request, (send request).outcome ≠ .error .panic) :
    (runOperation prepared send).outcome ≠ .error .panic := by
  unfold runOperation
  cases prepared with
  | error a => simpa using hprep
  | ok request => exact hsend request

theorem exchange_outcome_ne_panic {ρ : Type} (svc : ContextBasedRestrictionsV1)
    (request : RequestBuilder) (unmarshaller : RawObject → Except DecodeError ρ) :
    (svc.exchange request unmarshaller).outcome ≠ .error .panic := by
  unfold ContextBasedRestrictionsV1.exchange
  cases svc.Request request with
  | error msg => simp
  | ok raw =>
    cases raw with
    | none => simp
    | some rawResponse =>
      cases h : core.UnmarshalModel rawResponse "" unmarshaller <;> simp [h]

theorem exchangeNoResult_outcome_ne_panic (svc : ContextBasedRestrictionsV1)
    (request : RequestBuilder) :
    (svc.exchangeNoResult request).outcome ≠ .error .panic := by
  unfold ContextBasedRestrictionsV1.exchangeNoResult
  cases svc.Request request <;> simp

theorem CreateZoneWithContext_request_ne_panic (svc : ContextBasedRestrictionsV1)
    (options : Option CreateZoneOptions) :
    CreateZoneWithContext_request svc options ≠ .error .panic := by
  unfold CreateZoneWithContext_request
  cases options with
  | none =>
    simp [core.ValidateNotNil, core.ValidateStruct, CreateZoneOptions.validated, firstFailure,
      ValidatedField.firstFailure, ValidateTag.holds, bind, Except.bind, deref,
      RequestBuilder.ResolveRequestURL, core.NewRequestBuilder, RequestBuilder.SetBodyContentJSON,
      RequestBuilder.Build, AddHeaders_eq, AddHeaderIfNotNil_eq, AddQueryIfNotNil_eq,
      RequestBuilder.AddHeader, RequestBuilder.AddQuery, callerAndSdkHeaders, queryAdd]
  | some o =>
    cases hr : svc.ResolveRequestURL svc.URL "/v1/zones" [] with
    | error msg =>
      simp [core.ValidateNotNil, core.ValidateStruct, CreateZoneOptions.validated, firstFailure,
        ValidatedField.firstFailure, ValidateTag.holds, bind, Except.bind, deref,
        RequestBuilder.ResolveRequestURL, core.NewRequestBuilder, RequestBuilder.SetBodyContentJSON,
        RequestBuilder.Build, AddHeaders_eq, AddHeaderIfNotNil_eq, AddQueryIfNotNil_eq,
        RequestBuilder.AddHeader, RequestBuilder.AddQuery, callerAndSdkHeaders, queryAdd, hr]
    | ok url =>
      simp [core.ValidateNotNil, core.ValidateStruct, CreateZoneOptions.validated, firstFailure,
        ValidatedField.firstFailure, ValidateTag.holds, bind, Except.bind, deref,
        RequestBuilder.ResolveRequestURL, core.NewRequestBuilder, RequestBuilder.SetBodyContentJSON,
        RequestBuilder.Build, AddHeaders_eq, AddHeaderIfNotNil_eq, AddQueryIfNotNil_eq,
        RequestBuilder.AddHeader, RequestBuilder.AddQuery, callerAndSdkHeaders, queryAdd, hr]

theorem ListZonesWithContext_request_ne_panic (svc : ContextBasedRestrictionsV1)
    (options : Option ListZonesOptions) :
    ListZonesWithContext_request svc options ≠ .error .panic := by
  unfold ListZonesWithContext_request
  cases options with
  | none =>
    simp [core.ValidateNotNil, core.ValidateStruct, ListZonesOptions.validated, firstFailure,
      ValidatedField.firstFailure, ValidateTag.holds, bind, Except.bind, deref,
      RequestBuilder.ResolveRequestURL, core.NewRequestBuilder, RequestBuilder.SetBodyContentJSON,
      RequestBuilder.Build, AddHeaders_eq, AddHeaderIfNotNil_eq, AddQueryIfNotNil_eq,
      RequestBuilder.AddHeader, RequestBuilder.AddQuery, callerAndSdkHeaders, queryAdd]
  | some o =>
    cases hAccountID : o.AccountID with
    | none =>
      simp [core.ValidateNotNil, core.ValidateStruct, ListZonesOptions.validated, firstFailure,
        ValidatedField.firstFailure, ValidateTag.holds, bind, Except.bind, deref,
        RequestBuilder.ResolveRequestURL, core.NewRequestBuilder, RequestBuilder.SetBodyContentJSON,
        RequestBuilder.Build, AddHeaders_eq, AddHeaderIfNotNil_eq, AddQueryIfNotNil_eq,
        RequestBuilder.AddHeader, RequestBuilder.AddQuery, callerAndSdkHeaders, queryAdd, hAccountID]
    | some account_id =>
      cases hr : svc.ResolveRequestURL svc.URL "/v1/zones" [] with
      | error msg =>
        simp [core.ValidateNotNil, core.ValidateStruct, ListZonesOptions.validated, firstFailure,
          ValidatedField.firstFailure, ValidateTag.holds, bind, Except.bind, deref,
          RequestBuilder.ResolveRequestURL, core.NewRequestBuilder, RequestBuilder.SetBodyContentJSON,
          RequestBuilder.Build, AddHeaders_eq, AddHeaderIfNotNil_eq, AddQueryIfNotNil_eq,
          RequestBuilder.AddHeader, RequestBuilder.AddQuery, callerAndSdkHeaders, queryAdd, hAccountID, hr]
      | ok url =>
        simp [core.ValidateNotNil, core.ValidateStruct, ListZonesOptions.validated, firstFailure,
          ValidatedField.firstFailure, ValidateTag.holds, bind, Except.bind, deref,
          RequestBuilder.ResolveRequestURL, core.NewRequestBuilder, RequestBuilder.SetBodyContentJSON,
          RequestBuilder.Build, AddHeaders_eq, AddHeaderIfNotNil_eq, AddQueryIfNotNil_eq,
          RequestBuilder.AddHeader, RequestBuilder.AddQuery, callerAndSdkHeaders, queryAdd, hAccountID, hr]

theorem GetZoneWithContext_request_ne_panic (svc : ContextBasedRestrictionsV1)
    (options : Option GetZoneOptions) :
    GetZoneWithContext_request svc options ≠ .error .panic := by
  unfold GetZoneWithContext_request
  cases options with
  | none =>
    simp [core.ValidateNotNil, core.ValidateStruct, GetZoneOptions.validated, firstFailure,
      ValidatedField.firstFailure, ValidateTag.holds, bind, Except.bind, deref,
      RequestBuilder.ResolveRequestURL, core.NewRequestBuilder, RequestBuilder.SetBodyContentJSON,
      RequestBuilder.Build, AddHeaders_eq, AddHeaderIfNotNil_eq, AddQueryIfNotNil_eq,
      RequestBuilder.AddHeader, RequestBuilder.AddQuery, callerAndSdkHeaders, queryAdd]
  | some o =>
    cases hZoneID : o.ZoneID with
    | none =>
      simp [core.ValidateNotNil, core.ValidateStruct, GetZoneOptions.validated, firstFailure,
        ValidatedField.firstFailure, ValidateTag.holds, bind, Except.bind, deref,
        RequestBuilder.ResolveRequestURL, core.NewRequestBuilder, RequestBuilder.SetBodyContentJSON,
        RequestBuilder.Build, AddHeaders_eq, AddHeaderIfNotNil_eq, AddQueryIfNotNil_eq,
        RequestBuilder.AddHeader, RequestBuilder.AddQuery, callerAndSdkHeaders, queryAdd, hZoneID]
    | some zone_id =>
      by_cases hneZoneID : zone_id = ""
      · simp [core.ValidateNotNil, core.ValidateStruct, GetZoneOptions.validated, firstFailure,
          ValidatedField.firstFailure, ValidateTag.holds, bind, Except.bind, deref,
          RequestBuilder.ResolveRequestURL, core.NewRequestBuilder, RequestBuilder.SetBodyContentJSON,
          RequestBuilder.Build, AddHeaders_eq, AddHeaderIfNotNil_eq, AddQueryIfNotNil_eq,
          RequestBuilder.AddHeader, RequestBuilder.AddQuery, callerAndSdkHeaders, queryAdd, hZoneID, hneZoneID]
      cases hr : svc.ResolveRequestURL svc.URL "/v1/zones/{zone_id}" [("zone_id", zone_id)] with
      | error msg =>
        simp [core.ValidateNotNil, core.ValidateStruct, GetZoneOptions.validated, firstFailure,
          ValidatedField.firstFailure, ValidateTag.holds, bind, Except.bind, deref,
          RequestBuilder.ResolveRequestURL, core.NewRequestBuilder, RequestBuilder.SetBodyContentJSON,
          RequestBuilder.Build, AddHeaders_eq, AddHeaderIfNotNil_eq, AddQueryIfNotNil_eq,
          RequestBuilder.AddHeader, RequestBuilder.AddQuery, callerAndSdkHeaders, queryAdd, hZoneID, hneZoneID, hr]
      | ok url =>
        simp [core.ValidateNotNil, core.ValidateStruct, GetZoneOptions.validated, firstFailure,
          ValidatedField.firstFailure, ValidateTag.holds, bind, Except.bind, deref,
          RequestBuilder.ResolveRequestURL, core.NewRequestBuilder, RequestBuilder.SetBodyContentJSON,
          RequestBuilder.Build, AddHeaders_eq, AddHeaderIfNotNil_eq, AddQueryIfNotNil_eq,
          RequestBuilder.AddHeader, RequestBuilder.AddQuery, callerAndSdkHeaders, queryAdd, hZoneID, hneZoneID, hr]

theorem ReplaceZoneWithContext_request_ne_panic (svc : ContextBasedRestrictionsV1)
    (options : Option ReplaceZoneOptions) :
    ReplaceZoneWithContext_request svc options ≠ .error .panic := by
  unfold ReplaceZoneWithContext_request
  cases options with
  | none =>
    simp [core.ValidateNotNil, core.ValidateStruct, ReplaceZoneOptions.validated, firstFailure,
      ValidatedField.firstFailure, ValidateTag.holds, bind, Except.bind, deref,
      RequestBuilder.ResolveRequestURL, core.NewRequestBuilder, RequestBuilder.SetBodyContentJSON,
      RequestBuilder.Build, AddHeaders_eq, AddHeaderIfNotNil_eq, AddQueryIfNotNil_eq,
      RequestBuilder.AddHeader, RequestBuilder.AddQuery, callerAndSdkHeaders, queryAdd]
  | some o =>
    cases hZoneID : o.ZoneID with
    | none =>
      simp [core.ValidateNotNil, core.ValidateStruct, ReplaceZoneOptions.validated, firstFailure,
        ValidatedField.firstFailure, ValidateTag.holds, bind, Except.bind, deref,
        RequestBuilder.ResolveRequestURL, core.NewRequestBuilder, RequestBuilder.SetBodyContentJSON,
        RequestBuilder.Build, AddHeaders_eq, AddHeaderIfNotNil_eq, AddQueryIfNotNil_eq,
        RequestBuilder.AddHeader, RequestBuilder.AddQuery, callerAndSdkHeaders, queryAdd, hZoneID]
    | some zone_id =>
      by_cases hneZoneID : zone_id = ""
      · simp [core.ValidateNotNil, core.ValidateStruct, ReplaceZoneOptions.validated, firstFailure,
          ValidatedField.firstFailure, ValidateTag.holds, bind, Except.bind, deref,
          RequestBuilder.ResolveRequestURL, core.NewRequestBuilder, RequestBuilder.SetBodyContentJSON,
          RequestBuilder.Build, AddHeaders_eq, AddHeaderIfNotNil_eq, AddQueryIfNotNil_eq,
          RequestBuilder.AddHeader, RequestBuilder.AddQuery, callerAndSdkHeaders, queryAdd, hZoneID, hneZoneID]
      cases hIfMatch : o.IfMatch with
      | none =>
        simp [core.ValidateNotNil, core.ValidateStruct, ReplaceZoneOptions.validated, firstFailure,
          ValidatedField.firstFailure, ValidateTag.holds, bind, Except.bind, deref,
          RequestBuilder.ResolveRequestURL, core.NewRequestBuilder, RequestBuilder.SetBodyContentJSON,
          RequestBuilder.Build, AddHeaders_eq, AddHeaderIfNotNil_eq, AddQueryIfNotNil_eq,
          RequestBuilder.AddHeader, RequestBuilder.AddQuery, callerAndSdkHeaders, queryAdd, hZoneID, hneZoneID, hIfMatch]
      | some ifMatch =>
        cases hr : svc.ResolveRequestURL svc.URL "/v1/zones/{zone_id}" [("zone_id", zone_id)] with
        | error msg =>
          simp [core.ValidateNotNil, core.ValidateStruct, ReplaceZoneOptions.validated, firstFailure,
            ValidatedField.firstFailure, ValidateTag.holds, bind, Except.bind, deref,
            RequestBuilder.ResolveRequestURL, core.NewRequestBuilder, RequestBuilder.SetBodyContentJSON,
            RequestBuilder.Build, AddHeaders_eq, AddHeaderIfNotNil_eq, AddQueryIfNotNil_eq,
            RequestBuilder.AddHeader, RequestBuilder.AddQuery, callerAndSdkHeaders, queryAdd, hZoneID, hneZoneID, hIfMatch, hr]
        | ok url =>
          simp [core.ValidateNotNil, core.ValidateStruct, ReplaceZoneOptions.validated, firstFailure,
            ValidatedField.firstFailure, ValidateTag.holds, bind, Except.bind, deref,
            RequestBuilder.ResolveRequestURL, core.NewRequestBuilder, RequestBuilder.SetBodyContentJSON,
            RequestBuilder.Build, AddHeaders_eq, AddHeaderIfNotNil_eq, AddQueryIfNotNil_eq,
            RequestBuilder.AddHeader, RequestBuilder.AddQuery, callerAndSdkHeaders, queryAdd, hZoneID, hneZoneID, hIfMatch, hr]

theorem DeleteZoneWithContext_request_ne_panic (svc : ContextBasedRestrictionsV1)
    (options : Option DeleteZoneOptions) :
    DeleteZoneWithContext_request svc options ≠ .error .panic := by
  unfold DeleteZoneWithContext_request
  cases options with
  | none =>
    simp [core.ValidateNotNil, core.ValidateStruct, DeleteZoneOptions.validated, firstFailure,
      ValidatedField.firstFailure, ValidateTag.holds, bind, Except.bind, deref,
      RequestBuilder.ResolveRequestURL, core.NewRequestBuilder, RequestBuilder.SetBodyContentJSON,
      RequestBuilder.Build, AddHeaders_eq, AddHeaderIfNotNil_eq, AddQueryIfNotNil_eq,
      RequestBuilder.AddHeader, RequestBuilder.AddQuery, callerAndSdkHeaders, queryAdd]
  | some o =>
    cases hZoneID : o.ZoneID with
    | none =>
      simp [core.ValidateNotNil, core.ValidateStruct, DeleteZoneOptions.validated, firstFailure,
        ValidatedField.firstFailure, ValidateTag.holds, bind, Except.bind, deref,
        RequestBuilder.ResolveRequestURL, core.NewRequestBuilder, RequestBuilder.SetBodyContentJSON,
        RequestBuilder.Build, AddHeaders_eq, AddHeaderIfNotNil_eq, AddQueryIfNotNil_eq,
        RequestBuilder.AddHeader, RequestBuilder.AddQuery, callerAndSdkHeaders, queryAdd, hZoneID]
    | some zone_id =>
      by_cases hneZoneID : zone_id = ""
      · simp [core.ValidateNotNil, core.ValidateStruct, DeleteZoneOptions.validated, firstFailure,
          ValidatedField.firstFailure, ValidateTag.holds, bind, Except.bind, deref,
          RequestBuilder.ResolveRequestURL, core.NewRequestBuilder, RequestBuilder.SetBodyContentJSON,
          RequestBuilder.Build, AddHeaders_eq, AddHeaderIfNotNil_eq, AddQueryIfNotNil_eq,
          RequestBuilder.AddHeader, RequestBuilder.AddQuery, callerAndSdkHeaders, queryAdd, hZoneID, hneZoneID]
      cases hr : svc.ResolveRequestURL svc.URL "/v1/zones/{zone_id}" [("zone_id", zone_id)] with
      | error msg =>
        simp [core.ValidateNotNil, core.ValidateStruct, DeleteZoneOptions.validated, firstFailure,
          ValidatedField.firstFailure, ValidateTag.holds, bind, Except.bind, deref,
          RequestBuilder.ResolveRequestURL, core.NewRequestBuilder, RequestBuilder.SetBodyContentJSON,
          RequestBuilder.Build, AddHeaders_eq, AddHeaderIfNotNil_eq, AddQueryIfNotNil_eq,
          RequestBuilder.AddHeader, RequestBuilder.AddQuery, callerAndSdkHeaders, queryAdd, hZoneID, hneZoneID, hr]
      | ok url =>
        simp [core.ValidateNotNil, core.ValidateStruct, DeleteZoneOptions.validated, firstFailure,
          ValidatedField.firstFailure, ValidateTag.holds, bind, Except.bind, deref,
          RequestBuilder.ResolveRequestURL, core.NewRequestBuilder, RequestBuilder.SetBodyContentJSON,
          RequestBuilder.Build, AddHeaders_eq, AddHeaderIfNotNil_eq, AddQueryIfNotNil_eq,
          RequestBuilder.AddHeader, RequestBuilder.AddQuery, callerAndSdkHeaders, queryAdd, hZoneID, hneZoneID, hr]

theorem ListAvailableServicerefTargetsWithContext_request_ne_panic (svc : ContextBasedRestrictionsV1)
    (options : Option ListAvailableServicerefTargetsOptions) :
    ListAvailableServicerefTargetsWithContext_request svc options ≠ .error .panic := by
  unfold ListAvailableServicerefTargetsWithContext_request
  cases options with
  | none =>
    simp [core.ValidateNotNil, core.ValidateStruct, ListAvailableServicerefTargetsOptions.validated, firstFailure,
      ValidatedField.firstFailure, ValidateTag.holds, bind, Except.bind, deref,
      RequestBuilder.ResolveRequestURL, core.NewRequestBuilder, RequestBuilder.SetBodyContentJSON,
      RequestBuilder.Build, AddHeaders_eq, AddHeaderIfNotNil_eq, AddQueryIfNotNil_eq,
      RequestBuilder.AddHeader, RequestBuilder.AddQuery, callerAndSdkHeaders, queryAdd]
  | some o =>
    cases hr : svc.ResolveRequestURL svc.URL "/v1/zones/serviceref_targets" [] with
    | error msg =>
      simp [core.ValidateNotNil, core.ValidateStruct, ListAvailableServicerefTargetsOptions.validated, firstFailure,
        ValidatedField.firstFailure, ValidateTag.holds, bind, Except.bind, deref,
        RequestBuilder.ResolveRequestURL, core.NewRequestBuilder, RequestBuilder.SetBodyContentJSON,
        RequestBuilder.Build, AddHeaders_eq, AddHeaderIfNotNil_eq, AddQueryIfNotNil_eq,
        RequestBuilder.AddHeader, RequestBuilder.AddQuery, callerAndSdkHeaders, queryAdd, hr]
    | ok url =>
      simp [core.ValidateNotNil, core.ValidateStruct, ListAvailableServicerefTargetsOptions.validated, firstFailure,
        ValidatedField.firstFailure, ValidateTag.holds, bind, Except.bind, deref,
        RequestBuilder.ResolveRequestURL, core.NewRequestBuilder, RequestBuilder.SetBodyContentJSON,
        RequestBuilder.Build, AddHeaders_eq, AddHeaderIfNotNil_eq, AddQueryIfNotNil_eq,
        RequestBuilder.AddHeader, RequestBuilder.AddQuery, callerAndSdkHeaders, queryAdd, hr]

theorem CreateRuleWithContext_request_ne_panic (svc : ContextBasedRestrictionsV1)
    (options : Option CreateRuleOptions) :
    CreateRuleWithContext_request svc options ≠ .error .panic := by
  unfold CreateRuleWithContext_request
  cases options with
  | none =>
    simp [core.ValidateNotNil, core.ValidateStruct, CreateRuleOptions.validated, firstFailure,
      ValidatedField.firstFailure, ValidateTag.holds, bind, Except.bind, deref,
      RequestBuilder.ResolveRequestURL, core.NewRequestBuilder, RequestBuilder.SetBodyContentJSON,
      RequestBuilder.Build, AddHeaders_eq, AddHeaderIfNotNil_eq, AddQueryIfNotNil_eq,
      RequestBuilder.AddHeader, RequestBuilder.AddQuery, callerAndSdkHeaders, queryAdd]
  | some o =>
    cases hr : svc.ResolveRequestURL svc.URL "/v1/rules" [] with
    | error msg =>
      simp [core.ValidateNotNil, core.ValidateStruct, CreateRuleOptions.validated, firstFailure,
        ValidatedField.firstFailure, ValidateTag.holds, bind, Except.bind, deref,
        RequestBuilder.ResolveRequestURL, core.NewRequestBuilder, RequestBuilder.SetBodyContentJSON,
        RequestBuilder.Build, AddHeaders_eq, AddHeaderIfNotNil_eq, AddQueryIfNotNil_eq,
        RequestBuilder.AddHeader, RequestBuilder.AddQuery, callerAndSdkHeaders, queryAdd, hr]
    | ok url =>
      simp [core.ValidateNotNil, core.ValidateStruct, CreateRuleOptions.validated, firstFailure,
        ValidatedField.firstFailure, ValidateTag.holds, bind, Except.bind, deref,
        RequestBuilder.ResolveRequestURL, core.NewRequestBuilder, RequestBuilder.SetBodyContentJSON,
        RequestBuilder.Build, AddHeaders_eq, AddHeaderIfNotNil_eq, AddQueryIfNotNil_eq,
        RequestBuilder.AddHeader, RequestBuilder.AddQuery, callerAndSdkHeaders, queryAdd, hr]

theorem ListRulesWithContext_request_ne_panic (svc : ContextBasedRestrictionsV1)
    (options : Option ListRulesOptions) :
    ListRulesWithContext_request svc options ≠ .error .panic := by
  unfold ListRulesWithContext_request
  cases options with
  | none =>
    simp [core.ValidateNotNil, core.ValidateStruct, ListRulesOptions.validated, firstFailure,
      ValidatedField.firstFailure, ValidateTag.holds, bind, Except.bind, deref,
      RequestBuilder.ResolveRequestURL, core.NewRequestBuilder, RequestBuilder.SetBodyContentJSON,
      RequestBuilder.Build, AddHeaders_eq, AddHeaderIfNotNil_eq, AddQueryIfNotNil_eq,
      RequestBuilder.AddHeader, RequestBuilder.AddQuery, callerAndSdkHeaders, queryAdd]
  | some o =>
    cases hAccountID : o.AccountID with
    | none =>
      simp [core.ValidateNotNil, core.ValidateStruct, ListRulesOptions.validated, firstFailure,
        ValidatedField.firstFailure, ValidateTag.holds, bind, Except.bind, deref,
        RequestBuilder.ResolveRequestURL, core.NewRequestBuilder, RequestBuilder.SetBodyContentJSON,
        RequestBuilder.Build, AddHeaders_eq, AddHeaderIfNotNil_eq, AddQueryIfNotNil_eq,
        RequestBuilder.AddHeader, RequestBuilder.AddQuery, callerAndSdkHeaders, queryAdd, hAccountID]
    | some account_id =>
      cases hr : svc.ResolveRequestURL svc.URL "/v1/rules" [] with
      | error msg =>
        simp [core.ValidateNotNil, core.ValidateStruct, ListRulesOptions.validated, firstFailure,
          ValidatedField.firstFailure, ValidateTag.holds, bind, Except.bind, deref,
          RequestBuilder.ResolveRequestURL, core.NewRequestBuilder, RequestBuilder.SetBodyContentJSON,
          RequestBuilder.Build, AddHeaders_eq, AddHeaderIfNotNil_eq, AddQueryIfNotNil_eq,
          RequestBuilder.AddHeader, RequestBuilder.AddQuery, callerAndSdkHeaders, queryAdd, hAccountID, hr]
      | ok url =>
        simp [core.ValidateNotNil, core.ValidateStruct, ListRulesOptions.validated, firstFailure,
          ValidatedField.firstFailure, ValidateTag.holds, bind, Except.bind, deref,
          RequestBuilder.ResolveRequestURL, core.NewRequestBuilder, RequestBuilder.SetBodyContentJSON,
          RequestBuilder.Build, AddHeaders_eq, AddHeaderIfNotNil_eq, AddQueryIfNotNil_eq,
          RequestBuilder.AddHeader, RequestBuilder.AddQuery, callerAndSdkHeaders, queryAdd, hAccountID, hr]

theorem GetRuleWithContext_request_ne_panic (svc : ContextBasedRestrictionsV1)
    (options : Option GetRuleOptions) :
    GetRuleWithContext_request svc options ≠ .error .panic := by
  unfold GetRuleWithContext_request
  cases options with
  | none =>
    simp [core.ValidateNotNil, core.ValidateStruct, GetRuleOptions.validated, firstFailure,
      ValidatedField.firstFailure, ValidateTag.holds, bind, Except.bind, deref,
      RequestBuilder.ResolveRequestURL, core.NewRequestBuilder, RequestBuilder.SetBodyContentJSON,
      RequestBuilder.Build, AddHeaders_eq, AddHeaderIfNotNil_eq, AddQueryIfNotNil_eq,
      RequestBuilder.AddHeader, RequestBuilder.AddQuery, callerAndSdkHeaders, queryAdd]
  | some o =>
    cases hRuleID : o.RuleID with
    | none =>
      simp [core.ValidateNotNil, core.ValidateStruct, GetRuleOptions.validated, firstFailure,
        ValidatedField.firstFailure, ValidateTag.holds, bind, Except.bind, deref,
        RequestBuilder.ResolveRequestURL, core.NewRequestBuilder, RequestBuilder.SetBodyContentJSON,
        RequestBuilder.Build, AddHeaders_eq, AddHeaderIfNotNil_eq, AddQueryIfNotNil_eq,
        RequestBuilder.AddHeader, RequestBuilder.AddQuery, callerAndSdkHeaders, queryAdd, hRuleID]
    | some rule_id =>
      by_cases hneRuleID : rule_id = ""
      · simp [core.ValidateNotNil, core.ValidateStruct, GetRuleOptions.validated, firstFailure,
          ValidatedField.firstFailure, ValidateTag.holds, bind, Except.bind, deref,
          RequestBuilder.ResolveRequestURL, core.NewRequestBuilder, RequestBuilder.SetBodyContentJSON,
          RequestBuilder.Build, AddHeaders_eq, AddHeaderIfNotNil_eq, AddQueryIfNotNil_eq,
          RequestBuilder.AddHeader, RequestBuilder.AddQuery, callerAndSdkHeaders, queryAdd, hRuleID, hneRuleID]
      cases hr : svc.ResolveRequestURL svc.URL "/v1/rules/{rule_id}" [("rule_id", rule_id)] with
      | error msg =>
        simp [core.ValidateNotNil, core.ValidateStruct, GetRuleOptions.validated, firstFailure,
          ValidatedField.firstFailure, ValidateTag.holds, bind, Except.bind, deref,
          RequestBuilder.ResolveRequestURL, core.NewRequestBuilder, RequestBuilder.SetBodyContentJSON,
          RequestBuilder.Build, AddHeaders_eq, AddHeaderIfNotNil_eq, AddQueryIfNotNil_eq,
          RequestBuilder.AddHeader, RequestBuilder.AddQuery, callerAndSdkHeaders, queryAdd, hRuleID, hneRuleID, hr]
      | ok url =>
        simp [core.ValidateNotNil, core.ValidateStruct, GetRuleOptions.validated, firstFailure,
          ValidatedField.firstFailure, ValidateTag.holds, bind, Except.bind, deref,
          RequestBuilder.ResolveRequestURL, core.NewRequestBuilder, RequestBuilder.SetBodyContentJSON,
          RequestBuilder.Build, AddHeaders_eq, AddHeaderIfNotNil_eq, AddQueryIfNotNil_eq,
          RequestBuilder.AddHeader, RequestBuilder.AddQuery, callerAndSdkHeaders, queryAdd, hRuleID, hneRuleID, hr]

theorem ReplaceRuleWithContext_request_ne_panic (svc : ContextBasedRestrictionsV1)
    (options : Option ReplaceRuleOptions) :
    ReplaceRuleWithContext_request svc options ≠ .error .panic := by
  unfold ReplaceRuleWithContext_request
  cases options with
  | none =>
    simp [core.ValidateNotNil, core.ValidateStruct, ReplaceRuleOptions.validated, firstFailure,
      ValidatedField.firstFailure, ValidateTag.holds, bind, Except.bind, deref,
      RequestBuilder.ResolveRequestURL, core.NewRequestBuilder, RequestBuilder.SetBodyContentJSON,
      RequestBuilder.Build, AddHeaders_eq, AddHeaderIfNotNil_eq, AddQueryIfNotNil_eq,
      RequestBuilder.AddHeader, RequestBuilder.AddQuery, callerAndSdkHeaders, queryAdd]
  | some o =>
    cases hRuleID : o.RuleID with
    | none =>
      simp [core.ValidateNotNil, core.ValidateStruct, ReplaceRuleOptions.validated, firstFailure,
        ValidatedField.firstFailure, ValidateTag.holds, bind, Except.bind, deref,
        RequestBuilder.ResolveRequestURL, core.NewRequestBuilder, RequestBuilder.SetBodyContentJSON,
        RequestBuilder.Build, AddHeaders_eq, AddHeaderIfNotNil_eq, AddQueryIfNotNil_eq,
        RequestBuilder.AddHeader, RequestBuilder.AddQuery, callerAndSdkHeaders, queryAdd, hRuleID]
    | some rule_id =>
      by_cases hneRuleID : rule_id = ""
      · simp [core.ValidateNotNil, core.ValidateStruct, ReplaceRuleOptions.validated, firstFailure,
          ValidatedField.firstFailure, ValidateTag.holds, bind, Except.bind, deref,
          RequestBuilder.ResolveRequestURL, core.NewRequestBuilder, RequestBuilder.SetBodyContentJSON,
          RequestBuilder.Build, AddHeaders_eq, AddHeaderIfNotNil_eq, AddQueryIfNotNil_eq,
          RequestBuilder.AddHeader, RequestBuilder.AddQuery, callerAndSdkHeaders, queryAdd, hRuleID, hneRuleID]
      cases hIfMatch : o.IfMatch with
      | none =>
        simp [core.ValidateNotNil, core.ValidateStruct, ReplaceRuleOptions.validated, firstFailure,
          ValidatedField.firstFailure, ValidateTag.holds, bind, Except.bind, deref,
          RequestBuilder.ResolveRequestURL, core.NewRequestBuilder, RequestBuilder.SetBodyContentJSON,
          RequestBuilder.Build, AddHeaders_eq, AddHeaderIfNotNil_eq, AddQueryIfNotNil_eq,
          RequestBuilder.AddHeader, RequestBuilder.AddQuery, callerAndSdkHeaders, queryAdd, hRuleID, hneRuleID, hIfMatch]
      | some ifMatch =>
        cases hr : svc.ResolveRequestURL svc.URL "/v1/rules/{rule_id}" [("rule_id", rule_id)] with
        | error msg =>
          simp [core.ValidateNotNil, core.ValidateStruct, ReplaceRuleOptions.validated, firstFailure,
            ValidatedField.firstFailure, ValidateTag.holds, bind, Except.bind, deref,
            RequestBuilder.ResolveRequestURL, core.NewRequestBuilder, RequestBuilder.SetBodyContentJSON,
            RequestBuilder.Build, AddHeaders_eq, AddHeaderIfNotNil_eq, AddQueryIfNotNil_eq,
            RequestBuilder.AddHeader, RequestBuilder.AddQuery, callerAndSdkHeaders, queryAdd, hRuleID, hneRuleID, hIfMatch, hr]
        | ok url =>
          simp [core.ValidateNotNil, core.ValidateStruct, ReplaceRuleOptions.validated, firstFailure,
            ValidatedField.firstFailure, ValidateTag.holds, bind, Except.bind, deref,
            RequestBuilder.ResolveRequestURL, core.NewRequestBuilder, RequestBuilder.SetBodyContentJSON,
            RequestBuilder.Build, AddHeaders_eq, AddHeaderIfNotNil_eq, AddQueryIfNotNil_eq,
            RequestBuilder.AddHeader, RequestBuilder.AddQuery, callerAndSdkHeaders, queryAdd, hRuleID, hneRuleID, hIfMatch, hr]

theorem DeleteRuleWithContext_request_ne_panic (svc : ContextBasedRestrictionsV1)
    (options : Option DeleteRuleOptions) :
    DeleteRuleWithContext_request svc options ≠ .error .panic := by
  unfold DeleteRuleWithContext_request
  cases options with
  | none =>
    simp [core.ValidateNotNil, core.ValidateStruct, DeleteRuleOptions.validated, firstFailure,
      ValidatedField.firstFailure, ValidateTag.holds, bind, Except.bind, deref,
      RequestBuilder.ResolveRequestURL, core.NewRequestBuilder, RequestBuilder.SetBodyContentJSON,
      RequestBuilder.Build, AddHeaders_eq, AddHeaderIfNotNil_eq, AddQueryIfNotNil_eq,
      RequestBuilder.AddHeader, RequestBuilder.AddQuery, callerAndSdkHeaders, queryAdd]
  | some o =>
    cases hRuleID : o.RuleID with
    | none =>
      simp [core.ValidateNotNil, core.ValidateStruct, DeleteRuleOptions.validated, firstFailure,
        ValidatedField.firstFailure, ValidateTag.holds, bind, Except.bind, deref,
        RequestBuilder.ResolveRequestURL, core.NewRequestBuilder, RequestBuilder.SetBodyContentJSON,
        RequestBuilder.Build, AddHeaders_eq, AddHeaderIfNotNil_eq, AddQueryIfNotNil_eq,
        RequestBuilder.AddHeader, RequestBuilder.AddQuery, callerAndSdkHeaders, queryAdd, hRuleID]
    | some rule_id =>
      by_cases hneRuleID : rule_id = ""
      · simp [core.ValidateNotNil, core.ValidateStruct, DeleteRuleOptions.validated, firstFailure,
          ValidatedField.firstFailure, ValidateTag.holds, bind, Except.bind, deref,
          RequestBuilder.ResolveRequestURL, core.NewRequestBuilder, RequestBuilder.SetBodyContentJSON,
          RequestBuilder.Build, AddHeaders_eq, AddHeaderIfNotNil_eq, AddQueryIfNotNil_eq,
          RequestBuilder.AddHeader, RequestBuilder.AddQuery, callerAndSdkHeaders, queryAdd, hRuleID, hneRuleID]
      cases hr : svc.ResolveRequestURL svc.URL "/v1/rules/{rule_id}" [("rule_id", rule_id)] with
      | error msg =>
        simp [core.ValidateNotNil, core.ValidateStruct, DeleteRuleOptions.validated, firstFailure,
          ValidatedField.firstFailure, ValidateTag.holds, bind, Except.bind, deref,
          RequestBuilder.ResolveRequestURL, core.NewRequestBuilder, RequestBuilder.SetBodyContentJSON,
          RequestBuilder.Build, AddHeaders_eq, AddHeaderIfNotNil_eq, AddQueryIfNotNil_eq,
          RequestBuilder.AddHeader, RequestBuilder.AddQuery, callerAndSdkHeaders, queryAdd, hRuleID, hneRuleID, hr]
      | ok url =>
        simp [core.ValidateNotNil, core.ValidateStruct, DeleteRuleOptions.validated, firstFailure,
          ValidatedField.firstFailure, ValidateTag.holds, bind, Except.bind, deref,
          RequestBuilder.ResolveRequestURL, core.NewRequestBuilder, RequestBuilder.SetBodyContentJSON,
          RequestBuilder.Build, AddHeaders_eq, AddHeaderIfNotNil_eq, AddQueryIfNotNil_eq,
          RequestBuilder.AddHeader, RequestBuilder.AddQuery, callerAndSdkHeaders, queryAdd, hRuleID, hneRuleID, hr]

theorem GetAccountSettingsWithContext_request_ne_panic (svc : ContextBasedRestrictionsV1)
    (options : Option GetAccountSettingsOptions) :
    GetAccountSettingsWithContext_request svc options ≠ .error .panic := by
  unfold GetAccountSettingsWithContext_request
  cases options with
  | none =>
    simp [core.ValidateNotNil, core.ValidateStruct, GetAccountSettingsOptions.validated, firstFailure,
      ValidatedField.firstFailure, ValidateTag.holds, bind, Except.bind, deref,
      RequestBuilder.ResolveRequestURL, core.NewRequestBuilder, RequestBuilder.SetBodyContentJSON,
      RequestBuilder.Build, AddHeaders_eq, AddHeaderIfNotNil_eq, AddQueryIfNotNil_eq,
      RequestBuilder.AddHeader, RequestBuilder.AddQuery, callerAndSdkHeaders, queryAdd]
  | some o =>
    cases hAccountID : o.AccountID with
    | none =>
      simp [core.ValidateNotNil, core.ValidateStruct, GetAccountSettingsOptions.validated, firstFailure,
        ValidatedField.firstFailure, ValidateTag.holds, bind, Except.bind, deref,
        RequestBuilder.ResolveRequestURL, core.NewRequestBuilder, RequestBuilder.SetBodyContentJSON,
        RequestBuilder.Build, AddHeaders_eq, AddHeaderIfNotNil_eq, AddQueryIfNotNil_eq,
        RequestBuilder.AddHeader, RequestBuilder.AddQuery, callerAndSdkHeaders, queryAdd, hAccountID]
    | some account_id =>
      by_cases hneAccountID : account_id = ""
      · simp [core.ValidateNotNil, core.ValidateStruct, GetAccountSettingsOptions.validated, firstFailure,
          ValidatedField.firstFailure, ValidateTag.holds, bind, Except.bind, deref,
          RequestBuilder.ResolveRequestURL, core.NewRequestBuilder, RequestBuilder.SetBodyContentJSON,
          RequestBuilder.Build, AddHeaders_eq, AddHeaderIfNotNil_eq, AddQueryIfNotNil_eq,
          RequestBuilder.AddHeader, RequestBuilder.AddQuery, callerAndSdkHeaders, queryAdd, hAccountID, hneAccountID]
      cases hr : svc.ResolveRequestURL svc.URL "/v1/account_settings/{account_id}" [("account_id", account_id)] with
      | error msg =>
        simp [core.ValidateNotNil, core.ValidateStruct, GetAccountSettingsOptions.validated, firstFailure,
          ValidatedField.firstFailure, ValidateTag.holds, bind, Except.bind, deref,
          RequestBuilder.ResolveRequestURL, core.NewRequestBuilder, RequestBuilder.SetBodyContentJSON,
          RequestBuilder.Build, AddHeaders_eq, AddHeaderIfNotNil_eq, AddQueryIfNotNil_eq,
          RequestBuilder.AddHeader, RequestBuilder.AddQuery, callerAndSdkHeaders, queryAdd, hAccountID, hneAccountID, hr]
      | ok url =>
        simp [core.ValidateNotNil, core.ValidateStruct, GetAccountSettingsOptions.validated, firstFailure,
          ValidatedField.firstFailure, ValidateTag.holds, bind, Except.bind, deref,
          RequestBuilder.ResolveRequestURL, core.NewRequestBuilder, RequestBuilder.SetBodyContentJSON,
          RequestBuilder.Build, AddHeaders_eq, AddHeaderIfNotNil_eq, AddQueryIfNotNil_eq,
          RequestBuilder.AddHeader, RequestBuilder.AddQuery, callerAndSdkHeaders, queryAdd, hAccountID, hneAccountID, hr]

/-- C30: no operation of the service panics on a nil dereference, whatever options it
is given (nil options, options with a required field unset, or complete
ones): every dereference of a required option pointer (`*ZoneID`, `*RuleID`,
`*AccountID`) comes after `core.ValidateNotNil` and `core.ValidateStruct`, which
have already returned an error when the options or the field are nil. -/
theorem operations_never_dereference_nil (svc : ContextBasedRestrictionsV1) :
    (∀ options : Option CreateZoneOptions,
      CreateZoneWithContext_request svc options ≠ .error .panic ∧
      (CreateZoneWithContext svc options).outcome ≠ .error .panic) ∧
    (∀ options : Option ListZonesOptions,
      ListZonesWithContext_request svc options ≠ .error .panic ∧
      (ListZonesWithContext svc options).outcome ≠ .error .panic) ∧
    (∀ options : Option GetZoneOptions,
      GetZoneWithContext_request svc options ≠ .error .panic ∧
      (GetZoneWithContext svc options).outcome ≠ .error .panic) ∧
    (∀ options : Option ReplaceZoneOptions,
      ReplaceZoneWithContext_request svc options ≠ .error .panic ∧
      (ReplaceZoneWithContext svc options).outcome ≠ .error .panic) ∧
    (∀ options : Option DeleteZoneOptions,
      DeleteZoneWithContext_request svc options ≠ .error .panic ∧
      (DeleteZoneWithContext svc options).outcome ≠ .error .panic) ∧
    (∀ options : Option ListAvailableServicerefTargetsOptions,
      ListAvailableServicerefTargetsWithContext_request svc options ≠ .error .panic ∧
      (ListAvailableServicerefTargetsWithContext svc options).outcome ≠ .error .panic) ∧
    (∀ options : Option CreateRuleOptions,
      CreateRuleWithContext_request svc options ≠ .error .panic ∧
      (CreateRuleWithContext svc options).outcome ≠ .error .panic) ∧
    (∀ options : Option ListRulesOptions,
      ListRulesWithContext_request svc options ≠ .error .panic ∧
      (ListRulesWithContext svc options).outcome ≠ .error .panic) ∧
    (∀ options : Option GetRuleOptions,
      GetRuleWithContext_request svc options ≠ .error .panic ∧
      (GetRuleWithContext svc options).outcome ≠ .error .panic) ∧
    (∀ options : Option ReplaceRuleOptions,
      ReplaceRuleWithContext_request svc options ≠ .error .panic ∧
      (ReplaceRuleWithContext svc options).outcome ≠ .error .panic) ∧
    (∀ options : Option DeleteRuleOptions,
      DeleteRuleWithContext_request svc options ≠ .error .panic ∧
      (DeleteRuleWithContext svc options).outcome ≠ .error .panic) ∧
    (∀ options : Option GetAccountSettingsOptions,
      GetAccountSettingsWithContext_request svc options ≠ .error .panic ∧
      (GetAccountSettingsWithContext svc options).outcome ≠ .error .panic) :=
  ⟨fun options => ⟨CreateZoneWithContext_request_ne_panic svc options,
     runOperation_outcome_ne_panic _ _ (CreateZoneWithContext_request_ne_panic svc options)
       fun request => exchange_outcome_ne_panic svc request _⟩,
   fun options => ⟨ListZonesWithContext_request_ne_panic svc options,
     runOperation_outcome_ne_panic _ _ (ListZonesWithContext_request_ne_panic svc options)
       fun request => exchange_outcome_ne_panic svc request _⟩,
   fun options => ⟨GetZoneWithContext_request_ne_panic svc options,
     runOperation_outcome_ne_panic _ _ (GetZoneWithContext_request_ne_panic svc options)
       fun request => exchange_outcome_ne_panic svc request _⟩,
   fun options => ⟨ReplaceZoneWithContext_request_ne_panic svc options,
     runOperation_outcome_ne_panic _ _ (ReplaceZoneWithContext_request_ne_panic svc options)
       fun request => exchange_outcome_ne_panic svc request _⟩,
   fun options => ⟨DeleteZoneWithContext_request_ne_panic svc options,
     runOperation_outcome_ne_panic _ _ (DeleteZoneWithContext_request_ne_panic svc options)
       fun request => exchangeNoResult_outcome_ne_panic svc request⟩,
   fun options => ⟨ListAvailableServicerefTargetsWithContext_request_ne_panic svc options,
     runOperation_outcome_ne_panic _ _ (ListAvailableServicerefTargetsWithContext_request_ne_panic svc options)
       fun request => exchange_outcome_ne_panic svc request _⟩,
   fun options => ⟨CreateRuleWithContext_request_ne_panic svc options,
     runOperation_outcome_ne_panic _ _ (CreateRuleWithContext_request_ne_panic svc options)
       fun request => exchange_outcome_ne_panic svc request _⟩,
   fun options => ⟨ListRulesWithContext_request_ne_panic svc options,
     runOperation_outcome_ne_panic _ _ (ListRulesWithContext_request_ne_panic svc options)
       fun request => exchange_outcome_ne_panic svc request _⟩,
   fun options => ⟨GetRuleWithContext_request_ne_panic svc options,
     runOperation_outcome_ne_panic _ _ (GetRuleWithContext_request_ne_panic svc options)
       fun request => exchange_outcome_ne_panic svc request _⟩,
   fun options => ⟨ReplaceRuleWithContext_request_ne_panic svc options,
     runOperation_outcome_ne_panic _ _ (ReplaceRuleWithContext_request_ne_panic svc options)
       fun request => exchange_outcome_ne_panic svc request _⟩,
   fun options => ⟨DeleteRuleWithContext_request_ne_panic svc options,
     runOperation_outcome_ne_panic _ _ (DeleteRuleWithContext_request_ne_panic svc options)
       fun request => exchangeNoResult_outcome_ne_panic svc request⟩,
   fun options => ⟨GetAccountSettingsWithContext_request_ne_panic svc options,
     runOperation_outcome_ne_panic _ _ (GetAccountSettingsWithContext_request_ne_panic svc options)
       fun request => exchange_outcome_ne_panic svc request _⟩⟩

/-! ## The attribute assignments one by one -/

theorem setNetworkInterface_eq_applySets (env : Env) (calls : List Call) (d : ResourceData)
    (ins_id : String) (networkInterface : NetworkInterface) :
    setNetworkInterface env calls d ins_id networkInterface =
      match networkInterface.ID with
      | none => { outcome := .panicked, d := d, calls := calls }
      | some niID =>
        applySets env calls { d with id := some (ins_id ++ "/" ++ niID) }
          (attributeSets env networkInterface) := by
  unfold setNetworkInterface attributeSets
  cases networkInterface.ID with
  | none => rfl
  | some niID =>
    cases networkInterface.FloatingIps <;> cases networkInterface.SecurityGroups <;>
      cases networkInterface.Subnet <;> rfl

theorem applySets_cons (env : Env) (calls : List Call) (d : ResourceData)
    (key : String) (value : Value) (prefix_ : String) (rest : List (String × Value × String)) :
    applySets env calls d ((key, value, prefix_) :: rest) =
      match env.setError key value with
      | some e => { outcome := .returned (some (prefix_ ++ e)), d := d, calls := calls }
      | none => applySets env calls { d with attrs := mapSet d.attrs key value } rest := by
  simp only [applySets, setOrReturn, ResourceData.Set]
  cases env.setError key value <;> rfl

theorem applySets_calls (env : Env) (calls : List Call) (d : ResourceData)
    (sets : List (String × Value × String)) :
    (applySets env calls d sets).calls = calls ∧
      (applySets env calls d sets).outcome ≠ .panicked := by
  induction sets generalizing d with
  | nil => exact ⟨rfl, by simp [applySets]⟩
  | cons s rest ih =>
    obtain ⟨key, value, prefix_⟩ := s
    rw [applySets_cons]
    cases env.setError key value with
    | some e => exact ⟨rfl, by simp⟩
    | none => exact ih _

theorem applySets_success (env : Env) (calls : List Call) (d : ResourceData)
    (sets : List (String × Value × String))
    (h : (applySets env calls d sets).outcome = .returned none) :
    (applySets env calls d sets).d = { d with attrs := storeAll d.attrs sets } := by
  induction sets generalizing d with
  | nil => rfl
  | cons s rest ih =>
    obtain ⟨key, value, prefix_⟩ := s
    rw [applySets_cons] at h ⊢
    cases hs : env.setError key value with
    | some e => simp [hs] at h
    | none =>
      simp only [hs] at h ⊢
      rw [ih _ h]
      rfl

theorem applySets_error (env : Env) (calls : List Call) (d : ResourceData)
    (sets : List (String × Value × String)) (msg : String)
    (h : (applySets env calls d sets).outcome = .returned (some msg)) :
    ∃ stored key value prefix_ rest e,
      sets = stored ++ (key, value, prefix_) :: rest ∧
      (∀ s ∈ stored, env.setError s.1 s.2.1 = none) ∧
      env.setError key value = some e ∧ msg = prefix_ ++ e ∧
      (applySets env calls d sets).d = { d with attrs := storeAll d.attrs stored } := by
  induction sets generalizing d with
  | nil => simp [applySets] at h
  | cons s rest ih =>
    obtain ⟨key, value, prefix_⟩ := s
    rw [applySets_cons] at h ⊢
    cases hs : env.setError key value with
    | some e =>
      simp only [hs] at h ⊢
      refine ⟨[], key, value, prefix_, rest, e, rfl, by simp, hs, ?_, rfl⟩
      simpa using h.symm
    | none =>
      simp only [hs] at h ⊢
      obtain ⟨stored, k, v, p, r, e, hsplit, hstored, hfail, hmsg, hd⟩ := ih _ h
      refine ⟨(key, value, prefix_) :: stored, k, v, p, r, e, by rw [hsplit]; rfl, ?_, hfail,
        hmsg, ?_⟩
      · intro s hmem
        rcases List.mem_cons.1 hmem with rfl | hmem
        · exact hs
        · exact hstored s hmem
      · rw [hd]
        rfl

/-! ## The three ways a scan ends -/

theorem scanNetworkInterfaces_cases (env : Env) (calls : List Call) (d : ResourceData)
    (ins_id network_interface_name : String) (interfaces : List NetworkInterface) :
    ((∀ ni ∈ interfaces, ∃ n, ni.Name = some n ∧ n ≠ network_interface_name) ∧
      scanNetworkInterfaces env calls d ins_id network_interface_name interfaces =
        { outcome := .returned
            (some ("Network interface " ++ network_interface_name ++ " not found.")),
          d := d, calls := calls }) ∨
    ∃ pre ni post, interfaces = pre ++ ni :: post ∧
      (∀ i ∈ pre, ∃ n, i.Name = some n ∧ n ≠ network_interface_name) ∧
      ((ni.Name = none ∧
          scanNetworkInterfaces env calls d ins_id network_interface_name interfaces =
            { outcome := .panicked, d := d, calls := calls }) ∨
        (ni.Name = some network_interface_name ∧
          scanNetworkInterfaces env calls d ins_id network_interface_name interfaces =
            setNetworkInterface env calls d ins_id ni)) := by
  induction interfaces with
  | nil => exact Or.inl ⟨by simp, rfl⟩
  | cons x rest ih =>
    cases hn : x.Name with
    | none =>
      refine Or.inr ⟨[], x, rest, rfl, by simp, Or.inl ⟨hn, ?_⟩⟩
      simp only [scanNetworkInterfaces, hn]
    | some name =>
      by_cases heq : name = network_interface_name
      · refine Or.inr ⟨[], x, rest, rfl, by simp, Or.inr ⟨by rw [hn, heq], ?_⟩⟩
        simp only [scanNetworkInterfaces, hn, heq, if_true]
      · have hstep : scanNetworkInterfaces env calls d ins_id network_interface_name (x :: rest) =
            scanNetworkInterfaces env calls d ins_id network_interface_name rest := by
          simp only [scanNetworkInterfaces, hn, heq, if_false]
        have hx : ∀ i ∈ [x], ∃ n, i.Name = some n ∧ n ≠ network_interface_name := by
          intro i hi
          simp only [List.mem_singleton] at hi
          subst hi
          exact ⟨name, hn, heq⟩
        rcases ih with ⟨hall, hres⟩ | ⟨pre, ni, post, hsplit, hpre, hend⟩
        · refine Or.inl ⟨?_, by rw [hstep, hres]⟩
          intro i hi
          rcases List.mem_cons.1 hi with rfl | hi
          · exact ⟨name, hn, heq⟩
          · exact hall i hi
        · refine Or.inr ⟨x :: pre, ni, post, by rw [hsplit]; rfl, ?_, ?_⟩
          · intro i hi
            rcases List.mem_cons.1 hi with rfl | hi
            · exact ⟨name, hn, heq⟩
            · exact hpre i hi
          · rw [hstep]
            exact hend

theorem scanInstances_cases (env : Env) (calls : List Call) (d : ResourceData)
    (instance_name : String) (err : Option String) (allrecs : List Instance) :
    ((∀ inst ∈ allrecs, ∃ n, inst.Name = some n ∧ n ≠ instance_name) ∧
      scanInstances env calls d instance_name err allrecs =
        { outcome := .returned
            (some ("Instance " ++ instance_name ++ " not found. " ++ formatError err)),
          d := d, calls := calls }) ∨
    ∃ pre inst post, allrecs = pre ++ inst :: post ∧
      (∀ i ∈ pre, ∃ n, i.Name = some n ∧ n ≠ instance_name) ∧
      ((inst.Name = none ∧
          scanInstances env calls d instance_name err allrecs =
            { outcome := .panicked, d := d, calls := calls }) ∨
        (inst.Name = some instance_name ∧ inst.ID = none ∧
          scanInstances env calls d instance_name err allrecs =
            { outcome := .panicked, d := d, calls := calls }) ∨
        (∃ ins_id, inst.Name = some instance_name ∧ inst.ID = some ins_id ∧
          scanInstances env calls d instance_name err allrecs =
            match env.ListInstanceNetworkInterfacesWithContext ins_id with
            | .error failure =>
              { outcome := .returned
                  (some ("ListSecurityGroupNetworkInterfacesWithContext failed "
                    ++ failure.err ++ "\n" ++ failure.response)),
                d := d, calls := calls ++ [.listInstanceNetworkInterfaces ins_id] }
            | .ok none =>
              { outcome := .panicked, d := d,
                calls := calls ++ [.listInstanceNetworkInterfaces ins_id] }
            | .ok (some networkInterfaceCollection) =>
              scanNetworkInterfaces env (calls ++ [.listInstanceNetworkInterfaces ins_id]) d
                ins_id d.network_interface_name
                networkInterfaceCollection.NetworkInterfaces)) := by
  induction allrecs with
  | nil => exact Or.inl ⟨by simp, rfl⟩
  | cons x rest ih =>
    cases hn : x.Name with
    | none =>
      refine Or.inr ⟨[], x, rest, rfl, by simp, Or.inl ⟨hn, ?_⟩⟩
      simp only [scanInstances, hn]
    | some name =>
      by_cases heq : name = instance_name
      · cases hid : x.ID with
        | none =>
          refine Or.inr ⟨[], x, rest, rfl, by simp, Or.inr (Or.inl ⟨by rw [hn, heq], hid, ?_⟩)⟩
          simp only [scanInstances, hn, heq, if_true, hid]
        | some ins_id =>
          refine Or.inr ⟨[], x, rest, rfl, by simp,
            Or.inr (Or.inr ⟨ins_id, by rw [hn, heq], hid, ?_⟩)⟩
          simp only [scanInstances, hn, heq, if_true, hid]
      · have hstep : scanInstances env calls d instance_name err (x :: rest) =
            scanInstances env calls d instance_name err rest := by
          simp only [scanInstances, hn, heq, if_false]
        rcases ih with ⟨hall, hres⟩ | ⟨pre, inst, post, hsplit, hpre, hend⟩
        · refine Or.inl ⟨?_, by rw [hstep, hres]⟩
          intro i hi
          rcases List.mem_cons.1 hi with rfl | hi
          · exact ⟨name, hn, heq⟩
          · exact hall i hi
        · refine Or.inr ⟨x :: pre, inst, post, by rw [hsplit]; rfl, ?_, ?_⟩
          · intro i hi
            rcases List.mem_cons.1 hi with rfl | hi
            · exact ⟨name, hn, heq⟩
            · exact hpre i hi
          · rw [hstep]
            exact hend

theorem setNetworkInterface_calls (env : Env) (calls : List Call) (d : ResourceData)
    (ins_id : String) (networkInterface : NetworkInterface) :
    (setNetworkInterface env calls d ins_id networkInterface).calls = calls := by
  rw [setNetworkInterface_eq_applySets]
  cases networkInterface.ID with
  | none => rfl
  | some niID => exact (applySets_calls env calls _ _).1

theorem scanNetworkInterfaces_calls (env : Env) (calls : List Call) (d : ResourceData)
    (ins_id network_interface_name : String) (interfaces : List NetworkInterface) :
    (scanNetworkInterfaces env calls d ins_id network_interface_name interfaces).calls =
      calls := by
  rcases scanNetworkInterfaces_cases env calls d ins_id network_interface_name interfaces with
    ⟨_, hres⟩ | ⟨pre, ni, post, _, _, ⟨_, hres⟩ | ⟨_, hres⟩⟩
  · rw [hres]
  · rw [hres]
  · rw [hres]
    exact setNetworkInterface_calls env calls d ins_id ni

theorem scanInstances_calls (env : Env) (calls : List Call) (d : ResourceData)
    (instance_name : String) (err : Option String) (allrecs : List Instance) :
    (scanInstances env calls d instance_name err allrecs).calls = calls ∨
      ∃ ins_id, (scanInstances env calls d instance_name err allrecs).calls =
        calls ++ [.listInstanceNetworkInterfaces ins_id] := by
  rcases scanInstances_cases env calls d instance_name err allrecs with
    ⟨_, hres⟩ | ⟨pre, inst, post, _, _, ⟨_, hres⟩ | ⟨_, _, hres⟩ | ⟨ins_id, _, _, hres⟩⟩
  · exact Or.inl (by rw [hres])
  · exact Or.inl (by rw [hres])
  · exact Or.inl (by rw [hres])
  · refine Or.inr ⟨ins_id, ?_⟩
    rw [hres]
    cases env.ListInstanceNetworkInterfacesWithContext ins_id with
    | error failure => rfl
    | ok result =>
      cases result with
      | none => rfl
      | some collection => exact scanNetworkInterfaces_calls env _ d ins_id _ _

theorem Read_calls (env : Env) (fuel : Nat) (d : ResourceData) :
    ∃ starts : List (Option String),
      (dataSourceIBMIsInstanceNetworkInterfaceRead env fuel d).calls =
          starts.map Call.listInstances ∨
        ∃ ins_id, (dataSourceIBMIsInstanceNetworkInterfaceRead env fuel d).calls =
          starts.map Call.listInstances ++ [.listInstanceNetworkInterfaces ins_id] := by
  unfold dataSourceIBMIsInstanceNetworkInterfaceRead
  cases env.VpcV1API with
  | some e => exact ⟨[], Or.inl rfl⟩
  | none =>
    cases hloop : listInstancesLoop env fuel "" false [] [] with
    | mk out starts =>
      cases out with
      | looping => exact ⟨starts, Or.inl rfl⟩
      | failed failure => exact ⟨starts, Or.inl rfl⟩
      | panicked => exact ⟨starts, Or.inl rfl⟩
      | done allrecs => exact ⟨starts, scanInstances_calls env _ d _ _ allrecs⟩

theorem filter_listInstances (starts : List (Option String)) :
    (starts.map Call.listInstances).filter Call.isListInstanceNetworkInterfaces = [] := by
  induction starts with
  | nil => rfl
  | cons s rest ih => simp [Call.isListInstanceNetworkInterfaces]

/-! ## The first instance of the name decides -/

/-- C27: on every path the handler makes at most one
`ListInstanceNetworkInterfaces` call; and when the pagination loop is done and
the first listed instance named `instance_name` (an instance with an ID, whose
interfaces the service lists) has no interface named `network_interface_name`,
the read returns "Network interface <name> not found." right after that one
call, with the resource data untouched, whatever instances follow in the
list: a later instance of the same name is never examined. -/
theorem Read_first_named_instance_decides (env : Env) (fuel : Nat) (d : ResourceData) :
    ((dataSourceIBMIsInstanceNetworkInterfaceRead env fuel d).calls.filter
        Call.isListInstanceNetworkInterfaces).length ≤ 1 ∧
    ∀ (allrecs : List Instance) (starts : List (Option String)) (pre post : List Instance)
      (inst : Instance) (ins_id : String) (collection : NetworkInterfaceUnpaginatedCollection),
      env.VpcV1API = none →
      listInstancesLoop env fuel "" false [] [] = (.done allrecs, starts) →
      allrecs = pre ++ inst :: post →
      (∀ i ∈ pre, ∃ n, i.Name = some n ∧ n ≠ d.instance_name) →
      inst.Name = some d.instance_name → inst.ID = some ins_id →
      env.ListInstanceNetworkInterfacesWithContext ins_id = .ok (some collection) →
      (∀ ni ∈ collection.NetworkInterfaces,
        ∃ n, ni.Name = some n ∧ n ≠ d.network_interface_name) →
      dataSourceIBMIsInstanceNetworkInterfaceRead env fuel d =
        { outcome := .returned
            (some ("Network interface " ++ d.network_interface_name ++ " not found.")),
          d := d,
          calls := starts.map Call.listInstances ++ [.listInstanceNetworkInterfaces ins_id] } := by
  constructor
  · obtain ⟨starts, h | ⟨ins_id, h⟩⟩ := Read_calls env fuel d
    · rw [h, filter_listInstances]
      exact Nat.zero_le 1
    · rw [h, List.filter_append, filter_listInstances]
      simp [Call.isListInstanceNetworkInterfaces]
  · intro allrecs starts pre post inst ins_id collection hclient hloop hsplit hpre hname hid
      hcall hnone
    rw [Read_of_loop_done env fuel d allrecs starts hclient hloop, hsplit,
      scanInstances_first_match env _ d d.instance_name none pre post inst ins_id hpre hname hid,
      hcall]
    exact scanNetworkInterfaces_no_match env _ d ins_id d.network_interface_name _ hnone

/-- Witness of C27: of the two instances named "beta", the first ("i-2") has only
"eth1" and the second ("i-3") has "eth0"; the read of "beta"/"eth0" fails after
the single call for "i-2". -/
theorem Read_first_named_instance_decides_witness :
    (sampleEnvByInstance [samplePage1, samplePage2]
        (fun id => if id = "i-3" then [sampleInterface "n-9" "eth0"]
          else [sampleInterface "n-1" "eth1"]) []).ListInstanceNetworkInterfacesWithContext "i-3" =
      .ok (some { NetworkInterfaces := [sampleInterface "n-9" "eth0"] }) ∧
    dataSourceIBMIsInstanceNetworkInterfaceRead
        (sampleEnvByInstance [samplePage1, samplePage2]
          (fun id => if id = "i-3" then [sampleInterface "n-9" "eth0"]
            else [sampleInterface "n-1" "eth1"]) [])
        5 (sampleData "beta" "eth0") =
      { outcome := .returned (some ("Network interface " ++ "eth0" ++ " not found.")),
        d := sampleData "beta" "eth0",
        calls := [none, some "c1"].map Call.listInstances ++
          [.listInstanceNetworkInterfaces "i-2"] } :=
  ⟨rfl,
   (Read_first_named_instance_decides
      (sampleEnvByInstance [samplePage1, samplePage2]
        (fun id => if id = "i-3" then [sampleInterface "n-9" "eth0"]
          else [sampleInterface "n-1" "eth1"]) [])
      5 (sampleData "beta" "eth0")).2
      [{ ID := some "i-1", Name := some "alpha" }, { ID := some "i-2", Name := some "beta" },
        { ID := some "i-3", Name := some "beta" }]
      [none, some "c1"] [{ ID := some "i-1", Name := some "alpha" }]
      [{ ID := some "i-3", Name := some "beta" }] { ID := some "i-2", Name := some "beta" } "i-2"
      { NetworkInterfaces := [sampleInterface "n-1" "eth1"] } rfl rfl rfl
      (by
        intro i hi
        simp only [List.mem_singleton] at hi
        subst hi
        exact ⟨"alpha", rfl, by decide⟩)
      rfl rfl rfl
      (by
        intro ni hni
        simp only [List.mem_singleton] at hni
        subst hni
        exact ⟨"eth1", rfl, by decide⟩)⟩

/-- C28: when the read reports that no instance matches (the client was built,
the pagination loop ended with `allrecs`, and every record has a name other than
`instance_name`), the error put at the end of "Instance %s not found. %s" is the
`err` of the function scope, which is nil there: the read is the scan of
`allrecs` started with a nil `err`, and its diagnostic is exactly
"Instance <name> not found. %!s(<nil>)", whatever the list calls returned; the
resource data is untouched and no further call is made. -/
theorem Read_instance_not_found_err_nil (env : Env) (fuel : Nat) (d : ResourceData)
    (allrecs : List Instance) (starts : List (Option String))
    (hclient : env.VpcV1API = none)
    (hloop : listInstancesLoop env fuel "" false [] [] = (.done allrecs, starts))
    (hno : ∀ inst ∈ allrecs, ∃ n, inst.Name = some n ∧ n ≠ d.instance_name) :
    dataSourceIBMIsInstanceNetworkInterfaceRead env fuel d =
        scanInstances env (starts.map Call.listInstances) d d.instance_name none allrecs ∧
      dataSourceIBMIsInstanceNetworkInterfaceRead env fuel d =
        { outcome := .returned
            (some ("Instance " ++ d.instance_name ++ " not found. " ++ "%!s(<nil>)")),
          d := d, calls := starts.map Call.listInstances } := by
  have hscan := Read_of_loop_done env fuel d allrecs starts hclient hloop
  refine ⟨hscan, ?_⟩
  rw [hscan, scanInstances_no_match env _ d d.instance_name none allrecs hno]
  rfl

/-- Witness of C28: no instance on the two sample pages is named "gamma". -/
theorem Read_instance_not_found_err_nil_witness :
    dataSourceIBMIsInstanceNetworkInterfaceRead
        (sampleEnv [samplePage1, samplePage2] [sampleInterface "n-1" "eth0"]) 5
        (sampleData "gamma" "eth0") =
      { outcome := .returned (some ("Instance " ++ "gamma" ++ " not found. " ++ "%!s(<nil>)")),
        d := sampleData "gamma" "eth0",
        calls := [none, some "c1"].map Call.listInstances } :=
  (Read_instance_not_found_err_nil
    (sampleEnv [samplePage1, samplePage2] [sampleInterface "n-1" "eth0"]) 5
    (sampleData "gamma" "eth0")
    [{ ID := some "i-1", Name := some "alpha" }, { ID := some "i-2", Name := some "beta" },
      { ID := some "i-3", Name := some "beta" }]
    [none, some "c1"] rfl rfl
    (by
      intro i hi
      simp only [List.mem_cons, List.mem_singleton, List.not_mem_nil, or_false] at hi
      rcases hi with rfl | rfl | rfl
      · exact ⟨"alpha", rfl, by decide⟩
      · exact ⟨"beta", rfl, by decide⟩
      · exact ⟨"beta", rfl, by decide⟩)).2

/-! ## Nil safety under the API contract -/

theorem listInstancesLoop_done_all (env : Env) (P : Instance → Prop)
    (hP : ∀ (n : Nat) (start : Option String) (page : InstanceCollection),
      env.ListInstancesWithContext n start = .ok (some page) →
      ∀ inst ∈ page.Instances, P inst)
    (fuel : Nat) :
    ∀ (start : String) (startSet : Bool) (allrecs : List Instance)
      (starts : List (Option String)) (res : List Instance) (starts' : List (Option String)),
      (∀ inst ∈ allrecs, P inst) →
      listInstancesLoop env fuel start startSet allrecs starts = (.done res, starts') →
      ∀ inst ∈ res, P inst := by
  induction fuel with
  | zero =>
    intro start startSet allrecs starts res starts' _ h
    simp [listInstancesLoop] at h
  | succ n ih =>
    intro start startSet allrecs starts res starts' hall h
    simp only [listInstancesLoop] at h
    generalize (if (if start ≠ "" then true else startSet) = true then some start else none) =
      opt at h
    cases hcall : env.ListInstancesWithContext starts.length opt with
    | error failure => simp [hcall] at h
    | ok result =>
      obtain _ | instances := result
      · simp [hcall] at h
      simp only [hcall] at h
      have hall' : ∀ inst ∈ allrecs ++ instances.Instances, P inst := by
        intro inst hmem
        rcases List.mem_append.1 hmem with hmem | hmem
        · exact hall inst hmem
        · exact hP _ _ _ hcall inst hmem
      by_cases hz : env.GetNext instances.Next = ""
      · simp only [hz, if_true, Prod.mk.injEq, LoopOutcome.done.injEq] at h
        rw [← h.1]
        exact hall'
      · simp only [hz, if_false] at h
        exact ih _ _ _ _ res starts' hall' h

theorem FloatingIpsToMap_deref_eq (item : FloatingIPReference) :
    dataSourceNetworkInterfaceFloatingIpsToMap_deref item =
      .ok (dataSourceNetworkInterfaceFloatingIpsToMap item) := by
  unfold dataSourceNetworkInterfaceFloatingIpsToMap_deref
    dataSourceNetworkInterfaceFloatingIpsToMap
  cases item.Deleted <;> rfl

theorem SecurityGroupsToMap_deref_eq (item : SecurityGroupReference) :
    dataSourceNetworkInterfaceSecurityGroupsToMap_deref item =
      .ok (dataSourceNetworkInterfaceSecurityGroupsToMap item) := by
  unfold dataSourceNetworkInterfaceSecurityGroupsToMap_deref
    dataSourceNetworkInterfaceSecurityGroupsToMap
  cases item.Deleted <;> rfl

theorem SubnetToMap_deref_eq (item : SubnetReference) :
    dataSourceNetworkInterfaceSubnetToMap_deref item =
      .ok (dataSourceNetworkInterfaceSubnetToMap item) := by
  unfold dataSourceNetworkInterfaceSubnetToMap_deref dataSourceNetworkInterfaceSubnetToMap
  cases item.Deleted <;> rfl

theorem foldlM_append_ok {α β : Type} (f : α → Except Abort β) (g : α → β)
    (hfg : ∀ a, f a = .ok (g a)) (items : List α) (acc : List β) :
    items.foldlM (fun (xs : List β) a => do
        let x ← f a
        pure (xs ++ [x])) acc =
      (.ok (items.foldl (fun xs a => xs ++ [g a]) acc) : Except Abort (List β)) := by
  induction items generalizing acc with
  | nil => rfl
  | cons a rest ih =>
    rw [List.foldlM_cons, hfg a]
    exact ih _

theorem listInstancesLoop_not_panicked (env : Env)
    (hresults : ∀ (n : Nat) (start : Option String),
      env.ListInstancesWithContext n start ≠ .ok none)
    (fuel : Nat) :
    ∀ (start : String) (startSet : Bool) (allrecs : List Instance)
      (starts : List (Option String)),
      (listInstancesLoop env fuel start startSet allrecs starts).1 ≠ .panicked := by
  induction fuel with
  | zero =>
    intro start startSet allrecs starts
    simp [listInstancesLoop]
  | succ n ih =>
    intro start startSet allrecs starts
    simp only [listInstancesLoop]
    generalize (if (if start ≠ "" then true else startSet) = true then some start else none) =
      opt
    cases hcall : env.ListInstancesWithContext starts.length opt with
    | error failure => simp
    | ok result =>
      obtain _ | instances := result
      · exact absurd hcall (hresults _ _)
      simp only
      by_cases hz : env.GetNext instances.Next = ""
      · simp [hz]
      · simp only [hz, if_false]
        exact ih _ _ _ _

/-- C26 fails as stated: a list call that returns a nil result with a nil error
(a response without body) lists no instance at all, so the contract on names
and IDs holds, and the read panics on `instances.Next`. -/
theorem Read_panics_on_nil_result :
    (∀ (n : Nat) (start : Option String) (page : InstanceCollection),
      sampleEnvNilResult.ListInstancesWithContext n start = .ok (some page) →
      ∀ inst ∈ page.Instances, inst.Name ≠ none ∧ inst.ID ≠ none) ∧
    (∀ (id : String) (collection : NetworkInterfaceUnpaginatedCollection),
      sampleEnvNilResult.ListInstanceNetworkInterfacesWithContext id = .ok (some collection) →
      ∀ ni ∈ collection.NetworkInterfaces, ni.Name ≠ none ∧ ni.ID ≠ none) ∧
    (dataSourceIBMIsInstanceNetworkInterfaceRead sampleEnvNilResult 5
      (sampleData "beta" "eth0")).outcome = .panicked := by
  refine ⟨?_, ?_, rfl⟩
  · intro n start page h
    simp [sampleEnvNilResult] at h
  · intro id collection h ni hni
    simp only [sampleEnvNilResult, sampleEnv, Except.ok.injEq, Option.some.injEq] at h
    subst h
    simp at hni

/-- C26, amended: if every list call that returns no error returns a non-nil
result, every instance the list service returns has a non-nil `Name` and `ID`,
and every network interface it returns has a non-nil `Name` and `ID`, then the
read never panics on a nil dereference, whatever else is nil; and the
flattening functions, with their dereferences of `Deleted` spelled out, return
their map or list for every input, never a panic or an error. -/
theorem Read_and_flatten_nil_safe (env : Env) (fuel : Nat) (d : ResourceData)
    (hresults : ∀ (n : Nat) (start : Option String),
      env.ListInstancesWithContext n start ≠ .ok none)
    (hcollections : ∀ id : String,
      env.ListInstanceNetworkInterfacesWithContext id ≠ .ok none)
    (hinstances : ∀ (n : Nat) (start : Option String) (page : InstanceCollection),
      env.ListInstancesWithContext n start = .ok (some page) →
      ∀ inst ∈ page.Instances, inst.Name ≠ none ∧ inst.ID ≠ none)
    (hinterfaces : ∀ (id : String) (collection : NetworkInterfaceUnpaginatedCollection),
      env.ListInstanceNetworkInterfacesWithContext id = .ok (some collection) →
      ∀ ni ∈ collection.NetworkInterfaces, ni.Name ≠ none ∧ ni.ID ≠ none) :
    (dataSourceIBMIsInstanceNetworkInterfaceRead env fuel d).outcome ≠ .panicked ∧
    (∀ item : FloatingIPReference,
      dataSourceNetworkInterfaceFloatingIpsToMap_deref item =
        .ok (dataSourceNetworkInterfaceFloatingIpsToMap item)) ∧
    (∀ result : List FloatingIPReference,
      dataSourceNetworkInterfaceFlattenFloatingIps_deref result =
        .ok (dataSourceNetworkInterfaceFlattenFloatingIps result)) ∧
    (∀ item : SecurityGroupReference,
      dataSourceNetworkInterfaceSecurityGroupsToMap_deref item =
        .ok (dataSourceNetworkInterfaceSecurityGroupsToMap item)) ∧
    (∀ result : List SecurityGroupReference,
      dataSourceNetworkInterfaceFlattenSecurityGroups_deref result =
        .ok (dataSourceNetworkInterfaceFlattenSecurityGroups result)) ∧
    (∀ item : SubnetReference,
      dataSourceNetworkInterfaceSubnetToMap_deref item =
        .ok (dataSourceNetworkInterfaceSubnetToMap item)) ∧
    (∀ result : SubnetReference,
      dataSourceNetworkInterfaceFlattenSubnet_deref result =
        .ok (dataSourceNetworkInterfaceFlattenSubnet result)) := by
  refine ⟨?_, FloatingIpsToMap_deref_eq,
    fun result => foldlM_append_ok _ _ FloatingIpsToMap_deref_eq result [],
    SecurityGroupsToMap_deref_eq,
    fun result => foldlM_append_ok _ _ SecurityGroupsToMap_deref_eq result [],
    SubnetToMap_deref_eq, ?_⟩
  · unfold dataSourceIBMIsInstanceNetworkInterfaceRead
    cases env.VpcV1API with
    | some e => simp
    | none =>
      cases hloop : listInstancesLoop env fuel "" false [] [] with
      | mk out starts =>
        cases out with
        | looping => simp
        | failed failure => simp
        | panicked =>
          have hne := listInstancesLoop_not_panicked env hresults fuel "" false [] []
          rw [hloop] at hne
          exact absurd rfl hne
        | done allrecs =>
          simp only
          have hall : ∀ inst ∈ allrecs, inst.Name ≠ none ∧ inst.ID ≠ none :=
            listInstancesLoop_done_all env _ hinstances fuel "" false [] [] allrecs starts
              (by simp) hloop
          rcases scanInstances_cases env (starts.map Call.listInstances) d d.instance_name none
              allrecs with
            ⟨_, hres⟩ | ⟨pre, inst, post, hsplit, _, ⟨hname, _⟩ | ⟨_, hid, _⟩ |
              ⟨ins_id, _, _, hres⟩⟩
          · rw [hres]
            simp
          · exact absurd hname (hall inst (by rw [hsplit]; simp)).1
          · exact absurd hid (hall inst (by rw [hsplit]; simp)).2
          · rw [hres]
            cases hcall : env.ListInstanceNetworkInterfacesWithContext ins_id with
            | error failure => simp
            | ok result =>
              obtain _ | collection := result
              · exact absurd hcall (hcollections ins_id)
              simp only
              rcases scanNetworkInterfaces_cases env
                  (starts.map Call.listInstances ++ [.listInstanceNetworkInterfaces ins_id]) d
                  ins_id d.network_interface_name collection.NetworkInterfaces with
                ⟨_, hres⟩ | ⟨npre, ni, npost, hnsplit, _, ⟨hname, _⟩ | ⟨_, hres⟩⟩
              · rw [hres]
                simp
              · exact absurd hname
                  (hinterfaces ins_id collection hcall ni (by rw [hnsplit]; simp)).1
              · rw [hres, setNetworkInterface_eq_applySets]
                cases hid : ni.ID with
                | none =>
                  exact absurd hid
                    (hinterfaces ins_id collection hcall ni (by rw [hnsplit]; simp)).2
                | some niID => exact (applySets_calls env _ _ _).2
  · intro result
    simp [dataSourceNetworkInterfaceFlattenSubnet_deref, SubnetToMap_deref_eq,
      dataSourceNetworkInterfaceFlattenSubnet, bind, Except.bind, pure, Except.pure]

/-- Witness of C26 (amended): the two sample pages and an interface with only
an ID and a name; every optional field of the interface is nil. -/
theorem Read_and_flatten_nil_safe_witness :
    (dataSourceIBMIsInstanceNetworkInterfaceRead
        (sampleEnv [samplePage1, samplePage2] [sampleInterface "n-1" "eth0"]) 5
        (sampleData "beta" "eth0")).outcome ≠ .panicked :=
  (Read_and_flatten_nil_safe
    (sampleEnv [samplePage1, samplePage2] [sampleInterface "n-1" "eth0"]) 5
    (sampleData "beta" "eth0")
    (by
      intro n start h
      simp only [sampleEnv] at h
      split at h <;> simp at h)
    (by
      intro id h
      simp [sampleEnv] at h)
    (by
      intro n start page h inst hinst
      match n, h with
      | 0, h =>
        cases h
        simp [samplePage1] at hinst
        subst hinst
        exact ⟨by simp, by simp⟩
      | 1, h =>
        cases h
        simp [samplePage2] at hinst
        rcases hinst with hinst | hinst <;> subst hinst <;> exact ⟨by simp, by simp⟩
      | k + 2, h => simp [sampleEnv] at h)
    (by
      intro id collection h ni hni
      cases h
      simp only [List.mem_singleton] at hni
      subst hni
      exact ⟨by simp [sampleInterface], by simp [sampleInterface]⟩)).1

/-! ## The resource data after a read -/

theorem Read_success_data (env : Env) (fuel : Nat) (d : ResourceData)
    (h : (dataSourceIBMIsInstanceNetworkInterfaceRead env fuel d).outcome = .returned none) :
    ∃ allrecs starts pre inst post ins_id collection npre ni npost ni_id,
      listInstancesLoop env fuel "" false [] [] = (.done allrecs, starts) ∧
      allrecs = pre ++ inst :: post ∧
      inst.Name = some d.instance_name ∧ inst.ID = some ins_id ∧
      env.ListInstanceNetworkInterfacesWithContext ins_id = .ok (some collection) ∧
      collection.NetworkInterfaces = npre ++ ni :: npost ∧
      ni.Name = some d.network_interface_name ∧ ni.ID = some ni_id ∧
      (dataSourceIBMIsInstanceNetworkInterfaceRead env fuel d).d =
        { d with id := some (ins_id ++ "/" ++ ni_id),
                 attrs := storeAll d.attrs (attributeSets env ni) } := by
  unfold dataSourceIBMIsInstanceNetworkInterfaceRead at h ⊢
  cases hclient : env.VpcV1API with
  | some e => simp [hclient] at h
  | none =>
    simp only [hclient] at h ⊢
    cases hloop : listInstancesLoop env fuel "" false [] [] with
    | mk out starts =>
      cases out with
      | looping => simp [hloop] at h
      | failed failure => simp [hloop] at h
      | panicked => simp [hloop] at h
      | done allrecs =>
        simp only [hloop] at h ⊢
        rcases scanInstances_cases env (starts.map Call.listInstances) d d.instance_name none
            allrecs with
          ⟨_, hres⟩ | ⟨pre, inst, post, hsplit, _, ⟨_, hres⟩ | ⟨_, _, hres⟩ |
            ⟨ins_id, hname, hid, hres⟩⟩
        · simp [hres] at h
        · simp [hres] at h
        · simp [hres] at h
        · rw [hres] at h ⊢
          cases hcall : env.ListInstanceNetworkInterfacesWithContext ins_id with
          | error failure => simp [hcall] at h
          | ok result =>
            obtain _ | collection := result
            · simp [hcall] at h
            simp only [hcall] at h ⊢
            rcases scanNetworkInterfaces_cases env
                (starts.map Call.listInstances ++ [.listInstanceNetworkInterfaces ins_id]) d
                ins_id d.network_interface_name collection.NetworkInterfaces with
              ⟨_, hres⟩ | ⟨npre, ni, npost, hnsplit, _, ⟨_, hres⟩ | ⟨hnname, hres⟩⟩
            · simp [hres] at h
            · simp [hres] at h
            · rw [hres, setNetworkInterface_eq_applySets] at h ⊢
              cases hnid : ni.ID with
              | none => simp [hnid] at h
              | some ni_id =>
                simp only [hnid] at h ⊢
                exact ⟨allrecs, starts, pre, inst, post, ins_id, collection, npre, ni, npost,
                  ni_id, rfl, hsplit, hname, hid, hcall, hnsplit, hnname, hnid,
                  applySets_success env _ _ _ h⟩

theorem lookup_storeAll_attributeSets (env : Env) (attrs : FlatMap) (ni : NetworkInterface) :
    List.lookup "name" (storeAll attrs (attributeSets env ni)) = some (.ofString ni.Name) ∧
    List.lookup "floating_ips" (storeAll attrs (attributeSets env ni)) =
      (match ni.FloatingIps with
        | some floatingIps =>
          some (.maps (dataSourceNetworkInterfaceFlattenFloatingIps floatingIps))
        | none => List.lookup "floating_ips" attrs) ∧
    List.lookup "security_groups" (storeAll attrs (attributeSets env ni)) =
      (match ni.SecurityGroups with
        | some securityGroups =>
          some (.maps (dataSourceNetworkInterfaceFlattenSecurityGroups securityGroups))
        | none => List.lookup "security_groups" attrs) ∧
    List.lookup "subnet" (storeAll attrs (attributeSets env ni)) =
      (match ni.Subnet with
        | some subnet => some (.maps [dataSourceNetworkInterfaceSubnetToMap subnet])
        | none => List.lookup "subnet" attrs) := by
  unfold storeAll attributeSets
  cases ni.FloatingIps <;> cases ni.SecurityGroups <;> cases ni.Subnet <;>
    simp [List.foldl, lookup_mapSet, dataSourceNetworkInterfaceFlattenSubnet]

/-- C22 fails as stated: with a `d.Set` that rejects "href", the read of
"beta"/"eth0" returns the diagnostic of that `d.Set`, and the resource data,
which had no ID and no attribute, now has the ID "i-2/n-1" and the attributes
set before "href". -/
theorem Read_error_keeps_id_and_earlier_attributes :
    (dataSourceIBMIsInstanceNetworkInterfaceRead
        (sampleEnvByInstance [samplePage1, samplePage2]
          (fun _ => [sampleInterface "n-1" "eth0"]) ["href"])
        5 (sampleData "beta" "eth0")).outcome =
      .returned (some "Error setting href: invalid value") ∧
    (sampleData "beta" "eth0").id = none ∧
    (sampleData "beta" "eth0").attrs = [] ∧
    (dataSourceIBMIsInstanceNetworkInterfaceRead
        (sampleEnvByInstance [samplePage1, samplePage2]
          (fun _ => [sampleInterface "n-1" "eth0"]) ["href"])
        5 (sampleData "beta" "eth0")).d.id = some "i-2/n-1" ∧
    List.lookup "created_at"
      (dataSourceIBMIsInstanceNetworkInterfaceRead
        (sampleEnvByInstance [samplePage1, samplePage2]
          (fun _ => [sampleInterface "n-1" "eth0"]) ["href"])
        5 (sampleData "beta" "eth0")).d.attrs = some (.str "") :=
  ⟨rfl, rfl, rfl, rfl, rfl⟩

/-- C22, amended: whenever the read returns an error diagnostic, either the
resource data is unchanged (neither the ID nor any attribute has been set), or
the diagnostic is the error of a `d.Set` on an attribute of the matched
interface, and then the resource data holds the composite ID and exactly the
attributes whose `d.Set` came before the failing one and succeeded. -/
theorem Read_error_data_unchanged_or_set_failed (env : Env) (fuel : Nat) (d : ResourceData)
    (msg : String)
    (h : (dataSourceIBMIsInstanceNetworkInterfaceRead env fuel d).outcome =
      .returned (some msg)) :
    (dataSourceIBMIsInstanceNetworkInterfaceRead env fuel d).d = d ∨
    ∃ ins_id ni_id ni stored key value prefix_ rest e,
      ni.Name = some d.network_interface_name ∧ ni.ID = some ni_id ∧
      attributeSets env ni = stored ++ (key, value, prefix_) :: rest ∧
      (∀ s ∈ stored, env.setError s.1 s.2.1 = none) ∧
      env.setError key value = some e ∧ msg = prefix_ ++ e ∧
      (dataSourceIBMIsInstanceNetworkInterfaceRead env fuel d).d =
        { d with id := some (ins_id ++ "/" ++ ni_id), attrs := storeAll d.attrs stored } := by
  unfold dataSourceIBMIsInstanceNetworkInterfaceRead at h ⊢
  cases hclient : env.VpcV1API with
  | some e => exact Or.inl rfl
  | none =>
    simp only [hclient] at h ⊢
    cases hloop : listInstancesLoop env fuel "" false [] [] with
    | mk out starts =>
      cases out with
      | looping => exact Or.inl rfl
      | failed failure => exact Or.inl rfl
      | panicked => exact Or.inl rfl
      | done allrecs =>
        simp only [hloop] at h ⊢
        rcases scanInstances_cases env (starts.map Call.listInstances) d d.instance_name none
            allrecs with
          ⟨_, hres⟩ | ⟨pre, inst, post, hsplit, _, ⟨_, hres⟩ | ⟨_, _, hres⟩ |
            ⟨ins_id, hname, hid, hres⟩⟩
        · exact Or.inl (by rw [hres])
        · exact Or.inl (by rw [hres])
        · exact Or.inl (by rw [hres])
        · rw [hres] at h ⊢
          cases hcall : env.ListInstanceNetworkInterfacesWithContext ins_id with
          | error failure => exact Or.inl rfl
          | ok result =>
            obtain _ | collection := result
            · exact Or.inl rfl
            simp only [hcall] at h ⊢
            rcases scanNetworkInterfaces_cases env
                (starts.map Call.listInstances ++ [.listInstanceNetworkInterfaces ins_id]) d
                ins_id d.network_interface_name collection.NetworkInterfaces with
              ⟨_, hres⟩ | ⟨npre, ni, npost, hnsplit, _, ⟨_, hres⟩ | ⟨hnname, hres⟩⟩
            · exact Or.inl (by rw [hres])
            · exact Or.inl (by rw [hres])
            · rw [hres, setNetworkInterface_eq_applySets] at h ⊢
              cases hnid : ni.ID with
              | none => exact Or.inl rfl
              | some ni_id =>
                simp only [hnid] at h ⊢
                obtain ⟨stored, key, value, prefix_, rest, e, hsplit', hstored, hfail, hmsg, hd⟩ :=
                  applySets_error env _ _ _ msg h
                exact Or.inr ⟨ins_id, ni_id, ni, stored, key, value, prefix_, rest, e, hnname,
                  hnid, hsplit', hstored, hfail, hmsg, hd⟩

/-- Witness of C22 (amended): the read whose `d.Set` of "href" fails. -/
theorem Read_error_data_unchanged_or_set_failed_witness :
    (dataSourceIBMIsInstanceNetworkInterfaceRead
        (sampleEnvByInstance [samplePage1, samplePage2]
          (fun _ => [sampleInterface "n-1" "eth0"]) ["href"])
        5 (sampleData "beta" "eth0")).d = sampleData "beta" "eth0" ∨
    ∃ ins_id ni_id ni stored key value prefix_ rest e,
      ni.Name = some (sampleData "beta" "eth0").network_interface_name ∧ ni.ID = some ni_id ∧
      attributeSets (sampleEnvByInstance [samplePage1, samplePage2]
          (fun _ => [sampleInterface "n-1" "eth0"]) ["href"]) ni =
        stored ++ (key, value, prefix_) :: rest ∧
      (∀ s ∈ stored, (sampleEnvByInstance [samplePage1, samplePage2]
          (fun _ => [sampleInterface "n-1" "eth0"]) ["href"]).setError s.1 s.2.1 = none) ∧
      (sampleEnvByInstance [samplePage1, samplePage2]
          (fun _ => [sampleInterface "n-1" "eth0"]) ["href"]).setError key value = some e ∧
      "Error setting href: invalid value" = prefix_ ++ e ∧
      (dataSourceIBMIsInstanceNetworkInterfaceRead
        (sampleEnvByInstance [samplePage1, samplePage2]
          (fun _ => [sampleInterface "n-1" "eth0"]) ["href"])
        5 (sampleData "beta" "eth0")).d =
        { sampleData "beta" "eth0" with
          id := some (ins_id ++ "/" ++ ni_id),
          attrs := storeAll (sampleData "beta" "eth0").attrs stored } :=
  Read_error_data_unchanged_or_set_failed
    (sampleEnvByInstance [samplePage1, samplePage2]
      (fun _ => [sampleInterface "n-1" "eth0"]) ["href"])
    5 (sampleData "beta" "eth0") "Error setting href: invalid value" rfl

/-- C29: on every successful return of the read there are a listed instance
named `instance_name` and, among its interfaces, an interface named
`network_interface_name` such that: the ID is the instance ID, "/", the
interface ID; the attribute `name` is the requested `network_interface_name`;
and each of `floating_ips`, `security_groups` and `subnet` is set by the read
exactly when the field of that interface is not nil: then it holds the
flattened field (for `subnet` a list of exactly one map), otherwise it is what
it was before the read (unset on fresh resource data). -/
theorem Read_success_attributes (env : Env) (fuel : Nat) (d : ResourceData)
    (h : (dataSourceIBMIsInstanceNetworkInterfaceRead env fuel d).outcome = .returned none) :
    ∃ allrecs starts inst ins_id collection ni ni_id,
      listInstancesLoop env fuel "" false [] [] = (.done allrecs, starts) ∧
      inst ∈ allrecs ∧ inst.Name = some d.instance_name ∧ inst.ID = some ins_id ∧
      env.ListInstanceNetworkInterfacesWithContext ins_id = .ok (some collection) ∧
      ni ∈ collection.NetworkInterfaces ∧
      ni.Name = some d.network_interface_name ∧ ni.ID = some ni_id ∧
      (dataSourceIBMIsInstanceNetworkInterfaceRead env fuel d).d.id =
        some (ins_id ++ "/" ++ ni_id) ∧
      List.lookup "name" (dataSourceIBMIsInstanceNetworkInterfaceRead env fuel d).d.attrs =
        some (.str d.network_interface_name) ∧
      List.lookup "floating_ips"
          (dataSourceIBMIsInstanceNetworkInterfaceRead env fuel d).d.attrs =
        (match ni.FloatingIps with
          | some floatingIps =>
            some (.maps (dataSourceNetworkInterfaceFlattenFloatingIps floatingIps))
          | none => List.lookup "floating_ips" d.attrs) ∧
      List.lookup "security_groups"
          (dataSourceIBMIsInstanceNetworkInterfaceRead env fuel d).d.attrs =
        (match ni.SecurityGroups with
          | some securityGroups =>
            some (.maps (dataSourceNetworkInterfaceFlattenSecurityGroups securityGroups))
          | none => List.lookup "security_groups" d.attrs) ∧
      List.lookup "subnet" (dataSourceIBMIsInstanceNetworkInterfaceRead env fuel d).d.attrs =
        (match ni.Subnet with
          | some subnet => some (.maps [dataSourceNetworkInterfaceSubnetToMap subnet])
          | none => List.lookup "subnet" d.attrs) := by
  obtain ⟨allrecs, starts, pre, inst, post, ins_id, collection, npre, ni, npost, ni_id, hloop,
    hsplit, hname, hid, hcall, hnsplit, hnname, hnid, hd⟩ := Read_success_data env fuel d h
  obtain ⟨l1, l2, l3, l4⟩ := lookup_storeAll_attributeSets env d.attrs ni
  refine ⟨allrecs, starts, inst, ins_id, collection, ni, ni_id, hloop, by rw [hsplit]; simp,
    hname, hid, hcall, by rw [hnsplit]; simp, hnname, hnid, by rw [hd], ?_, ?_, ?_, ?_⟩
  · rw [hd]
    simp only [l1, hnname]
    rfl
  · rw [hd]
    exact l2
  · rw [hd]
    exact l3
  · rw [hd]
    exact l4

/-- Witness of C29: an interface "eth0" with a subnet and no floating IPs. -/
theorem Read_success_attributes_witness :
    ∃ allrecs starts inst ins_id collection ni ni_id,
      listInstancesLoop
          (sampleEnv [samplePage1, samplePage2] [sampleSubnetInterface])
          5 "" false [] [] = (.done allrecs, starts) ∧
      inst ∈ allrecs ∧ inst.Name = some (sampleData "beta" "eth0").instance_name ∧
      inst.ID = some ins_id ∧
      (sampleEnv [samplePage1, samplePage2] [sampleSubnetInterface]).ListInstanceNetworkInterfacesWithContext
          ins_id = .ok (some collection) ∧
      ni ∈ collection.NetworkInterfaces ∧
      ni.Name = some (sampleData "beta" "eth0").network_interface_name ∧ ni.ID = some ni_id ∧
      (dataSourceIBMIsInstanceNetworkInterfaceRead
          (sampleEnv [samplePage1, samplePage2] [sampleSubnetInterface])
          5 (sampleData "beta" "eth0")).d.id = some (ins_id ++ "/" ++ ni_id) ∧
      List.lookup "name"
          (dataSourceIBMIsInstanceNetworkInterfaceRead
            (sampleEnv [samplePage1, samplePage2] [sampleSubnetInterface])
            5 (sampleData "beta" "eth0")).d.attrs =
        some (.str (sampleData "beta" "eth0").network_interface_name) ∧
      List.lookup "floating_ips"
          (dataSourceIBMIsInstanceNetworkInterfaceRead
            (sampleEnv [samplePage1, samplePage2] [sampleSubnetInterface])
            5 (sampleData "beta" "eth0")).d.attrs =
        (match ni.FloatingIps with
          | some floatingIps =>
            some (.maps (dataSourceNetworkInterfaceFlattenFloatingIps floatingIps))
          | none => List.lookup "floating_ips" (sampleData "beta" "eth0").attrs) ∧
      List.lookup "security_groups"
          (dataSourceIBMIsInstanceNetworkInterfaceRead
            (sampleEnv [samplePage1, samplePage2] [sampleSubnetInterface])
            5 (sampleData "beta" "eth0")).d.attrs =
        (match ni.SecurityGroups with
          | some securityGroups =>
            some (.maps (dataSourceNetworkInterfaceFlattenSecurityGroups securityGroups))
          | none => List.lookup "security_groups" (sampleData "beta" "eth0").attrs) ∧
      List.lookup "subnet"
          (dataSourceIBMIsInstanceNetworkInterfaceRead
            (sampleEnv [samplePage1, samplePage2] [sampleSubnetInterface])
            5 (sampleData "beta" "eth0")).d.attrs =
        (match ni.Subnet with
          | some subnet => some (.maps [dataSourceNetworkInterfaceSubnetToMap subnet])
          | none => List.lookup "subnet" (sampleData "beta" "eth0").attrs) :=
  Read_success_attributes
    (sampleEnv [samplePage1, samplePage2] [sampleSubnetInterface])
    5 (sampleData "beta" "eth0") rfl

/-! ## The Schematics state data source -/

/-- C21, the code at the failing input: the service answers 200 with the body
"<html>", which is no JSON; both decoders return an error and leave `stateStore`
nil. The handler drops both errors and returns no diagnostic: the read
succeeds, with `state_store` set to "map[]" and `state_store_json` to "null". -/
theorem schematics_read_succeeds_on_invalid_json :
    (dataSourceIBMSchematicsStateRead
        (sampleSchematicsEnv (some { StatusCode := 200, RawResult := "<html>" }) none
          (none, some "invalid character '<' looking for beginning of value"))
        sampleStateData).outcome = .returned none ∧
    (dataSourceIBMSchematicsStateRead
        (sampleSchematicsEnv (some { StatusCode := 200, RawResult := "<html>" }) none
          (none, some "invalid character '<' looking for beginning of value"))
        sampleStateData).d.attrs =
      [("state_store", .str "map[]"), ("state_store_json", .str "null"),
        ("resource_controller_url", .str "https://cloud.ibm.com/schematics")] :=
  ⟨rfl, rfl⟩

/-- C23 fails as stated: a response with the 2xx status 201 is treated as a
failure, and a call that ends with an error and no response ends in a nil
dereference, not in an error diagnostic. -/
theorem schematics_status_201_is_failure :
    (dataSourceIBMSchematicsStateRead
        (sampleSchematicsEnv (some { StatusCode := 201, RawResult := "{}" }) none (some [], none))
        sampleStateData).outcome =
      .returned (some "GetWorkspaceTemplateStateWithContext failed %!s(<nil>)\n{}") ∧
    (dataSourceIBMSchematicsStateRead
        (sampleSchematicsEnv none (some "dial tcp: connection refused") (none, none))
        sampleStateData).outcome = .panicked :=
  ⟨rfl, rfl⟩

/-- C23, amended: when the service call yields a response, the read fails the
status check exactly when the status code is not 200. It then returns the
diagnostic "GetWorkspaceTemplateStateWithContext failed <err>\n<response>",
whose text contains the response, writes the same text to the log and leaves the
resource data untouched; a response with status 200 passes the check: nothing
is logged and the ID is set. -/
theorem schematics_status_check (env : SchematicsEnv) (d : StateResourceData)
    (r : DetailedResponse) (hclient : env.SchematicsV1 = none)
    (hresponse :
      (env.GetWorkspaceTemplateStateWithContext d.workspace_id d.template_id).1 = some r) :
    (r.StatusCode ≠ 200 →
      dataSourceIBMSchematicsStateRead env d =
        { outcome := .returned
            (some ("GetWorkspaceTemplateStateWithContext failed " ++ "%!s(<nil>)" ++ "\n"
              ++ env.responseString (some r))),
          d := d,
          log := ["[DEBUG] " ++ ("GetWorkspaceTemplateStateWithContext failed " ++ "%!s(<nil>)"
              ++ "\n" ++ env.responseString (some r))] } ∧
      (env.responseString (some r)).data <:+:
        ("GetWorkspaceTemplateStateWithContext failed " ++ "%!s(<nil>)" ++ "\n"
          ++ env.responseString (some r)).data) ∧
    (r.StatusCode = 200 →
      (dataSourceIBMSchematicsStateRead env d).log = [] ∧
      (dataSourceIBMSchematicsStateRead env d).d.id = some env.now) ∧
    ((dataSourceIBMSchematicsStateRead env d).log ≠ [] ↔ r.StatusCode ≠ 200) := by
  have hfail : r.StatusCode ≠ 200 →
      dataSourceIBMSchematicsStateRead env d =
        { outcome := .returned
            (some ("GetWorkspaceTemplateStateWithContext failed " ++ "%!s(<nil>)" ++ "\n"
              ++ env.responseString (some r))),
          d := d,
          log := ["[DEBUG] " ++ ("GetWorkspaceTemplateStateWithContext failed " ++ "%!s(<nil>)"
              ++ "\n" ++ env.responseString (some r))] } := by
    intro hne
    simp only [dataSourceIBMSchematicsStateRead, hclient, hresponse, hne, ne_eq,
      not_false_eq_true, if_true, formatError]
  have hpass : r.StatusCode = 200 →
      (dataSourceIBMSchematicsStateRead env d).log = [] ∧
      (dataSourceIBMSchematicsStateRead env d).d.id = some env.now := by
    intro heq
    simp only [dataSourceIBMSchematicsStateRead, hclient, hresponse, heq, ne_eq,
      not_true_eq_false, if_false]
    cases env.jsonMarshalIndent _ with
    | error e =>
      simp only [StateResourceData.Set]
      cases env.setError "state_store" _ <;> simp [dataSourceIBMSchematicsStateID]
    | ok stateStoreJSON =>
      cases env.getBaseController with
      | error e =>
        simp only [StateResourceData.Set]
        cases env.setError "state_store" _ <;> cases env.setError "state_store_json" _ <;>
          simp [dataSourceIBMSchematicsStateID]
      | ok controller =>
        simp only [StateResourceData.Set]
        cases env.setError "state_store" _ <;> cases env.setError "state_store_json" _ <;>
          cases env.setError env.ResourceControllerURL _ <;>
          simp [dataSourceIBMSchematicsStateID]
  refine ⟨fun hne => ⟨hfail hne, ?_⟩, hpass, ?_⟩
  · refine ⟨("GetWorkspaceTemplateStateWithContext failed " ++ "%!s(<nil>)" ++ "\n").data, [], ?_⟩
    simp [String.data_append]
  · constructor
    · intro hlog hcode
      exact hlog (hpass hcode).1
    · intro hne
      rw [hfail hne]
      simp

/-- Witness of C23 (amended): a response with status 404. -/
theorem schematics_status_check_witness :
    dataSourceIBMSchematicsStateRead
        (sampleSchematicsEnv (some { StatusCode := 404, RawResult := "not found" }) none
          (none, none))
        sampleStateData =
      { outcome := .returned
          (some ("GetWorkspaceTemplateStateWithContext failed " ++ "%!s(<nil>)" ++ "\n"
            ++ "not found")),
        d := sampleStateData,
        log := ["[DEBUG] " ++ ("GetWorkspaceTemplateStateWithContext failed " ++ "%!s(<nil>)"
          ++ "\n" ++ "not found")] } :=
  ((schematics_status_check
    (sampleSchematicsEnv (some { StatusCode := 404, RawResult := "not found" }) none
      (none, none))
    sampleStateData { StatusCode := 404, RawResult := "not found" } rfl rfl).1
    (by decide)).1

/-! ## The service URL of a region -/

/-- C24, the code at the failing input: for the region "us-south"
`GetServiceURLForRegion` returns the empty URL and the error "service does not
support regional URLs", not a service URL with a nil error; and it does so for
every other region. -/
theorem GetServiceURLForRegion_us_south :
    GetServiceURLForRegion "us-south" = ("", some "service does not support regional URLs") ∧
      ¬ ∃ region : String,
        (GetServiceURLForRegion region).1 ≠ "" ∧ (GetServiceURLForRegion region).2 = none :=
  ⟨rfl, by
    rintro ⟨region, _, h⟩
    simp [GetServiceURLForRegion] at h⟩

/-! ## The option setters -/

theorem assignAndReturn_sets {τ α β : Type} (assign : α → τ → τ) (field : τ → β)
    (reset : τ → β → τ) (stored : α → β)
    (hfield : ∀ v object, field (assign v object) = stored v)
    (hreset : ∀ v object, reset (assign v object) (field object) = object) :
    Setter.SetsFieldAndReturnsSelf
      { set := fun store options v => assignAndReturn store options (assign v),
        field := field, reset := reset, stored := stored } := by
  intro store options object v h
  have hlt : options < store.length := by
    rcases Nat.lt_or_ge options store.length with hlt | hge
    · exact hlt
    · rw [List.getElem?_eq_none hge] at h
      cases h
  refine ⟨store.set options (assign v object), assign v object, ?_, ?_, hfield v object,
    hreset v object, ?_⟩
  · simp only [assignAndReturn, h]
  · simp [List.getElem?_set, hlt]
  · intro other hne
    simp [List.getElem?_set, Ne.symm hne]

theorem assignAndReturn_chain {τ : Type} (store : Store τ) (options : Nat) (f g : τ → τ) :
    (do
      let returned ← assignAndReturn store options f
      assignAndReturn returned.1 returned.2 g) =
      assignAndReturn store options (g ∘ f) := by
  unfold assignAndReturn
  cases h : store[options]? with
  | none => rfl
  | some object =>
    have hlt : options < store.length := by
      rcases Nat.lt_or_ge options store.length with hlt | hge
      · exact hlt
      · rw [List.getElem?_eq_none hge] at h
        cases h
    simp [bind, Except.bind, List.getElem?_set, hlt]

theorem assignAndReturn_lastValueWins {τ α β : Type} (assign : α → τ → τ) (field : τ → β)
    (reset : τ → β → τ) (stored : α → β)
    (hlast : ∀ a b object, assign b (assign a object) = assign b object) :
    Setter.LastValueWins
      { set := fun store options v => assignAndReturn store options (assign v),
        field := field, reset := reset, stored := stored } := by
  intro store options a b
  show (do
      let returned ← assignAndReturn store options (assign a)
      assignAndReturn returned.1 returned.2 (assign b)) = _
  rw [assignAndReturn_chain]
  congr 1
  funext object
  exact hlast a b object

theorem assignAndReturn_commute {τ α β γ δ : Type} (f : α → τ → τ) (g : γ → τ → τ)
    (field1 : τ → β) (reset1 : τ → β → τ) (stored1 : α → β)
    (field2 : τ → δ) (reset2 : τ → δ → τ) (stored2 : γ → δ)
    (hcomm : ∀ a b object, g b (f a object) = f a (g b object)) :
    SettersCommute
      { set := fun store options v => assignAndReturn store options (f v),
        field := field1, reset := reset1, stored := stored1 }
      { set := fun store options v => assignAndReturn store options (g v),
        field := field2, reset := reset2, stored := stored2 } := by
  intro store options a b
  show (do
      let returned ← assignAndReturn store options (f a)
      assignAndReturn returned.1 returned.2 (g b)) =
    (do
      let returned ← assignAndReturn store options (g b)
      assignAndReturn returned.1 returned.2 (f a))
  rw [assignAndReturn_chain, assignAndReturn_chain]
  congr 1
  funext object
  exact hcomm a b object

/-- C25: every option setter `SetX(v)`, called on a pointer to an options
object, returns the very pointer it was called on, leaves `v` in field `X` of
the object and changes no other field (and no other object); a repeated `SetX`
keeps the last value, and any two setters of different fields of the same
options type commute. This holds for all 74 setters of the twelve options
types, `ListRulesOptions` and `ReplaceZoneOptions` among them. -/
theorem option_setters_return_self_and_frame :
    ((∀ s ∈ CreateRuleOptions.setters, s.SetsFieldAndReturnsSelf ∧ s.LastValueWins) ∧
      CreateRuleOptions.setters.Pairwise SettersCommute) ∧
    ((∀ s ∈ CreateZoneOptions.setters, s.SetsFieldAndReturnsSelf ∧ s.LastValueWins) ∧
      CreateZoneOptions.setters.Pairwise SettersCommute) ∧
    ((∀ s ∈ DeleteRuleOptions.setters, s.SetsFieldAndReturnsSelf ∧ s.LastValueWins) ∧
      DeleteRuleOptions.setters.Pairwise SettersCommute) ∧
    ((∀ s ∈ DeleteZoneOptions.setters, s.SetsFieldAndReturnsSelf ∧ s.LastValueWins) ∧
      DeleteZoneOptions.setters.Pairwise SettersCommute) ∧
    ((∀ s ∈ GetAccountSettingsOptions.setters, s.SetsFieldAndReturnsSelf ∧ s.LastValueWins) ∧
      GetAccountSettingsOptions.setters.Pairwise SettersCommute) ∧
    ((∀ s ∈ GetRuleOptions.setters, s.SetsFieldAndReturnsSelf ∧ s.LastValueWins) ∧
      GetRuleOptions.setters.Pairwise SettersCommute) ∧
    ((∀ s ∈ GetZoneOptions.setters, s.SetsFieldAndReturnsSelf ∧ s.LastValueWins) ∧
      GetZoneOptions.setters.Pairwise SettersCommute) ∧
    ((∀ s ∈ ListAvailableServicerefTargetsOptions.setters, s.SetsFieldAndReturnsSelf ∧ s.LastValueWins) ∧
      ListAvailableServicerefTargetsOptions.setters.Pairwise SettersCommute) ∧
    ((∀ s ∈ ListRulesOptions.setters, s.SetsFieldAndReturnsSelf ∧ s.LastValueWins) ∧
      ListRulesOptions.setters.Pairwise SettersCommute) ∧
    ((∀ s ∈ ListZonesOptions.setters, s.SetsFieldAndReturnsSelf ∧ s.LastValueWins) ∧
      ListZonesOptions.setters.Pairwise SettersCommute) ∧
    ((∀ s ∈ ReplaceRuleOptions.setters, s.SetsFieldAndReturnsSelf ∧ s.LastValueWins) ∧
      ReplaceRuleOptions.setters.Pairwise SettersCommute) ∧
    ((∀ s ∈ ReplaceZoneOptions.setters, s.SetsFieldAndReturnsSelf ∧ s.LastValueWins) ∧
      ReplaceZoneOptions.setters.Pairwise SettersCommute) := by
  refine ⟨?_, ?_, ?_, ?_, ?_, ?_, ?_, ?_, ?_, ?_, ?_, ?_⟩ <;> constructor
  all_goals
    first
    | (simp only [CreateRuleOptions.setters, CreateZoneOptions.setters, DeleteRuleOptions.setters,
         DeleteZoneOptions.setters, GetAccountSettingsOptions.setters, GetRuleOptions.setters,
         GetZoneOptions.setters, ListAvailableServicerefTargetsOptions.setters,
         ListRulesOptions.setters, ListZonesOptions.setters, ReplaceRuleOptions.setters,
         ReplaceZoneOptions.setters, List.forall_mem_cons,
         List.not_mem_nil, IsEmpty.forall_iff, implies_true, and_true]
       and_intros <;>
         first
         | exact assignAndReturn_sets _ _ _ _ (fun _ _ => rfl) (fun _ _ => rfl)
         | exact assignAndReturn_lastValueWins _ _ _ _ (fun _ _ _ => rfl))
    | (simp only [CreateRuleOptions.setters, CreateZoneOptions.setters, DeleteRuleOptions.setters,
         DeleteZoneOptions.setters, GetAccountSettingsOptions.setters, GetRuleOptions.setters,
         GetZoneOptions.setters, ListAvailableServicerefTargetsOptions.setters,
         ListRulesOptions.setters, ListZonesOptions.setters, ReplaceRuleOptions.setters,
         ReplaceZoneOptions.setters, List.pairwise_cons,
         List.mem_cons, List.mem_singleton, forall_eq_or_imp, forall_eq, List.not_mem_nil,
         IsEmpty.forall_iff, implies_true, and_true, List.Pairwise.nil]
       and_intros <;> exact assignAndReturn_commute _ _ _ _ _ _ _ _ (fun _ _ _ => rfl))

/-- Witness of C25: `SetZoneID("zone-1")` on the sample `ListRulesOptions` at
address 0 of a store returns address 0 and changes the field `ZoneID` only. -/
theorem option_setters_return_self_and_frame_witness :
    ∃ (store' : Store ListRulesOptions) (object' : ListRulesOptions),
      ListRulesOptions.SetZoneID [sampleListRulesOptions] 0 "zone-1" = .ok (store', 0) ∧
      store'[0]? = some object' ∧
      object'.ZoneID = core.StringPtr "zone-1" ∧
      { object' with ZoneID := sampleListRulesOptions.ZoneID } = sampleListRulesOptions ∧
      ∀ other, other ≠ 0 → store'[other]? = [sampleListRulesOptions][other]? :=
  (option_setters_return_self_and_frame.2.2.2.2.2.2.2.2.1.1
    { set := ListRulesOptions.SetZoneID, field := ListRulesOptions.ZoneID,
      reset := fun object value => { object with ZoneID := value },
      stored := core.StringPtr }
    (by simp [ListRulesOptions.setters])).1 [sampleListRulesOptions] 0 sampleListRulesOptions
    "zone-1" rfl

end Installer
